import Mathlib

/-!
Limb kinematics of the hexapod controller.

A shallow embedding of `src/src/model.cpp` (Leg::init, Leg::applyLocalIK, Leg::applyFK,
Leg::calculateFK, Model::Model, Model::setLegStartAngles, Model::clampToLimits,
Model::getJointPositions) and of `src/src/jacobian.cpp` (createJacobian1DOF to
createJacobian6DOF), and the properties the specification states about them.

Conventions of the embedding

* `double` is a real number (or, for the limit clamp that only compares and adds, any linearly
  ordered additive group, so that it can be evaluated on integers and rationals); the records
  take the scalar type as a parameter `α`;
* member functions that mutate the leg return the new leg next to their result;
* a failed `ASSERT` is the result `none`; a NaN (an inverse cosine outside [-1, 1], a quotient by
  zero that is fed to the inverse cosine) makes the `ASSERT` on the angle computed from it fail,
  so it is `none` as well;
* the back-pointer `leg.model` is only read for `minMaxKneeBend`, which is passed explicitly;
* the argument `vector<map<string, double>>` of a Jacobian generator is a list of partial maps
  from keys to reals; `map::at` on a key that is absent throws, here an `Except` error.
-/

namespace Hexapod

/-! ## Definitions -/

/-- Eigen `Vector3d`: the components with index 0, 1, 2 are `x`, `y`, `z`. -/
@[ext]
structure Vector3d (α : Type) where
  x : α
  y : α
  z : α

/-- Eigen `Vector2d`, used for the (min, max) limit pairs: index 0 is `e0`, index 1 is `e1`. -/
structure Vector2d (α : Type) where
  e0 : α
  e1 : α

/-- Indexing `v[l]` for a leg-position index `l` in 0..2. -/
def Vector3d.get {α : Type} (v : Vector3d α) (l : Fin 3) : α :=
  match l with
  | 0 => v.x
  | 1 => v.y
  | 2 => v.z

instance {α : Type} [Add α] : Add (Vector3d α) :=
  ⟨fun a b => ⟨a.x + b.x, a.y + b.y, a.z + b.z⟩⟩

instance {α : Type} [Sub α] : Sub (Vector3d α) :=
  ⟨fun a b => ⟨a.x - b.x, a.y - b.y, a.z - b.z⟩⟩

/-- Modelled from the spec: `sqr` of standardIncludes.h (not among the sources), the square used
in the law-of-cosines terms. -/
def sqr {α : Type} [Mul α] (a : α) : α := a * a

/-- Modelled from the spec: `clamped` of standardIncludes.h (not among the sources), "clamp
targetLength into (minLegLength+ε, maxLegLength−ε)": the value is raised to the lower bound after
being lowered to the upper one. -/
def clamped {α : Type} [LinearOrder α] (value minValue maxValue : α) : α :=
  max minValue (min value maxValue)

/-- Eigen `squaredNorm`. -/
def Vector3d.squaredNorm {α : Type} [Add α] [Mul α] (v : Vector3d α) : α :=
  v.x * v.x + v.y * v.y + v.z * v.z

/-- Eigen `norm`. -/
noncomputable def Vector3d.norm (v : Vector3d ℝ) : ℝ :=
  Real.sqrt v.squaredNorm

/-- The C library `atan2(y, x)`: the argument of the point (x, y), in (−π, π], and 0 at the
origin. -/
noncomputable def atan2 (y x : ℝ) : ℝ :=
  Complex.arg ⟨x, y⟩

/-- The C library `acos`: defined on [−1, 1]; outside it the result is NaN, here `none`. -/
noncomputable def acos (a : ℝ) : Option ℝ :=
  if -1 ≤ a ∧ a ≤ 1 then some (Real.arccos a) else none

/-- Floating-point quotient whose value is fed to `acos`: by a zero divisor it is infinite or NaN
and its inverse cosine is NaN, here `none`. -/
noncomputable def fdiv (a b : ℝ) : Option ℝ :=
  if b = 0 then none else some (a / b)

/-- Modelled from the spec: the `Quat` of quat.h (not among the sources), a rotation stored as a
quaternion w + x·i + y·j + z·k. -/
structure Quat (α : Type) where
  w : α
  x : α
  y : α
  z : α

/-- Hamilton product of two quaternions. -/
def Quat.mul (p q : Quat ℝ) : Quat ℝ :=
  { w := p.w * q.w - p.x * q.x - p.y * q.y - p.z * q.z
    x := p.w * q.x + p.x * q.w + p.y * q.z - p.z * q.y
    y := p.w * q.y - p.x * q.z + p.y * q.w + p.z * q.x
    z := p.w * q.z + p.x * q.y - p.y * q.x + p.z * q.w }

/-- Conjugate quaternion, the inverse rotation of a unit quaternion. -/
def Quat.conj (q : Quat ℝ) : Quat ℝ :=
  { w := q.w, x := -q.x, y := -q.y, z := -q.z }

/-- Modelled from the spec: the constructor `Quat(rotationVector)` of quat.h (not among the
sources). The spec reads `Quat(Vector3d(0, a, 0))` as "rotate by a about the lift axis" and
`Quat(Vector3d(0, 0, a))` as "rotate by a about the vertical axis": the unit quaternion of the
right-handed rotation by the length of the vector about its direction (the identity for the zero
vector). -/
noncomputable def Quat.ofRotationVector (r : Vector3d ℝ) : Quat ℝ :=
  { w := Real.cos (r.norm / 2)
    x := Real.sin (r.norm / 2) * (r.x / r.norm)
    y := Real.sin (r.norm / 2) * (r.y / r.norm)
    z := Real.sin (r.norm / 2) * (r.z / r.norm) }

/-- Modelled from the spec: `Quat::rotateVector` of quat.h (not among the sources), the rotation
of a vector by the quaternion, q·v·q*. -/
def Quat.rotateVector (q : Quat ℝ) (v : Vector3d ℝ) : Vector3d ℝ :=
  let r := (q.mul ⟨0, v.x, v.y, v.z⟩).mul q.conj
  ⟨r.x, r.y, r.z⟩

/-- Modelled from the spec: `Quat::inverseRotateVector` of quat.h (not among the sources), "rotate
target by −yaw": the rotation by the conjugate. -/
def Quat.inverseRotateVector (q : Quat ℝ) (v : Vector3d ℝ) : Vector3d ℝ :=
  q.conj.rotateVector v

/-- Modelled from the spec: the leg-state flag, whose enumeration belongs to the gait layer and is
declared outside the sources; model.cpp names only `WALKING`. -/
inductive LegState where
  | WALKING
  | OTHER
  deriving DecidableEq

/-- The fields of `Leg` that model.cpp reads and writes (the declaration in model.h of the
sources is of another revision and does not declare them). -/
@[ext]
structure Leg (α : Type) where
  rootOffset : Vector3d α
  hipOffset : Vector3d α
  kneeOffset : Vector3d α
  tipOffset : Vector3d α
  mirrorDir : α
  yaw : α
  liftAngle : α
  kneeAngle : α
  hipLength : α
  femurLength : α
  femurAngleOffset : α
  tibiaLength : α
  tibiaAngleOffset : α
  minLegLength : α
  maxLegLength : α
  localTipPosition : Vector3d α
  stanceTipPosition : Vector3d α
  state : LegState

/-- The fields of `Model` that model.cpp reads and writes: `legs[l][s]` and the body limits. -/
@[ext]
structure Model (α : Type) where
  legs : Fin 3 → Fin 2 → Leg α
  stanceLegYaws : Vector3d α
  yawLimitAroundStance : Vector3d α
  minMaxKneeBend : Vector2d α
  minMaxHipLift : Vector2d α
  jointMaxAngularSpeeds : Vector3d α

/-- `Leg::calculateFK` (model.cpp 79-89). -/
noncomputable def Leg.calculateFK (leg : Leg ℝ) (yaw liftAngle kneeAngle : ℝ) : Vector3d ℝ :=
  let tipPosition := leg.tipOffset
  let tipPosition :=
    (Quat.ofRotationVector ⟨0, kneeAngle, 0⟩).rotateVector tipPosition + leg.kneeOffset
  let tipPosition :=
    (Quat.ofRotationVector ⟨0, -liftAngle, 0⟩).rotateVector tipPosition + leg.hipOffset
  let tipPosition :=
    (Quat.ofRotationVector ⟨0, 0, yaw⟩).rotateVector tipPosition + leg.rootOffset
  { tipPosition with x := tipPosition.x * leg.mirrorDir }

/-- `Leg::applyFK` (model.cpp 68-74): the returned vector and the leg after the call. -/
noncomputable def Leg.applyFK (leg : Leg ℝ) (updateStance : Bool) : Vector3d ℝ × Leg ℝ :=
  let leg := { leg with localTipPosition := leg.calculateFK leg.yaw leg.liftAngle leg.kneeAngle }
  let leg := if updateStance then { leg with stanceTipPosition := leg.localTipPosition } else leg
  (leg.localTipPosition, leg)

/-- `Leg::applyLocalIK` (model.cpp 27-63): the returned joint angles and the leg after the call,
or `none` when an `ASSERT` fails. -/
noncomputable def Leg.applyLocalIK (leg : Leg ℝ) (tipTarget : Vector3d ℝ) (updateStance : Bool) :
    Option (Vector3d ℝ × Leg ℝ) :=
  let target := tipTarget
  let target := { target with x := target.x * leg.mirrorDir }
  let target := target - leg.rootOffset
  let yaw := atan2 target.y target.x
  let quat := Quat.ofRotationVector ⟨0, 0, yaw⟩
  let target := quat.inverseRotateVector target
  let target := target - leg.hipOffset
  if ¬ (|target.y| < 0.01) then none else
  let target := { target with y := 0 }
  let targetLength := target.norm
  let targetAngleOffset := atan2 target.z target.x
  let targetLength := clamped targetLength (leg.minLegLength + 1e-4) (leg.maxLegLength - 1e-4)
  (fdiv (sqr targetLength + sqr leg.femurLength - sqr leg.tibiaLength)
      (2.0 * targetLength * leg.femurLength)).bind fun liftArg =>
  (acos liftArg).bind fun lift =>
  let liftAngle := targetAngleOffset + lift
  (fdiv (-(sqr leg.femurLength + sqr leg.tibiaLength - sqr targetLength))
      (2.0 * leg.femurLength * leg.tibiaLength)).bind fun kneeArg =>
  (acos kneeArg).bind fun kneeBend =>
  let kneeAngle := leg.tibiaAngleOffset + kneeBend
  if ¬ (|yaw| < 7.0) then none else
  if ¬ (|liftAngle| < 7.0) then none else
  if ¬ (|kneeAngle| < 7.0) then none else
  let leg := { leg with yaw := yaw, liftAngle := liftAngle, kneeAngle := kneeAngle }
  let leg := (leg.applyFK updateStance).2
  some (⟨leg.yaw, leg.liftAngle, leg.kneeAngle⟩, leg)

/-- `Leg::init` (model.cpp 7-22); `minMaxKneeBend` is `model->minMaxKneeBend`. -/
noncomputable def Leg.init (leg : Leg ℝ) (minMaxKneeBend : Vector2d ℝ)
    (startYaw startLiftAngle startKneeAngle : ℝ) : Leg ℝ :=
  let leg := { leg with yaw := startYaw, liftAngle := startLiftAngle, kneeAngle := startKneeAngle }
  let leg := { leg with hipLength := leg.hipOffset.norm }
  let leg := { leg with femurLength := leg.kneeOffset.norm }
  let leg := { leg with femurAngleOffset := atan2 leg.kneeOffset.z leg.kneeOffset.x }
  let leg := { leg with tibiaLength := leg.tipOffset.norm }
  let leg := { leg with tibiaAngleOffset := atan2 leg.tipOffset.z leg.tipOffset.x }
  let leg := { leg with minLegLength := Real.sqrt (sqr leg.tibiaLength + sqr leg.femurLength -
    2.0 * leg.femurLength * leg.tibiaLength * Real.cos (max 0.0 (Real.pi - minMaxKneeBend.e1))) }
  let leg := { leg with maxLegLength := Real.sqrt (sqr leg.tibiaLength + sqr leg.femurLength -
    2.0 * leg.femurLength * leg.tibiaLength * Real.cos (Real.pi - max 0.0 minMaxKneeBend.e0)) }
  (leg.applyFK true).2

/-- The joint a clamp diagnostic of `Model::clampToLimits` is about. -/
inductive ClampedJoint where
  | yaw
  | hipLift
  | knee
  deriving DecidableEq

/-- One line written to `cout` by `Model::clampToLimits`:
"leg l side s exceeded (yaw | hip lift | knee) limit: bound". -/
structure ClampDiagnostic (α : Type) where
  leg : Fin 3
  side : Fin 2
  joint : ClampedJoint
  bound : α

/-- Assignment to `legs[l][side]`. -/
def Model.setLeg {α : Type} (m : Model α) (l : Fin 3) (side : Fin 2) (leg : Leg α) : Model α :=
  { m with legs := fun l' side' => if l' = l ∧ side' = side then leg else m.legs l' side' }

/-- The yaw clamp of `Model::clampToLimits` (model.cpp 163-172) on the leg `legs[l][side]`: the
leg and the lines written to `cout` so far, before and after. -/
def Model.clampYaw {α : Type} [LinearOrderedAddCommGroup α] (m : Model α) (l : Fin 3)
    (side : Fin 2) (st : Leg α × List (ClampDiagnostic α)) : Leg α × List (ClampDiagnostic α) :=
  if st.1.yaw - m.stanceLegYaws.get l < -m.yawLimitAroundStance.get l then
    ({ st.1 with yaw := -m.yawLimitAroundStance.get l + m.stanceLegYaws.get l },
      st.2 ++ [⟨l, side, .yaw, -m.yawLimitAroundStance.get l + m.stanceLegYaws.get l⟩])
  else if st.1.yaw - m.stanceLegYaws.get l > m.yawLimitAroundStance.get l then
    ({ st.1 with yaw := m.yawLimitAroundStance.get l + m.stanceLegYaws.get l },
      st.2 ++ [⟨l, side, .yaw, m.yawLimitAroundStance.get l + m.stanceLegYaws.get l⟩])
  else st

/-- The hip-lift clamp of `Model::clampToLimits` (model.cpp 173-182). -/
def Model.clampHipLift {α : Type} [LinearOrderedAddCommGroup α] (m : Model α) (l : Fin 3)
    (side : Fin 2) (st : Leg α × List (ClampDiagnostic α)) : Leg α × List (ClampDiagnostic α) :=
  if st.1.liftAngle < m.minMaxHipLift.e0 then
    ({ st.1 with liftAngle := m.minMaxHipLift.e0 },
      st.2 ++ [⟨l, side, .hipLift, m.minMaxHipLift.e0⟩])
  else if st.1.liftAngle > m.minMaxHipLift.e1 then
    ({ st.1 with liftAngle := m.minMaxHipLift.e1 },
      st.2 ++ [⟨l, side, .hipLift, m.minMaxHipLift.e1⟩])
  else st

/-- The knee clamp of `Model::clampToLimits` (model.cpp 183-192). -/
def Model.clampKnee {α : Type} [LinearOrderedAddCommGroup α] (m : Model α) (l : Fin 3)
    (side : Fin 2) (st : Leg α × List (ClampDiagnostic α)) : Leg α × List (ClampDiagnostic α) :=
  if st.1.kneeAngle < m.minMaxKneeBend.e0 then
    ({ st.1 with kneeAngle := m.minMaxKneeBend.e0 },
      st.2 ++ [⟨l, side, .knee, m.minMaxKneeBend.e0⟩])
  else if st.1.kneeAngle > m.minMaxKneeBend.e1 then
    ({ st.1 with kneeAngle := m.minMaxKneeBend.e1 },
      st.2 ++ [⟨l, side, .knee, m.minMaxKneeBend.e1⟩])
  else st

/-- The three clamps of the body of `Model::clampToLimits` (model.cpp 163-192), in the order of
the source: yaw, hip lift, knee. -/
def Model.clampLeg {α : Type} [LinearOrderedAddCommGroup α] (m : Model α) (l : Fin 3)
    (side : Fin 2) (st : Leg α × List (ClampDiagnostic α)) : Leg α × List (ClampDiagnostic α) :=
  m.clampKnee l side (m.clampHipLift l side (m.clampYaw l side st))

/-- The body of the two loops of `Model::clampToLimits` (model.cpp 162-192): the reference
`leg = legs[l][side]` is clamped in place. The state is the model and the lines written to `cout`
so far. -/
def Model.clampToLimitsBody {α : Type} [LinearOrderedAddCommGroup α] (l : Fin 3) (side : Fin 2)
    (st : Model α × List (ClampDiagnostic α)) : Model α × List (ClampDiagnostic α) :=
  let r := st.1.clampLeg l side (st.1.legs l side, st.2)
  (st.1.setLeg l side r.1, r.2)

/-- `Model::clampToLimits` (model.cpp 155-195): the model after the call and the lines written to
`cout`, in order. The outer loop runs over the leg-position `l`, the inner one over the side. -/
def Model.clampToLimits {α : Type} [LinearOrderedAddCommGroup α] (m : Model α) :
    Model α × List (ClampDiagnostic α) :=
  (List.finRange 3).foldl
    (fun st l => (List.finRange 2).foldl (fun st side => Model.clampToLimitsBody l side st) st)
    (m, [])

/-! ## Definitions that follow the words of the specification -/

/-- Rotation about the second axis as the specification writes it:
Ry(θ)(x,y,z) = (x·cosθ + z·sinθ, y, −x·sinθ + z·cosθ). -/
noncomputable def Ry (θ : ℝ) (v : Vector3d ℝ) : Vector3d ℝ :=
  ⟨v.x * Real.cos θ + v.z * Real.sin θ, v.y, -v.x * Real.sin θ + v.z * Real.cos θ⟩

/-- Rotation about the vertical axis as the specification writes it:
Rz(θ)(x,y,z) = (x·cosθ − y·sinθ, x·sinθ + y·cosθ, z). -/
noncomputable def Rz (θ : ℝ) (v : Vector3d ℝ) : Vector3d ℝ :=
  ⟨v.x * Real.cos θ - v.y * Real.sin θ, v.x * Real.sin θ + v.y * Real.cos θ, v.z⟩

/-- The target relative to the root after un-mirroring, as the specification writes it:
q = (mirrorDir·p.x, p.y, p.z) − rootOffset. -/
def ikRootTarget (leg : Leg ℝ) (p : Vector3d ℝ) : Vector3d ℝ :=
  ⟨leg.mirrorDir * p.x, p.y, p.z⟩ - leg.rootOffset

/-- The yaw of the specification: yaw = atan2(q.y, q.x). -/
noncomputable def ikYaw (leg : Leg ℝ) (p : Vector3d ℝ) : ℝ :=
  atan2 (ikRootTarget leg p).y (ikRootTarget leg p).x

/-- The vector of the 2-link sub-problem of the specification: v = Rz(−yaw)·q − hipOffset with
its Y set to 0. -/
noncomputable def ikSubVector (leg : Leg ℝ) (p : Vector3d ℝ) : Vector3d ℝ :=
  ⟨(Rz (-(ikYaw leg p)) (ikRootTarget leg p) - leg.hipOffset).x, 0,
    (Rz (-(ikYaw leg p)) (ikRootTarget leg p) - leg.hipOffset).z⟩

/-- The clamped length of the specification:
L = clamp(‖v‖, minLegLength + 1e-4, maxLegLength − 1e-4). -/
noncomputable def ikLength (leg : Leg ℝ) (p : Vector3d ℝ) : ℝ :=
  clamped (ikSubVector leg p).norm (leg.minLegLength + 1e-4) (leg.maxLegLength - 1e-4)

/-- The argument of the inverse cosine of the lift angle: (L² + f² − t²)/(2·L·f). -/
noncomputable def ikLiftArg (leg : Leg ℝ) (p : Vector3d ℝ) : ℝ :=
  ((ikLength leg p) ^ 2 + leg.femurLength ^ 2 - leg.tibiaLength ^ 2) /
    (2 * ikLength leg p * leg.femurLength)

/-- The argument of the inverse cosine of the knee angle: −(f² + t² − L²)/(2·f·t). -/
noncomputable def ikKneeArg (leg : Leg ℝ) (p : Vector3d ℝ) : ℝ :=
  -(leg.femurLength ^ 2 + leg.tibiaLength ^ 2 - (ikLength leg p) ^ 2) /
    (2 * leg.femurLength * leg.tibiaLength)

/-- The lift angle of the specification: atan2(v.z, v.x) + acos((L² + f² − t²)/(2·L·f)). -/
noncomputable def ikLiftAngle (leg : Leg ℝ) (p : Vector3d ℝ) : ℝ :=
  atan2 (ikSubVector leg p).z (ikSubVector leg p).x + Real.arccos (ikLiftArg leg p)

/-- The knee angle of the specification: tibiaAngleOffset + acos(−(f² + t² − L²)/(2·f·t)). -/
noncomputable def ikKneeAngle (leg : Leg ℝ) (p : Vector3d ℝ) : ℝ :=
  leg.tibiaAngleOffset + Real.arccos (ikKneeArg leg p)

/-- The minimum leg length as the specification writes it:
sqrt(femur² + tibia² − 2·femur·tibia·cos(π − max(0, kneeMax))). -/
noncomputable def specMinLegLength (femur tibia kneeMax : ℝ) : ℝ :=
  Real.sqrt (femur ^ 2 + tibia ^ 2 - 2 * femur * tibia * Real.cos (Real.pi - max 0 kneeMax))

/-- The maximum leg length as the specification writes it:
sqrt(femur² + tibia² − 2·femur·tibia·cos(π − max(0, kneeMin))). -/
noncomputable def specMaxLegLength (femur tibia kneeMin : ℝ) : ℝ :=
  Real.sqrt (femur ^ 2 + tibia ^ 2 - 2 * femur * tibia * Real.cos (Real.pi - max 0 kneeMin))

/-! ## Legs in the state `init` leaves them in -/

/-- The derived fields of the leg hold what `Leg::init` (model.cpp 12-20) assigns to them from
the offsets and from `model->minMaxKneeBend`: the state of every leg once the Model constructor
has run, whatever its joint angles and cached tip positions. -/
def Leg.Initialised (leg : Leg ℝ) (minMaxKneeBend : Vector2d ℝ) : Prop :=
  leg.hipLength = leg.hipOffset.norm ∧
  leg.femurLength = leg.kneeOffset.norm ∧
  leg.femurAngleOffset = atan2 leg.kneeOffset.z leg.kneeOffset.x ∧
  leg.tibiaLength = leg.tipOffset.norm ∧
  leg.tibiaAngleOffset = atan2 leg.tipOffset.z leg.tipOffset.x ∧
  leg.minLegLength = Real.sqrt (sqr leg.tibiaLength + sqr leg.femurLength -
    2.0 * leg.femurLength * leg.tibiaLength * Real.cos (max 0.0 (Real.pi - minMaxKneeBend.e1))) ∧
  leg.maxLegLength = Real.sqrt (sqr leg.tibiaLength + sqr leg.femurLength -
    2.0 * leg.femurLength * leg.tibiaLength * Real.cos (Real.pi - max 0.0 minMaxKneeBend.e0))

/-! ## Concrete legs and models -/

/-- A leg given by its configuration only (offsets and mirror direction), before `init`: every
other field is zero. -/
def Leg.ofOffsets (rootOffset hipOffset kneeOffset tipOffset : Vector3d ℝ) (mirrorDir : ℝ) :
    Leg ℝ :=
  { rootOffset := rootOffset, hipOffset := hipOffset, kneeOffset := kneeOffset,
    tipOffset := tipOffset, mirrorDir := mirrorDir, yaw := 0, liftAngle := 0, kneeAngle := 0,
    hipLength := 0, femurLength := 0, femurAngleOffset := 0, tibiaLength := 0,
    tibiaAngleOffset := 0, minLegLength := 0, maxLegLength := 0,
    localTipPosition := ⟨0, 0, 0⟩, stanceTipPosition := ⟨0, 0, 0⟩, state := LegState.WALKING }

/-- The configuration of the leg of the concrete scenario of the specification:
hipOffset = (0.1,0,0), kneeOffset = (0.2,0,0), tipOffset = (0.15,0,0), rootOffset = (0,0,0), with
the given mirror direction. -/
def scenarioOffsets (mirrorDir : ℝ) : Leg ℝ :=
  Leg.ofOffsets ⟨0, 0, 0⟩ ⟨0.1, 0, 0⟩ ⟨0.2, 0, 0⟩ ⟨0.15, 0, 0⟩ mirrorDir

/-- The knee-bend limits [0.1, 3.0] of the concrete scenario. -/
def scenarioKneeBend : Vector2d ℝ :=
  ⟨0.1, 3.0⟩

/-- The leg of the concrete scenario as the Model constructor leaves it, after `init(0, 0, 0)`. -/
noncomputable def scenarioLeg (mirrorDir : ℝ) : Leg ℝ :=
  (scenarioOffsets mirrorDir).init scenarioKneeBend 0 0 0

/-- The configuration of a leg with root and hip at the origin and femur and tibia of length 1
along X. -/
def unitOffsets : Leg ℝ :=
  Leg.ofOffsets ⟨0, 0, 0⟩ ⟨0, 0, 0⟩ ⟨1, 0, 0⟩ ⟨1, 0, 0⟩ 1

/-- The configuration of a leg with root and hip at the origin, a femur of length 1 and a tibia
of length 0.00001, shorter than the margin 1e-4 of the length clamp, both along X. -/
def shortTibiaOffsets : Leg ℝ :=
  Leg.ofOffsets ⟨0, 0, 0⟩ ⟨0, 0, 0⟩ ⟨1, 0, 0⟩ ⟨0.00001, 0, 0⟩ 1

/-- The leg of `shortTibiaOffsets` with the knee-bend limits [0.1, 3.0] of the scenario, after
`init(0, 0, 0)`. -/
noncomputable def shortTibiaLeg : Leg ℝ :=
  shortTibiaOffsets.init scenarioKneeBend 0 0 0

/-- The configuration of the concrete scenario with the tip offset turned out of the sagittal
plane: tipOffset = (0.09, 0.12, 0), still of length 0.15. -/
def tiltedOffsets : Leg ℝ :=
  Leg.ofOffsets ⟨0, 0, 0⟩ ⟨0.1, 0, 0⟩ ⟨0.2, 0, 0⟩ ⟨0.09, 0.12, 0⟩ 1

/-- The leg of `tiltedOffsets` with the knee-bend limits of the scenario, after `init(0, 0, 0)`. -/
noncomputable def tiltedLeg : Leg ℝ :=
  tiltedOffsets.init scenarioKneeBend 0 0 0

/-- The configuration of the concrete scenario with the hip offset moved out of the sagittal
plane: hipOffset = (0.1, 0.5, 0). -/
def lateralHipOffsets : Leg ℝ :=
  Leg.ofOffsets ⟨0, 0, 0⟩ ⟨0.1, 0.5, 0⟩ ⟨0.2, 0, 0⟩ ⟨0.15, 0, 0⟩ 1

/-- The leg of `lateralHipOffsets` with the knee-bend limits of the scenario, after
`init(0, 0, 0)`. -/
noncomputable def lateralHipLeg : Leg ℝ :=
  lateralHipOffsets.init scenarioKneeBend 0 0 0

/-- A leg over the rationals with the given joint angles and every other field zero. -/
def angleLeg (yaw liftAngle kneeAngle : ℚ) : Leg ℚ :=
  { rootOffset := ⟨0, 0, 0⟩, hipOffset := ⟨0, 0, 0⟩, kneeOffset := ⟨0, 0, 0⟩,
    tipOffset := ⟨0, 0, 0⟩, mirrorDir := 1, yaw := yaw, liftAngle := liftAngle,
    kneeAngle := kneeAngle, hipLength := 0, femurLength := 0, femurAngleOffset := 0,
    tibiaLength := 0, tibiaAngleOffset := 0, minLegLength := 0, maxLegLength := 0,
    localTipPosition := ⟨0, 0, 0⟩, stanceTipPosition := ⟨0, 0, 0⟩, state := LegState.WALKING }

/-- A model whose six legs have the angles (5, −3, 1), with stance yaw 0, yaw limit 1, hip-lift
limits [−1, 1] and knee-bend limits [0, 2]. -/
def sampleModel : Model ℚ :=
  { legs := fun _ _ => angleLeg 5 (-3) 1
    stanceLegYaws := ⟨0, 0, 0⟩
    yawLimitAroundStance := ⟨1, 1, 1⟩
    minMaxKneeBend := ⟨0, 2⟩
    minMaxHipLift := ⟨-1, 1⟩
    jointMaxAngularSpeeds := ⟨1, 1, 1⟩ }

/-- The sample model with all joint angles 0 and the yaw limit −1 instead of 1. -/
def negativeYawLimitModel : Model ℚ :=
  { sampleModel with
    legs := fun _ _ => angleLeg 0 0 0
    yawLimitAroundStance := ⟨-1, -1, -1⟩ }

/-! ## The Jacobian generator (jacobian.cpp) -/

/-- One element of the argument `dh`: a `map<string, double>`, the value stored under each key
that is present. -/
abbrev DHMap := String → Option ℝ

/-- The ways a Jacobian generator can fail: `map::at` throws on a key that is absent (the
MissingParameter of the specification), and `dh[i]` beyond the end of the vector is undefined
behaviour, kept apart as an error of its own. -/
inductive DHError where
  | missingParameter (index : Nat) (key : String)
  | indexOutOfRange (index : Nat)
  deriving DecidableEq

/-- The lookup `dh[i].at(key)`. -/
def dhAt (dh : List DHMap) (i : Nat) (key : String) : Except DHError ℝ :=
  match dh.get? i with
  | none => .error (.indexOutOfRange i)
  | some m =>
    match m key with
    | none => .error (.missingParameter i key)
    | some v => .ok v

/-- The assignments to `j(i, k)` of `createJacobian1DOF` (jacobian.cpp 26-39), as a
function of the locals they read. -/
def jacobian1DOFEntries
    (r1 sT1 cT1 : ℝ) :
    Matrix (Fin 3) (Fin 1) ℝ :=
  let j00 : ℝ := -r1 * sT1
  let j10 : ℝ := r1 * cT1
  let j20 : ℝ := 0
  !![j00;
    j10;
    j20]

/-- `createJacobian1DOF` (jacobian.cpp 26-39). -/
noncomputable def createJacobian1DOF (dh : List DHMap) :
    Except DHError (Matrix (Fin 3) (Fin 1) ℝ) := do
  let r1 ← dhAt dh 0 "r"
  let sT1 := Real.sin (← dhAt dh 0 "theta")
  let cT1 := Real.cos (← dhAt dh 0 "theta")
  pure (jacobian1DOFEntries
    r1 sT1 cT1)

/-- The assignments to `j(i, k)` of `createJacobian2DOF` (jacobian.cpp 45-67), as a
function of the locals they read. -/
def jacobian2DOFEntries
    (d2 r1 r2 sT1 sT2 cT1 cT2 sA1 cA1 : ℝ) :
    Matrix (Fin 3) (Fin 2) ℝ :=
  let j00 : ℝ :=
    -(sT1 * r2 * cT2) - (cT1 * cA1 * r2 * sT2) + (cT1 * sA1 * d2) - (r1 * sT1)
  let j01 : ℝ := -(cT1 * r2 * sT2) - (sT1 * cA1 * r2 * cT2)
  let j10 : ℝ :=
    (cT1 * r2 * cT2) - (sT1 * cA1 * r2 * sT2) + (sT1 * sA1 * d2) + (r1 * cT1)
  let j11 : ℝ := -(sT1 * r2 * sT2) + (cT1 * cA1 * r2 * cT2)
  let j20 : ℝ := 0
  let j21 : ℝ := (sA1 * r2 * cT2)
  !![j00, j01;
    j10, j11;
    j20, j21]

/-- `createJacobian2DOF` (jacobian.cpp 45-67). -/
noncomputable def createJacobian2DOF (dh : List DHMap) :
    Except DHError (Matrix (Fin 3) (Fin 2) ℝ) := do
  let d2 ← dhAt dh 1 "d"
  let r1 ← dhAt dh 0 "r"
  let r2 ← dhAt dh 1 "r"
  let sT1 := Real.sin (← dhAt dh 0 "theta")
  let sT2 := Real.sin (← dhAt dh 1 "theta")
  let cT1 := Real.cos (← dhAt dh 0 "theta")
  let cT2 := Real.cos (← dhAt dh 1 "theta")
  let sA1 := Real.sin (← dhAt dh 0 "alpha")
  let cA1 := Real.cos (← dhAt dh 0 "alpha")
  pure (jacobian2DOFEntries
    d2 r1 r2 sT1 sT2 cT1 cT2 sA1 cA1)

/-- The assignments to `j(i, k)` of `createJacobian3DOF` (jacobian.cpp 73-108), as a
function of the locals they read. -/
def jacobian3DOFEntries
    (d2 d3 r1 r2 r3 sT1 sT2 sT3 cT1 cT2 cT3 sA1 sA2 cA1 cA2 : ℝ) :
    Matrix (Fin 3) (Fin 3) ℝ :=
  let j00 : ℝ :=
    -(sT1 * cT2 * r3 * cT3) - (cT1 * cA1 * sT2 * r3 * cT3) + (sT1 * sT2 * cA2 * r3 * sT3)
      - (cT1 * cA1 * cT2 * cA2 * r3 * sT3) + (cT1 * sA1 * sA2 * r3 * sT3) - (sT1 * sT2 * sA2 * d3)
      + (cT1 * cA1 * cT2 * sA2 * d3) + (cT1 * sA1 * cA2 * d3) - (sT1 * r2 * cT2)
      - (cT1 * cA1 * r2 * sT2) + (cT1 * sA1 * d2) - (r1 * sT1)
  let j01 : ℝ :=
    -(cT1 * sT2 * r3 * cT3) - (sT1 * cA1 * cT2 * r3 * cT3) - (cT1 * cT2 * cA2 * r3 * sT3)
      + (sT1 * cA1 * sT2 * cA2 * r3 * sT3) + (cT1 * cT2 * sA2 * d3) - (sT1 * cA1 * sT2 * sA2 * d3)
      - (cT1 * r2 * sT2) - (sT1 * cA1 * r2 * cT2)
  let j02 : ℝ :=
    -(cT1 * cT2 * r3 * sT3) + (sT1 * cA1 * sT2 * r3 * sT3) - (cT1 * sT2 * cA2 * r3 * cT3)
      - (sT1 * cA1 * cT2 * cA2 * r3 * cT3) + (sT1 * sA1 * sA2 * r3 * cT3)
  let j10 : ℝ :=
    (cT1 * cT2 * r3 * cT3) - (sT1 * cA1 * sT2 * r3 * cT3) - (cT1 * sT2 * cA2 * r3 * sT3)
      - (sT1 * cA1 * cT2 * cA2 * r3 * sT3) + (sT1 * sA1 * sA2 * r3 * sT3) + (cT1 * sT2 * sA2 * d3)
      + (sT1 * cA1 * cT2 * sA2 * d3) + (sT1 * sA1 * cA2 * d3) + (cT1 * r2 * cT2)
      - (sT1 * cA1 * r2 * sT2) + (sT1 * sA1 * d2) + (r1 * cT1)
  let j11 : ℝ :=
    -(sT1 * sT2 * r3 * cT3) + (cT1 * cA1 * cT2 * r3 * cT3) - (sT1 * cT2 * cA2 * r3 * sT3)
      - (cT1 * cA1 * sT2 * cA2 * r3 * sT3) + (sT1 * cT2 * sA2 * d3) + (cT1 * cA1 * sT2 * sA2 * d3)
      - (sT1 * r2 * sT2) + (cT1 * cA1 * r2 * cT2)
  let j12 : ℝ :=
    -(sT1 * cT2 * r3 * sT3) - (cT1 * cA1 * sT2 * r3 * sT3) - (sT1 * sT2 * cA2 * r3 * cT3)
      + (cT1 * cA1 * cT2 * cA2 * r3 * cT3) - (cT1 * sA1 * sA2 * r3 * cT3)
  let j20 : ℝ := 0
  let j21 : ℝ :=
    (sA1 * cT2 * r3 * cT3) - (sA1 * sT2 * cA2 * r3 * sT3) + (sA1 * sT2 * sA2 * d3)
      + (sA1 * r2 * cT2)
  let j22 : ℝ :=
    -(sA1 * sT2 * r3 * sT3) + (sA1 * cT2 * cA2 * r3 * cT3) + (cA1 * sA2 * r3 * cT3)
  !![j00, j01, j02;
    j10, j11, j12;
    j20, j21, j22]

/-- `createJacobian3DOF` (jacobian.cpp 73-108). -/
noncomputable def createJacobian3DOF (dh : List DHMap) :
    Except DHError (Matrix (Fin 3) (Fin 3) ℝ) := do
  let d2 ← dhAt dh 1 "d"
  let d3 ← dhAt dh 2 "d"
  let r1 ← dhAt dh 0 "r"
  let r2 ← dhAt dh 1 "r"
  let r3 ← dhAt dh 2 "r"
  let sT1 := Real.sin (← dhAt dh 0 "theta")
  let sT2 := Real.sin (← dhAt dh 1 "theta")
  let sT3 := Real.sin (← dhAt dh 2 "theta")
  let cT1 := Real.cos (← dhAt dh 0 "theta")
  let cT2 := Real.cos (← dhAt dh 1 "theta")
  let cT3 := Real.cos (← dhAt dh 2 "theta")
  let sA1 := Real.sin (← dhAt dh 0 "alpha")
  let sA2 := Real.sin (← dhAt dh 1 "alpha")
  let cA1 := Real.cos (← dhAt dh 0 "alpha")
  let cA2 := Real.cos (← dhAt dh 1 "alpha")
  pure (jacobian3DOFEntries
    d2 d3 r1 r2 r3 sT1 sT2 sT3 cT1 cT2 cT3 sA1 sA2 cA1 cA2)

/-- The assignments to `j(i, k)` of `createJacobian4DOF` (jacobian.cpp 114-197), as a
function of the locals they read. -/
def jacobian4DOFEntries
    (d2 d3 d4 r1 r2 r3 r4 sT1 sT2 sT3 sT4 cT1 cT2 cT3 cT4 sA1 sA2 sA3 cA1 cA2 cA3 : ℝ) :
    Matrix (Fin 3) (Fin 4) ℝ :=
  let j00 : ℝ :=
    -(sT1 * cT2 * cT3 * r4 * cT4) - (cT1 * cA1 * sT2 * cT3 * r4 * cT4)
      + (sT1 * sT2 * cA2 * sT3 * r4 * cT4) - (cT1 * cA1 * cT2 * cA2 * sT3 * r4 * cT4)
      + (cT1 * sA1 * sA2 * sT3 * r4 * cT4) + (sT1 * cT2 * sT3 * cA3 * r4 * sT4)
      + (cT1 * cA1 * sT2 * sT3 * cA3 * r4 * sT4) + (sT1 * sT2 * cA2 * cT3 * cA3 * r4 * sT4)
      - (cT1 * cA1 * cT2 * cA2 * cT3 * cA3 * r4 * sT4) + (cT1 * sA1 * sA2 * cT3 * cA3 * r4 * sT4)
      - (sT1 * sT2 * sA2 * sA3 * r4 * sT4) + (cT1 * cA1 * cT2 * sA2 * sA3 * r4 * sT4)
      + (cT1 * sA1 * cA2 * sA3 * r4 * sT4) - (sT1 * cT2 * sT3 * sA3 * d4)
      - (cT1 * cA1 * sT2 * sT3 * sA3 * d4) - (sT1 * sT2 * cA2 * cT3 * sA3 * d4)
      + (cT1 * cA1 * cT2 * cA2 * cT3 * sA3 * d4) - (cT1 * sA1 * sA2 * cT3 * sA3 * d4)
      - (sT1 * sT2 * sA2 * cA3 * d4) + (cT1 * cA1 * cT2 * sA2 * cA3 * d4)
      + (cT1 * sA1 * cA2 * cA3 * d4) - (sT1 * cT2 * r3 * cT3) - (cT1 * cA1 * sT2 * r3 * cT3)
      + (sT1 * sT2 * cA2 * r3 * sT3) - (cT1 * cA1 * cT2 * cA2 * r3 * sT3)
      + (cT1 * sA1 * sA2 * r3 * sT3) - (sT1 * sT2 * sA2 * d3) + (cT1 * cA1 * cT2 * sA2 * d3)
      + (cT1 * sA1 * cA2 * d3) - (sT1 * r2 * cT2) - (cT1 * cA1 * r2 * sT2) + (cT1 * sA1 * d2)
      - (r1 * sT1)
  let j01 : ℝ :=
    -(cT1 * sT2 * cT3 * r4 * cT4) - (sT1 * cA1 * cT2 * cT3 * r4 * cT4)
      - (cT1 * cT2 * cA2 * sT3 * r4 * cT4) + (sT1 * cA1 * sT2 * cA2 * sT3 * r4 * cT4)
      + (cT1 * sT2 * sT3 * cA3 * r4 * sT4) + (sT1 * cA1 * cT2 * sT3 * cA3 * r4 * sT4)
      - (cT1 * cT2 * cA2 * cT3 * cA3 * r4 * sT4) + (sT1 * cA1 * sT2 * cA2 * cT3 * cA3 * r4 * sT4)
      + (cT1 * cT2 * sA2 * sA3 * r4 * sT4) - (sT1 * cA1 * sT2 * sA2 * sA3 * r4 * sT4)
      - (cT1 * sT2 * sT3 * sA3 * d4) - (sT1 * cA1 * cT2 * sT3 * sA3 * d4)
      + (cT1 * cT2 * cA2 * cT3 * sA3 * d4) - (sT1 * cA1 * sT2 * cA2 * cT3 * sA3 * d4)
      + (cT1 * cT2 * sA2 * cA3 * d4) - (sT1 * cA1 * sT2 * sA2 * cA3 * d4) - (cT1 * sT2 * r3 * cT3)
      - (sT1 * cA1 * cT2 * r3 * cT3) - (cT1 * cT2 * cA2 * r3 * sT3)
      + (sT1 * cA1 * sT2 * cA2 * r3 * sT3) + (cT1 * cT2 * sA2 * d3) - (sT1 * cA1 * sT2 * sA2 * d3)
      - (cT1 * r2 * sT2) - (sT1 * cA1 * r2 * cT2)
  let j02 : ℝ :=
    -(cT1 * cT2 * sT3 * r4 * cT4) + (sT1 * cA1 * sT2 * sT3 * r4 * cT4)
      - (cT1 * sT2 * cA2 * cT3 * r4 * cT4) - (sT1 * cA1 * cT2 * cA2 * cT3 * r4 * cT4)
      + (sT1 * sA1 * sA2 * cT3 * r4 * cT4) - (cT1 * cT2 * cT3 * cA3 * r4 * sT4)
      + (sT1 * cA1 * sT2 * cT3 * cA3 * r4 * sT4) + (cT1 * sT2 * cA2 * sT3 * cA3 * r4 * sT4)
      + (sT1 * cA1 * cT2 * cA2 * sT3 * cA3 * r4 * sT4) - (sT1 * sA1 * sA2 * sT3 * cA3 * r4 * sT4)
      + (cT1 * cT2 * cT3 * sA3 * d4) - (sT1 * cA1 * sT2 * cT3 * sA3 * d4)
      - (cT1 * sT2 * cA2 * sT3 * sA3 * d4) - (sT1 * cA1 * cT2 * cA2 * sT3 * sA3 * d4)
      + (sT1 * sA1 * sA2 * sT3 * sA3 * d4) - (cT1 * cT2 * r3 * sT3) + (sT1 * cA1 * sT2 * r3 * sT3)
      - (cT1 * sT2 * cA2 * r3 * cT3) - (sT1 * cA1 * cT2 * cA2 * r3 * cT3)
      + (sT1 * sA1 * sA2 * r3 * cT3)
  let j03 : ℝ :=
    -(cT1 * cT2 * cT3 * r4 * sT4) + (sT1 * cA1 * sT2 * cT3 * r4 * sT4)
      + (cT1 * sT2 * cA2 * sT3 * r4 * sT4) + (sT1 * cA1 * cT2 * cA2 * sT3 * r4 * sT4)
      - (sT1 * sA1 * sA2 * sT3 * r4 * sT4) - (cT1 * cT2 * sT3 * cA3 * r4 * cT4)
      + (sT1 * cA1 * sT2 * sT3 * cA3 * r4 * cT4) - (cT1 * sT2 * cA2 * cT3 * cA3 * r4 * cT4)
      - (sT1 * cA1 * cT2 * cA2 * cT3 * cA3 * r4 * cT4) + (sT1 * sA1 * sA2 * cT3 * cA3 * r4 * cT4)
      + (cT1 * sT2 * sA2 * sA3 * r4 * cT4) + (sT1 * cA1 * cT2 * sA2 * sA3 * r4 * cT4)
      + (sT1 * sA1 * cA2 * sA3 * r4 * cT4)
  let j10 : ℝ :=
    (cT1 * cT2 * cT3 * r4 * cT4) - (sT1 * cA1 * sT2 * cT3 * r4 * cT4)
      - (cT1 * sT2 * cA2 * sT3 * r4 * cT4) - (sT1 * cA1 * cT2 * cA2 * sT3 * r4 * cT4)
      + (sT1 * sA1 * sA2 * sT3 * r4 * cT4) - (cT1 * cT2 * sT3 * cA3 * r4 * sT4)
      + (sT1 * cA1 * sT2 * sT3 * cA3 * r4 * sT4) - (cT1 * sT2 * cA2 * cT3 * cA3 * r4 * sT4)
      - (sT1 * cA1 * cT2 * cA2 * cT3 * cA3 * r4 * sT4) + (sT1 * sA1 * sA2 * cT3 * cA3 * r4 * sT4)
      + (cT1 * sT2 * sA2 * sA3 * r4 * sT4) + (sT1 * cA1 * cT2 * sA2 * sA3 * r4 * sT4)
      + (sT1 * sA1 * cA2 * sA3 * r4 * sT4) + (cT1 * cT2 * sT3 * sA3 * d4)
      - (sT1 * cA1 * sT2 * sT3 * sA3 * d4) + (cT1 * sT2 * cA2 * cT3 * sA3 * d4)
      + (sT1 * cA1 * cT2 * cA2 * cT3 * sA3 * d4) - (sT1 * sA1 * sA2 * cT3 * sA3 * d4)
      + (cT1 * sT2 * sA2 * cA3 * d4) + (sT1 * cA1 * cT2 * sA2 * cA3 * d4)
      + (sT1 * sA1 * cA2 * cA3 * d4) + (cT1 * cT2 * r3 * cT3) - (sT1 * cA1 * sT2 * r3 * cT3)
      - (cT1 * sT2 * cA2 * r3 * sT3) - (sT1 * cA1 * cT2 * cA2 * r3 * sT3)
      + (sT1 * sA1 * sA2 * r3 * sT3) + (cT1 * sT2 * sA2 * d3) + (sT1 * cA1 * cT2 * sA2 * d3)
      + (sT1 * sA1 * cA2 * d3) + (cT1 * r2 * cT2) - (sT1 * cA1 * r2 * sT2) + (sT1 * sA1 * d2)
      + (r1 * cT1)
  let j11 : ℝ :=
    -(sT1 * sT2 * cT3 * r4 * cT4) + (cT1 * cA1 * cT2 * cT3 * r4 * cT4)
      - (sT1 * cT2 * cA2 * sT3 * r4 * cT4) - (cT1 * cA1 * sT2 * cA2 * sT3 * r4 * cT4)
      + (sT1 * sT2 * sT3 * cA3 * r4 * sT4) - (cT1 * cA1 * cT2 * sT3 * cA3 * r4 * sT4)
      - (sT1 * cT2 * cA2 * cT3 * cA3 * r4 * sT4) - (cT1 * cA1 * sT2 * cA2 * cT3 * cA3 * r4 * sT4)
      + (sT1 * cT2 * sA2 * sA3 * r4 * sT4) + (cT1 * cA1 * sT2 * sA2 * sA3 * r4 * sT4)
      - (sT1 * sT2 * sT3 * sA3 * d4) + (cT1 * cA1 * cT2 * sT3 * sA3 * d4)
      + (sT1 * cT2 * cA2 * cT3 * sA3 * d4) + (cT1 * cA1 * sT2 * cA2 * cT3 * sA3 * d4)
      + (sT1 * cT2 * sA2 * cA3 * d4) + (cT1 * cA1 * sT2 * sA2 * cA3 * d4) - (sT1 * sT2 * r3 * cT3)
      + (cT1 * cA1 * cT2 * r3 * cT3) - (sT1 * cT2 * cA2 * r3 * sT3)
      - (cT1 * cA1 * sT2 * cA2 * r3 * sT3) + (sT1 * cT2 * sA2 * d3) + (cT1 * cA1 * sT2 * sA2 * d3)
      - (sT1 * r2 * sT2) + (cT1 * cA1 * r2 * cT2)
  let j12 : ℝ :=
    -(sT1 * cT2 * sT3 * r4 * cT4) - (cT1 * cA1 * sT2 * sT3 * r4 * cT4)
      - (sT1 * sT2 * cA2 * cT3 * r4 * cT4) + (cT1 * cA1 * cT2 * cA2 * cT3 * r4 * cT4)
      - (cT1 * sA1 * sA2 * cT3 * r4 * cT4) - (sT1 * cT2 * cT3 * cA3 * r4 * sT4)
      - (cT1 * cA1 * sT2 * cT3 * cA3 * r4 * sT4) + (sT1 * sT2 * cA2 * sT3 * cA3 * r4 * sT4)
      - (cT1 * cA1 * cT2 * cA2 * sT3 * cA3 * r4 * sT4) + (cT1 * sA1 * sA2 * sT3 * cA3 * r4 * sT4)
      + (sT1 * cT2 * cT3 * sA3 * d4) + (cT1 * cA1 * sT2 * cT3 * sA3 * d4)
      - (sT1 * sT2 * cA2 * sT3 * sA3 * d4) + (cT1 * cA1 * cT2 * cA2 * sT3 * sA3 * d4)
      - (cT1 * sA1 * sA2 * sT3 * sA3 * d4) - (sT1 * cT2 * r3 * sT3) - (cT1 * cA1 * sT2 * r3 * sT3)
      - (sT1 * sT2 * cA2 * r3 * cT3) + (cT1 * cA1 * cT2 * cA2 * r3 * cT3)
      - (cT1 * sA1 * sA2 * r3 * cT3)
  let j13 : ℝ :=
    -(sT1 * cT2 * cT3 * r4 * sT4) - (cT1 * cA1 * sT2 * cT3 * r4 * sT4)
      + (sT1 * sT2 * cA2 * sT3 * r4 * sT4) - (cT1 * cA1 * cT2 * cA2 * sT3 * r4 * sT4)
      + (cT1 * sA1 * sA2 * sT3 * r4 * sT4) - (sT1 * cT2 * sT3 * cA3 * r4 * cT4)
      - (cT1 * cA1 * sT2 * sT3 * cA3 * r4 * cT4) - (sT1 * sT2 * cA2 * cT3 * cA3 * r4 * cT4)
      + (cT1 * cA1 * cT2 * cA2 * cT3 * cA3 * r4 * cT4) - (cT1 * sA1 * sA2 * cT3 * cA3 * r4 * cT4)
      + (sT1 * sT2 * sA2 * sA3 * r4 * cT4) - (cT1 * cA1 * cT2 * sA2 * sA3 * r4 * cT4)
      - (cT1 * sA1 * cA2 * sA3 * r4 * cT4)
  let j20 : ℝ := 0
  let j21 : ℝ :=
    (sA1 * cT2 * cT3 * r4 * cT4) - (sA1 * sT2 * cA2 * sT3 * r4 * cT4)
      - (sA1 * cT2 * sT3 * cA3 * r4 * sT4) - (sA1 * sT2 * cA2 * cT3 * cA3 * r4 * sT4)
      + (sA1 * sT2 * sA2 * sA3 * r4 * sT4) + (sA1 * cT2 * sT3 * sA3 * d4)
      + (sA1 * sT2 * cA2 * cT3 * sA3 * d4) + (sA1 * sT2 * sA2 * cA3 * d4) + (sA1 * cT2 * r3 * cT3)
      - (sA1 * sT2 * cA2 * r3 * sT3) + (sA1 * sT2 * sA2 * d3) + (sA1 * r2 * cT2)
  let j22 : ℝ :=
    -(sA1 * sT2 * sT3 * r4 * cT4) + (sA1 * cT2 * cA2 * cT3 * r4 * cT4)
      + (cA1 * sA2 * cT3 * r4 * cT4) - (sA1 * sT2 * cT3 * cA3 * r4 * sT4)
      - (sA1 * cT2 * cA2 * sT3 * cA3 * r4 * sT4) - (cA1 * sA2 * sT3 * cA3 * r4 * sT4)
      + (sA1 * sT2 * cT3 * sA3 * d4) + (sA1 * cT2 * cA2 * sT3 * sA3 * d4)
      + (cA1 * sA2 * sT3 * sA3 * d4) - (sA1 * sT2 * r3 * sT3) + (sA1 * cT2 * cA2 * r3 * cT3)
      + (cA1 * sA2 * r3 * cT3)
  let j23 : ℝ :=
    -(sA1 * sT2 * cT3 * r4 * sT4) - (sA1 * cT2 * cA2 * sT3 * r4 * sT4)
      - (cA1 * sA2 * sT3 * r4 * sT4) - (sA1 * sT2 * sT3 * cA3 * r4 * cT4)
      + (sA1 * cT2 * cA2 * cT3 * cA3 * r4 * cT4) + (cA1 * sA2 * cT3 * cA3 * r4 * cT4)
      - (sA1 * cT2 * sA2 * sA3 * r4 * cT4) + (cA1 * cA2 * sA3 * r4 * cT4)
  !![j00, j01, j02, j03;
    j10, j11, j12, j13;
    j20, j21, j22, j23]

/-- `createJacobian4DOF` (jacobian.cpp 114-197). -/
noncomputable def createJacobian4DOF (dh : List DHMap) :
    Except DHError (Matrix (Fin 3) (Fin 4) ℝ) := do
  let d2 ← dhAt dh 1 "d"
  let d3 ← dhAt dh 2 "d"
  let d4 ← dhAt dh 3 "d"
  let r1 ← dhAt dh 0 "r"
  let r2 ← dhAt dh 1 "r"
  let r3 ← dhAt dh 2 "r"
  let r4 ← dhAt dh 3 "r"
  let sT1 := Real.sin (← dhAt dh 0 "theta")
  let sT2 := Real.sin (← dhAt dh 1 "theta")
  let sT3 := Real.sin (← dhAt dh 2 "theta")
  let sT4 := Real.sin (← dhAt dh 3 "theta")
  let cT1 := Real.cos (← dhAt dh 0 "theta")
  let cT2 := Real.cos (← dhAt dh 1 "theta")
  let cT3 := Real.cos (← dhAt dh 2 "theta")
  let cT4 := Real.cos (← dhAt dh 3 "theta")
  let sA1 := Real.sin (← dhAt dh 0 "alpha")
  let sA2 := Real.sin (← dhAt dh 1 "alpha")
  let sA3 := Real.sin (← dhAt dh 2 "alpha")
  let cA1 := Real.cos (← dhAt dh 0 "alpha")
  let cA2 := Real.cos (← dhAt dh 1 "alpha")
  let cA3 := Real.cos (← dhAt dh 2 "alpha")
  pure (jacobian4DOFEntries
    d2 d3 d4 r1 r2 r3 r4 sT1 sT2 sT3 sT4 cT1 cT2 cT3 cT4 sA1 sA2 sA3 cA1 cA2 cA3)

/-- The assignments to `j(i, k)` of `createJacobian5DOF` (jacobian.cpp 203-466), as a
function of the locals they read. -/
def jacobian5DOFEntries
    (d2 d3 d4 d5 r1 r2 r3 r4 r5 sT1 sT2 sT3 sT4 sT5 cT1 cT2 cT3 cT4 cT5 sA1 sA2 sA3 sA4 cA1 cA2
      cA3 cA4 : ℝ) :
    Matrix (Fin 3) (Fin 5) ℝ :=
  let j00 : ℝ :=
    -(sT1 * cT2 * cT3 * cT4 * r5 * cT5) - (cT1 * cA1 * sT2 * cT3 * cT4 * r5 * cT5)
      + (sT1 * sT2 * cA2 * sT3 * cT4 * r5 * cT5) - (cT1 * cA1 * cT2 * cA2 * sT3 * cT4 * r5 * cT5)
      + (cT1 * sA1 * sA2 * sT3 * cT4 * r5 * cT5) + (sT1 * cT2 * sT3 * cA3 * sT4 * r5 * cT5)
      + (cT1 * cA1 * sT2 * sT3 * cA3 * sT4 * r5 * cT5)
      + (sT1 * sT2 * cA2 * cT3 * cA3 * sT4 * r5 * cT5)
      - (cT1 * cA1 * cT2 * cA2 * cT3 * cA3 * sT4 * r5 * cT5)
      + (cT1 * sA1 * sA2 * cT3 * cA3 * sT4 * r5 * cT5) - (sT1 * sT2 * sA2 * sA3 * sT4 * r5 * cT5)
      + (cT1 * cA1 * cT2 * sA2 * sA3 * sT4 * r5 * cT5) + (cT1 * sA1 * cA2 * sA3 * sT4 * r5 * cT5)
      + (sT1 * cT2 * cT3 * sT4 * cA4 * r5 * sT5) + (cT1 * cA1 * sT2 * cT3 * sT4 * cA4 * r5 * sT5)
      - (sT1 * sT2 * cA2 * sT3 * sT4 * cA4 * r5 * sT5)
      + (cT1 * cA1 * cT2 * cA2 * sT3 * sT4 * cA4 * r5 * sT5)
      - (cT1 * sA1 * sA2 * sT3 * sT4 * cA4 * r5 * sT5)
      + (sT1 * cT2 * sT3 * cA3 * cT4 * cA4 * r5 * sT5)
      + (cT1 * cA1 * sT2 * sT3 * cA3 * cT4 * cA4 * r5 * sT5)
      + (sT1 * sT2 * cA2 * cT3 * cA3 * cT4 * cA4 * r5 * sT5)
      - (cT1 * cA1 * cT2 * cA2 * cT3 * cA3 * cT4 * cA4 * r5 * sT5)
      + (cT1 * sA1 * sA2 * cT3 * cA3 * cT4 * cA4 * r5 * sT5)
      - (sT1 * sT2 * sA2 * sA3 * cT4 * cA4 * r5 * sT5)
      + (cT1 * cA1 * cT2 * sA2 * sA3 * cT4 * cA4 * r5 * sT5)
      + (cT1 * sA1 * cA2 * sA3 * cT4 * cA4 * r5 * sT5) - (sT1 * cT2 * sT3 * sA3 * sA4 * r5 * sT5)
      - (cT1 * cA1 * sT2 * sT3 * sA3 * sA4 * r5 * sT5)
      - (sT1 * sT2 * cA2 * cT3 * sA3 * sA4 * r5 * sT5)
      + (cT1 * cA1 * cT2 * cA2 * cT3 * sA3 * sA4 * r5 * sT5)
      - (cT1 * sA1 * sA2 * cT3 * sA3 * sA4 * r5 * sT5) - (sT1 * sT2 * sA2 * cA3 * sA4 * r5 * sT5)
      + (cT1 * cA1 * cT2 * sA2 * cA3 * sA4 * r5 * sT5) + (cT1 * sA1 * cA2 * cA3 * sA4 * r5 * sT5)
      - (sT1 * cT2 * cT3 * sT4 * sA4 * d5) - (cT1 * cA1 * sT2 * cT3 * sT4 * sA4 * d5)
      + (sT1 * sT2 * cA2 * sT3 * sT4 * sA4 * d5) - (cT1 * cA1 * cT2 * cA2 * sT3 * sT4 * sA4 * d5)
      + (cT1 * sA1 * sA2 * sT3 * sT4 * sA4 * d5) - (sT1 * cT2 * sT3 * cA3 * cT4 * sA4 * d5)
      - (cT1 * cA1 * sT2 * sT3 * cA3 * cT4 * sA4 * d5)
      - (sT1 * sT2 * cA2 * cT3 * cA3 * cT4 * sA4 * d5)
      + (cT1 * cA1 * cT2 * cA2 * cT3 * cA3 * cT4 * sA4 * d5)
      - (cT1 * sA1 * sA2 * cT3 * cA3 * cT4 * sA4 * d5) + (sT1 * sT2 * sA2 * sA3 * cT4 * sA4 * d5)
      - (cT1 * cA1 * cT2 * sA2 * sA3 * cT4 * sA4 * d5) - (cT1 * sA1 * cA2 * sA3 * cT4 * sA4 * d5)
      - (sT1 * cT2 * sT3 * sA3 * cA4 * d5) - (cT1 * cA1 * sT2 * sT3 * sA3 * cA4 * d5)
      - (sT1 * sT2 * cA2 * cT3 * sA3 * cA4 * d5) + (cT1 * cA1 * cT2 * cA2 * cT3 * sA3 * cA4 * d5)
      - (cT1 * sA1 * sA2 * cT3 * sA3 * cA4 * d5) - (sT1 * sT2 * sA2 * cA3 * cA4 * d5)
      + (cT1 * cA1 * cT2 * sA2 * cA3 * cA4 * d5) + (cT1 * sA1 * cA2 * cA3 * cA4 * d5)
      - (sT1 * cT2 * cT3 * r4 * cT4) - (cT1 * cA1 * sT2 * cT3 * r4 * cT4)
      + (sT1 * sT2 * cA2 * sT3 * r4 * cT4) - (cT1 * cA1 * cT2 * cA2 * sT3 * r4 * cT4)
      + (cT1 * sA1 * sA2 * sT3 * r4 * cT4) + (sT1 * cT2 * sT3 * cA3 * r4 * sT4)
      + (cT1 * cA1 * sT2 * sT3 * cA3 * r4 * sT4) + (sT1 * sT2 * cA2 * cT3 * cA3 * r4 * sT4)
      - (cT1 * cA1 * cT2 * cA2 * cT3 * cA3 * r4 * sT4) + (cT1 * sA1 * sA2 * cT3 * cA3 * r4 * sT4)
      - (sT1 * sT2 * sA2 * sA3 * r4 * sT4) + (cT1 * cA1 * cT2 * sA2 * sA3 * r4 * sT4)
      + (cT1 * sA1 * cA2 * sA3 * r4 * sT4) - (sT1 * cT2 * sT3 * sA3 * d4)
      - (cT1 * cA1 * sT2 * sT3 * sA3 * d4) - (sT1 * sT2 * cA2 * cT3 * sA3 * d4)
      + (cT1 * cA1 * cT2 * cA2 * cT3 * sA3 * d4) - (cT1 * sA1 * sA2 * cT3 * sA3 * d4)
      - (sT1 * sT2 * sA2 * cA3 * d4) + (cT1 * cA1 * cT2 * sA2 * cA3 * d4)
      + (cT1 * sA1 * cA2 * cA3 * d4) - (sT1 * cT2 * r3 * cT3) - (cT1 * cA1 * sT2 * r3 * cT3)
      + (sT1 * sT2 * cA2 * r3 * sT3) - (cT1 * cA1 * cT2 * cA2 * r3 * sT3)
      + (cT1 * sA1 * sA2 * r3 * sT3) - (sT1 * sT2 * sA2 * d3) + (cT1 * cA1 * cT2 * sA2 * d3)
      + (cT1 * sA1 * cA2 * d3) - (sT1 * r2 * cT2) - (cT1 * cA1 * r2 * sT2) + (cT1 * sA1 * d2)
      - (r1 * sT1)
  let j01 : ℝ :=
    -(cT1 * sT2 * cT3 * cT4 * r5 * cT5) - (sT1 * cA1 * cT2 * cT3 * cT4 * r5 * cT5)
      - (cT1 * cT2 * cA2 * sT3 * cT4 * r5 * cT5) + (sT1 * cA1 * sT2 * cA2 * sT3 * cT4 * r5 * cT5)
      + (cT1 * sT2 * sT3 * cA3 * sT4 * r5 * cT5) + (sT1 * cA1 * cT2 * sT3 * cA3 * sT4 * r5 * cT5)
      - (cT1 * cT2 * cA2 * cT3 * cA3 * sT4 * r5 * cT5)
      + (sT1 * cA1 * sT2 * cA2 * cT3 * cA3 * sT4 * r5 * cT5)
      + (cT1 * cT2 * sA2 * sA3 * sT4 * r5 * cT5) - (sT1 * cA1 * sT2 * sA2 * sA3 * sT4 * r5 * cT5)
      + (cT1 * sT2 * cT3 * sT4 * cA4 * r5 * sT5) + (sT1 * cA1 * cT2 * cT3 * sT4 * cA4 * r5 * sT5)
      + (cT1 * cT2 * cA2 * sT3 * sT4 * cA4 * r5 * sT5)
      - (sT1 * cA1 * sT2 * cA2 * sT3 * sT4 * cA4 * r5 * sT5)
      + (cT1 * sT2 * sT3 * cA3 * cT4 * cA4 * r5 * sT5)
      + (sT1 * cA1 * cT2 * sT3 * cA3 * cT4 * cA4 * r5 * sT5)
      - (cT1 * cT2 * cA2 * cT3 * cA3 * cT4 * cA4 * r5 * sT5)
      + (sT1 * cA1 * sT2 * cA2 * cT3 * cA3 * cT4 * cA4 * r5 * sT5)
      + (cT1 * cT2 * sA2 * sA3 * cT4 * cA4 * r5 * sT5)
      - (sT1 * cA1 * sT2 * sA2 * sA3 * cT4 * cA4 * r5 * sT5)
      - (cT1 * sT2 * sT3 * sA3 * sA4 * r5 * sT5) - (sT1 * cA1 * cT2 * sT3 * sA3 * sA4 * r5 * sT5)
      + (cT1 * cT2 * cA2 * cT3 * sA3 * sA4 * r5 * sT5)
      - (sT1 * cA1 * sT2 * cA2 * cT3 * sA3 * sA4 * r5 * sT5)
      + (cT1 * cT2 * sA2 * cA3 * sA4 * r5 * sT5) - (sT1 * cA1 * sT2 * sA2 * cA3 * sA4 * r5 * sT5)
      - (cT1 * sT2 * cT3 * sT4 * sA4 * d5) - (sT1 * cA1 * cT2 * cT3 * sT4 * sA4 * d5)
      - (cT1 * cT2 * cA2 * sT3 * sT4 * sA4 * d5) + (sT1 * cA1 * sT2 * cA2 * sT3 * sT4 * sA4 * d5)
      - (cT1 * sT2 * sT3 * cA3 * cT4 * sA4 * d5) - (sT1 * cA1 * cT2 * sT3 * cA3 * cT4 * sA4 * d5)
      + (cT1 * cT2 * cA2 * cT3 * cA3 * cT4 * sA4 * d5)
      - (sT1 * cA1 * sT2 * cA2 * cT3 * cA3 * cT4 * sA4 * d5)
      - (cT1 * cT2 * sA2 * sA3 * cT4 * sA4 * d5) + (sT1 * cA1 * sT2 * sA2 * sA3 * cT4 * sA4 * d5)
      - (cT1 * sT2 * sT3 * sA3 * cA4 * d5) - (sT1 * cA1 * cT2 * sT3 * sA3 * cA4 * d5)
      + (cT1 * cT2 * cA2 * cT3 * sA3 * cA4 * d5) - (sT1 * cA1 * sT2 * cA2 * cT3 * sA3 * cA4 * d5)
      + (cT1 * cT2 * sA2 * cA3 * cA4 * d5) - (sT1 * cA1 * sT2 * sA2 * cA3 * cA4 * d5)
      - (cT1 * sT2 * cT3 * r4 * cT4) - (sT1 * cA1 * cT2 * cT3 * r4 * cT4)
      - (cT1 * cT2 * cA2 * sT3 * r4 * cT4) + (sT1 * cA1 * sT2 * cA2 * sT3 * r4 * cT4)
      + (cT1 * sT2 * sT3 * cA3 * r4 * sT4) + (sT1 * cA1 * cT2 * sT3 * cA3 * r4 * sT4)
      - (cT1 * cT2 * cA2 * cT3 * cA3 * r4 * sT4) + (sT1 * cA1 * sT2 * cA2 * cT3 * cA3 * r4 * sT4)
      + (cT1 * cT2 * sA2 * sA3 * r4 * sT4) - (sT1 * cA1 * sT2 * sA2 * sA3 * r4 * sT4)
      - (cT1 * sT2 * sT3 * sA3 * d4) - (sT1 * cA1 * cT2 * sT3 * sA3 * d4)
      + (cT1 * cT2 * cA2 * cT3 * sA3 * d4) - (sT1 * cA1 * sT2 * cA2 * cT3 * sA3 * d4)
      + (cT1 * cT2 * sA2 * cA3 * d4) - (sT1 * cA1 * sT2 * sA2 * cA3 * d4) - (cT1 * sT2 * r3 * cT3)
      - (sT1 * cA1 * cT2 * r3 * cT3) - (cT1 * cT2 * cA2 * r3 * sT3)
      + (sT1 * cA1 * sT2 * cA2 * r3 * sT3) + (cT1 * cT2 * sA2 * d3) - (sT1 * cA1 * sT2 * sA2 * d3)
      - (cT1 * r2 * sT2) - (sT1 * cA1 * r2 * cT2)
  let j02 : ℝ :=
    -(cT1 * cT2 * sT3 * cT4 * r5 * cT5) + (sT1 * cA1 * sT2 * sT3 * cT4 * r5 * cT5)
      - (cT1 * sT2 * cA2 * cT3 * cT4 * r5 * cT5) - (sT1 * cA1 * cT2 * cA2 * cT3 * cT4 * r5 * cT5)
      + (sT1 * sA1 * sA2 * cT3 * cT4 * r5 * cT5) - (cT1 * cT2 * cT3 * cA3 * sT4 * r5 * cT5)
      + (sT1 * cA1 * sT2 * cT3 * cA3 * sT4 * r5 * cT5)
      + (cT1 * sT2 * cA2 * sT3 * cA3 * sT4 * r5 * cT5)
      + (sT1 * cA1 * cT2 * cA2 * sT3 * cA3 * sT4 * r5 * cT5)
      - (sT1 * sA1 * sA2 * sT3 * cA3 * sT4 * r5 * cT5) + (cT1 * cT2 * sT3 * sT4 * cA4 * r5 * sT5)
      - (sT1 * cA1 * sT2 * sT3 * sT4 * cA4 * r5 * sT5)
      + (cT1 * sT2 * cA2 * cT3 * sT4 * cA4 * r5 * sT5)
      + (sT1 * cA1 * cT2 * cA2 * cT3 * sT4 * cA4 * r5 * sT5)
      - (sT1 * sA1 * sA2 * cT3 * sT4 * cA4 * r5 * sT5)
      - (cT1 * cT2 * cT3 * cA3 * cT4 * cA4 * r5 * sT5)
      + (sT1 * cA1 * sT2 * cT3 * cA3 * cT4 * cA4 * r5 * sT5)
      + (cT1 * sT2 * cA2 * sT3 * cA3 * cT4 * cA4 * r5 * sT5)
      + (sT1 * cA1 * cT2 * cA2 * sT3 * cA3 * cT4 * cA4 * r5 * sT5)
      - (sT1 * sA1 * sA2 * sT3 * cA3 * cT4 * cA4 * r5 * sT5)
      + (cT1 * cT2 * cT3 * sA3 * sA4 * r5 * sT5) - (sT1 * cA1 * sT2 * cT3 * sA3 * sA4 * r5 * sT5)
      - (cT1 * sT2 * cA2 * sT3 * sA3 * sA4 * r5 * sT5)
      - (sT1 * cA1 * cT2 * cA2 * sT3 * sA3 * sA4 * r5 * sT5)
      + (sT1 * sA1 * sA2 * sT3 * sA3 * sA4 * r5 * sT5) - (cT1 * cT2 * sT3 * sT4 * sA4 * d5)
      + (sT1 * cA1 * sT2 * sT3 * sT4 * sA4 * d5) - (cT1 * sT2 * cA2 * cT3 * sT4 * sA4 * d5)
      - (sT1 * cA1 * cT2 * cA2 * cT3 * sT4 * sA4 * d5) + (sT1 * sA1 * sA2 * cT3 * sT4 * sA4 * d5)
      + (cT1 * cT2 * cT3 * cA3 * cT4 * sA4 * d5) - (sT1 * cA1 * sT2 * cT3 * cA3 * cT4 * sA4 * d5)
      - (cT1 * sT2 * cA2 * sT3 * cA3 * cT4 * sA4 * d5)
      - (sT1 * cA1 * cT2 * cA2 * sT3 * cA3 * cT4 * sA4 * d5)
      + (sT1 * sA1 * sA2 * sT3 * cA3 * cT4 * sA4 * d5) + (cT1 * cT2 * cT3 * sA3 * cA4 * d5)
      - (sT1 * cA1 * sT2 * cT3 * sA3 * cA4 * d5) - (cT1 * sT2 * cA2 * sT3 * sA3 * cA4 * d5)
      - (sT1 * cA1 * cT2 * cA2 * sT3 * sA3 * cA4 * d5) + (sT1 * sA1 * sA2 * sT3 * sA3 * cA4 * d5)
      - (cT1 * cT2 * sT3 * r4 * cT4) + (sT1 * cA1 * sT2 * sT3 * r4 * cT4)
      - (cT1 * sT2 * cA2 * cT3 * r4 * cT4) - (sT1 * cA1 * cT2 * cA2 * cT3 * r4 * cT4)
      + (sT1 * sA1 * sA2 * cT3 * r4 * cT4) - (cT1 * cT2 * cT3 * cA3 * r4 * sT4)
      + (sT1 * cA1 * sT2 * cT3 * cA3 * r4 * sT4) + (cT1 * sT2 * cA2 * sT3 * cA3 * r4 * sT4)
      + (sT1 * cA1 * cT2 * cA2 * sT3 * cA3 * r4 * sT4) - (sT1 * sA1 * sA2 * sT3 * cA3 * r4 * sT4)
      + (cT1 * cT2 * cT3 * sA3 * d4) - (sT1 * cA1 * sT2 * cT3 * sA3 * d4)
      - (cT1 * sT2 * cA2 * sT3 * sA3 * d4) - (sT1 * cA1 * cT2 * cA2 * sT3 * sA3 * d4)
      + (sT1 * sA1 * sA2 * sT3 * sA3 * d4) - (cT1 * cT2 * r3 * sT3) + (sT1 * cA1 * sT2 * r3 * sT3)
      - (cT1 * sT2 * cA2 * r3 * cT3) - (sT1 * cA1 * cT2 * cA2 * r3 * cT3)
      + (sT1 * sA1 * sA2 * r3 * cT3)
  let j03 : ℝ :=
    -(cT1 * cT2 * cT3 * sT4 * r5 * cT5) + (sT1 * cA1 * sT2 * cT3 * sT4 * r5 * cT5)
      + (cT1 * sT2 * cA2 * sT3 * sT4 * r5 * cT5) + (sT1 * cA1 * cT2 * cA2 * sT3 * sT4 * r5 * cT5)
      - (sT1 * sA1 * sA2 * sT3 * sT4 * r5 * cT5) - (cT1 * cT2 * sT3 * cA3 * cT4 * r5 * cT5)
      + (sT1 * cA1 * sT2 * sT3 * cA3 * cT4 * r5 * cT5)
      - (cT1 * sT2 * cA2 * cT3 * cA3 * cT4 * r5 * cT5)
      - (sT1 * cA1 * cT2 * cA2 * cT3 * cA3 * cT4 * r5 * cT5)
      + (sT1 * sA1 * sA2 * cT3 * cA3 * cT4 * r5 * cT5) + (cT1 * sT2 * sA2 * sA3 * cT4 * r5 * cT5)
      + (sT1 * cA1 * cT2 * sA2 * sA3 * cT4 * r5 * cT5) + (sT1 * sA1 * cA2 * sA3 * cT4 * r5 * cT5)
      - (cT1 * cT2 * cT3 * cT4 * cA4 * r5 * sT5) + (sT1 * cA1 * sT2 * cT3 * cT4 * cA4 * r5 * sT5)
      + (cT1 * sT2 * cA2 * sT3 * cT4 * cA4 * r5 * sT5)
      + (sT1 * cA1 * cT2 * cA2 * sT3 * cT4 * cA4 * r5 * sT5)
      - (sT1 * sA1 * sA2 * sT3 * cT4 * cA4 * r5 * sT5)
      + (cT1 * cT2 * sT3 * cA3 * sT4 * cA4 * r5 * sT5)
      - (sT1 * cA1 * sT2 * sT3 * cA3 * sT4 * cA4 * r5 * sT5)
      + (cT1 * sT2 * cA2 * cT3 * cA3 * sT4 * cA4 * r5 * sT5)
      + (sT1 * cA1 * cT2 * cA2 * cT3 * cA3 * sT4 * cA4 * r5 * sT5)
      - (sT1 * sA1 * sA2 * cT3 * cA3 * sT4 * cA4 * r5 * sT5)
      - (cT1 * sT2 * sA2 * sA3 * sT4 * cA4 * r5 * sT5)
      - (sT1 * cA1 * cT2 * sA2 * sA3 * sT4 * cA4 * r5 * sT5)
      - (sT1 * sA1 * cA2 * sA3 * sT4 * cA4 * r5 * sT5) + (cT1 * cT2 * cT3 * cT4 * sA4 * d5)
      - (sT1 * cA1 * sT2 * cT3 * cT4 * sA4 * d5) - (cT1 * sT2 * cA2 * sT3 * cT4 * sA4 * d5)
      - (sT1 * cA1 * cT2 * cA2 * sT3 * cT4 * sA4 * d5) + (sT1 * sA1 * sA2 * sT3 * cT4 * sA4 * d5)
      - (cT1 * cT2 * sT3 * cA3 * sT4 * sA4 * d5) + (sT1 * cA1 * sT2 * sT3 * cA3 * sT4 * sA4 * d5)
      - (cT1 * sT2 * cA2 * cT3 * cA3 * sT4 * sA4 * d5)
      - (sT1 * cA1 * cT2 * cA2 * cT3 * cA3 * sT4 * sA4 * d5)
      + (sT1 * sA1 * sA2 * cT3 * cA3 * sT4 * sA4 * d5) + (cT1 * sT2 * sA2 * sA3 * sT4 * sA4 * d5)
      + (sT1 * cA1 * cT2 * sA2 * sA3 * sT4 * sA4 * d5) + (sT1 * sA1 * cA2 * sA3 * sT4 * sA4 * d5)
      - (cT1 * cT2 * cT3 * r4 * sT4) + (sT1 * cA1 * sT2 * cT3 * r4 * sT4)
      + (cT1 * sT2 * cA2 * sT3 * r4 * sT4) + (sT1 * cA1 * cT2 * cA2 * sT3 * r4 * sT4)
      - (sT1 * sA1 * sA2 * sT3 * r4 * sT4) - (cT1 * cT2 * sT3 * cA3 * r4 * cT4)
      + (sT1 * cA1 * sT2 * sT3 * cA3 * r4 * cT4) - (cT1 * sT2 * cA2 * cT3 * cA3 * r4 * cT4)
      - (sT1 * cA1 * cT2 * cA2 * cT3 * cA3 * r4 * cT4) + (sT1 * sA1 * sA2 * cT3 * cA3 * r4 * cT4)
      + (cT1 * sT2 * sA2 * sA3 * r4 * cT4) + (sT1 * cA1 * cT2 * sA2 * sA3 * r4 * cT4)
      + (sT1 * sA1 * cA2 * sA3 * r4 * cT4)
  let j04 : ℝ :=
    -(cT1 * cT2 * cT3 * cT4 * r5 * sT5) + (sT1 * cA1 * sT2 * cT3 * cT4 * r5 * sT5)
      + (cT1 * sT2 * cA2 * sT3 * cT4 * r5 * sT5) + (sT1 * cA1 * cT2 * cA2 * sT3 * cT4 * r5 * sT5)
      - (sT1 * sA1 * sA2 * sT3 * cT4 * r5 * sT5) + (cT1 * cT2 * sT3 * cA3 * sT4 * r5 * sT5)
      - (sT1 * cA1 * sT2 * sT3 * cA3 * sT4 * r5 * sT5)
      + (cT1 * sT2 * cA2 * cT3 * cA3 * sT4 * r5 * sT5)
      + (sT1 * cA1 * cT2 * cA2 * cT3 * cA3 * sT4 * r5 * sT5)
      - (sT1 * sA1 * sA2 * cT3 * cA3 * sT4 * r5 * sT5) - (cT1 * sT2 * sA2 * sA3 * sT4 * r5 * sT5)
      - (sT1 * cA1 * cT2 * sA2 * sA3 * sT4 * r5 * sT5) - (sT1 * sA1 * cA2 * sA3 * sT4 * r5 * sT5)
      - (cT1 * cT2 * cT3 * sT4 * cA4 * r5 * cT5) + (sT1 * cA1 * sT2 * cT3 * sT4 * cA4 * r5 * cT5)
      + (cT1 * sT2 * cA2 * sT3 * sT4 * cA4 * r5 * cT5)
      + (sT1 * cA1 * cT2 * cA2 * sT3 * sT4 * cA4 * r5 * cT5)
      - (sT1 * sA1 * sA2 * sT3 * sT4 * cA4 * r5 * cT5)
      - (cT1 * cT2 * sT3 * cA3 * cT4 * cA4 * r5 * cT5)
      + (sT1 * cA1 * sT2 * sT3 * cA3 * cT4 * cA4 * r5 * cT5)
      - (cT1 * sT2 * cA2 * cT3 * cA3 * cT4 * cA4 * r5 * cT5)
      - (sT1 * cA1 * cT2 * cA2 * cT3 * cA3 * cT4 * cA4 * r5 * cT5)
      + (sT1 * sA1 * sA2 * cT3 * cA3 * cT4 * cA4 * r5 * cT5)
      + (cT1 * sT2 * sA2 * sA3 * cT4 * cA4 * r5 * cT5)
      + (sT1 * cA1 * cT2 * sA2 * sA3 * cT4 * cA4 * r5 * cT5)
      + (sT1 * sA1 * cA2 * sA3 * cT4 * cA4 * r5 * cT5) + (cT1 * cT2 * sT3 * sA3 * sA4 * r5 * cT5)
      - (sT1 * cA1 * sT2 * sT3 * sA3 * sA4 * r5 * cT5)
      + (cT1 * sT2 * cA2 * cT3 * sA3 * sA4 * r5 * cT5)
      + (sT1 * cA1 * cT2 * cA2 * cT3 * sA3 * sA4 * r5 * cT5)
      - (sT1 * sA1 * sA2 * cT3 * sA3 * sA4 * r5 * cT5) + (cT1 * sT2 * sA2 * cA3 * sA4 * r5 * cT5)
      + (sT1 * cA1 * cT2 * sA2 * cA3 * sA4 * r5 * cT5) + (sT1 * sA1 * cA2 * cA3 * sA4 * r5 * cT5)
  let j10 : ℝ :=
    (cT1 * cT2 * cT3 * cT4 * r5 * cT5) - (sT1 * cA1 * sT2 * cT3 * cT4 * r5 * cT5)
      - (cT1 * sT2 * cA2 * sT3 * cT4 * r5 * cT5) - (sT1 * cA1 * cT2 * cA2 * sT3 * cT4 * r5 * cT5)
      + (sT1 * sA1 * sA2 * sT3 * cT4 * r5 * cT5) - (cT1 * cT2 * sT3 * cA3 * sT4 * r5 * cT5)
      + (sT1 * cA1 * sT2 * sT3 * cA3 * sT4 * r5 * cT5)
      - (cT1 * sT2 * cA2 * cT3 * cA3 * sT4 * r5 * cT5)
      - (sT1 * cA1 * cT2 * cA2 * cT3 * cA3 * sT4 * r5 * cT5)
      + (sT1 * sA1 * sA2 * cT3 * cA3 * sT4 * r5 * cT5) + (cT1 * sT2 * sA2 * sA3 * sT4 * r5 * cT5)
      + (sT1 * cA1 * cT2 * sA2 * sA3 * sT4 * r5 * cT5) + (sT1 * sA1 * cA2 * sA3 * sT4 * r5 * cT5)
      - (cT1 * cT2 * cT3 * sT4 * cA4 * r5 * sT5) + (sT1 * cA1 * sT2 * cT3 * sT4 * cA4 * r5 * sT5)
      + (cT1 * sT2 * cA2 * sT3 * sT4 * cA4 * r5 * sT5)
      + (sT1 * cA1 * cT2 * cA2 * sT3 * sT4 * cA4 * r5 * sT5)
      - (sT1 * sA1 * sA2 * sT3 * sT4 * cA4 * r5 * sT5)
      - (cT1 * cT2 * sT3 * cA3 * cT4 * cA4 * r5 * sT5)
      + (sT1 * cA1 * sT2 * sT3 * cA3 * cT4 * cA4 * r5 * sT5)
      - (cT1 * sT2 * cA2 * cT3 * cA3 * cT4 * cA4 * r5 * sT5)
      - (sT1 * cA1 * cT2 * cA2 * cT3 * cA3 * cT4 * cA4 * r5 * sT5)
      + (sT1 * sA1 * sA2 * cT3 * cA3 * cT4 * cA4 * r5 * sT5)
      + (cT1 * sT2 * sA2 * sA3 * cT4 * cA4 * r5 * sT5)
      + (sT1 * cA1 * cT2 * sA2 * sA3 * cT4 * cA4 * r5 * sT5)
      + (sT1 * sA1 * cA2 * sA3 * cT4 * cA4 * r5 * sT5) + (cT1 * cT2 * sT3 * sA3 * sA4 * r5 * sT5)
      - (sT1 * cA1 * sT2 * sT3 * sA3 * sA4 * r5 * sT5)
      + (cT1 * sT2 * cA2 * cT3 * sA3 * sA4 * r5 * sT5)
      + (sT1 * cA1 * cT2 * cA2 * cT3 * sA3 * sA4 * r5 * sT5)
      - (sT1 * sA1 * sA2 * cT3 * sA3 * sA4 * r5 * sT5) + (cT1 * sT2 * sA2 * cA3 * sA4 * r5 * sT5)
      + (sT1 * cA1 * cT2 * sA2 * cA3 * sA4 * r5 * sT5) + (sT1 * sA1 * cA2 * cA3 * sA4 * r5 * sT5)
      + (cT1 * cT2 * cT3 * sT4 * sA4 * d5) - (sT1 * cA1 * sT2 * cT3 * sT4 * sA4 * d5)
      - (cT1 * sT2 * cA2 * sT3 * sT4 * sA4 * d5) - (sT1 * cA1 * cT2 * cA2 * sT3 * sT4 * sA4 * d5)
      + (sT1 * sA1 * sA2 * sT3 * sT4 * sA4 * d5) + (cT1 * cT2 * sT3 * cA3 * cT4 * sA4 * d5)
      - (sT1 * cA1 * sT2 * sT3 * cA3 * cT4 * sA4 * d5)
      + (cT1 * sT2 * cA2 * cT3 * cA3 * cT4 * sA4 * d5)
      + (sT1 * cA1 * cT2 * cA2 * cT3 * cA3 * cT4 * sA4 * d5)
      - (sT1 * sA1 * sA2 * cT3 * cA3 * cT4 * sA4 * d5) - (cT1 * sT2 * sA2 * sA3 * cT4 * sA4 * d5)
      - (sT1 * cA1 * cT2 * sA2 * sA3 * cT4 * sA4 * d5) - (sT1 * sA1 * cA2 * sA3 * cT4 * sA4 * d5)
      + (cT1 * cT2 * sT3 * sA3 * cA4 * d5) - (sT1 * cA1 * sT2 * sT3 * sA3 * cA4 * d5)
      + (cT1 * sT2 * cA2 * cT3 * sA3 * cA4 * d5) + (sT1 * cA1 * cT2 * cA2 * cT3 * sA3 * cA4 * d5)
      - (sT1 * sA1 * sA2 * cT3 * sA3 * cA4 * d5) + (cT1 * sT2 * sA2 * cA3 * cA4 * d5)
      + (sT1 * cA1 * cT2 * sA2 * cA3 * cA4 * d5) + (sT1 * sA1 * cA2 * cA3 * cA4 * d5)
      + (cT1 * cT2 * cT3 * r4 * cT4) - (sT1 * cA1 * sT2 * cT3 * r4 * cT4)
      - (cT1 * sT2 * cA2 * sT3 * r4 * cT4) - (sT1 * cA1 * cT2 * cA2 * sT3 * r4 * cT4)
      + (sT1 * sA1 * sA2 * sT3 * r4 * cT4) - (cT1 * cT2 * sT3 * cA3 * r4 * sT4)
      + (sT1 * cA1 * sT2 * sT3 * cA3 * r4 * sT4) - (cT1 * sT2 * cA2 * cT3 * cA3 * r4 * sT4)
      - (sT1 * cA1 * cT2 * cA2 * cT3 * cA3 * r4 * sT4) + (sT1 * sA1 * sA2 * cT3 * cA3 * r4 * sT4)
      + (cT1 * sT2 * sA2 * sA3 * r4 * sT4) + (sT1 * cA1 * cT2 * sA2 * sA3 * r4 * sT4)
      + (sT1 * sA1 * cA2 * sA3 * r4 * sT4) + (cT1 * cT2 * sT3 * sA3 * d4)
      - (sT1 * cA1 * sT2 * sT3 * sA3 * d4) + (cT1 * sT2 * cA2 * cT3 * sA3 * d4)
      + (sT1 * cA1 * cT2 * cA2 * cT3 * sA3 * d4) - (sT1 * sA1 * sA2 * cT3 * sA3 * d4)
      + (cT1 * sT2 * sA2 * cA3 * d4) + (sT1 * cA1 * cT2 * sA2 * cA3 * d4)
      + (sT1 * sA1 * cA2 * cA3 * d4) + (cT1 * cT2 * r3 * cT3) - (sT1 * cA1 * sT2 * r3 * cT3)
      - (cT1 * sT2 * cA2 * r3 * sT3) - (sT1 * cA1 * cT2 * cA2 * r3 * sT3)
      + (sT1 * sA1 * sA2 * r3 * sT3) + (cT1 * sT2 * sA2 * d3) + (sT1 * cA1 * cT2 * sA2 * d3)
      + (sT1 * sA1 * cA2 * d3) + (cT1 * r2 * cT2) - (sT1 * cA1 * r2 * sT2) + (sT1 * sA1 * d2)
      + (r1 * cT1)
  let j11 : ℝ :=
    -(sT1 * sT2 * cT3 * cT4 * r5 * cT5) + (cT1 * cA1 * cT2 * cT3 * cT4 * r5 * cT5)
      - (sT1 * cT2 * cA2 * sT3 * cT4 * r5 * cT5) - (cT1 * cA1 * sT2 * cA2 * sT3 * cT4 * r5 * cT5)
      + (sT1 * sT2 * sT3 * cA3 * sT4 * r5 * cT5) - (cT1 * cA1 * cT2 * sT3 * cA3 * sT4 * r5 * cT5)
      - (sT1 * cT2 * cA2 * cT3 * cA3 * sT4 * r5 * cT5)
      - (cT1 * cA1 * sT2 * cA2 * cT3 * cA3 * sT4 * r5 * cT5)
      + (sT1 * cT2 * sA2 * sA3 * sT4 * r5 * cT5) + (cT1 * cA1 * sT2 * sA2 * sA3 * sT4 * r5 * cT5)
      + (sT1 * sT2 * cT3 * sT4 * cA4 * r5 * sT5) - (cT1 * cA1 * cT2 * cT3 * sT4 * cA4 * r5 * sT5)
      + (sT1 * cT2 * cA2 * sT3 * sT4 * cA4 * r5 * sT5)
      + (cT1 * cA1 * sT2 * cA2 * sT3 * sT4 * cA4 * r5 * sT5)
      + (sT1 * sT2 * sT3 * cA3 * cT4 * cA4 * r5 * sT5)
      - (cT1 * cA1 * cT2 * sT3 * cA3 * cT4 * cA4 * r5 * sT5)
      - (sT1 * cT2 * cA2 * cT3 * cA3 * cT4 * cA4 * r5 * sT5)
      - (cT1 * cA1 * sT2 * cA2 * cT3 * cA3 * cT4 * cA4 * r5 * sT5)
      + (sT1 * cT2 * sA2 * sA3 * cT4 * cA4 * r5 * sT5)
      + (cT1 * cA1 * sT2 * sA2 * sA3 * cT4 * cA4 * r5 * sT5)
      - (sT1 * sT2 * sT3 * sA3 * sA4 * r5 * sT5) + (cT1 * cA1 * cT2 * sT3 * sA3 * sA4 * r5 * sT5)
      + (sT1 * cT2 * cA2 * cT3 * sA3 * sA4 * r5 * sT5)
      + (cT1 * cA1 * sT2 * cA2 * cT3 * sA3 * sA4 * r5 * sT5)
      + (sT1 * cT2 * sA2 * cA3 * sA4 * r5 * sT5) + (cT1 * cA1 * sT2 * sA2 * cA3 * sA4 * r5 * sT5)
      - (sT1 * sT2 * cT3 * sT4 * sA4 * d5) + (cT1 * cA1 * cT2 * cT3 * sT4 * sA4 * d5)
      - (sT1 * cT2 * cA2 * sT3 * sT4 * sA4 * d5) - (cT1 * cA1 * sT2 * cA2 * sT3 * sT4 * sA4 * d5)
      - (sT1 * sT2 * sT3 * cA3 * cT4 * sA4 * d5) + (cT1 * cA1 * cT2 * sT3 * cA3 * cT4 * sA4 * d5)
      + (sT1 * cT2 * cA2 * cT3 * cA3 * cT4 * sA4 * d5)
      + (cT1 * cA1 * sT2 * cA2 * cT3 * cA3 * cT4 * sA4 * d5)
      - (sT1 * cT2 * sA2 * sA3 * cT4 * sA4 * d5) - (cT1 * cA1 * sT2 * sA2 * sA3 * cT4 * sA4 * d5)
      - (sT1 * sT2 * sT3 * sA3 * cA4 * d5) + (cT1 * cA1 * cT2 * sT3 * sA3 * cA4 * d5)
      + (sT1 * cT2 * cA2 * cT3 * sA3 * cA4 * d5) + (cT1 * cA1 * sT2 * cA2 * cT3 * sA3 * cA4 * d5)
      + (sT1 * cT2 * sA2 * cA3 * cA4 * d5) + (cT1 * cA1 * sT2 * sA2 * cA3 * cA4 * d5)
      - (sT1 * sT2 * cT3 * r4 * cT4) + (cT1 * cA1 * cT2 * cT3 * r4 * cT4)
      - (sT1 * cT2 * cA2 * sT3 * r4 * cT4) - (cT1 * cA1 * sT2 * cA2 * sT3 * r4 * cT4)
      + (sT1 * sT2 * sT3 * cA3 * r4 * sT4) - (cT1 * cA1 * cT2 * sT3 * cA3 * r4 * sT4)
      - (sT1 * cT2 * cA2 * cT3 * cA3 * r4 * sT4) - (cT1 * cA1 * sT2 * cA2 * cT3 * cA3 * r4 * sT4)
      + (sT1 * cT2 * sA2 * sA3 * r4 * sT4) + (cT1 * cA1 * sT2 * sA2 * sA3 * r4 * sT4)
      - (sT1 * sT2 * sT3 * sA3 * d4) + (cT1 * cA1 * cT2 * sT3 * sA3 * d4)
      + (sT1 * cT2 * cA2 * cT3 * sA3 * d4) + (cT1 * cA1 * sT2 * cA2 * cT3 * sA3 * d4)
      + (sT1 * cT2 * sA2 * cA3 * d4) + (cT1 * cA1 * sT2 * sA2 * cA3 * d4) - (sT1 * sT2 * r3 * cT3)
      + (cT1 * cA1 * cT2 * r3 * cT3) - (sT1 * cT2 * cA2 * r3 * sT3)
      - (cT1 * cA1 * sT2 * cA2 * r3 * sT3) + (sT1 * cT2 * sA2 * d3) + (cT1 * cA1 * sT2 * sA2 * d3)
      - (sT1 * r2 * sT2) + (cT1 * cA1 * r2 * cT2)
  let j12 : ℝ :=
    -(sT1 * cT2 * sT3 * cT4 * r5 * cT5) - (cT1 * cA1 * sT2 * sT3 * cT4 * r5 * cT5)
      - (sT1 * sT2 * cA2 * cT3 * cT4 * r5 * cT5) + (cT1 * cA1 * cT2 * cA2 * cT3 * cT4 * r5 * cT5)
      - (cT1 * sA1 * sA2 * cT3 * cT4 * r5 * cT5) - (sT1 * cT2 * cT3 * cA3 * sT4 * r5 * cT5)
      - (cT1 * cA1 * sT2 * cT3 * cA3 * sT4 * r5 * cT5)
      + (sT1 * sT2 * cA2 * sT3 * cA3 * sT4 * r5 * cT5)
      - (cT1 * cA1 * cT2 * cA2 * sT3 * cA3 * sT4 * r5 * cT5)
      + (cT1 * sA1 * sA2 * sT3 * cA3 * sT4 * r5 * cT5) + (sT1 * cT2 * sT3 * sT4 * cA4 * r5 * sT5)
      + (cT1 * cA1 * sT2 * sT3 * sT4 * cA4 * r5 * sT5)
      + (sT1 * sT2 * cA2 * cT3 * sT4 * cA4 * r5 * sT5)
      - (cT1 * cA1 * cT2 * cA2 * cT3 * sT4 * cA4 * r5 * sT5)
      + (cT1 * sA1 * sA2 * cT3 * sT4 * cA4 * r5 * sT5)
      - (sT1 * cT2 * cT3 * cA3 * cT4 * cA4 * r5 * sT5)
      - (cT1 * cA1 * sT2 * cT3 * cA3 * cT4 * cA4 * r5 * sT5)
      + (sT1 * sT2 * cA2 * sT3 * cA3 * cT4 * cA4 * r5 * sT5)
      - (cT1 * cA1 * cT2 * cA2 * sT3 * cA3 * cT4 * cA4 * r5 * sT5)
      + (cT1 * sA1 * sA2 * sT3 * cA3 * cT4 * cA4 * r5 * sT5)
      + (sT1 * cT2 * cT3 * sA3 * sA4 * r5 * sT5) + (cT1 * cA1 * sT2 * cT3 * sA3 * sA4 * r5 * sT5)
      - (sT1 * sT2 * cA2 * sT3 * sA3 * sA4 * r5 * sT5)
      + (cT1 * cA1 * cT2 * cA2 * sT3 * sA3 * sA4 * r5 * sT5)
      - (cT1 * sA1 * sA2 * sT3 * sA3 * sA4 * r5 * sT5) - (sT1 * cT2 * sT3 * sT4 * sA4 * d5)
      - (cT1 * cA1 * sT2 * sT3 * sT4 * sA4 * d5) - (sT1 * sT2 * cA2 * cT3 * sT4 * sA4 * d5)
      + (cT1 * cA1 * cT2 * cA2 * cT3 * sT4 * sA4 * d5) - (cT1 * sA1 * sA2 * cT3 * sT4 * sA4 * d5)
      + (sT1 * cT2 * cT3 * cA3 * cT4 * sA4 * d5) + (cT1 * cA1 * sT2 * cT3 * cA3 * cT4 * sA4 * d5)
      - (sT1 * sT2 * cA2 * sT3 * cA3 * cT4 * sA4 * d5)
      + (cT1 * cA1 * cT2 * cA2 * sT3 * cA3 * cT4 * sA4 * d5)
      - (cT1 * sA1 * sA2 * sT3 * cA3 * cT4 * sA4 * d5) + (sT1 * cT2 * cT3 * sA3 * cA4 * d5)
      + (cT1 * cA1 * sT2 * cT3 * sA3 * cA4 * d5) - (sT1 * sT2 * cA2 * sT3 * sA3 * cA4 * d5)
      + (cT1 * cA1 * cT2 * cA2 * sT3 * sA3 * cA4 * d5) - (cT1 * sA1 * sA2 * sT3 * sA3 * cA4 * d5)
      - (sT1 * cT2 * sT3 * r4 * cT4) - (cT1 * cA1 * sT2 * sT3 * r4 * cT4)
      - (sT1 * sT2 * cA2 * cT3 * r4 * cT4) + (cT1 * cA1 * cT2 * cA2 * cT3 * r4 * cT4)
      - (cT1 * sA1 * sA2 * cT3 * r4 * cT4) - (sT1 * cT2 * cT3 * cA3 * r4 * sT4)
      - (cT1 * cA1 * sT2 * cT3 * cA3 * r4 * sT4) + (sT1 * sT2 * cA2 * sT3 * cA3 * r4 * sT4)
      - (cT1 * cA1 * cT2 * cA2 * sT3 * cA3 * r4 * sT4) + (cT1 * sA1 * sA2 * sT3 * cA3 * r4 * sT4)
      + (sT1 * cT2 * cT3 * sA3 * d4) + (cT1 * cA1 * sT2 * cT3 * sA3 * d4)
      - (sT1 * sT2 * cA2 * sT3 * sA3 * d4) + (cT1 * cA1 * cT2 * cA2 * sT3 * sA3 * d4)
      - (cT1 * sA1 * sA2 * sT3 * sA3 * d4) - (sT1 * cT2 * r3 * sT3) - (cT1 * cA1 * sT2 * r3 * sT3)
      - (sT1 * sT2 * cA2 * r3 * cT3) + (cT1 * cA1 * cT2 * cA2 * r3 * cT3)
      - (cT1 * sA1 * sA2 * r3 * cT3)
  let j13 : ℝ :=
    -(sT1 * cT2 * cT3 * sT4 * r5 * cT5) - (cT1 * cA1 * sT2 * cT3 * sT4 * r5 * cT5)
      + (sT1 * sT2 * cA2 * sT3 * sT4 * r5 * cT5) - (cT1 * cA1 * cT2 * cA2 * sT3 * sT4 * r5 * cT5)
      + (cT1 * sA1 * sA2 * sT3 * sT4 * r5 * cT5) - (sT1 * cT2 * sT3 * cA3 * cT4 * r5 * cT5)
      - (cT1 * cA1 * sT2 * sT3 * cA3 * cT4 * r5 * cT5)
      - (sT1 * sT2 * cA2 * cT3 * cA3 * cT4 * r5 * cT5)
      + (cT1 * cA1 * cT2 * cA2 * cT3 * cA3 * cT4 * r5 * cT5)
      - (cT1 * sA1 * sA2 * cT3 * cA3 * cT4 * r5 * cT5) + (sT1 * sT2 * sA2 * sA3 * cT4 * r5 * cT5)
      - (cT1 * cA1 * cT2 * sA2 * sA3 * cT4 * r5 * cT5) - (cT1 * sA1 * cA2 * sA3 * cT4 * r5 * cT5)
      - (sT1 * cT2 * cT3 * cT4 * cA4 * r5 * sT5) - (cT1 * cA1 * sT2 * cT3 * cT4 * cA4 * r5 * sT5)
      + (sT1 * sT2 * cA2 * sT3 * cT4 * cA4 * r5 * sT5)
      - (cT1 * cA1 * cT2 * cA2 * sT3 * cT4 * cA4 * r5 * sT5)
      + (cT1 * sA1 * sA2 * sT3 * cT4 * cA4 * r5 * sT5)
      + (sT1 * cT2 * sT3 * cA3 * sT4 * cA4 * r5 * sT5)
      + (cT1 * cA1 * sT2 * sT3 * cA3 * sT4 * cA4 * r5 * sT5)
      + (sT1 * sT2 * cA2 * cT3 * cA3 * sT4 * cA4 * r5 * sT5)
      - (cT1 * cA1 * cT2 * cA2 * cT3 * cA3 * sT4 * cA4 * r5 * sT5)
      + (cT1 * sA1 * sA2 * cT3 * cA3 * sT4 * cA4 * r5 * sT5)
      - (sT1 * sT2 * sA2 * sA3 * sT4 * cA4 * r5 * sT5)
      + (cT1 * cA1 * cT2 * sA2 * sA3 * sT4 * cA4 * r5 * sT5)
      + (cT1 * sA1 * cA2 * sA3 * sT4 * cA4 * r5 * sT5) + (sT1 * cT2 * cT3 * cT4 * sA4 * d5)
      + (cT1 * cA1 * sT2 * cT3 * cT4 * sA4 * d5) - (sT1 * sT2 * cA2 * sT3 * cT4 * sA4 * d5)
      + (cT1 * cA1 * cT2 * cA2 * sT3 * cT4 * sA4 * d5) - (cT1 * sA1 * sA2 * sT3 * cT4 * sA4 * d5)
      - (sT1 * cT2 * sT3 * cA3 * sT4 * sA4 * d5) - (cT1 * cA1 * sT2 * sT3 * cA3 * sT4 * sA4 * d5)
      - (sT1 * sT2 * cA2 * cT3 * cA3 * sT4 * sA4 * d5)
      + (cT1 * cA1 * cT2 * cA2 * cT3 * cA3 * sT4 * sA4 * d5)
      - (cT1 * sA1 * sA2 * cT3 * cA3 * sT4 * sA4 * d5) + (sT1 * sT2 * sA2 * sA3 * sT4 * sA4 * d5)
      - (cT1 * cA1 * cT2 * sA2 * sA3 * sT4 * sA4 * d5) - (cT1 * sA1 * cA2 * sA3 * sT4 * sA4 * d5)
      - (sT1 * cT2 * cT3 * r4 * sT4) - (cT1 * cA1 * sT2 * cT3 * r4 * sT4)
      + (sT1 * sT2 * cA2 * sT3 * r4 * sT4) - (cT1 * cA1 * cT2 * cA2 * sT3 * r4 * sT4)
      + (cT1 * sA1 * sA2 * sT3 * r4 * sT4) - (sT1 * cT2 * sT3 * cA3 * r4 * cT4)
      - (cT1 * cA1 * sT2 * sT3 * cA3 * r4 * cT4) - (sT1 * sT2 * cA2 * cT3 * cA3 * r4 * cT4)
      + (cT1 * cA1 * cT2 * cA2 * cT3 * cA3 * r4 * cT4) - (cT1 * sA1 * sA2 * cT3 * cA3 * r4 * cT4)
      + (sT1 * sT2 * sA2 * sA3 * r4 * cT4) - (cT1 * cA1 * cT2 * sA2 * sA3 * r4 * cT4)
      - (cT1 * sA1 * cA2 * sA3 * r4 * cT4)
  let j14 : ℝ :=
    -(sT1 * cT2 * cT3 * cT4 * r5 * sT5) - (cT1 * cA1 * sT2 * cT3 * cT4 * r5 * sT5)
      + (sT1 * sT2 * cA2 * sT3 * cT4 * r5 * sT5) - (cT1 * cA1 * cT2 * cA2 * sT3 * cT4 * r5 * sT5)
      + (cT1 * sA1 * sA2 * sT3 * cT4 * r5 * sT5) + (sT1 * cT2 * sT3 * cA3 * sT4 * r5 * sT5)
      + (cT1 * cA1 * sT2 * sT3 * cA3 * sT4 * r5 * sT5)
      + (sT1 * sT2 * cA2 * cT3 * cA3 * sT4 * r5 * sT5)
      - (cT1 * cA1 * cT2 * cA2 * cT3 * cA3 * sT4 * r5 * sT5)
      + (cT1 * sA1 * sA2 * cT3 * cA3 * sT4 * r5 * sT5) - (sT1 * sT2 * sA2 * sA3 * sT4 * r5 * sT5)
      + (cT1 * cA1 * cT2 * sA2 * sA3 * sT4 * r5 * sT5) + (cT1 * sA1 * cA2 * sA3 * sT4 * r5 * sT5)
      - (sT1 * cT2 * cT3 * sT4 * cA4 * r5 * cT5) - (cT1 * cA1 * sT2 * cT3 * sT4 * cA4 * r5 * cT5)
      + (sT1 * sT2 * cA2 * sT3 * sT4 * cA4 * r5 * cT5)
      - (cT1 * cA1 * cT2 * cA2 * sT3 * sT4 * cA4 * r5 * cT5)
      + (cT1 * sA1 * sA2 * sT3 * sT4 * cA4 * r5 * cT5)
      - (sT1 * cT2 * sT3 * cA3 * cT4 * cA4 * r5 * cT5)
      - (cT1 * cA1 * sT2 * sT3 * cA3 * cT4 * cA4 * r5 * cT5)
      - (sT1 * sT2 * cA2 * cT3 * cA3 * cT4 * cA4 * r5 * cT5)
      + (cT1 * cA1 * cT2 * cA2 * cT3 * cA3 * cT4 * cA4 * r5 * cT5)
      - (cT1 * sA1 * sA2 * cT3 * cA3 * cT4 * cA4 * r5 * cT5)
      + (sT1 * sT2 * sA2 * sA3 * cT4 * cA4 * r5 * cT5)
      - (cT1 * cA1 * cT2 * sA2 * sA3 * cT4 * cA4 * r5 * cT5)
      - (cT1 * sA1 * cA2 * sA3 * cT4 * cA4 * r5 * cT5) + (sT1 * cT2 * sT3 * sA3 * sA4 * r5 * cT5)
      + (cT1 * cA1 * sT2 * sT3 * sA3 * sA4 * r5 * cT5)
      + (sT1 * sT2 * cA2 * cT3 * sA3 * sA4 * r5 * cT5)
      - (cT1 * cA1 * cT2 * cA2 * cT3 * sA3 * sA4 * r5 * cT5)
      + (cT1 * sA1 * sA2 * cT3 * sA3 * sA4 * r5 * cT5) + (sT1 * sT2 * sA2 * cA3 * sA4 * r5 * cT5)
      - (cT1 * cA1 * cT2 * sA2 * cA3 * sA4 * r5 * cT5) - (cT1 * sA1 * cA2 * cA3 * sA4 * r5 * cT5)
  let j20 : ℝ := 0
  let j21 : ℝ :=
    (sA1 * cT2 * cT3 * cT4 * r5 * cT5) - (sA1 * sT2 * cA2 * sT3 * cT4 * r5 * cT5)
      - (sA1 * cT2 * sT3 * cA3 * sT4 * r5 * cT5) - (sA1 * sT2 * cA2 * cT3 * cA3 * sT4 * r5 * cT5)
      + (sA1 * sT2 * sA2 * sA3 * sT4 * r5 * cT5) - (sA1 * cT2 * cT3 * sT4 * cA4 * r5 * sT5)
      + (sA1 * sT2 * cA2 * sT3 * sT4 * cA4 * r5 * sT5)
      - (sA1 * cT2 * sT3 * cA3 * cT4 * cA4 * r5 * sT5)
      - (sA1 * sT2 * cA2 * cT3 * cA3 * cT4 * cA4 * r5 * sT5)
      + (sA1 * sT2 * sA2 * sA3 * cT4 * cA4 * r5 * sT5) + (sA1 * cT2 * sT3 * sA3 * sA4 * r5 * sT5)
      + (sA1 * sT2 * cA2 * cT3 * sA3 * sA4 * r5 * sT5) + (sA1 * sT2 * sA2 * cA3 * sA4 * r5 * sT5)
      + (sA1 * cT2 * cT3 * sT4 * sA4 * d5) - (sA1 * sT2 * cA2 * sT3 * sT4 * sA4 * d5)
      + (sA1 * cT2 * sT3 * cA3 * cT4 * sA4 * d5) + (sA1 * sT2 * cA2 * cT3 * cA3 * cT4 * sA4 * d5)
      - (sA1 * sT2 * sA2 * sA3 * cT4 * sA4 * d5) + (sA1 * cT2 * sT3 * sA3 * cA4 * d5)
      + (sA1 * sT2 * cA2 * cT3 * sA3 * cA4 * d5) + (sA1 * sT2 * sA2 * cA3 * cA4 * d5)
      + (sA1 * cT2 * cT3 * r4 * cT4) - (sA1 * sT2 * cA2 * sT3 * r4 * cT4)
      - (sA1 * cT2 * sT3 * cA3 * r4 * sT4) - (sA1 * sT2 * cA2 * cT3 * cA3 * r4 * sT4)
      + (sA1 * sT2 * sA2 * sA3 * r4 * sT4) + (sA1 * cT2 * sT3 * sA3 * d4)
      + (sA1 * sT2 * cA2 * cT3 * sA3 * d4) + (sA1 * sT2 * sA2 * cA3 * d4) + (sA1 * cT2 * r3 * cT3)
      - (sA1 * sT2 * cA2 * r3 * sT3) + (sA1 * sT2 * sA2 * d3) + (sA1 * r2 * cT2)
  let j22 : ℝ :=
    -(sA1 * sT2 * sT3 * cT4 * r5 * cT5) + (sA1 * cT2 * cA2 * cT3 * cT4 * r5 * cT5)
      + (cA1 * sA2 * cT3 * cT4 * r5 * cT5) - (sA1 * sT2 * cT3 * cA3 * sT4 * r5 * cT5)
      - (sA1 * cT2 * cA2 * sT3 * cA3 * sT4 * r5 * cT5) - (cA1 * sA2 * sT3 * cA3 * sT4 * r5 * cT5)
      + (sA1 * sT2 * sT3 * sT4 * cA4 * r5 * sT5) - (sA1 * cT2 * cA2 * cT3 * sT4 * cA4 * r5 * sT5)
      - (cA1 * sA2 * cT3 * sT4 * cA4 * r5 * sT5) - (sA1 * sT2 * cT3 * cA3 * cT4 * cA4 * r5 * sT5)
      - (sA1 * cT2 * cA2 * sT3 * cA3 * cT4 * cA4 * r5 * sT5)
      - (cA1 * sA2 * sT3 * cA3 * cT4 * cA4 * r5 * sT5) + (sA1 * sT2 * cT3 * sA3 * sA4 * r5 * sT5)
      + (sA1 * cT2 * cA2 * sT3 * sA3 * sA4 * r5 * sT5) + (cA1 * sA2 * sT3 * sA3 * sA4 * r5 * sT5)
      - (sA1 * sT2 * sT3 * sT4 * sA4 * d5) + (sA1 * cT2 * cA2 * cT3 * sT4 * sA4 * d5)
      + (cA1 * sA2 * cT3 * sT4 * sA4 * d5) + (sA1 * sT2 * cT3 * cA3 * cT4 * sA4 * d5)
      + (sA1 * cT2 * cA2 * sT3 * cA3 * cT4 * sA4 * d5) + (cA1 * sA2 * sT3 * cA3 * cT4 * sA4 * d5)
      + (sA1 * sT2 * cT3 * sA3 * cA4 * d5) + (sA1 * cT2 * cA2 * sT3 * sA3 * cA4 * d5)
      + (cA1 * sA2 * sT3 * sA3 * cA4 * d5) - (sA1 * sT2 * sT3 * r4 * cT4)
      + (sA1 * cT2 * cA2 * cT3 * r4 * cT4) + (cA1 * sA2 * cT3 * r4 * cT4)
      - (sA1 * sT2 * cT3 * cA3 * r4 * sT4) - (sA1 * cT2 * cA2 * sT3 * cA3 * r4 * sT4)
      - (cA1 * sA2 * sT3 * cA3 * r4 * sT4) + (sA1 * sT2 * cT3 * sA3 * d4)
      + (sA1 * cT2 * cA2 * sT3 * sA3 * d4) + (cA1 * sA2 * sT3 * sA3 * d4) - (sA1 * sT2 * r3 * sT3)
      + (sA1 * cT2 * cA2 * r3 * cT3) + (cA1 * sA2 * r3 * cT3)
  let j23 : ℝ :=
    -(sA1 * sT2 * cT3 * sT4 * r5 * cT5) - (sA1 * cT2 * cA2 * sT3 * sT4 * r5 * cT5)
      - (cA1 * sA2 * sT3 * sT4 * r5 * cT5) - (sA1 * sT2 * sT3 * cA3 * cT4 * r5 * cT5)
      + (sA1 * cT2 * cA2 * cT3 * cA3 * cT4 * r5 * cT5) + (cA1 * sA2 * cT3 * cA3 * cT4 * r5 * cT5)
      - (sA1 * cT2 * sA2 * sA3 * cT4 * r5 * cT5) + (cA1 * cA2 * sA3 * cT4 * r5 * cT5)
      - (sA1 * sT2 * cT3 * cT4 * cA4 * r5 * sT5) - (sA1 * cT2 * cA2 * sT3 * cT4 * cA4 * r5 * sT5)
      - (cA1 * sA2 * sT3 * cT4 * cA4 * r5 * sT5) + (sA1 * sT2 * sT3 * cA3 * sT4 * cA4 * r5 * sT5)
      - (sA1 * cT2 * cA2 * cT3 * cA3 * sT4 * cA4 * r5 * sT5)
      - (cA1 * sA2 * cT3 * cA3 * sT4 * cA4 * r5 * sT5)
      + (sA1 * cT2 * sA2 * sA3 * sT4 * cA4 * r5 * sT5) - (cA1 * cA2 * sA3 * sT4 * cA4 * r5 * sT5)
      + (sA1 * sT2 * cT3 * cT4 * sA4 * d5) + (sA1 * cT2 * cA2 * sT3 * cT4 * sA4 * d5)
      + (cA1 * sA2 * sT3 * cT4 * sA4 * d5) - (sA1 * sT2 * sT3 * cA3 * sT4 * sA4 * d5)
      + (sA1 * cT2 * cA2 * cT3 * cA3 * sT4 * sA4 * d5) + (cA1 * sA2 * cT3 * cA3 * sT4 * sA4 * d5)
      - (sA1 * cT2 * sA2 * sA3 * sT4 * sA4 * d5) + (cA1 * cA2 * sA3 * sT4 * sA4 * d5)
      - (sA1 * sT2 * cT3 * r4 * sT4) - (sA1 * cT2 * cA2 * sT3 * r4 * sT4)
      - (cA1 * sA2 * sT3 * r4 * sT4) - (sA1 * sT2 * sT3 * cA3 * r4 * cT4)
      + (sA1 * cT2 * cA2 * cT3 * cA3 * r4 * cT4) + (cA1 * sA2 * cT3 * cA3 * r4 * cT4)
      - (sA1 * cT2 * sA2 * sA3 * r4 * cT4) + (cA1 * cA2 * sA3 * r4 * cT4)
  let j24 : ℝ :=
    -(sA1 * sT2 * cT3 * cT4 * r5 * sT5) - (sA1 * cT2 * cA2 * sT3 * cT4 * r5 * sT5)
      - (cA1 * sA2 * sT3 * cT4 * r5 * sT5) + (sA1 * sT2 * sT3 * cA3 * sT4 * r5 * sT5)
      - (sA1 * cT2 * cA2 * cT3 * cA3 * sT4 * r5 * sT5) - (cA1 * sA2 * cT3 * cA3 * sT4 * r5 * sT5)
      + (sA1 * cT2 * sA2 * sA3 * sT4 * r5 * sT5) - (cA1 * cA2 * sA3 * sT4 * r5 * sT5)
      - (sA1 * sT2 * cT3 * sT4 * cA4 * r5 * cT5) - (sA1 * cT2 * cA2 * sT3 * sT4 * cA4 * r5 * cT5)
      - (cA1 * sA2 * sT3 * sT4 * cA4 * r5 * cT5) - (sA1 * sT2 * sT3 * cA3 * cT4 * cA4 * r5 * cT5)
      + (sA1 * cT2 * cA2 * cT3 * cA3 * cT4 * cA4 * r5 * cT5)
      + (cA1 * sA2 * cT3 * cA3 * cT4 * cA4 * r5 * cT5)
      - (sA1 * cT2 * sA2 * sA3 * cT4 * cA4 * r5 * cT5) + (cA1 * cA2 * sA3 * cT4 * cA4 * r5 * cT5)
      + (sA1 * sT2 * sT3 * sA3 * sA4 * r5 * cT5) - (sA1 * cT2 * cA2 * cT3 * sA3 * sA4 * r5 * cT5)
      - (cA1 * sA2 * cT3 * sA3 * sA4 * r5 * cT5) - (sA1 * cT2 * sA2 * cA3 * sA4 * r5 * cT5)
      + (cA1 * cA2 * cA3 * sA4 * r5 * cT5)
  !![j00, j01, j02, j03, j04;
    j10, j11, j12, j13, j14;
    j20, j21, j22, j23, j24]

/-- `createJacobian5DOF` (jacobian.cpp 203-466). -/
noncomputable def createJacobian5DOF (dh : List DHMap) :
    Except DHError (Matrix (Fin 3) (Fin 5) ℝ) := do
  let d2 ← dhAt dh 1 "d"
  let d3 ← dhAt dh 2 "d"
  let d4 ← dhAt dh 3 "d"
  let d5 ← dhAt dh 4 "d"
  let r1 ← dhAt dh 0 "r"
  let r2 ← dhAt dh 1 "r"
  let r3 ← dhAt dh 2 "r"
  let r4 ← dhAt dh 3 "r"
  let r5 ← dhAt dh 4 "r"
  let sT1 := Real.sin (← dhAt dh 0 "theta")
  let sT2 := Real.sin (← dhAt dh 1 "theta")
  let sT3 := Real.sin (← dhAt dh 2 "theta")
  let sT4 := Real.sin (← dhAt dh 3 "theta")
  let sT5 := Real.sin (← dhAt dh 4 "theta")
  let cT1 := Real.cos (← dhAt dh 0 "theta")
  let cT2 := Real.cos (← dhAt dh 1 "theta")
  let cT3 := Real.cos (← dhAt dh 2 "theta")
  let cT4 := Real.cos (← dhAt dh 3 "theta")
  let cT5 := Real.cos (← dhAt dh 4 "theta")
  let sA1 := Real.sin (← dhAt dh 0 "alpha")
  let sA2 := Real.sin (← dhAt dh 1 "alpha")
  let sA3 := Real.sin (← dhAt dh 2 "alpha")
  let sA4 := Real.sin (← dhAt dh 3 "alpha")
  let cA1 := Real.cos (← dhAt dh 0 "alpha")
  let cA2 := Real.cos (← dhAt dh 1 "alpha")
  let cA3 := Real.cos (← dhAt dh 2 "alpha")
  let cA4 := Real.cos (← dhAt dh 3 "alpha")
  pure (jacobian5DOFEntries
    d2 d3 d4 d5 r1 r2 r3 r4 r5 sT1 sT2 sT3 sT4 sT5 cT1 cT2 cT3 cT4 cT5 sA1 sA2 sA3 sA4 cA1 cA2 cA3
    cA4)

/-- `createJacobian6DOF` (jacobian.cpp 473-531): every lookup is commented out and all 18
entries are assigned 0.0. -/
def createJacobian6DOF (_dh : List DHMap) : Except DHError (Matrix (Fin 3) (Fin 6) ℝ) :=
  pure !![0.0, 0.0, 0.0, 0.0, 0.0, 0.0;
    0.0, 0.0, 0.0, 0.0, 0.0, 0.0;
    0.0, 0.0, 0.0, 0.0, 0.0, 0.0]

/-- The keys a generator for n joints looks up (jacobian.cpp, the uncommented `dh[i].at(key)`):
"r" and "theta" of every record, "d" of every record but the first and "alpha" of every record
but the last. The lookups of "d" in `dh[0]` and of "alpha" in the last record are commented out
as unused. -/
def dhReads (n i : Nat) (key : String) : Prop :=
  i < n ∧ (key = "r" ∨ key = "theta" ∨ (key = "d" ∧ 0 < i) ∨ (key = "alpha" ∧ i + 1 < n))

/-- Every key the generator for n joints looks up is present in `dh`. -/
def dhReadsPresent (n : Nat) (dh : List DHMap) : Prop :=
  ∀ i key, dhReads n i key → ∃ m v, dh.get? i = some m ∧ m key = some v

/-! ## The DH chain as the specification describes it -/

/-- A DH parameter record: the four named scalars {d, r, theta, alpha} of one joint. -/
structure DHRecord (α : Type) where
  d : α
  r : α
  theta : α
  alpha : α

/-- The `map<string, double>` that holds the four fields of the record under the keys "d", "r",
"theta" and "alpha", and nothing else. -/
def DHRecord.toMap (p : DHRecord ℝ) : DHMap := fun key =>
  if key = "d" then some p.d
  else if key = "r" then some p.r
  else if key = "theta" then some p.theta
  else if key = "alpha" then some p.alpha
  else none

/-- Homogeneous rotation by θ about Z. -/
noncomputable def dhRz (θ : ℝ) : Matrix (Fin 4) (Fin 4) ℝ :=
  !![Real.cos θ, -Real.sin θ, 0, 0;
    Real.sin θ, Real.cos θ, 0, 0;
    0, 0, 1, 0;
    0, 0, 0, 1]

/-- Homogeneous translation by d along Z. -/
def dhTz (d : ℝ) : Matrix (Fin 4) (Fin 4) ℝ :=
  !![1, 0, 0, 0;
    0, 1, 0, 0;
    0, 0, 1, d;
    0, 0, 0, 1]

/-- Homogeneous translation by r along X. -/
def dhTx (r : ℝ) : Matrix (Fin 4) (Fin 4) ℝ :=
  !![1, 0, 0, r;
    0, 1, 0, 0;
    0, 0, 1, 0;
    0, 0, 0, 1]

/-- Homogeneous rotation by α about X. -/
noncomputable def dhRx (α : ℝ) : Matrix (Fin 4) (Fin 4) ℝ :=
  !![1, 0, 0, 0;
    0, Real.cos α, -Real.sin α, 0;
    0, Real.sin α, Real.cos α, 0;
    0, 0, 0, 1]

/-- The standard DH transform of one joint, T = Rz(theta)·Tz(d)·Tx(r)·Rx(alpha). -/
noncomputable def DHRecord.transform (p : DHRecord ℝ) : Matrix (Fin 4) (Fin 4) ℝ :=
  dhRz p.theta * dhTz p.d * dhTx p.r * dhRx p.alpha

/-- The transform of the chain, T_1·T_2·…·T_n. -/
noncomputable def dhChain (ps : List (DHRecord ℝ)) : Matrix (Fin 4) (Fin 4) ℝ :=
  (ps.map DHRecord.transform).prod

/-- Coordinate i of the end-effector position: the translation part of T_1·T_2·…·T_n. -/
noncomputable def endEffector (ps : List (DHRecord ℝ)) (i : Fin 3) : ℝ :=
  dhChain ps i.castSucc 3

/-- The chain with the joint angle theta of record number j (from 0) replaced by t. -/
def withTheta : List (DHRecord ℝ) → Nat → ℝ → List (DHRecord ℝ)
  | [], _, _ => []
  | p :: ps, 0, t => { p with theta := t } :: ps
  | p :: ps, j + 1, t => p :: withTheta ps j t

/-- Rotation about the first axis: Rx(α)(x,y,z) = (x, y·cosα − z·sinα, y·sinα + z·cosα). -/
noncomputable def Rx (α : ℝ) (v : Vector3d ℝ) : Vector3d ℝ :=
  ⟨v.x, v.y * Real.cos α - v.z * Real.sin α, v.y * Real.sin α + v.z * Real.cos α⟩

/-- The action of one DH transform on a point: x ↦ Rz(theta)·((r, 0, d) + Rx(alpha)·x). -/
noncomputable def DHRecord.apply (p : DHRecord ℝ) (v : Vector3d ℝ) : Vector3d ℝ :=
  Rz p.theta (⟨p.r, 0, p.d⟩ + Rx p.alpha v)

/-- The rotation part of one DH transform on a vector: x ↦ Rz(theta)·Rx(alpha)·x. -/
noncomputable def DHRecord.rotate (p : DHRecord ℝ) (v : Vector3d ℝ) : Vector3d ℝ :=
  Rz p.theta (Rx p.alpha v)

/-- The derivative of Rz(t)·u with respect to t. -/
noncomputable def dRz (t : ℝ) (u : Vector3d ℝ) : Vector3d ℝ :=
  ⟨-u.x * Real.sin t - u.y * Real.cos t, u.x * Real.cos t - u.y * Real.sin t, 0⟩

/-- The end-effector position as a vector. -/
noncomputable def endEffectorV (ps : List (DHRecord ℝ)) : Vector3d ℝ :=
  ⟨endEffector ps 0, endEffector ps 1, endEffector ps 2⟩

/-- Each coordinate of g has the derivative given by the same coordinate of g'. -/
def HasDerivAtV (g : ℝ → Vector3d ℝ) (g' : Vector3d ℝ) (t : ℝ) : Prop :=
  HasDerivAt (fun s => (g s).x) g'.x t ∧ HasDerivAt (fun s => (g s).y) g'.y t ∧
    HasDerivAt (fun s => (g s).z) g'.z t

/-- A map that holds "r" = 1 and "theta" = 0 and neither "d" nor "alpha". -/
def rThetaMap : DHMap := fun key =>
  if key = "r" then some 1
  else if key = "theta" then some 0
  else none

/-- The record d = 0, r = 1, theta = 0, alpha = 0. -/
def unitRecord : DHRecord ℝ :=
  ⟨0, 1, 0, 0⟩

/-- The map of `unitRecord` without its key "d". -/
def unitMapWithoutD : DHMap := fun key =>
  if key = "d" then none else unitRecord.toMap key

/-! ## Joint positions (Model::getJointPositions) -/

/-- Modelled from the spec: the `Pose` of pose.h (not among the sources), a "composable
translation+rotation": a position and a rotation. -/
structure Pose (α : Type) where
  position : Vector3d α
  rotation : Quat α

/-- Modelled from the spec: `Pose::operator*=` of pose.h (not among the sources), the composition
of two poses: the right one is placed in the frame of the left one. -/
def Pose.mul (a b : Pose ℝ) : Pose ℝ :=
  { position := a.position + a.rotation.rotateVector b.position
    rotation := a.rotation.mul b.rotation }

/-- Modelled from the spec: `Pose::transformVector` of pose.h (not among the sources), "apply the
supplied world pose" to a point: rotate it and add the position. -/
def Pose.transformVector (p : Pose ℝ) (v : Vector3d ℝ) : Vector3d ℝ :=
  p.position + p.rotation.rotateVector v

/-- The body of the two loops of `Model::getJointPositions` (model.cpp 136-147) for the leg
`legs[l][s]`. The state is the vector `positions` and the model; `none` when the `ASSERT` on
`positions.back()` fails. -/
noncomputable def Model.getJointPositionsBody (pose : Pose ℝ) (s : Fin 2) (l : Fin 3)
    (st : List (Vector3d ℝ) × Model ℝ) : Option (List (Vector3d ℝ) × Model ℝ) :=
  let positions := st.1
  let leg := st.2.legs l s
  let transform : Pose ℝ := ⟨leg.rootOffset, Quat.ofRotationVector ⟨0, 0, leg.yaw⟩⟩
  let positions := positions ++ [pose.transformVector
    ⟨transform.position.x * leg.mirrorDir, transform.position.y, transform.position.z⟩]
  let transform := transform.mul ⟨leg.hipOffset, Quat.ofRotationVector ⟨0, -leg.liftAngle, 0⟩⟩
  let positions := positions ++ [pose.transformVector
    ⟨transform.position.x * leg.mirrorDir, transform.position.y, transform.position.z⟩]
  let transform := transform.mul ⟨leg.kneeOffset, Quat.ofRotationVector ⟨0, leg.kneeAngle, 0⟩⟩
  let positions := positions ++ [pose.transformVector
    ⟨transform.position.x * leg.mirrorDir, transform.position.y, transform.position.z⟩]
  let transform := transform.mul ⟨leg.tipOffset, Quat.ofRotationVector ⟨0, 0, 0⟩⟩
  let positions := positions ++ [pose.transformVector
    ⟨transform.position.x * leg.mirrorDir, transform.position.y, transform.position.z⟩]
  match positions.getLast? with
  | none => none
  | some back => if back.squaredNorm < 1000.0 then some (positions, st.2) else none

/-- `Model::getJointPositions` (model.cpp 129-150): the vector returned and the model after the
call, or `none` when an `ASSERT` fails. The outer loop runs over the side `s`, the inner one over
the leg-position `l`. -/
noncomputable def Model.getJointPositions (m : Model ℝ) (pose : Pose ℝ) :
    Option (List (Vector3d ℝ) × Model ℝ) :=
  (List.finRange 2).foldlM
    (fun st s => (List.finRange 3).foldlM (fun st l => Model.getJointPositionsBody pose s l st) st)
    ([], m)

/-- Position k of the chain of a leg in the frame of the body, as the specification describes the
root→hip→knee→tip chain of `calculateFK`: the root is at rootOffset, the hip offset is turned by
yaw about the vertical axis, the knee offset also by −lift and the tip offset also by knee about
the lift axis. -/
noncomputable def Leg.chainPosition (leg : Leg ℝ) (k : Fin 4) : Vector3d ℝ :=
  match k with
  | 0 => leg.rootOffset
  | 1 => Rz leg.yaw leg.hipOffset + leg.rootOffset
  | 2 => Rz leg.yaw (Ry (-leg.liftAngle) leg.kneeOffset + leg.hipOffset) + leg.rootOffset
  | 3 => Rz leg.yaw (Ry (-leg.liftAngle) (Ry leg.kneeAngle leg.tipOffset + leg.kneeOffset) +
      leg.hipOffset) + leg.rootOffset

/-- Position k of the chain of a leg (k = 0, 1, 2, 3 for root, hip, knee, tip) as
`getJointPositions` emits it: the X of the chain position is multiplied by mirrorDir and the
world pose is applied. -/
noncomputable def Leg.jointPosition (leg : Leg ℝ) (pose : Pose ℝ) (k : Fin 4) : Vector3d ℝ :=
  pose.transformVector
    ⟨(leg.chainPosition k).x * leg.mirrorDir, (leg.chainPosition k).y, (leg.chainPosition k).z⟩

/-- The identity pose: no translation and no rotation. -/
def Pose.identity : Pose ℝ :=
  ⟨⟨0, 0, 0⟩, ⟨1, 0, 0, 0⟩⟩

/-- A model whose six legs have the configuration of the concrete scenario and all joint angles
0, the legs of side 1 mirrored, with the knee-bend limits of the scenario. -/
def scenarioModel : Model ℝ :=
  { legs := fun _ s => scenarioOffsets (if s = 0 then 1 else -1)
    stanceLegYaws := ⟨0, 0, 0⟩
    yawLimitAroundStance := ⟨1, 1, 1⟩
    minMaxKneeBend := scenarioKneeBend
    minMaxHipLift := ⟨-1, 1⟩
    jointMaxAngularSpeeds := ⟨1, 1, 1⟩ }

/-! ## The locals of applyLocalIK -/

/-- The local `target` of `Leg::applyLocalIK` after the rotation by −yaw (model.cpp 30-35): the
tip target un-mirrored, taken relative to the root and turned into the plane of the leg. -/
noncomputable def Leg.targetAligned (leg : Leg ℝ) (tipTarget : Vector3d ℝ) : Vector3d ℝ :=
  let target := tipTarget
  let target := { target with x := target.x * leg.mirrorDir }
  let target := target - leg.rootOffset
  let yaw := atan2 target.y target.x
  let quat := Quat.ofRotationVector ⟨0, 0, yaw⟩
  quat.inverseRotateVector target

/-- The local `target` of `Leg::applyLocalIK` where the planarity `ASSERT` reads it
(model.cpp 37-38): after `target -= hipOffset`. -/
noncomputable def Leg.targetLocal (leg : Leg ℝ) (tipTarget : Vector3d ℝ) : Vector3d ℝ :=
  leg.targetAligned tipTarget - leg.hipOffset

/-- The local `target` of `Leg::applyLocalIK` after `target[1] = 0` (model.cpp 39). -/
noncomputable def Leg.targetPlanar (leg : Leg ℝ) (tipTarget : Vector3d ℝ) : Vector3d ℝ :=
  { leg.targetLocal tipTarget with y := 0 }

/-- The local `targetLength` of `Leg::applyLocalIK` before it is clamped (model.cpp 40). -/
noncomputable def Leg.targetLength (leg : Leg ℝ) (tipTarget : Vector3d ℝ) : ℝ :=
  (leg.targetPlanar tipTarget).norm

/-- The local `targetAngleOffset` of `Leg::applyLocalIK` (model.cpp 41). -/
noncomputable def Leg.targetAngleOffset (leg : Leg ℝ) (tipTarget : Vector3d ℝ) : ℝ :=
  atan2 (leg.targetPlanar tipTarget).z (leg.targetPlanar tipTarget).x

/-- The yaw-aligned target as the specification describes it: Rz(−yaw)·q. -/
noncomputable def ikAligned (leg : Leg ℝ) (p : Vector3d ℝ) : Vector3d ℝ :=
  Rz (-(ikYaw leg p)) (ikRootTarget leg p)

/-- The vector obtained by first setting the Y component of the yaw-aligned target to 0 and then
subtracting hipOffset. -/
noncomputable def ikZeroedThenShifted (leg : Leg ℝ) (p : Vector3d ℝ) : Vector3d ℝ :=
  ⟨(ikAligned leg p).x, 0, (ikAligned leg p).z⟩ - leg.hipOffset

/-- The configuration of the concrete scenario with the hip offset 0.005 out of the sagittal
plane, inside the tolerance 0.01 of the planarity assertion: hipOffset = (0.1, 0.005, 0). -/
def offsetHipOffsets : Leg ℝ :=
  Leg.ofOffsets ⟨0, 0, 0⟩ ⟨0.1, 0.005, 0⟩ ⟨0.2, 0, 0⟩ ⟨0.15, 0, 0⟩ 1

/-- The leg of `offsetHipOffsets` with the knee-bend limits of the scenario, after
`init(0, 0, 0)`. -/
noncomputable def offsetHipLeg : Leg ℝ :=
  offsetHipOffsets.init scenarioKneeBend 0 0 0

/-! ## Construction of the model (Model::Model) -/

/-- Modelled from the spec: the `Parameters` of parametersAndStates.h (not among the sources),
the configuration the Model constructor reads: "per-leg-position root/hip/knee/tip offset vectors
for both sides, stance yaw per leg-position, yaw/knee/hip limit pairs, max joint angular speeds".
The fields have the names model.cpp reads them by. -/
structure Parameters (α : Type) where
  rootOffset : Fin 3 → Fin 2 → Vector3d α
  hipOffset : Fin 3 → Fin 2 → Vector3d α
  kneeOffset : Fin 3 → Fin 2 → Vector3d α
  tipOffset : Fin 3 → Fin 2 → Vector3d α
  stanceLegYaws : Vector3d α
  yawLimits : Vector3d α
  kneeLimits : Vector2d α
  hipLimits : Vector2d α
  jointMaxAngularSpeeds : Vector3d α

/-- The body of the two loops of `Model::Model` (model.cpp 105-113) on the leg `legs[l][s]`;
`leg.init` reads `model->minMaxKneeBend` of the model under construction. -/
noncomputable def Model.constructBody (params : Parameters ℝ) (l : Fin 3) (s : Fin 2)
    (m : Model ℝ) : Model ℝ :=
  let leg := m.legs l s
  let leg := { leg with rootOffset := params.rootOffset l s }
  let leg := { leg with hipOffset := params.hipOffset l s }
  let leg := { leg with kneeOffset := params.kneeOffset l s }
  let leg := { leg with tipOffset := params.tipOffset l s }
  let leg := { leg with mirrorDir := (if s.val ≠ 0 then 1 else -1) }
  let leg := leg.init m.minMaxKneeBend 0 0 0
  let leg := { leg with state := LegState.WALKING }
  m.setLeg l s leg

/-- `Model::Model` (model.cpp 94-116): the member initialisers copy the limits, then the loops
run over the leg-position `l` (outer) and the side `s` (inner). `uninitialised` is what the array
`legs` holds before the body runs, which the language leaves indeterminate. -/
noncomputable def Model.construct (params : Parameters ℝ)
    (uninitialised : Fin 3 → Fin 2 → Leg ℝ) : Model ℝ :=
  (List.finRange 3).foldl
    (fun m l => (List.finRange 2).foldl (fun m s => Model.constructBody params l s m) m)
    { legs := uninitialised
      stanceLegYaws := params.stanceLegYaws
      yawLimitAroundStance := params.yawLimits
      minMaxKneeBend := params.kneeLimits
      minMaxHipLift := params.hipLimits
      jointMaxAngularSpeeds := params.jointMaxAngularSpeeds }

/-- The leg the constructor leaves at `legs[l][s]`, as the specification describes it: the
offsets of the configuration, mirrorDir −1 on side 0 and +1 on side 1, `init(0, 0, 0)` run on it
and the state flag set. -/
noncomputable def Parameters.leg (params : Parameters ℝ) (uninitialised : Leg ℝ) (l : Fin 3)
    (s : Fin 2) : Leg ℝ :=
  { ({ uninitialised with
        rootOffset := params.rootOffset l s
        hipOffset := params.hipOffset l s
        kneeOffset := params.kneeOffset l s
        tipOffset := params.tipOffset l s
        mirrorDir := (if s = 0 then -1 else 1) } : Leg ℝ).init params.kneeLimits 0 0 0 with
    state := LegState.WALKING }

/-- The configuration of the concrete scenario for all six legs, with stance yaw 0, yaw limit 1,
hip-lift limits [−1, 1] and the knee-bend limits [0.1, 3.0]. -/
def scenarioParameters : Parameters ℝ :=
  { rootOffset := fun _ _ => ⟨0, 0, 0⟩
    hipOffset := fun _ _ => ⟨0.1, 0, 0⟩
    kneeOffset := fun _ _ => ⟨0.2, 0, 0⟩
    tipOffset := fun _ _ => ⟨0.15, 0, 0⟩
    stanceLegYaws := ⟨0, 0, 0⟩
    yawLimits := ⟨1, 1, 1⟩
    kneeLimits := scenarioKneeBend
    hipLimits := ⟨-1, 1⟩
    jointMaxAngularSpeeds := ⟨1, 1, 1⟩ }

/-- The configuration of a leg whose knee is 40 away from the hip and whose tip offset folds back
onto the hip: kneeOffset = (40, 0, 0), tipOffset = (−40, 0, 0), the other offsets zero. -/
def foldedOffsets (mirrorDir : ℝ) : Leg ℝ :=
  Leg.ofOffsets ⟨0, 0, 0⟩ ⟨0, 0, 0⟩ ⟨40, 0, 0⟩ ⟨-40, 0, 0⟩ mirrorDir

/-- The scenario model with six legs of the folded configuration, all joint angles 0. -/
def foldedModel : Model ℝ :=
  { scenarioModel with legs := fun _ s => foldedOffsets (if s = 0 then -1 else 1) }

/-! ## The diagnostics of clampToLimits as the specification describes them -/

/-- The joint angle of a leg that a clamp diagnostic is about. -/
def Leg.jointAngle {α : Type} (leg : Leg α) (joint : ClampedJoint) : α :=
  match joint with
  | .yaw => leg.yaw
  | .hipLift => leg.liftAngle
  | .knee => leg.kneeAngle

/-- The diagnostics the specification asks for one leg: one line for each joint angle whose
value differs before and after the call, in the order yaw, hip lift, knee, naming the
leg-position, the side and the value the angle was set to. -/
def changeDiagnostics {α : Type} [DecidableEq α] (before after : Leg α) (l : Fin 3)
    (side : Fin 2) : List (ClampDiagnostic α) :=
  [ClampedJoint.yaw, ClampedJoint.hipLift, ClampedJoint.knee].flatMap fun joint =>
    if after.jointAngle joint ≠ before.jointAngle joint then
      [⟨l, side, joint, after.jointAngle joint⟩]
    else []

/-- `Model::setLegStartAngles` (model.cpp 121-124): `init` is run on `legs[leg][side]` with the
start angles, reading `model->minMaxKneeBend` of this model. -/
noncomputable def Model.setLegStartAngles (m : Model ℝ) (side : Fin 2) (leg : Fin 3)
    (startAngles : Vector3d ℝ) : Model ℝ :=
  m.setLeg leg side
    ((m.legs leg side).init m.minMaxKneeBend startAngles.x startAngles.y startAngles.z)

/-- One call a user of the model can make: `applyLocalIK` or `applyFK` on the leg
`legs[l][side]`, `clampToLimits`, `getJointPositions` or `setLegStartAngles`, with its
arguments. -/
inductive ModelOp (α : Type) where
  | applyLocalIK (l : Fin 3) (side : Fin 2) (tipTarget : Vector3d α) (updateStance : Bool)
  | applyFK (l : Fin 3) (side : Fin 2) (updateStance : Bool)
  | clampToLimits
  | getJointPositions (pose : Pose α)
  | setLegStartAngles (side : Fin 2) (leg : Fin 3) (startAngles : Vector3d α)

/-- The model after one call, or `none` when an `ASSERT` of the call fails. The member
functions of a leg act on `legs[l][side]` in place. -/
noncomputable def Model.step (m : Model ℝ) : ModelOp ℝ → Option (Model ℝ)
  | .applyLocalIK l side tipTarget updateStance =>
    ((m.legs l side).applyLocalIK tipTarget updateStance).map fun r => m.setLeg l side r.2
  | .applyFK l side updateStance => some (m.setLeg l side ((m.legs l side).applyFK updateStance).2)
  | .clampToLimits => some m.clampToLimits.1
  | .getJointPositions pose => (m.getJointPositions pose).map Prod.snd
  | .setLegStartAngles side leg startAngles => some (m.setLegStartAngles side leg startAngles)

/-- The model after a sequence of calls made one after the other, or `none` when an `ASSERT`
fails on the way. -/
noncomputable def Model.run (m : Model ℝ) (ops : List (ModelOp ℝ)) : Option (Model ℝ) :=
  ops.foldlM Model.step m

/-- The fields of a leg that the specification calls fixed after `init` have the same values in
both legs: the link lengths, the angle offsets, the reachable-length bounds, mirrorDir and the
four offset vectors. -/
structure Leg.SameGeometry {α : Type} (a b : Leg α) : Prop where
  hipLength_eq : a.hipLength = b.hipLength
  femurLength_eq : a.femurLength = b.femurLength
  tibiaLength_eq : a.tibiaLength = b.tibiaLength
  femurAngleOffset_eq : a.femurAngleOffset = b.femurAngleOffset
  tibiaAngleOffset_eq : a.tibiaAngleOffset = b.tibiaAngleOffset
  minLegLength_eq : a.minLegLength = b.minLegLength
  maxLegLength_eq : a.maxLegLength = b.maxLegLength
  mirrorDir_eq : a.mirrorDir = b.mirrorDir
  rootOffset_eq : a.rootOffset = b.rootOffset
  hipOffset_eq : a.hipOffset = b.hipOffset
  kneeOffset_eq : a.kneeOffset = b.kneeOffset
  tipOffset_eq : a.tipOffset = b.tipOffset

/-- Every leg has the same fixed fields in both models, and the stance yaws and the yaw, hip and
knee limits of the two models are equal. -/
structure Model.SameConfiguration {α : Type} (a b : Model α) : Prop where
  legs_eq : ∀ (l : Fin 3) (s : Fin 2), (a.legs l s).SameGeometry (b.legs l s)
  stanceLegYaws_eq : a.stanceLegYaws = b.stanceLegYaws
  yawLimitAroundStance_eq : a.yawLimitAroundStance = b.yawLimitAroundStance
  minMaxHipLift_eq : a.minMaxHipLift = b.minMaxHipLift
  minMaxKneeBend_eq : a.minMaxKneeBend = b.minMaxKneeBend

/-- The model the constructor builds from the configuration of the scenario, the array of legs
holding unit legs beforehand. -/
noncomputable def scenarioConstructed : Model ℝ :=
  Model.construct scenarioParameters fun _ _ => unitOffsets

/-- A sequence with one call of each operation. -/
def sampleOps : List (ModelOp ℝ) :=
  [.getJointPositions Pose.identity, .applyLocalIK 0 1 ⟨0.35, 0, 0⟩ true, .clampToLimits,
    .applyFK 0 0 false, .setLegStartAngles 1 2 ⟨0.1, 0.2, 0.3⟩]

/-- A point with its X multiplied by the mirror direction of the leg. -/
def Leg.mirrorX (leg : Leg ℝ) (v : Vector3d ℝ) : Vector3d ℝ :=
  ⟨v.x * leg.mirrorDir, v.y, v.z⟩

/-- The scenario model with the yaw limit 0 around the stance yaw 0 and knee-bend limits
[0, 3.0], its six legs initialised at the angles (π, 0, 0): every yaw is outside the limit. -/
noncomputable def turnedModel : Model ℝ :=
  { scenarioModel with
    legs := fun _ _ => (scenarioOffsets 1).init ⟨0, 3.0⟩ Real.pi 0 0
    yawLimitAroundStance := ⟨0, 0, 0⟩
    minMaxKneeBend := ⟨0, 3.0⟩ }

/-! ## Theorems -/

/-! ### Components of sums and differences of vectors -/

@[simp]
theorem Vector3d.add_x {α : Type} [Add α] (a b : Vector3d α) : (a + b).x = a.x + b.x := rfl

@[simp]
theorem Vector3d.add_y {α : Type} [Add α] (a b : Vector3d α) : (a + b).y = a.y + b.y := rfl

@[simp]
theorem Vector3d.add_z {α : Type} [Add α] (a b : Vector3d α) : (a + b).z = a.z + b.z := rfl

@[simp]
theorem Vector3d.sub_x {α : Type} [Sub α] (a b : Vector3d α) : (a - b).x = a.x - b.x := rfl

@[simp]
theorem Vector3d.sub_y {α : Type} [Sub α] (a b : Vector3d α) : (a - b).y = a.y - b.y := rfl

@[simp]
theorem Vector3d.sub_z {α : Type} [Sub α] (a b : Vector3d α) : (a - b).z = a.z - b.z := rfl

/-! ### clampToLimits -/

section Clamp

variable {α : Type} [LinearOrderedAddCommGroup α]

theorem finRange_three : List.finRange 3 = [0, 1, 2] := by
  decide

theorem finRange_two : List.finRange 2 = [0, 1] := by
  decide

theorem Model.clampYaw_fst (m : Model α) (l : Fin 3) (side : Fin 2)
    (st : Leg α × List (ClampDiagnostic α)) :
    (m.clampYaw l side st).1 = { st.1 with yaw :=
      (if st.1.yaw - m.stanceLegYaws.get l < -m.yawLimitAroundStance.get l then
        -m.yawLimitAroundStance.get l + m.stanceLegYaws.get l
      else if st.1.yaw - m.stanceLegYaws.get l > m.yawLimitAroundStance.get l then
        m.yawLimitAroundStance.get l + m.stanceLegYaws.get l
      else st.1.yaw) } := by
  simp only [Model.clampYaw]
  split_ifs <;> rfl

theorem Model.clampHipLift_fst (m : Model α) (l : Fin 3) (side : Fin 2)
    (st : Leg α × List (ClampDiagnostic α)) :
    (m.clampHipLift l side st).1 = { st.1 with liftAngle :=
      if st.1.liftAngle < m.minMaxHipLift.e0 then m.minMaxHipLift.e0
      else if st.1.liftAngle > m.minMaxHipLift.e1 then m.minMaxHipLift.e1
      else st.1.liftAngle } := by
  simp only [Model.clampHipLift]
  split_ifs <;> rfl

theorem Model.clampKnee_fst (m : Model α) (l : Fin 3) (side : Fin 2)
    (st : Leg α × List (ClampDiagnostic α)) :
    (m.clampKnee l side st).1 = { st.1 with kneeAngle :=
      if st.1.kneeAngle < m.minMaxKneeBend.e0 then m.minMaxKneeBend.e0
      else if st.1.kneeAngle > m.minMaxKneeBend.e1 then m.minMaxKneeBend.e1
      else st.1.kneeAngle } := by
  simp only [Model.clampKnee]
  split_ifs <;> rfl

/-- The leg the three clamps leave: only the three joint angles change, each by its own
if / else-if of the source. -/
theorem Model.clampLeg_fst (m : Model α) (l : Fin 3) (side : Fin 2)
    (st : Leg α × List (ClampDiagnostic α)) :
    (m.clampLeg l side st).1 = { st.1 with
      yaw :=
        (if st.1.yaw - m.stanceLegYaws.get l < -m.yawLimitAroundStance.get l then
          -m.yawLimitAroundStance.get l + m.stanceLegYaws.get l
        else if st.1.yaw - m.stanceLegYaws.get l > m.yawLimitAroundStance.get l then
          m.yawLimitAroundStance.get l + m.stanceLegYaws.get l
        else st.1.yaw)
      liftAngle :=
        (if st.1.liftAngle < m.minMaxHipLift.e0 then m.minMaxHipLift.e0
        else if st.1.liftAngle > m.minMaxHipLift.e1 then m.minMaxHipLift.e1
        else st.1.liftAngle)
      kneeAngle :=
        (if st.1.kneeAngle < m.minMaxKneeBend.e0 then m.minMaxKneeBend.e0
        else if st.1.kneeAngle > m.minMaxKneeBend.e1 then m.minMaxKneeBend.e1
        else st.1.kneeAngle) } := by
  rw [Model.clampLeg, Model.clampKnee_fst, Model.clampHipLift_fst, Model.clampYaw_fst]

/-- The limits are not written by the loop body. -/
theorem Model.clampToLimitsBody_limits (l : Fin 3) (side : Fin 2)
    (st : Model α × List (ClampDiagnostic α)) :
    (Model.clampToLimitsBody l side st).1.stanceLegYaws = st.1.stanceLegYaws ∧
    (Model.clampToLimitsBody l side st).1.yawLimitAroundStance = st.1.yawLimitAroundStance ∧
    (Model.clampToLimitsBody l side st).1.minMaxKneeBend = st.1.minMaxKneeBend ∧
    (Model.clampToLimitsBody l side st).1.minMaxHipLift = st.1.minMaxHipLift ∧
    (Model.clampToLimitsBody l side st).1.jointMaxAngularSpeeds = st.1.jointMaxAngularSpeeds :=
  ⟨rfl, rfl, rfl, rfl, rfl⟩

/-- The leg a model holds at (l, side) after clampToLimits, written with the limits of `m`. -/
theorem Model.clampToLimitsBody_legs (l : Fin 3) (side : Fin 2)
    (st : Model α × List (ClampDiagnostic α)) (l' : Fin 3) (side' : Fin 2) :
    (Model.clampToLimitsBody l side st).1.legs l' side' =
      if l' = l ∧ side' = side then (st.1.clampLeg l side (st.1.legs l side, [])).1
      else st.1.legs l' side' := by
  simp only [Model.clampToLimitsBody, Model.setLeg, Model.clampLeg_fst]

/-- After `clampToLimits` the limits are those of the model it was called on. -/
theorem Model.clampToLimits_limits (m : Model α) :
    m.clampToLimits.1.stanceLegYaws = m.stanceLegYaws ∧
    m.clampToLimits.1.yawLimitAroundStance = m.yawLimitAroundStance ∧
    m.clampToLimits.1.minMaxKneeBend = m.minMaxKneeBend ∧
    m.clampToLimits.1.minMaxHipLift = m.minMaxHipLift ∧
    m.clampToLimits.1.jointMaxAngularSpeeds = m.jointMaxAngularSpeeds := by
  simp only [Model.clampToLimits, finRange_three, finRange_two, List.foldl]
  exact ⟨rfl, rfl, rfl, rfl, rfl⟩

/-- After `clampToLimits` every leg is the leg the three clamps make of it, with the limits of
its leg-position. -/
theorem Model.clampToLimits_legs (m : Model α) (l : Fin 3) (side : Fin 2) :
    m.clampToLimits.1.legs l side = (m.clampLeg l side (m.legs l side, [])).1 := by
  simp only [Model.clampToLimits, finRange_three, finRange_two, List.foldl,
    Model.clampToLimitsBody_legs]
  fin_cases l <;> fin_cases side <;> simp <;> rfl

end Clamp

section ClampField

variable {α : Type} [LinearOrderedField α]

theorem ite_yaw_eq_max_min (a s Y : α) (hY : 0 ≤ Y) :
    (if a - s < -Y then -Y + s else if a - s > Y then Y + s else a) =
      max (s - Y) (min (s + Y) a) := by
  split_ifs with h1 h2
  · rw [min_eq_right (by linarith), max_eq_left (by linarith)]
    ring
  · rw [min_eq_left (by linarith), max_eq_right (by linarith)]
    ring
  · rw [min_eq_right (by linarith), max_eq_right (by linarith)]

theorem ite_eq_max_min (a lo hi : α) (h : lo ≤ hi) :
    (if a < lo then lo else if a > hi then hi else a) = max lo (min hi a) := by
  split_ifs with h1 h2
  · rw [min_eq_right (by linarith), max_eq_left (by linarith)]
  · rw [min_eq_left (by linarith), max_eq_right (by linarith)]
  · rw [min_eq_right (by linarith), max_eq_right (by linarith)]

theorem max_min_idem (a lo hi : α) (h : lo ≤ hi) :
    max lo (min hi (max lo (min hi a))) = max lo (min hi a) := by
  have h1 : max lo (min hi a) ≤ hi := max_le h (min_le_left _ _)
  rw [min_eq_right h1, max_eq_right (le_max_left _ _)]

/-- With ordered limits the three clamps are the usual clamp of each angle into its range. -/
theorem Model.clampLeg_fst_max_min (m : Model α) (l : Fin 3) (side : Fin 2)
    (st : Leg α × List (ClampDiagnostic α)) (hY : 0 ≤ m.yawLimitAroundStance.get l)
    (hH : m.minMaxHipLift.e0 ≤ m.minMaxHipLift.e1)
    (hK : m.minMaxKneeBend.e0 ≤ m.minMaxKneeBend.e1) :
    (m.clampLeg l side st).1 = { st.1 with
      yaw := max (m.stanceLegYaws.get l - m.yawLimitAroundStance.get l)
        (min (m.stanceLegYaws.get l + m.yawLimitAroundStance.get l) st.1.yaw)
      liftAngle := max m.minMaxHipLift.e0 (min m.minMaxHipLift.e1 st.1.liftAngle)
      kneeAngle := max m.minMaxKneeBend.e0 (min m.minMaxKneeBend.e1 st.1.kneeAngle) } := by
  rw [Model.clampLeg_fst, ite_yaw_eq_max_min _ _ _ hY, ite_eq_max_min _ _ _ hH,
    ite_eq_max_min _ _ _ hK]

end ClampField

/-! ### The DH chain -/

/-- The end effector of a chain is the transforms of its records applied one after the other to
the origin: the first transform is applied to the end effector of the rest of the chain. -/
theorem endEffectorV_eq_foldr (ps : List (DHRecord ℝ)) :
    endEffectorV ps = ps.foldr DHRecord.apply ⟨0, 0, 0⟩ := by
  have hRzTz : ∀ t d : ℝ, dhRz t * dhTz d =
      !![Real.cos t, -Real.sin t, 0, 0;
        Real.sin t, Real.cos t, 0, 0;
        0, 0, 1, d;
        0, 0, 0, 1] := by
    intro t d
    ext i j
    fin_cases i <;> fin_cases j <;> dsimp only [dhRz, dhTz] <;>
      simp [Matrix.mul_apply, Fin.sum_univ_four, Matrix.vecHead, Matrix.vecTail]
  have hRzTzTx : ∀ t d r : ℝ, dhRz t * dhTz d * dhTx r =
      !![Real.cos t, -Real.sin t, 0, r * Real.cos t;
        Real.sin t, Real.cos t, 0, r * Real.sin t;
        0, 0, 1, d;
        0, 0, 0, 1] := by
    intro t d r
    rw [hRzTz]
    ext i j
    fin_cases i <;> fin_cases j <;> dsimp only [dhTx] <;>
      simp [Matrix.mul_apply, Fin.sum_univ_four, Matrix.vecHead, Matrix.vecTail] <;>
      ring
  -- the entries of the standard DH transform
  have htransform : ∀ p : DHRecord ℝ, p.transform =
      !![Real.cos p.theta, -Real.sin p.theta * Real.cos p.alpha,
          Real.sin p.theta * Real.sin p.alpha, p.r * Real.cos p.theta;
        Real.sin p.theta, Real.cos p.theta * Real.cos p.alpha,
          -Real.cos p.theta * Real.sin p.alpha, p.r * Real.sin p.theta;
        0, Real.sin p.alpha, Real.cos p.alpha, p.d;
        0, 0, 0, 1] := by
    intro p
    unfold DHRecord.transform
    rw [hRzTzTx]
    ext i j
    fin_cases i <;> fin_cases j <;> dsimp only [dhRx] <;>
      simp [Matrix.mul_apply, Fin.sum_univ_four, Matrix.vecHead, Matrix.vecTail]
  have hnil : dhChain [] = 1 := rfl
  have hcons : ∀ (p : DHRecord ℝ) (ps : List (DHRecord ℝ)),
      dhChain (p :: ps) = p.transform * dhChain ps := by
    intro p ps
    dsimp only [dhChain]
    simp
  -- the bottom-right entry of a chain transform is 1
  have hbottom : ∀ ps : List (DHRecord ℝ), dhChain ps 3 3 = 1 := by
    intro ps
    induction ps with
    | nil => simp [hnil]
    | cons p ps ih =>
      rw [hcons, htransform, Matrix.mul_apply, Fin.sum_univ_four]
      simp [ih, Matrix.vecHead, Matrix.vecTail]
  have h0 : ∀ ps : List (DHRecord ℝ), endEffector ps 0 = dhChain ps 0 3 := fun _ => rfl
  have h1 : ∀ ps : List (DHRecord ℝ), endEffector ps 1 = dhChain ps 1 3 := fun _ => rfl
  have h2 : ∀ ps : List (DHRecord ℝ), endEffector ps 2 = dhChain ps 2 3 := fun _ => rfl
  induction ps with
  | nil =>
    ext <;> dsimp only [endEffectorV] <;> simp [h0, h1, h2, hnil]
  | cons p ps ih =>
    rw [List.foldr_cons, ← ih]
    have hb := hbottom ps
    ext <;>
      · dsimp only [endEffectorV, DHRecord.apply, Rz, Rx]
        simp only [h0, h1, h2, hcons, htransform, Matrix.mul_apply, Fin.sum_univ_four]
        simp [hb, Matrix.vecHead, Matrix.vecTail]
        ring

/-! ### Derivatives with respect to one joint angle -/

/-- The derivative of one coordinate of the end effector with respect to the joint angle of one
record of the chain: the rotations of the records before it applied to the derivative of its own
rotation. -/
theorem endEffector_hasDerivAt (pre post : List (DHRecord ℝ)) (p : DHRecord ℝ) (i : Fin 3) :
    HasDerivAt (fun t => endEffector (pre ++ { p with theta := t } :: post) i)
      ((pre.foldr DHRecord.rotate
        (dRz p.theta (⟨p.r, 0, p.d⟩ + Rx p.alpha (endEffectorV post)))).get i) p.theta := by
  -- one transform applied to a moving point
  have happly : ∀ (q : DHRecord ℝ) (g : ℝ → Vector3d ℝ) (g' : Vector3d ℝ) (t : ℝ),
      HasDerivAtV g g' t → HasDerivAtV (fun s => q.apply (g s)) (q.rotate g') t := by
    intro q g g' t h
    obtain ⟨hx, hy, hz⟩ := h
    refine ⟨?_, ?_, ?_⟩
    · have := ((hx.const_add q.r).mul_const (Real.cos q.theta)).sub
        (((hy.mul_const (Real.cos q.alpha)).sub (hz.mul_const (Real.sin q.alpha))).mul_const
          (Real.sin q.theta))
      refine (this.congr_deriv rfl).congr_of_eventuallyEq (Filter.Eventually.of_forall fun s => ?_)
      dsimp only [DHRecord.apply, Rz, Rx]
      simp
    · have := ((hx.const_add q.r).mul_const (Real.sin q.theta)).add
        (((hy.mul_const (Real.cos q.alpha)).sub (hz.mul_const (Real.sin q.alpha))).mul_const
          (Real.cos q.theta))
      refine (this.congr_deriv rfl).congr_of_eventuallyEq (Filter.Eventually.of_forall fun s => ?_)
      dsimp only [DHRecord.apply, Rz, Rx]
      simp
    · have := ((hy.mul_const (Real.sin q.alpha)).add (hz.mul_const (Real.cos q.alpha))).const_add
        q.d
      exact (this.congr_deriv rfl).congr_of_eventuallyEq (Filter.Eventually.of_forall fun s => rfl)
  -- the transform of the record itself, as its angle moves
  have htheta : ∀ (w : Vector3d ℝ) (t : ℝ),
      HasDerivAtV (fun s => ({ p with theta := s } : DHRecord ℝ).apply w)
        (dRz t (⟨p.r, 0, p.d⟩ + Rx p.alpha w)) t := by
    intro w t
    refine ⟨?_, ?_, ?_⟩
    · have := ((Real.hasDerivAt_cos t).const_mul
          ((⟨p.r, 0, p.d⟩ + Rx p.alpha w : Vector3d ℝ).x)).sub
        ((Real.hasDerivAt_sin t).const_mul ((⟨p.r, 0, p.d⟩ + Rx p.alpha w : Vector3d ℝ).y))
      refine (this.congr_deriv ?_).congr_of_eventuallyEq (Filter.Eventually.of_forall fun s => ?_)
      · dsimp only [dRz]
        simp; ring
      · rfl
    · have := ((Real.hasDerivAt_sin t).const_mul
          ((⟨p.r, 0, p.d⟩ + Rx p.alpha w : Vector3d ℝ).x)).add
        ((Real.hasDerivAt_cos t).const_mul ((⟨p.r, 0, p.d⟩ + Rx p.alpha w : Vector3d ℝ).y))
      refine (this.congr_deriv ?_).congr_of_eventuallyEq (Filter.Eventually.of_forall fun s => ?_)
      · dsimp only [dRz]
        simp; ring
      · rfl
    · have : HasDerivAt (fun _ : ℝ => (⟨p.r, 0, p.d⟩ + Rx p.alpha w : Vector3d ℝ).z) 0 t :=
        hasDerivAt_const t _
      exact (this.congr_deriv rfl).congr_of_eventuallyEq (Filter.Eventually.of_forall fun s => rfl)
  have hchain : HasDerivAtV (fun s => endEffectorV (pre ++ { p with theta := s } :: post))
      (pre.foldr DHRecord.rotate (dRz p.theta (⟨p.r, 0, p.d⟩ + Rx p.alpha (endEffectorV post))))
      p.theta := by
    induction pre with
    | nil =>
      simp only [List.nil_append, endEffectorV_eq_foldr, List.foldr_cons, List.foldr_nil]
      exact htheta _ p.theta
    | cons q pre ih =>
      simp only [List.cons_append, endEffectorV_eq_foldr, List.foldr_cons] at ih ⊢
      exact happly q _ _ p.theta ih
  obtain ⟨hx, hy, hz⟩ := hchain
  fin_cases i
  · exact hx
  · exact hy
  · exact hz


set_option maxHeartbeats 1000000 in
/-- On the maps of n DH records (n in 1..5) `createJacobian<n>DOF` finds every key it looks up
and returns a matrix; the same matrix is returned whatever d of the first record and alpha of the
last record are; and column j of the matrix is the derivative of the end effector with respect to
the joint angle of record j + 1: the rotations of the records before it applied to the derivative
of its own rotation. -/
theorem createJacobian_columns :
    (∀ p1 : DHRecord ℝ,
      ∃ J, createJacobian1DOF [p1.toMap] = .ok J ∧
        (∀ d1 alphaN : ℝ,
          createJacobian1DOF [({ p1 with d := d1, alpha := alphaN } : DHRecord ℝ).toMap] =
            .ok J) ∧
        ∀ i : Fin 3,
          (List.foldr DHRecord.rotate (dRz p1.theta (⟨p1.r, 0, p1.d⟩ + Rx p1.alpha (endEffectorV
            []))) []).get i = J i 0) ∧
    (∀ p1 p2 : DHRecord ℝ,
      ∃ J, createJacobian2DOF [p1.toMap, p2.toMap] = .ok J ∧
        (∀ d1 alphaN : ℝ, createJacobian2DOF [({ p1 with d := d1 } : DHRecord ℝ).toMap,
          ({ p2 with alpha := alphaN } : DHRecord ℝ).toMap] = .ok J) ∧
        ∀ i : Fin 3,
          (List.foldr DHRecord.rotate (dRz p1.theta (⟨p1.r, 0, p1.d⟩ + Rx p1.alpha (endEffectorV
            [p2]))) []).get i = J i 0 ∧
          (List.foldr DHRecord.rotate (dRz p2.theta (⟨p2.r, 0, p2.d⟩ + Rx p2.alpha (endEffectorV
            []))) [p1]).get i = J i 1) ∧
    (∀ p1 p2 p3 : DHRecord ℝ,
      ∃ J, createJacobian3DOF [p1.toMap, p2.toMap, p3.toMap] = .ok J ∧
        (∀ d1 alphaN : ℝ, createJacobian3DOF [({ p1 with d := d1 } : DHRecord ℝ).toMap, p2.toMap,
          ({ p3 with alpha := alphaN } : DHRecord ℝ).toMap] = .ok J) ∧
        ∀ i : Fin 3,
          (List.foldr DHRecord.rotate (dRz p1.theta (⟨p1.r, 0, p1.d⟩ + Rx p1.alpha (endEffectorV
            [p2, p3]))) []).get i = J i 0 ∧
          (List.foldr DHRecord.rotate (dRz p2.theta (⟨p2.r, 0, p2.d⟩ + Rx p2.alpha (endEffectorV
            [p3]))) [p1]).get i = J i 1 ∧
          (List.foldr DHRecord.rotate (dRz p3.theta (⟨p3.r, 0, p3.d⟩ + Rx p3.alpha (endEffectorV
            []))) [p1, p2]).get i = J i 2) ∧
    (∀ p1 p2 p3 p4 : DHRecord ℝ,
      ∃ J, createJacobian4DOF [p1.toMap, p2.toMap, p3.toMap, p4.toMap] = .ok J ∧
        (∀ d1 alphaN : ℝ, createJacobian4DOF [({ p1 with d := d1 } : DHRecord ℝ).toMap, p2.toMap,
          p3.toMap, ({ p4 with alpha := alphaN } : DHRecord ℝ).toMap] = .ok J) ∧
        ∀ i : Fin 3,
          (List.foldr DHRecord.rotate (dRz p1.theta (⟨p1.r, 0, p1.d⟩ + Rx p1.alpha (endEffectorV
            [p2, p3, p4]))) []).get i = J i 0 ∧
          (List.foldr DHRecord.rotate (dRz p2.theta (⟨p2.r, 0, p2.d⟩ + Rx p2.alpha (endEffectorV
            [p3, p4]))) [p1]).get i = J i 1 ∧
          (List.foldr DHRecord.rotate (dRz p3.theta (⟨p3.r, 0, p3.d⟩ + Rx p3.alpha (endEffectorV
            [p4]))) [p1, p2]).get i = J i 2 ∧
          (List.foldr DHRecord.rotate (dRz p4.theta (⟨p4.r, 0, p4.d⟩ + Rx p4.alpha (endEffectorV
            []))) [p1, p2, p3]).get i = J i 3) ∧
    (∀ p1 p2 p3 p4 p5 : DHRecord ℝ,
      ∃ J, createJacobian5DOF [p1.toMap, p2.toMap, p3.toMap, p4.toMap, p5.toMap] = .ok J ∧
        (∀ d1 alphaN : ℝ, createJacobian5DOF [({ p1 with d := d1 } : DHRecord ℝ).toMap, p2.toMap,
          p3.toMap, p4.toMap, ({ p5 with alpha := alphaN } : DHRecord ℝ).toMap] = .ok J) ∧
        ∀ i : Fin 3,
          (List.foldr DHRecord.rotate (dRz p1.theta (⟨p1.r, 0, p1.d⟩ + Rx p1.alpha (endEffectorV
            [p2, p3, p4, p5]))) []).get i = J i 0 ∧
          (List.foldr DHRecord.rotate (dRz p2.theta (⟨p2.r, 0, p2.d⟩ + Rx p2.alpha (endEffectorV
            [p3, p4, p5]))) [p1]).get i = J i 1 ∧
          (List.foldr DHRecord.rotate (dRz p3.theta (⟨p3.r, 0, p3.d⟩ + Rx p3.alpha (endEffectorV
            [p4, p5]))) [p1, p2]).get i = J i 2 ∧
          (List.foldr DHRecord.rotate (dRz p4.theta (⟨p4.r, 0, p4.d⟩ + Rx p4.alpha (endEffectorV
            [p5]))) [p1, p2, p3]).get i = J i 3 ∧
          (List.foldr DHRecord.rotate (dRz p5.theta (⟨p5.r, 0, p5.d⟩ + Rx p5.alpha (endEffectorV
            []))) [p1, p2, p3, p4]).get i = J i 4) := by
  refine ⟨?_, ?_, ?_, ?_, ?_⟩
  · intro p1
    refine ⟨jacobian1DOFEntries p1.r (Real.sin p1.theta) (Real.cos p1.theta), rfl, fun _ _ => rfl,
      fun i => ?_⟩
    fin_cases i <;>
      simp only [endEffectorV_eq_foldr, List.foldr_cons, List.foldr_nil] <;>
      dsimp only [DHRecord.rotate, dRz, Rx, Rz, DHRecord.apply] <;>
      simp [Vector3d.get, jacobian1DOFEntries]
  · intro p1 p2
    refine ⟨jacobian2DOFEntries p2.d p1.r p2.r (Real.sin p1.theta) (Real.sin p2.theta) (Real.cos
      p1.theta) (Real.cos p2.theta) (Real.sin p1.alpha) (Real.cos p1.alpha), rfl, fun _ _ => rfl,
      fun i => ?_⟩
    refine ⟨?_, ?_⟩ <;> fin_cases i <;>
      simp only [endEffectorV_eq_foldr, List.foldr_cons, List.foldr_nil] <;>
      dsimp only [DHRecord.rotate, dRz, Rx, Rz, DHRecord.apply] <;>
      simp [Vector3d.get, jacobian2DOFEntries] <;>
      ring
  · intro p1 p2 p3
    refine ⟨jacobian3DOFEntries p2.d p3.d p1.r p2.r p3.r (Real.sin p1.theta) (Real.sin p2.theta)
      (Real.sin p3.theta) (Real.cos p1.theta) (Real.cos p2.theta) (Real.cos p3.theta) (Real.sin
      p1.alpha) (Real.sin p2.alpha) (Real.cos p1.alpha) (Real.cos p2.alpha), rfl, fun _ _ => rfl,
      fun i => ?_⟩
    refine ⟨?_, ?_, ?_⟩ <;> fin_cases i <;>
      simp only [endEffectorV_eq_foldr, List.foldr_cons, List.foldr_nil] <;>
      dsimp only [DHRecord.rotate, dRz, Rx, Rz, DHRecord.apply] <;>
      simp [Vector3d.get, jacobian3DOFEntries] <;>
      ring
  · intro p1 p2 p3 p4
    refine ⟨jacobian4DOFEntries p2.d p3.d p4.d p1.r p2.r p3.r p4.r (Real.sin p1.theta) (Real.sin
      p2.theta) (Real.sin p3.theta) (Real.sin p4.theta) (Real.cos p1.theta) (Real.cos p2.theta)
      (Real.cos p3.theta) (Real.cos p4.theta) (Real.sin p1.alpha) (Real.sin p2.alpha) (Real.sin
      p3.alpha) (Real.cos p1.alpha) (Real.cos p2.alpha) (Real.cos p3.alpha), rfl, fun _ _ => rfl,
      fun i => ?_⟩
    refine ⟨?_, ?_, ?_, ?_⟩ <;> fin_cases i <;>
      simp only [endEffectorV_eq_foldr, List.foldr_cons, List.foldr_nil] <;>
      dsimp only [DHRecord.rotate, dRz, Rx, Rz, DHRecord.apply] <;>
      simp [Vector3d.get, jacobian4DOFEntries] <;>
      ring
  · intro p1 p2 p3 p4 p5
    refine ⟨jacobian5DOFEntries p2.d p3.d p4.d p5.d p1.r p2.r p3.r p4.r p5.r (Real.sin p1.theta)
      (Real.sin p2.theta) (Real.sin p3.theta) (Real.sin p4.theta) (Real.sin p5.theta) (Real.cos
      p1.theta) (Real.cos p2.theta) (Real.cos p3.theta) (Real.cos p4.theta) (Real.cos p5.theta)
      (Real.sin p1.alpha) (Real.sin p2.alpha) (Real.sin p3.alpha) (Real.sin p4.alpha) (Real.cos
      p1.alpha) (Real.cos p2.alpha) (Real.cos p3.alpha) (Real.cos p4.alpha), rfl, fun _ _ => rfl,
      fun i => ?_⟩
    refine ⟨?_, ?_, ?_, ?_, ?_⟩ <;> fin_cases i <;>
      simp only [endEffectorV_eq_foldr, List.foldr_cons, List.foldr_nil] <;>
      dsimp only [DHRecord.rotate, dRz, Rx, Rz, DHRecord.apply] <;>
      simp [Vector3d.get, jacobian5DOFEntries] <;>
      ring

/-! ### Keys the generators look up -/

/-- A result that is a matrix when a condition holds and a missing-parameter error when it does
not is each of the two exactly in its case. -/
theorem outcome_iff {β : Type} {r : Except DHError β} {P : Prop}
    (h : ((∃ J, r = .ok J) ∧ P) ∨ ((∃ i key, r = .error (.missingParameter i key)) ∧ ¬ P)) :
    ((∃ i key, r = .error (.missingParameter i key)) ↔ ¬ P) ∧ ((∃ J, r = .ok J) ↔ P) := by
  rcases h with ⟨⟨J, hJ⟩, hP⟩ | ⟨⟨i, key, he⟩, hP⟩
  · refine ⟨⟨?_, fun hn => absurd hP hn⟩, ⟨fun _ => hP, fun _ => ⟨J, hJ⟩⟩⟩
    rintro ⟨i, key, he⟩
    rw [hJ] at he
    cases he
  · refine ⟨⟨fun _ => hP, fun _ => ⟨i, key, he⟩⟩, ⟨?_, fun h => absurd h hP⟩⟩
    rintro ⟨J, hJ⟩
    rw [he] at hJ
    cases hJ


/-- `createJacobian<n>DOF` on n maps (n in 1..5): it returns a matrix when every key it looks up
is present and fails with a missing-parameter error otherwise. -/
theorem createJacobian_cases :
    (∀ m1 : DHMap,
      ((∃ J, createJacobian1DOF [m1] = .ok J) ∧ dhReadsPresent 1 [m1]) ∨
      ((∃ i key, createJacobian1DOF [m1] = .error (.missingParameter i key)) ∧
        ¬ dhReadsPresent 1 [m1])) ∧
    (∀ m1 m2 : DHMap,
      ((∃ J, createJacobian2DOF [m1, m2] = .ok J) ∧ dhReadsPresent 2 [m1, m2]) ∨
      ((∃ i key, createJacobian2DOF [m1, m2] = .error (.missingParameter i key)) ∧
        ¬ dhReadsPresent 2 [m1, m2])) ∧
    (∀ m1 m2 m3 : DHMap,
      ((∃ J, createJacobian3DOF [m1, m2, m3] = .ok J) ∧ dhReadsPresent 3 [m1, m2, m3]) ∨
      ((∃ i key, createJacobian3DOF [m1, m2, m3] = .error (.missingParameter i key)) ∧
        ¬ dhReadsPresent 3 [m1, m2, m3])) ∧
    (∀ m1 m2 m3 m4 : DHMap,
      ((∃ J, createJacobian4DOF [m1, m2, m3, m4] = .ok J) ∧ dhReadsPresent 4 [m1, m2, m3, m4]) ∨
      ((∃ i key, createJacobian4DOF [m1, m2, m3, m4] = .error (.missingParameter i key)) ∧
        ¬ dhReadsPresent 4 [m1, m2, m3, m4])) ∧
    (∀ m1 m2 m3 m4 m5 : DHMap,
      ((∃ J, createJacobian5DOF [m1, m2, m3, m4, m5] = .ok J) ∧ dhReadsPresent 5 [m1, m2, m3, m4,
          m5]) ∨
      ((∃ i key, createJacobian5DOF [m1, m2, m3, m4, m5] = .error (.missingParameter i key)) ∧
        ¬ dhReadsPresent 5 [m1, m2, m3, m4, m5])) := by
  refine ⟨?_, ?_, ?_, ?_, ?_⟩
  · intro m1
    rcases h0 : m1 "r" with _ | v0
    · exact Or.inr ⟨⟨0, "r", by
          dsimp only [createJacobian1DOF, dhAt]
          simp [bind, Except.bind, pure, Except.pure, Functor.map, Except.map, *]⟩,
        fun h => by have := h 0 "r" (by simp [dhReads]); simp_all⟩
    rcases h1 : m1 "theta" with _ | v1
    · exact Or.inr ⟨⟨0, "theta", by
          dsimp only [createJacobian1DOF, dhAt]
          simp [bind, Except.bind, pure, Except.pure, Functor.map, Except.map, *]⟩,
        fun h => by have := h 0 "theta" (by simp [dhReads]); simp_all⟩
    refine Or.inl ⟨by
          dsimp only [createJacobian1DOF, dhAt]
          simp [bind, Except.bind, pure, Except.pure, Functor.map, Except.map, *], ?_⟩
    rintro i key ⟨hi, hk⟩
    interval_cases i
    rcases hk with rfl | rfl | ⟨rfl, hk⟩ | ⟨rfl, hk⟩ <;> simp_all
  · intro m1 m2
    rcases h0 : m2 "d" with _ | v0
    · exact Or.inr ⟨⟨1, "d", by
          dsimp only [createJacobian2DOF, dhAt]
          simp [bind, Except.bind, pure, Except.pure, Functor.map, Except.map, *]⟩,
        fun h => by have := h 1 "d" (by simp [dhReads]); simp_all⟩
    rcases h1 : m1 "r" with _ | v1
    · exact Or.inr ⟨⟨0, "r", by
          dsimp only [createJacobian2DOF, dhAt]
          simp [bind, Except.bind, pure, Except.pure, Functor.map, Except.map, *]⟩,
        fun h => by have := h 0 "r" (by simp [dhReads]); simp_all⟩
    rcases h2 : m2 "r" with _ | v2
    · exact Or.inr ⟨⟨1, "r", by
          dsimp only [createJacobian2DOF, dhAt]
          simp [bind, Except.bind, pure, Except.pure, Functor.map, Except.map, *]⟩,
        fun h => by have := h 1 "r" (by simp [dhReads]); simp_all⟩
    rcases h3 : m1 "theta" with _ | v3
    · exact Or.inr ⟨⟨0, "theta", by
          dsimp only [createJacobian2DOF, dhAt]
          simp [bind, Except.bind, pure, Except.pure, Functor.map, Except.map, *]⟩,
        fun h => by have := h 0 "theta" (by simp [dhReads]); simp_all⟩
    rcases h4 : m2 "theta" with _ | v4
    · exact Or.inr ⟨⟨1, "theta", by
          dsimp only [createJacobian2DOF, dhAt]
          simp [bind, Except.bind, pure, Except.pure, Functor.map, Except.map, *]⟩,
        fun h => by have := h 1 "theta" (by simp [dhReads]); simp_all⟩
    rcases h5 : m1 "alpha" with _ | v5
    · exact Or.inr ⟨⟨0, "alpha", by
          dsimp only [createJacobian2DOF, dhAt]
          simp [bind, Except.bind, pure, Except.pure, Functor.map, Except.map, *]⟩,
        fun h => by have := h 0 "alpha" (by simp [dhReads]); simp_all⟩
    refine Or.inl ⟨by
          dsimp only [createJacobian2DOF, dhAt]
          simp [bind, Except.bind, pure, Except.pure, Functor.map, Except.map, *], ?_⟩
    rintro i key ⟨hi, hk⟩
    interval_cases i <;> rcases hk with rfl | rfl | ⟨rfl, hk⟩ | ⟨rfl, hk⟩ <;> simp_all
  · intro m1 m2 m3
    rcases h0 : m2 "d" with _ | v0
    · exact Or.inr ⟨⟨1, "d", by
          dsimp only [createJacobian3DOF, dhAt]
          simp [bind, Except.bind, pure, Except.pure, Functor.map, Except.map, *]⟩,
        fun h => by have := h 1 "d" (by simp [dhReads]); simp_all⟩
    rcases h1 : m3 "d" with _ | v1
    · exact Or.inr ⟨⟨2, "d", by
          dsimp only [createJacobian3DOF, dhAt]
          simp [bind, Except.bind, pure, Except.pure, Functor.map, Except.map, *]⟩,
        fun h => by have := h 2 "d" (by simp [dhReads]); simp_all⟩
    rcases h2 : m1 "r" with _ | v2
    · exact Or.inr ⟨⟨0, "r", by
          dsimp only [createJacobian3DOF, dhAt]
          simp [bind, Except.bind, pure, Except.pure, Functor.map, Except.map, *]⟩,
        fun h => by have := h 0 "r" (by simp [dhReads]); simp_all⟩
    rcases h3 : m2 "r" with _ | v3
    · exact Or.inr ⟨⟨1, "r", by
          dsimp only [createJacobian3DOF, dhAt]
          simp [bind, Except.bind, pure, Except.pure, Functor.map, Except.map, *]⟩,
        fun h => by have := h 1 "r" (by simp [dhReads]); simp_all⟩
    rcases h4 : m3 "r" with _ | v4
    · exact Or.inr ⟨⟨2, "r", by
          dsimp only [createJacobian3DOF, dhAt]
          simp [bind, Except.bind, pure, Except.pure, Functor.map, Except.map, *]⟩,
        fun h => by have := h 2 "r" (by simp [dhReads]); simp_all⟩
    rcases h5 : m1 "theta" with _ | v5
    · exact Or.inr ⟨⟨0, "theta", by
          dsimp only [createJacobian3DOF, dhAt]
          simp [bind, Except.bind, pure, Except.pure, Functor.map, Except.map, *]⟩,
        fun h => by have := h 0 "theta" (by simp [dhReads]); simp_all⟩
    rcases h6 : m2 "theta" with _ | v6
    · exact Or.inr ⟨⟨1, "theta", by
          dsimp only [createJacobian3DOF, dhAt]
          simp [bind, Except.bind, pure, Except.pure, Functor.map, Except.map, *]⟩,
        fun h => by have := h 1 "theta" (by simp [dhReads]); simp_all⟩
    rcases h7 : m3 "theta" with _ | v7
    · exact Or.inr ⟨⟨2, "theta", by
          dsimp only [createJacobian3DOF, dhAt]
          simp [bind, Except.bind, pure, Except.pure, Functor.map, Except.map, *]⟩,
        fun h => by have := h 2 "theta" (by simp [dhReads]); simp_all⟩
    rcases h8 : m1 "alpha" with _ | v8
    · exact Or.inr ⟨⟨0, "alpha", by
          dsimp only [createJacobian3DOF, dhAt]
          simp [bind, Except.bind, pure, Except.pure, Functor.map, Except.map, *]⟩,
        fun h => by have := h 0 "alpha" (by simp [dhReads]); simp_all⟩
    rcases h9 : m2 "alpha" with _ | v9
    · exact Or.inr ⟨⟨1, "alpha", by
          dsimp only [createJacobian3DOF, dhAt]
          simp [bind, Except.bind, pure, Except.pure, Functor.map, Except.map, *]⟩,
        fun h => by have := h 1 "alpha" (by simp [dhReads]); simp_all⟩
    refine Or.inl ⟨by
          dsimp only [createJacobian3DOF, dhAt]
          simp [bind, Except.bind, pure, Except.pure, Functor.map, Except.map, *], ?_⟩
    rintro i key ⟨hi, hk⟩
    interval_cases i <;> rcases hk with rfl | rfl | ⟨rfl, hk⟩ | ⟨rfl, hk⟩ <;> simp_all
  · intro m1 m2 m3 m4
    rcases h0 : m2 "d" with _ | v0
    · exact Or.inr ⟨⟨1, "d", by
          dsimp only [createJacobian4DOF, dhAt]
          simp [bind, Except.bind, pure, Except.pure, Functor.map, Except.map, *]⟩,
        fun h => by have := h 1 "d" (by simp [dhReads]); simp_all⟩
    rcases h1 : m3 "d" with _ | v1
    · exact Or.inr ⟨⟨2, "d", by
          dsimp only [createJacobian4DOF, dhAt]
          simp [bind, Except.bind, pure, Except.pure, Functor.map, Except.map, *]⟩,
        fun h => by have := h 2 "d" (by simp [dhReads]); simp_all⟩
    rcases h2 : m4 "d" with _ | v2
    · exact Or.inr ⟨⟨3, "d", by
          dsimp only [createJacobian4DOF, dhAt]
          simp [bind, Except.bind, pure, Except.pure, Functor.map, Except.map, *]⟩,
        fun h => by have := h 3 "d" (by simp [dhReads]); simp_all⟩
    rcases h3 : m1 "r" with _ | v3
    · exact Or.inr ⟨⟨0, "r", by
          dsimp only [createJacobian4DOF, dhAt]
          simp [bind, Except.bind, pure, Except.pure, Functor.map, Except.map, *]⟩,
        fun h => by have := h 0 "r" (by simp [dhReads]); simp_all⟩
    rcases h4 : m2 "r" with _ | v4
    · exact Or.inr ⟨⟨1, "r", by
          dsimp only [createJacobian4DOF, dhAt]
          simp [bind, Except.bind, pure, Except.pure, Functor.map, Except.map, *]⟩,
        fun h => by have := h 1 "r" (by simp [dhReads]); simp_all⟩
    rcases h5 : m3 "r" with _ | v5
    · exact Or.inr ⟨⟨2, "r", by
          dsimp only [createJacobian4DOF, dhAt]
          simp [bind, Except.bind, pure, Except.pure, Functor.map, Except.map, *]⟩,
        fun h => by have := h 2 "r" (by simp [dhReads]); simp_all⟩
    rcases h6 : m4 "r" with _ | v6
    · exact Or.inr ⟨⟨3, "r", by
          dsimp only [createJacobian4DOF, dhAt]
          simp [bind, Except.bind, pure, Except.pure, Functor.map, Except.map, *]⟩,
        fun h => by have := h 3 "r" (by simp [dhReads]); simp_all⟩
    rcases h7 : m1 "theta" with _ | v7
    · exact Or.inr ⟨⟨0, "theta", by
          dsimp only [createJacobian4DOF, dhAt]
          simp [bind, Except.bind, pure, Except.pure, Functor.map, Except.map, *]⟩,
        fun h => by have := h 0 "theta" (by simp [dhReads]); simp_all⟩
    rcases h8 : m2 "theta" with _ | v8
    · exact Or.inr ⟨⟨1, "theta", by
          dsimp only [createJacobian4DOF, dhAt]
          simp [bind, Except.bind, pure, Except.pure, Functor.map, Except.map, *]⟩,
        fun h => by have := h 1 "theta" (by simp [dhReads]); simp_all⟩
    rcases h9 : m3 "theta" with _ | v9
    · exact Or.inr ⟨⟨2, "theta", by
          dsimp only [createJacobian4DOF, dhAt]
          simp [bind, Except.bind, pure, Except.pure, Functor.map, Except.map, *]⟩,
        fun h => by have := h 2 "theta" (by simp [dhReads]); simp_all⟩
    rcases h10 : m4 "theta" with _ | v10
    · exact Or.inr ⟨⟨3, "theta", by
          dsimp only [createJacobian4DOF, dhAt]
          simp [bind, Except.bind, pure, Except.pure, Functor.map, Except.map, *]⟩,
        fun h => by have := h 3 "theta" (by simp [dhReads]); simp_all⟩
    rcases h11 : m1 "alpha" with _ | v11
    · exact Or.inr ⟨⟨0, "alpha", by
          dsimp only [createJacobian4DOF, dhAt]
          simp [bind, Except.bind, pure, Except.pure, Functor.map, Except.map, *]⟩,
        fun h => by have := h 0 "alpha" (by simp [dhReads]); simp_all⟩
    rcases h12 : m2 "alpha" with _ | v12
    · exact Or.inr ⟨⟨1, "alpha", by
          dsimp only [createJacobian4DOF, dhAt]
          simp [bind, Except.bind, pure, Except.pure, Functor.map, Except.map, *]⟩,
        fun h => by have := h 1 "alpha" (by simp [dhReads]); simp_all⟩
    rcases h13 : m3 "alpha" with _ | v13
    · exact Or.inr ⟨⟨2, "alpha", by
          dsimp only [createJacobian4DOF, dhAt]
          simp [bind, Except.bind, pure, Except.pure, Functor.map, Except.map, *]⟩,
        fun h => by have := h 2 "alpha" (by simp [dhReads]); simp_all⟩
    refine Or.inl ⟨by
          dsimp only [createJacobian4DOF, dhAt]
          simp [bind, Except.bind, pure, Except.pure, Functor.map, Except.map, *], ?_⟩
    rintro i key ⟨hi, hk⟩
    interval_cases i <;> rcases hk with rfl | rfl | ⟨rfl, hk⟩ | ⟨rfl, hk⟩ <;> simp_all
  · intro m1 m2 m3 m4 m5
    rcases h0 : m2 "d" with _ | v0
    · exact Or.inr ⟨⟨1, "d", by
          dsimp only [createJacobian5DOF, dhAt]
          simp [bind, Except.bind, pure, Except.pure, Functor.map, Except.map, *]⟩,
        fun h => by have := h 1 "d" (by simp [dhReads]); simp_all⟩
    rcases h1 : m3 "d" with _ | v1
    · exact Or.inr ⟨⟨2, "d", by
          dsimp only [createJacobian5DOF, dhAt]
          simp [bind, Except.bind, pure, Except.pure, Functor.map, Except.map, *]⟩,
        fun h => by have := h 2 "d" (by simp [dhReads]); simp_all⟩
    rcases h2 : m4 "d" with _ | v2
    · exact Or.inr ⟨⟨3, "d", by
          dsimp only [createJacobian5DOF, dhAt]
          simp [bind, Except.bind, pure, Except.pure, Functor.map, Except.map, *]⟩,
        fun h => by have := h 3 "d" (by simp [dhReads]); simp_all⟩
    rcases h3 : m5 "d" with _ | v3
    · exact Or.inr ⟨⟨4, "d", by
          dsimp only [createJacobian5DOF, dhAt]
          simp [bind, Except.bind, pure, Except.pure, Functor.map, Except.map, *]⟩,
        fun h => by have := h 4 "d" (by simp [dhReads]); simp_all⟩
    rcases h4 : m1 "r" with _ | v4
    · exact Or.inr ⟨⟨0, "r", by
          dsimp only [createJacobian5DOF, dhAt]
          simp [bind, Except.bind, pure, Except.pure, Functor.map, Except.map, *]⟩,
        fun h => by have := h 0 "r" (by simp [dhReads]); simp_all⟩
    rcases h5 : m2 "r" with _ | v5
    · exact Or.inr ⟨⟨1, "r", by
          dsimp only [createJacobian5DOF, dhAt]
          simp [bind, Except.bind, pure, Except.pure, Functor.map, Except.map, *]⟩,
        fun h => by have := h 1 "r" (by simp [dhReads]); simp_all⟩
    rcases h6 : m3 "r" with _ | v6
    · exact Or.inr ⟨⟨2, "r", by
          dsimp only [createJacobian5DOF, dhAt]
          simp [bind, Except.bind, pure, Except.pure, Functor.map, Except.map, *]⟩,
        fun h => by have := h 2 "r" (by simp [dhReads]); simp_all⟩
    rcases h7 : m4 "r" with _ | v7
    · exact Or.inr ⟨⟨3, "r", by
          dsimp only [createJacobian5DOF, dhAt]
          simp [bind, Except.bind, pure, Except.pure, Functor.map, Except.map, *]⟩,
        fun h => by have := h 3 "r" (by simp [dhReads]); simp_all⟩
    rcases h8 : m5 "r" with _ | v8
    · exact Or.inr ⟨⟨4, "r", by
          dsimp only [createJacobian5DOF, dhAt]
          simp [bind, Except.bind, pure, Except.pure, Functor.map, Except.map, *]⟩,
        fun h => by have := h 4 "r" (by simp [dhReads]); simp_all⟩
    rcases h9 : m1 "theta" with _ | v9
    · exact Or.inr ⟨⟨0, "theta", by
          dsimp only [createJacobian5DOF, dhAt]
          simp [bind, Except.bind, pure, Except.pure, Functor.map, Except.map, *]⟩,
        fun h => by have := h 0 "theta" (by simp [dhReads]); simp_all⟩
    rcases h10 : m2 "theta" with _ | v10
    · exact Or.inr ⟨⟨1, "theta", by
          dsimp only [createJacobian5DOF, dhAt]
          simp [bind, Except.bind, pure, Except.pure, Functor.map, Except.map, *]⟩,
        fun h => by have := h 1 "theta" (by simp [dhReads]); simp_all⟩
    rcases h11 : m3 "theta" with _ | v11
    · exact Or.inr ⟨⟨2, "theta", by
          dsimp only [createJacobian5DOF, dhAt]
          simp [bind, Except.bind, pure, Except.pure, Functor.map, Except.map, *]⟩,
        fun h => by have := h 2 "theta" (by simp [dhReads]); simp_all⟩
    rcases h12 : m4 "theta" with _ | v12
    · exact Or.inr ⟨⟨3, "theta", by
          dsimp only [createJacobian5DOF, dhAt]
          simp [bind, Except.bind, pure, Except.pure, Functor.map, Except.map, *]⟩,
        fun h => by have := h 3 "theta" (by simp [dhReads]); simp_all⟩
    rcases h13 : m5 "theta" with _ | v13
    · exact Or.inr ⟨⟨4, "theta", by
          dsimp only [createJacobian5DOF, dhAt]
          simp [bind, Except.bind, pure, Except.pure, Functor.map, Except.map, *]⟩,
        fun h => by have := h 4 "theta" (by simp [dhReads]); simp_all⟩
    rcases h14 : m1 "alpha" with _ | v14
    · exact Or.inr ⟨⟨0, "alpha", by
          dsimp only [createJacobian5DOF, dhAt]
          simp [bind, Except.bind, pure, Except.pure, Functor.map, Except.map, *]⟩,
        fun h => by have := h 0 "alpha" (by simp [dhReads]); simp_all⟩
    rcases h15 : m2 "alpha" with _ | v15
    · exact Or.inr ⟨⟨1, "alpha", by
          dsimp only [createJacobian5DOF, dhAt]
          simp [bind, Except.bind, pure, Except.pure, Functor.map, Except.map, *]⟩,
        fun h => by have := h 1 "alpha" (by simp [dhReads]); simp_all⟩
    rcases h16 : m3 "alpha" with _ | v16
    · exact Or.inr ⟨⟨2, "alpha", by
          dsimp only [createJacobian5DOF, dhAt]
          simp [bind, Except.bind, pure, Except.pure, Functor.map, Except.map, *]⟩,
        fun h => by have := h 2 "alpha" (by simp [dhReads]); simp_all⟩
    rcases h17 : m4 "alpha" with _ | v17
    · exact Or.inr ⟨⟨3, "alpha", by
          dsimp only [createJacobian5DOF, dhAt]
          simp [bind, Except.bind, pure, Except.pure, Functor.map, Except.map, *]⟩,
        fun h => by have := h 3 "alpha" (by simp [dhReads]); simp_all⟩
    refine Or.inl ⟨by
          dsimp only [createJacobian5DOF, dhAt]
          simp [bind, Except.bind, pure, Except.pure, Functor.map, Except.map, *], ?_⟩
    rintro i key ⟨hi, hk⟩
    interval_cases i <;> rcases hk with rfl | rfl | ⟨rfl, hk⟩ | ⟨rfl, hk⟩ <;> simp_all
/-! ### Rotations -/

/-- Rotating by the quaternion of the rotation vector (0, a, 0) is the rotation Ry(a), rotating by
the quaternion of (0, 0, a) is Rz(a) and its inverse rotation is Rz(−a); and the value of
`calculateFK` in terms of the rotations Ry and Rz. -/
theorem rotation_quaternions :
    (∀ (a : ℝ) (v : Vector3d ℝ),
      (Quat.ofRotationVector ⟨0, a, 0⟩).rotateVector v = Ry a v) ∧
    (∀ (a : ℝ) (v : Vector3d ℝ),
      (Quat.ofRotationVector ⟨0, 0, a⟩).rotateVector v = Rz a v) ∧
    (∀ (a : ℝ) (v : Vector3d ℝ),
      (Quat.ofRotationVector ⟨0, 0, a⟩).inverseRotateVector v = Rz (-a) v) ∧
    (∀ (leg : Leg ℝ) (yaw liftAngle kneeAngle : ℝ),
      leg.calculateFK yaw liftAngle kneeAngle =
      ⟨(Rz yaw (Ry (-liftAngle) (Ry kneeAngle leg.tipOffset + leg.kneeOffset) + leg.hipOffset)
          + leg.rootOffset).x * leg.mirrorDir,
       (Rz yaw (Ry (-liftAngle) (Ry kneeAngle leg.tipOffset + leg.kneeOffset) + leg.hipOffset)
          + leg.rootOffset).y,
       (Rz yaw (Ry (-liftAngle) (Ry kneeAngle leg.tipOffset + leg.kneeOffset) + leg.hipOffset)
          + leg.rootOffset).z⟩) := by
  have Vector3d_norm_axis_y : ∀ (a : ℝ),
      (Vector3d.mk 0 a 0).norm = |a| := by
    intro a
    dsimp only [Vector3d.norm]
    simp [Vector3d.squaredNorm, ← sq, Real.sqrt_sq_eq_abs]
  have Vector3d_norm_axis_z : ∀ (a : ℝ),
      (Vector3d.mk 0 0 a).norm = |a| := by
    intro a
    dsimp only [Vector3d.norm]
    simp [Vector3d.squaredNorm, ← sq, Real.sqrt_sq_eq_abs]
  -- Half-angle sine times the sign of the angle.
  have sin_half_abs_mul_sign : ∀ (a : ℝ),
      Real.sin (|a| / 2) * (a / |a|) = Real.sin (a / 2) := by
    intro a
    rcases lt_trichotomy a 0 with h | h | h
    · have h2 : a / |a| = -1 := by
        rw [abs_of_neg h, div_neg, div_self (ne_of_lt h)]
      rw [h2, abs_of_neg h, neg_div, Real.sin_neg]; ring
    · subst h; simp
    · rw [abs_of_pos h, div_self (ne_of_gt h), mul_one]
  have cos_half_abs : ∀ (a : ℝ),
      Real.cos (|a| / 2) = Real.cos (a / 2) := by
    intro a
    rw [← abs_two, ← abs_div, Real.cos_abs]
    norm_num
  -- The quaternion built from a rotation vector along the second axis.
  have Quat_ofRotationVector_axis_y : ∀ (a : ℝ),
      Quat.ofRotationVector ⟨0, a, 0⟩ = ⟨Real.cos (a / 2), 0, Real.sin (a / 2), 0⟩ := by
    intro a
    dsimp only [Quat.ofRotationVector]
    simp only [Vector3d_norm_axis_y, sin_half_abs_mul_sign, cos_half_abs]
    simp
  -- The quaternion built from a rotation vector along the vertical axis.
  have Quat_ofRotationVector_axis_z : ∀ (a : ℝ),
      Quat.ofRotationVector ⟨0, 0, a⟩ = ⟨Real.cos (a / 2), 0, 0, Real.sin (a / 2)⟩ := by
    intro a
    dsimp only [Quat.ofRotationVector]
    simp only [Vector3d_norm_axis_z, sin_half_abs_mul_sign, cos_half_abs]
    simp
  have cos_eq_half : ∀ (a : ℝ),
      Real.cos a = Real.cos (a / 2) * Real.cos (a / 2) - Real.sin (a / 2) * Real.sin (a / 2) := by
    intro a
    have h := Real.cos_add (a / 2) (a / 2)
    rw [add_halves] at h
    exact h
  have sin_eq_half : ∀ (a : ℝ),
      Real.sin a = 2 * Real.sin (a / 2) * Real.cos (a / 2) := by
    intro a
    have h := Real.sin_add (a / 2) (a / 2)
    rw [add_halves] at h
    rw [h]; ring
  -- Rotating by the quaternion of the rotation vector (0, a, 0) is the rotation Ry(a).
  have Quat_rotateVector_axis_y : ∀ (a : ℝ) (v : Vector3d ℝ),
      (Quat.ofRotationVector ⟨0, a, 0⟩).rotateVector v = Ry a v := by
    intro a v
    have hs := Real.sin_sq_add_cos_sq (a / 2)
    rw [Quat_ofRotationVector_axis_y]
    ext
    · dsimp only [Quat.rotateVector, Quat.mul, Quat.conj, Ry]
      simp only [cos_eq_half a, sin_eq_half a]
      ring
    · dsimp only [Quat.rotateVector, Quat.mul, Quat.conj, Ry]
      linear_combination v.y * hs
    · dsimp only [Quat.rotateVector, Quat.mul, Quat.conj, Ry]
      simp only [cos_eq_half a, sin_eq_half a]
      ring
  -- Rotating by the quaternion of the rotation vector (0, 0, a) is the rotation Rz(a).
  have Quat_rotateVector_axis_z : ∀ (a : ℝ) (v : Vector3d ℝ),
      (Quat.ofRotationVector ⟨0, 0, a⟩).rotateVector v = Rz a v := by
    intro a v
    have hs := Real.sin_sq_add_cos_sq (a / 2)
    rw [Quat_ofRotationVector_axis_z]
    ext
    · dsimp only [Quat.rotateVector, Quat.mul, Quat.conj, Rz]
      simp only [cos_eq_half a, sin_eq_half a]
      ring
    · dsimp only [Quat.rotateVector, Quat.mul, Quat.conj, Rz]
      simp only [cos_eq_half a, sin_eq_half a]
      ring
    · dsimp only [Quat.rotateVector, Quat.mul, Quat.conj, Rz]
      linear_combination v.z * hs
  -- The inverse rotation by the quaternion of the rotation vector (0, 0, a) is Rz(−a).
  have Quat_inverseRotateVector_axis_z : ∀ (a : ℝ) (v : Vector3d ℝ),
      (Quat.ofRotationVector ⟨0, 0, a⟩).inverseRotateVector v = Rz (-a) v := by
    intro a v
    have hs := Real.sin_sq_add_cos_sq (a / 2)
    rw [Quat_ofRotationVector_axis_z]
    ext
    · dsimp only [Quat.inverseRotateVector, Quat.rotateVector, Quat.mul, Quat.conj, Rz]
      simp only [Real.cos_neg, Real.sin_neg, cos_eq_half a, sin_eq_half a]
      ring
    · dsimp only [Quat.inverseRotateVector, Quat.rotateVector, Quat.mul, Quat.conj, Rz]
      simp only [Real.cos_neg, Real.sin_neg, cos_eq_half a, sin_eq_half a]
      ring
    · dsimp only [Quat.inverseRotateVector, Quat.rotateVector, Quat.mul, Quat.conj, Rz]
      linear_combination v.z * hs
  -- The value of `calculateFK` in terms of the rotations Ry and Rz.
  have Leg_calculateFK_rot : ∀ (leg : Leg ℝ) (yaw liftAngle kneeAngle : ℝ),
      leg.calculateFK yaw liftAngle kneeAngle =
      ⟨(Rz yaw (Ry (-liftAngle) (Ry kneeAngle leg.tipOffset + leg.kneeOffset) + leg.hipOffset)
          + leg.rootOffset).x * leg.mirrorDir,
       (Rz yaw (Ry (-liftAngle) (Ry kneeAngle leg.tipOffset + leg.kneeOffset) + leg.hipOffset)
          + leg.rootOffset).y,
       (Rz yaw (Ry (-liftAngle) (Ry kneeAngle leg.tipOffset + leg.kneeOffset) + leg.hipOffset)
          + leg.rootOffset).z⟩ := by
    intro leg yaw liftAngle kneeAngle
    dsimp only [Leg.calculateFK]
    simp only [Quat_rotateVector_axis_y, Quat_rotateVector_axis_z]
  exact ⟨Quat_rotateVector_axis_y, Quat_rotateVector_axis_z, Quat_inverseRotateVector_axis_z,
      Leg_calculateFK_rot⟩

/-! ### atan2 -/

/-- Polar form: (x, y) is its distance to the origin times (cos, sin) of atan2(y, x); rotating a
point by minus its own atan2 puts it on the positive X axis of the plane, and rotating the point
at that distance on the X axis back by atan2 restores it; atan2(0, a) = 0 for a ≥ 0. -/
theorem atan2_polar_form :
    (∀ (y x : ℝ),
      x = Real.sqrt (x * x + y * y) * Real.cos (atan2 y x) ∧
      y = Real.sqrt (x * x + y * y) * Real.sin (atan2 y x)) ∧
    (∀ (v : Vector3d ℝ),
      Rz (-(atan2 v.y v.x)) v = ⟨Real.sqrt (v.x * v.x + v.y * v.y), 0, v.z⟩) ∧
    (∀ (v : Vector3d ℝ) (z : ℝ),
      Rz (atan2 v.y v.x) ⟨Real.sqrt (v.x * v.x + v.y * v.y), 0, z⟩ = ⟨v.x, v.y, z⟩) ∧
    (∀ (a : ℝ) (_ : 0 ≤ a),
      atan2 0 a = 0) := by
  -- Polar form: (x, y) is its distance to the origin times (cos, sin) of atan2(y, x).
  have atan2_polar : ∀ (y x : ℝ),
      x = Real.sqrt (x * x + y * y) * Real.cos (atan2 y x) ∧
      y = Real.sqrt (x * x + y * y) * Real.sin (atan2 y x) := by
    intro y x
    by_cases h : (⟨x, y⟩ : ℂ) = 0
    · have hx : x = 0 := congrArg Complex.re h
      have hy : y = 0 := congrArg Complex.im h
      subst hx; subst hy
      simp
    · have habs : Complex.abs ⟨x, y⟩ = Real.sqrt (x * x + y * y) := by
        rw [Complex.abs_apply, Complex.normSq_mk]
      have hpos : Complex.abs ⟨x, y⟩ ≠ 0 := by
        simpa using h
      constructor
      · unfold atan2
        rw [Complex.cos_arg h, ← habs]
        field_simp
      · unfold atan2
        rw [Complex.sin_arg, ← habs]
        field_simp
  -- Rotating a point by minus its own atan2 puts it on the positive X axis of the plane.
  have Rz_neg_atan2 : ∀ (v : Vector3d ℝ),
      Rz (-(atan2 v.y v.x)) v = ⟨Real.sqrt (v.x * v.x + v.y * v.y), 0, v.z⟩ := by
    intro v
    obtain ⟨hx, hy⟩ := atan2_polar v.y v.x
    have hs := Real.sin_sq_add_cos_sq (atan2 v.y v.x)
    set r := Real.sqrt (v.x * v.x + v.y * v.y) with hr
    set c := Real.cos (atan2 v.y v.x) with hc
    set s := Real.sin (atan2 v.y v.x) with hsn
    ext
    · dsimp only [Rz]
      simp only [Real.cos_neg, Real.sin_neg, ← hc, ← hsn]
      rw [hx, hy]
      linear_combination r * hs
    · dsimp only [Rz]
      simp only [Real.cos_neg, Real.sin_neg, ← hc, ← hsn]
      rw [hx, hy]
      ring
    · rfl
  -- Rotating the point at distance r on the X axis back by atan2 restores the point.
  have Rz_atan2 : ∀ (v : Vector3d ℝ) (z : ℝ),
      Rz (atan2 v.y v.x) ⟨Real.sqrt (v.x * v.x + v.y * v.y), 0, z⟩ = ⟨v.x, v.y, z⟩ := by
    intro v z
    obtain ⟨hx, hy⟩ := atan2_polar v.y v.x
    ext
    · dsimp only [Rz]
      linarith
    · dsimp only [Rz]
      linarith
    · rfl
  have atan2_zero_of_nonneg : ∀ (a : ℝ) (ha : 0 ≤ a),
      atan2 0 a = 0 := by
    intro a ha
    exact Complex.arg_ofReal_of_nonneg ha
  exact ⟨atan2_polar, Rz_neg_atan2, Rz_atan2, atan2_zero_of_nonneg⟩

/-- `applyLocalIK` in terms of the locals the specification names: the Y component the planarity
assertion tests is −hipOffset.y; the two quotients are the arguments of the inverse cosines when
no divisor is zero; the yaw and the lift angle pass their assertions; the call returns the solved
angles when both arguments are in [−1, 1] and the knee angle passes its assertion, and fails when
the lift argument is outside [−1, 1]. -/
theorem applyLocalIK_outcome :
    (∀ (leg : Leg ℝ) (p : Vector3d ℝ),
      ({ x := p.x * leg.mirrorDir, y := p.y, z := p.z } : Vector3d ℝ) - leg.rootOffset
      = ikRootTarget leg p) ∧
    (∀ (leg : Leg ℝ) (p : Vector3d ℝ),
      (Rz (-(ikYaw leg p)) (ikRootTarget leg p) - leg.hipOffset).y = -leg.hipOffset.y) ∧
    (∀ (leg : Leg ℝ) (p : Vector3d ℝ) (updateStance : Bool),
      leg.applyLocalIK p updateStance =
      if ¬ (|leg.hipOffset.y| < 0.01) then none else
      (fdiv (sqr (ikLength leg p) + sqr leg.femurLength - sqr leg.tibiaLength)
        (2.0 * ikLength leg p * leg.femurLength)).bind fun liftArg =>
      (acos liftArg).bind fun lift =>
      (fdiv (-(sqr leg.femurLength + sqr leg.tibiaLength - sqr (ikLength leg p)))
        (2.0 * leg.femurLength * leg.tibiaLength)).bind fun kneeArg =>
      (acos kneeArg).bind fun kneeBend =>
      if ¬ (|ikYaw leg p| < 7.0) then none else
      if ¬ (|atan2 (ikSubVector leg p).z (ikSubVector leg p).x + lift| < 7.0) then none else
      if ¬ (|leg.tibiaAngleOffset + kneeBend| < 7.0) then none else
      some (⟨ikYaw leg p, atan2 (ikSubVector leg p).z (ikSubVector leg p).x + lift,
          leg.tibiaAngleOffset + kneeBend⟩,
        ({ leg with yaw := ikYaw leg p,
                    liftAngle := atan2 (ikSubVector leg p).z (ikSubVector leg p).x + lift,
                    kneeAngle := leg.tibiaAngleOffset + kneeBend }.applyFK updateStance).2)) ∧
    (∀ (leg : Leg ℝ) (p : Vector3d ℝ) (_ : ikLength leg p ≠ 0) (_ : leg.femurLength ≠ 0),
      fdiv (sqr (ikLength leg p) + sqr leg.femurLength - sqr leg.tibiaLength)
      (2.0 * ikLength leg p * leg.femurLength) = some (ikLiftArg leg p)) ∧
    (∀ (leg : Leg ℝ) (p : Vector3d ℝ) (_ : leg.femurLength ≠ 0) (_ : leg.tibiaLength ≠ 0),
      fdiv (-(sqr leg.femurLength + sqr leg.tibiaLength - sqr (ikLength leg p)))
      (2.0 * leg.femurLength * leg.tibiaLength) = some (ikKneeArg leg p)) ∧
    (∀ (leg : Leg ℝ) (p : Vector3d ℝ),
      |ikYaw leg p| < 7.0) ∧
    (∀ (leg : Leg ℝ) (p : Vector3d ℝ),
      |ikLiftAngle leg p| < 7.0) ∧
    (∀ (leg : Leg ℝ) (p : Vector3d ℝ) (updateStance : Bool) (_ : |leg.hipOffset.y| < 0.01) (_ :
        ikLength leg p ≠ 0) (_ : leg.femurLength ≠ 0) (_ : leg.tibiaLength ≠ 0) (_ : -1 ≤
        ikLiftArg leg p ∧ ikLiftArg leg p ≤ 1) (_ : -1 ≤ ikKneeArg leg p ∧ ikKneeArg leg p ≤ 1)
        (_ : |ikKneeAngle leg p| < 7.0),
      leg.applyLocalIK p updateStance =
      some (⟨ikYaw leg p, ikLiftAngle leg p, ikKneeAngle leg p⟩,
        ({ leg with yaw := ikYaw leg p, liftAngle := ikLiftAngle leg p,
                    kneeAngle := ikKneeAngle leg p }.applyFK updateStance).2)) ∧
    (∀ (leg : Leg ℝ) (p : Vector3d ℝ) (updateStance : Bool) (_ : ikLength leg p ≠ 0) (_ :
        leg.femurLength ≠ 0) (_ : ¬ (-1 ≤ ikLiftArg leg p ∧ ikLiftArg leg p ≤ 1)),
      leg.applyLocalIK p updateStance = none) := by
  have ikRootTarget_eq : ∀ (leg : Leg ℝ) (p : Vector3d ℝ),
      ({ x := p.x * leg.mirrorDir, y := p.y, z := p.z } : Vector3d ℝ) - leg.rootOffset
      = ikRootTarget leg p := by
    intro leg p
    ext <;> dsimp only [ikRootTarget] <;> simp [mul_comm]
  -- The Y component of the yaw-aligned target is exactly zero, so the component that the
  -- planarity assertion tests is −hipOffset.y.
  have ikAligned_y : ∀ (leg : Leg ℝ) (p : Vector3d ℝ),
      (Rz (-(ikYaw leg p)) (ikRootTarget leg p) - leg.hipOffset).y = -leg.hipOffset.y := by
    intro leg p
    unfold ikYaw
    rw [atan2_polar_form.2.1]
    simp
  -- The leg that a successful `applyLocalIK` leaves behind: the solved angles are stored and
  -- `applyFK` has run.
  have Leg_applyLocalIK_unfold : ∀ (leg : Leg ℝ) (p : Vector3d ℝ) (updateStance : Bool),
      leg.applyLocalIK p updateStance =
      if ¬ (|leg.hipOffset.y| < 0.01) then none else
      (fdiv (sqr (ikLength leg p) + sqr leg.femurLength - sqr leg.tibiaLength)
        (2.0 * ikLength leg p * leg.femurLength)).bind fun liftArg =>
      (acos liftArg).bind fun lift =>
      (fdiv (-(sqr leg.femurLength + sqr leg.tibiaLength - sqr (ikLength leg p)))
        (2.0 * leg.femurLength * leg.tibiaLength)).bind fun kneeArg =>
      (acos kneeArg).bind fun kneeBend =>
      if ¬ (|ikYaw leg p| < 7.0) then none else
      if ¬ (|atan2 (ikSubVector leg p).z (ikSubVector leg p).x + lift| < 7.0) then none else
      if ¬ (|leg.tibiaAngleOffset + kneeBend| < 7.0) then none else
      some (⟨ikYaw leg p, atan2 (ikSubVector leg p).z (ikSubVector leg p).x + lift,
          leg.tibiaAngleOffset + kneeBend⟩,
        ({ leg with yaw := ikYaw leg p,
                    liftAngle := atan2 (ikSubVector leg p).z (ikSubVector leg p).x + lift,
                    kneeAngle := leg.tibiaAngleOffset + kneeBend }.applyFK updateStance).2) := by
    intro leg p updateStance
    have h := ikAligned_y leg p
    dsimp only [Leg.applyLocalIK]
    simp only [rotation_quaternions.2.2.1, ikRootTarget_eq]
    rw [show atan2 (ikRootTarget leg p).y (ikRootTarget leg p).x = ikYaw leg p from rfl]
    rw [h, abs_neg]
    cases updateStance <;> rfl
  have fdiv_liftArg : ∀ (leg : Leg ℝ) (p : Vector3d ℝ) (hL : ikLength leg p ≠ 0) (hf :
      leg.femurLength ≠ 0),
      fdiv (sqr (ikLength leg p) + sqr leg.femurLength - sqr leg.tibiaLength)
      (2.0 * ikLength leg p * leg.femurLength) = some (ikLiftArg leg p) := by
    intro leg p hL hf
    have h2 : (2.0 : ℝ) = 2 := by norm_num
    have hd : (2.0 : ℝ) * ikLength leg p * leg.femurLength ≠ 0 := by
      rw [h2]; positivity
    unfold fdiv
    rw [if_neg hd]
    unfold ikLiftArg
    rw [h2]
    simp only [sqr, pow_two]
  have fdiv_kneeArg : ∀ (leg : Leg ℝ) (p : Vector3d ℝ) (hf : leg.femurLength ≠ 0) (ht :
      leg.tibiaLength ≠ 0),
      fdiv (-(sqr leg.femurLength + sqr leg.tibiaLength - sqr (ikLength leg p)))
      (2.0 * leg.femurLength * leg.tibiaLength) = some (ikKneeArg leg p) := by
    intro leg p hf ht
    have h2 : (2.0 : ℝ) = 2 := by norm_num
    have hd : (2.0 : ℝ) * leg.femurLength * leg.tibiaLength ≠ 0 := by
      rw [h2]; positivity
    unfold fdiv
    rw [if_neg hd]
    unfold ikKneeArg
    rw [h2]
    simp only [sqr, pow_two]
  have abs_ikYaw_lt : ∀ (leg : Leg ℝ) (p : Vector3d ℝ),
      |ikYaw leg p| < 7.0 := by
    intro leg p
    have h : |atan2 (ikRootTarget leg p).y (ikRootTarget leg p).x| ≤ Real.pi :=
      abs_le.mpr ⟨le_of_lt (Complex.neg_pi_lt_arg _), Complex.arg_le_pi _⟩
    have h7 : 2 * Real.pi < 7 := by linarith [Real.pi_lt_d2]
    have hp := Real.pi_pos
    unfold ikYaw
    norm_num
    linarith
  have abs_ikLiftAngle_lt : ∀ (leg : Leg ℝ) (p : Vector3d ℝ),
      |ikLiftAngle leg p| < 7.0 := by
    intro leg p
    have h1 : -Real.pi < atan2 (ikSubVector leg p).z (ikSubVector leg p).x := Complex.neg_pi_lt_arg
        _
    have h2 : atan2 (ikSubVector leg p).z (ikSubVector leg p).x ≤ Real.pi := Complex.arg_le_pi _
    have h3 := Real.arccos_nonneg (ikLiftArg leg p)
    have h4 := Real.arccos_le_pi (ikLiftArg leg p)
    have h7 : 2 * Real.pi < 7 := by linarith [Real.pi_lt_d2]
    have hp := Real.pi_pos
    unfold ikLiftAngle
    rw [abs_lt]
    norm_num
    constructor <;> linarith
  -- When `applyLocalIK` returns, and what: the planarity assertion passes, no divisor is zero,
  -- both inverse cosines are defined and the knee angle passes its assertion.
  have Leg_applyLocalIK_eq_some : ∀ (leg : Leg ℝ) (p : Vector3d ℝ) (updateStance : Bool) (hplan :
      |leg.hipOffset.y| < 0.01) (hL : ikLength leg p ≠ 0) (hf : leg.femurLength ≠ 0) (ht :
      leg.tibiaLength ≠ 0) (hlift : -1 ≤ ikLiftArg leg p ∧ ikLiftArg leg p ≤ 1) (hknee : -1 ≤
      ikKneeArg leg p ∧ ikKneeArg leg p ≤ 1) (hk7 : |ikKneeAngle leg p| < 7.0),
      leg.applyLocalIK p updateStance =
      some (⟨ikYaw leg p, ikLiftAngle leg p, ikKneeAngle leg p⟩,
        ({ leg with yaw := ikYaw leg p, liftAngle := ikLiftAngle leg p,
                    kneeAngle := ikKneeAngle leg p }.applyFK updateStance).2) := by
    intro leg p updateStance hplan hL hf ht hlift hknee hk7
    rw [Leg_applyLocalIK_unfold, if_neg (not_not.mpr hplan), fdiv_liftArg leg p hL hf,
      fdiv_kneeArg leg p hf ht]
    dsimp only [acos]
    simp only [Option.some_bind, if_pos hlift, if_pos hknee]
    have hl7 := abs_ikLiftAngle_lt leg p
    unfold ikLiftAngle at hl7
    unfold ikKneeAngle at hk7
    rw [if_neg (not_not.mpr (abs_ikYaw_lt leg p)), if_neg (not_not.mpr hl7),
      if_neg (not_not.mpr hk7)]
    rfl
  -- An inverse cosine outside its domain makes `applyLocalIK` fail (lift angle).
  have Leg_applyLocalIK_eq_none_of_liftArg : ∀ (leg : Leg ℝ) (p : Vector3d ℝ) (updateStance : Bool)
      (hL : ikLength leg p ≠ 0) (hf : leg.femurLength ≠ 0) (hlift : ¬ (-1 ≤ ikLiftArg leg p ∧
      ikLiftArg leg p ≤ 1)),
      leg.applyLocalIK p updateStance = none := by
    intro leg p updateStance hL hf hlift
    rw [Leg_applyLocalIK_unfold, fdiv_liftArg leg p hL hf]
    dsimp only [acos]
    simp only [Option.some_bind, if_neg hlift, Option.none_bind, ite_self]
  exact ⟨ikRootTarget_eq, ikAligned_y, Leg_applyLocalIK_unfold, fdiv_liftArg, fdiv_kneeArg,
      abs_ikYaw_lt, abs_ikLiftAngle_lt, Leg_applyLocalIK_eq_some,
      Leg_applyLocalIK_eq_none_of_liftArg⟩

/-! ### Legs after init -/

/-- What `init` leaves behind: the derived fields hold their formulas and the offsets are kept; the
law-of-cosines length lies between the difference and the sum of the two sides, so the link lengths
are non-negative, |femur − tibia| ≤ minLegLength and maxLegLength ≤ femur + tibia. -/
theorem initialised_lengths :
    (∀ (leg : Leg ℝ) (kb : Vector2d ℝ) (y l k : ℝ),
      (leg.init kb y l k).Initialised kb) ∧
    (∀ (leg : Leg ℝ) (kb : Vector2d ℝ) (y l k : ℝ),
      (leg.init kb y l k).rootOffset = leg.rootOffset ∧
      (leg.init kb y l k).hipOffset = leg.hipOffset ∧
      (leg.init kb y l k).kneeOffset = leg.kneeOffset ∧
      (leg.init kb y l k).tipOffset = leg.tipOffset ∧
      (leg.init kb y l k).mirrorDir = leg.mirrorDir) ∧
    (∀ (f t c : ℝ) (_ : 0 ≤ f) (_ : 0 ≤ t) (_ : -1 ≤ c) (_ : c ≤ 1),
      |f - t| ≤ Real.sqrt (sqr t + sqr f - 2.0 * f * t * c) ∧
      Real.sqrt (sqr t + sqr f - 2.0 * f * t * c) ≤ f + t) ∧
    (∀ {leg : Leg ℝ} {kb : Vector2d ℝ} (_ : leg.Initialised kb),
      0 ≤ leg.femurLength) ∧
    (∀ {leg : Leg ℝ} {kb : Vector2d ℝ} (_ : leg.Initialised kb),
      0 ≤ leg.tibiaLength) ∧
    (∀ {leg : Leg ℝ} {kb : Vector2d ℝ} (_ : leg.Initialised kb),
      |leg.femurLength - leg.tibiaLength| ≤ leg.minLegLength) ∧
    (∀ {leg : Leg ℝ} {kb : Vector2d ℝ} (_ : leg.Initialised kb),
      leg.maxLegLength ≤ leg.femurLength + leg.tibiaLength) := by
  have Leg_init_initialised : ∀ (leg : Leg ℝ) (kb : Vector2d ℝ) (y l k : ℝ),
      (leg.init kb y l k).Initialised kb := by
    intro leg kb y l k
    exact ⟨rfl, rfl, rfl, rfl, rfl, rfl, rfl⟩
  have Leg_init_offsets : ∀ (leg : Leg ℝ) (kb : Vector2d ℝ) (y l k : ℝ),
      (leg.init kb y l k).rootOffset = leg.rootOffset ∧
      (leg.init kb y l k).hipOffset = leg.hipOffset ∧
      (leg.init kb y l k).kneeOffset = leg.kneeOffset ∧
      (leg.init kb y l k).tipOffset = leg.tipOffset ∧
      (leg.init kb y l k).mirrorDir = leg.mirrorDir := by
    intro leg kb y l k
    exact ⟨rfl, rfl, rfl, rfl, rfl⟩
  -- The law-of-cosines length lies between the difference and the sum of the two sides.
  have cosineRule_bounds : ∀ (f t c : ℝ) (hf : 0 ≤ f) (ht : 0 ≤ t) (hc1 : -1 ≤ c) (hc2 : c ≤ 1),
      |f - t| ≤ Real.sqrt (sqr t + sqr f - 2.0 * f * t * c) ∧
      Real.sqrt (sqr t + sqr f - 2.0 * f * t * c) ≤ f + t := by
    intro f t c hf ht hc1 hc2
    have h2 : (2.0 : ℝ) = 2 := by norm_num
    have hft : 0 ≤ f * t := mul_nonneg hf ht
    rw [h2]
    constructor
    · apply Real.abs_le_sqrt
      simp only [sqr]
      nlinarith
    · apply Real.sqrt_le_iff.mpr
      constructor
      · linarith
      · simp only [sqr]
        nlinarith
  have Leg_Initialised_femurLength_nonneg : ∀ {leg : Leg ℝ} {kb : Vector2d ℝ} (h : leg.Initialised
      kb),
      0 ≤ leg.femurLength := by
    intro leg kb h
    rw [h.2.1]; exact Real.sqrt_nonneg _
  have Leg_Initialised_tibiaLength_nonneg : ∀ {leg : Leg ℝ} {kb : Vector2d ℝ} (h : leg.Initialised
      kb),
      0 ≤ leg.tibiaLength := by
    intro leg kb h
    rw [h.2.2.2.1]; exact Real.sqrt_nonneg _
  have Leg_Initialised_minLegLength_ge : ∀ {leg : Leg ℝ} {kb : Vector2d ℝ} (h : leg.Initialised kb),
      |leg.femurLength - leg.tibiaLength| ≤ leg.minLegLength := by
    intro leg kb h
    have hb := cosineRule_bounds leg.femurLength leg.tibiaLength
      (Real.cos (max 0.0 (Real.pi - kb.e1))) (Leg_Initialised_femurLength_nonneg h)
          (Leg_Initialised_tibiaLength_nonneg h)
      (Real.neg_one_le_cos _) (Real.cos_le_one _)
    rw [h.2.2.2.2.2.1]
    exact hb.1
  have Leg_Initialised_maxLegLength_le : ∀ {leg : Leg ℝ} {kb : Vector2d ℝ} (h : leg.Initialised kb),
      leg.maxLegLength ≤ leg.femurLength + leg.tibiaLength := by
    intro leg kb h
    have hb := cosineRule_bounds leg.femurLength leg.tibiaLength
      (Real.cos (Real.pi - max 0.0 kb.e0)) (Leg_Initialised_femurLength_nonneg h)
          (Leg_Initialised_tibiaLength_nonneg h)
      (Real.neg_one_le_cos _) (Real.cos_le_one _)
    rw [h.2.2.2.2.2.2]
    exact hb.2
  exact ⟨Leg_init_initialised, Leg_init_offsets, cosineRule_bounds,
      Leg_Initialised_femurLength_nonneg, Leg_Initialised_tibiaLength_nonneg,
      Leg_Initialised_minLegLength_ge, Leg_Initialised_maxLegLength_le⟩

theorem clamped_mem {α : Type} [LinearOrder α] (v lo hi : α) (h : lo ≤ hi) :
    lo ≤ clamped v lo hi ∧ clamped v lo hi ≤ hi :=
  ⟨le_max_left _ _, max_le h (min_le_right _ _)⟩

theorem clamped_of_mem {α : Type} [LinearOrder α] (v lo hi : α) (h1 : lo ≤ v) (h2 : v ≤ hi) :
    clamped v lo hi = v := by
  rw [clamped, min_eq_left h2, max_eq_right h1]

/-- On an initialised leg with a non-empty clamp range the clamped length is positive and inside the
triangle range; inside the triangle range both inverse-cosine arguments are in [−1, 1]; the knee
angle passes its assertion; so with positive link lengths `applyLocalIK` returns whenever the
planarity assertion passes. -/
theorem initialised_applyLocalIK :
    (∀ {leg : Leg ℝ} {kb : Vector2d ℝ} (_ : leg.Initialised kb) (p : Vector3d ℝ) (_ :
        leg.minLegLength + 1e-4 ≤ leg.maxLegLength - 1e-4),
      0 < ikLength leg p ∧ |leg.femurLength - leg.tibiaLength| ≤ ikLength leg p ∧
      ikLength leg p ≤ leg.femurLength + leg.tibiaLength) ∧
    (∀ (leg : Leg ℝ) (p : Vector3d ℝ) (_ : 0 < leg.femurLength) (_ : 0 < leg.tibiaLength) (_ : 0
        < ikLength leg p) (_ : |leg.femurLength - leg.tibiaLength| ≤ ikLength leg p) (_ : ikLength
        leg p ≤ leg.femurLength + leg.tibiaLength),
      (-1 ≤ ikLiftArg leg p ∧ ikLiftArg leg p ≤ 1) ∧
      (-1 ≤ ikKneeArg leg p ∧ ikKneeArg leg p ≤ 1)) ∧
    (∀ {leg : Leg ℝ} {kb : Vector2d ℝ} (_ : leg.Initialised kb) (p : Vector3d ℝ),
      |ikKneeAngle leg p| < 7.0) ∧
    (∀ {leg : Leg ℝ} {kb : Vector2d ℝ} (_ : leg.Initialised kb) (p : Vector3d ℝ) (updateStance :
        Bool) (_ : |leg.hipOffset.y| < 0.01) (_ : 0 < leg.femurLength) (_ : 0 <
        leg.tibiaLength) (_ : leg.minLegLength + 1e-4 ≤ leg.maxLegLength - 1e-4),
      leg.applyLocalIK p updateStance =
      some (⟨ikYaw leg p, ikLiftAngle leg p, ikKneeAngle leg p⟩,
        ({ leg with yaw := ikYaw leg p, liftAngle := ikLiftAngle leg p,
                    kneeAngle := ikKneeAngle leg p }.applyFK updateStance).2)) := by
  -- The clamped length of an initialised leg is positive and inside the triangle range.
  have Leg_Initialised_ikLength_bounds : ∀ {leg : Leg ℝ} {kb : Vector2d ℝ} (h : leg.Initialised kb)
      (p : Vector3d ℝ) (hr : leg.minLegLength + 1e-4 ≤ leg.maxLegLength - 1e-4),
      0 < ikLength leg p ∧ |leg.femurLength - leg.tibiaLength| ≤ ikLength leg p ∧
      ikLength leg p ≤ leg.femurLength + leg.tibiaLength := by
    intro leg kb h p hr
    have hc : leg.minLegLength + 1e-4 ≤ ikLength leg p ∧
        ikLength leg p ≤ leg.maxLegLength - 1e-4 := clamped_mem (ikSubVector leg p).norm _ _ hr
    have h1 := (initialised_lengths.2.2.2.2.2.1 h)
    have h2 := (initialised_lengths.2.2.2.2.2.2 h)
    have h0 := abs_nonneg (leg.femurLength - leg.tibiaLength)
    norm_num at hc
    refine ⟨by linarith, by linarith, by linarith⟩
  -- Inside the triangle range both inverse-cosine arguments are in [−1, 1].
  have ikArgs_mem : ∀ (leg : Leg ℝ) (p : Vector3d ℝ) (hf : 0 < leg.femurLength) (ht : 0 <
      leg.tibiaLength) (hL : 0 < ikLength leg p) (h1 : |leg.femurLength - leg.tibiaLength| ≤
      ikLength leg p) (h2 : ikLength leg p ≤ leg.femurLength + leg.tibiaLength),
      (-1 ≤ ikLiftArg leg p ∧ ikLiftArg leg p ≤ 1) ∧
      (-1 ≤ ikKneeArg leg p ∧ ikKneeArg leg p ≤ 1) := by
    intro leg p hf ht hL h1 h2
    obtain ⟨h3, h4⟩ := abs_le.mp h1
    have hLf : 0 < 2 * ikLength leg p * leg.femurLength := by positivity
    have hft : 0 < 2 * leg.femurLength * leg.tibiaLength := by positivity
    unfold ikLiftArg ikKneeArg
    rw [le_div_iff₀ hLf, div_le_iff₀ hLf, le_div_iff₀ hft, div_le_iff₀ hft]
    refine ⟨⟨?_, ?_⟩, ⟨?_, ?_⟩⟩ <;> nlinarith
  have Leg_Initialised_abs_ikKneeAngle_lt : ∀ {leg : Leg ℝ} {kb : Vector2d ℝ} (h : leg.Initialised
      kb) (p : Vector3d ℝ),
      |ikKneeAngle leg p| < 7.0 := by
    intro leg kb h p
    have h1 : -Real.pi < atan2 leg.tipOffset.z leg.tipOffset.x := Complex.neg_pi_lt_arg _
    have h2 : atan2 leg.tipOffset.z leg.tipOffset.x ≤ Real.pi := Complex.arg_le_pi _
    have h3 := Real.arccos_nonneg (ikKneeArg leg p)
    have h4 := Real.arccos_le_pi (ikKneeArg leg p)
    have h7 : 2 * Real.pi < 7 := by linarith [Real.pi_lt_d2]
    have hp := Real.pi_pos
    unfold ikKneeAngle
    rw [h.2.2.2.2.1, abs_lt]
    norm_num
    constructor <;> linarith
  -- On an initialised leg with positive link lengths and a non-empty clamp range, `applyLocalIK`
  -- returns whenever the planarity assertion passes.
  have Leg_Initialised_applyLocalIK_of_range : ∀ {leg : Leg ℝ} {kb : Vector2d ℝ} (h :
      leg.Initialised kb) (p : Vector3d ℝ) (updateStance : Bool) (hplan : |leg.hipOffset.y| < 0.01)
      (hf : 0 < leg.femurLength) (ht : 0 < leg.tibiaLength) (hr : leg.minLegLength + 1e-4 ≤
      leg.maxLegLength - 1e-4),
      leg.applyLocalIK p updateStance =
      some (⟨ikYaw leg p, ikLiftAngle leg p, ikKneeAngle leg p⟩,
        ({ leg with yaw := ikYaw leg p, liftAngle := ikLiftAngle leg p,
                    kneeAngle := ikKneeAngle leg p }.applyFK updateStance).2) := by
    intro leg kb h p updateStance hplan hf ht hr
    obtain ⟨hL0, hL1, hL2⟩ := (Leg_Initialised_ikLength_bounds h) p hr
    obtain ⟨hla, hka⟩ := ikArgs_mem leg p hf ht hL0 hL1 hL2
    exact applyLocalIK_outcome.2.2.2.2.2.2.2.1 leg p updateStance hplan hL0.ne' hf.ne' ht.ne' hla
        hka
      ((Leg_Initialised_abs_ikKneeAngle_lt h) p)
  exact ⟨Leg_Initialised_ikLength_bounds, ikArgs_mem, Leg_Initialised_abs_ikKneeAngle_lt,
      Leg_Initialised_applyLocalIK_of_range⟩

/-! ### Forward kinematics of the solved angles -/

/-- For a planar leg (hip offset in the sagittal plane, femur along X, tip offset in the plane)
and a target whose sub-problem length is inside the clamp range, forward kinematics of the solved
angles gives back the target exactly. -/
theorem Leg.Initialised.calculateFK_ik {leg : Leg ℝ} {kb : Vector2d ℝ} (h : leg.Initialised kb)
    (p : Vector3d ℝ) (hm : leg.mirrorDir * leg.mirrorDir = 1) (hhip : leg.hipOffset.y = 0)
    (hkx : 0 < leg.kneeOffset.x) (hky : leg.kneeOffset.y = 0) (hkz : leg.kneeOffset.z = 0)
    (hty : leg.tipOffset.y = 0) (ht : 0 < leg.tibiaLength)
    (hlo : leg.minLegLength + 1e-4 ≤ (ikSubVector leg p).norm)
    (hhi : (ikSubVector leg p).norm ≤ leg.maxLegLength - 1e-4) :
    leg.calculateFK (ikYaw leg p) (ikLiftAngle leg p) (ikKneeAngle leg p) = p := by
  -- Law of cosines and law of sines for the triangle with sides f, t and L: the inverse cosines
  -- of `applyLocalIK` are its angle between femur and target and its exterior angle at the knee.
  have triangle_facts : ∀ (f t L : ℝ) (hf : 0 < f) (ht : 0 < t) (hL : 0 < L),
      t * (-(f ^ 2 + t ^ 2 - L ^ 2) / (2 * f * t)) + f = L * ((L ^ 2 + f ^ 2 - t ^ 2) / (2 * L * f))
          ∧
      t * Real.sin (Real.arccos (-(f ^ 2 + t ^ 2 - L ^ 2) / (2 * f * t))) =
        L * Real.sin (Real.arccos ((L ^ 2 + f ^ 2 - t ^ 2) / (2 * L * f))) := by
    intro f t L hf ht hL
    constructor
    · field_simp
      ring
    · have key : ∀ a A : ℝ, 0 ≤ a → a * Real.sqrt A = Real.sqrt (a ^ 2 * A) := by
        intro a A ha
        rw [Real.sqrt_mul (sq_nonneg a), Real.sqrt_sq ha]
      rw [Real.sin_arccos, Real.sin_arccos, key t _ ht.le, key L _ hL.le]
      congr 1
      field_simp
      ring
  have twoLink_x : ∀ (f t L ck sk cl sl ca sa : ℝ) (h1 : t * ck + f = L * cl) (h2 : t * sk = L * sl)
      (hp : sl ^ 2 + cl ^ 2 = 1),
      (t * ck + f) * (ca * cl - sa * sl) + t * sk * (sa * cl + ca * sl) = L * ca := by
    intro f t L ck sk cl sl ca sa h1 h2 hp
    linear_combination (ca * cl - sa * sl) * h1 + (sa * cl + ca * sl) * h2 + L * ca * hp
  have twoLink_z : ∀ (f t L ck sk cl sl ca sa : ℝ) (h1 : t * ck + f = L * cl) (h2 : t * sk = L * sl)
      (hp : sl ^ 2 + cl ^ 2 = 1),
      (t * ck + f) * (sa * cl + ca * sl) - t * sk * (ca * cl - sa * sl) = L * sa := by
    intro f t L ck sk cl sl ca sa h1 h2 hp
    linear_combination (sa * cl + ca * sl) * h1 - (ca * cl - sa * sl) * h2 + L * sa * hp
  -- The tibia turned by the knee angle tibiaAngleOffset + kneeBend points along (cos kneeBend,
  -- −sin kneeBend): the angle offset of the tip cancels.
  have Ry_tip : ∀ (tx tz t phi kb : ℝ) (hx : tx = t * Real.cos phi) (hz : tz = t * Real.sin phi),
      Ry (phi + kb) ⟨tx, 0, tz⟩ = ⟨t * Real.cos kb, 0, -(t * Real.sin kb)⟩ := by
    intro tx tz t phi kb hx hz
    have hp := Real.sin_sq_add_cos_sq phi
    ext
    · dsimp only [Ry]
      simp only [Real.cos_add, Real.sin_add, hx, hz]
      linear_combination t * Real.cos kb * hp
    · rfl
    · dsimp only [Ry]
      simp only [Real.cos_add, Real.sin_add, hx, hz]
      linear_combination -(t * Real.sin kb) * hp
  -- the femur lies along X
  have hfe : leg.femurLength = leg.kneeOffset.x := by
    rw [h.2.1]
    unfold Vector3d.norm
    rw [Vector3d.squaredNorm, hky, hkz]
    simp only [mul_zero, add_zero]
    exact Real.sqrt_mul_self hkx.le
  have hf : 0 < leg.femurLength := hfe ▸ hkx
  have hknee : leg.kneeOffset = ⟨leg.femurLength, 0, 0⟩ := by
    ext
    · exact hfe.symm
    · exact hky
    · exact hkz
  -- the tip offset in polar form
  obtain ⟨htx, htz⟩ := atan2_polar_form.1 leg.tipOffset.z leg.tipOffset.x
  have htn : Real.sqrt (leg.tipOffset.x * leg.tipOffset.x + leg.tipOffset.z * leg.tipOffset.z)
      = leg.tibiaLength := by
    rw [h.2.2.2.1]
    unfold Vector3d.norm
    rw [Vector3d.squaredNorm, hty]
    simp only [mul_zero, add_zero]
  rw [htn, ← h.2.2.2.2.1] at htx htz
  have htip : leg.tipOffset = ⟨leg.tipOffset.x, 0, leg.tipOffset.z⟩ := by
    ext
    · rfl
    · exact hty
    · rfl
  -- the clamp leaves the length as it is, inside the triangle range
  have hLv : ikLength leg p = (ikSubVector leg p).norm := clamped_of_mem _ _ _ hlo hhi
  obtain ⟨hL0, hL1, hL2⟩ := (initialised_applyLocalIK.1 h) p (hlo.trans hhi)
  obtain ⟨hla, hka⟩ := initialised_applyLocalIK.2.1 leg p hf ht hL0 hL1 hL2
  -- the sub-problem vector in polar form
  obtain ⟨hvx, hvz⟩ := atan2_polar_form.1 (ikSubVector leg p).z (ikSubVector leg p).x
  have hvn : Real.sqrt ((ikSubVector leg p).x * (ikSubVector leg p).x +
      (ikSubVector leg p).z * (ikSubVector leg p).z) = ikLength leg p := by
    rw [hLv]
    unfold Vector3d.norm
    rw [Vector3d.squaredNorm]
    dsimp only [ikSubVector]
    simp
  rw [hvn] at hvx hvz
  -- the triangle
  obtain ⟨T1, T2⟩ : leg.tibiaLength * ikKneeArg leg p + leg.femurLength =
        ikLength leg p * ikLiftArg leg p ∧
      leg.tibiaLength * Real.sin (Real.arccos (ikKneeArg leg p)) =
        ikLength leg p * Real.sin (Real.arccos (ikLiftArg leg p)) :=
    triangle_facts leg.femurLength leg.tibiaLength (ikLength leg p) hf ht hL0
  have hpl := Real.sin_sq_add_cos_sq (Real.arccos (ikLiftArg leg p))
  rw [Real.cos_arccos hla.1 hla.2] at hpl
  -- femur and tibia in the sagittal plane
  have hsag : Ry (-(ikLiftAngle leg p)) (Ry (ikKneeAngle leg p) leg.tipOffset + leg.kneeOffset)
      = ikSubVector leg p := by
    rw [htip]
    unfold ikKneeAngle
    rw [Ry_tip _ _ _ _ _ htx htz, hknee]
    ext
    · dsimp only [Ry, ikLiftAngle]
      simp only [Real.cos_neg, Real.sin_neg, Real.cos_add, Real.sin_add,
        Real.cos_arccos hla.1 hla.2, Real.cos_arccos hka.1 hka.2, Vector3d.add_x, Vector3d.add_z]
      have := twoLink_x _ _ _ _ _ _ _ (Real.cos (atan2 (ikSubVector leg p).z (ikSubVector leg p).x))
        (Real.sin (atan2 (ikSubVector leg p).z (ikSubVector leg p).x)) T1 T2 hpl
      linarith
    · dsimp only [Ry, ikSubVector]
      simp
    · dsimp only [Ry, ikLiftAngle]
      simp only [Real.cos_neg, Real.sin_neg, Real.cos_add, Real.sin_add,
        Real.cos_arccos hla.1 hla.2, Real.cos_arccos hka.1 hka.2, Vector3d.add_x, Vector3d.add_z]
      have := twoLink_z _ _ _ _ _ _ _ (Real.cos (atan2 (ikSubVector leg p).z (ikSubVector leg p).x))
        (Real.sin (atan2 (ikSubVector leg p).z (ikSubVector leg p).x)) T1 T2 hpl
      linarith
  -- back through the hip offset and the yaw
  have hback : ikSubVector leg p + leg.hipOffset =
      ⟨Real.sqrt ((ikRootTarget leg p).x * (ikRootTarget leg p).x +
        (ikRootTarget leg p).y * (ikRootTarget leg p).y), 0, (ikRootTarget leg p).z⟩ := by
    ext <;> dsimp only [ikSubVector, ikYaw] <;> simp [atan2_polar_form.2.1, hhip]
  rw [rotation_quaternions.2.2.2, hsag, hback]
  unfold ikYaw
  rw [atan2_polar_form.2.2.1]
  ext
  · dsimp only [ikRootTarget]
    simp only [Vector3d.add_x, Vector3d.sub_x]
    linear_combination p.x * hm
  · dsimp only [ikRootTarget]
    simp
  · dsimp only [ikRootTarget]
    simp

/-! ### Legs with the lengths and knee limits of the concrete scenario -/

/-- Legs with the link lengths 0.2 and 0.15 and the knee-bend limits [0.1, 3.0] of the concrete
scenario: the norm of a vector along X, minLegLength and maxLegLength, the reachable range
minLegLength ≤ 0.06 and 0.34 ≤ maxLegLength, the leg `init` builds from the scenario offsets, and
the clamp range around 0.25. -/
theorem scenario_leg_facts :
    (∀ (a : ℝ) (_ : 0 ≤ a),
      (Vector3d.mk a 0 0).norm = a) ∧
    (∀ {leg : Leg ℝ} (_ : leg.Initialised scenarioKneeBend) (_ : leg.femurLength = 0.2) (_ :
        leg.tibiaLength = 0.15),
      leg.minLegLength =
      Real.sqrt (0.2 ^ 2 + 0.15 ^ 2 - 2 * 0.2 * 0.15 * Real.cos (Real.pi - 3.0))) ∧
    (∀ {leg : Leg ℝ} (_ : leg.Initialised scenarioKneeBend) (_ : leg.femurLength = 0.2) (_ :
        leg.tibiaLength = 0.15),
      leg.maxLegLength =
      Real.sqrt (0.2 ^ 2 + 0.15 ^ 2 - 2 * 0.2 * 0.15 * Real.cos (Real.pi - 0.1))) ∧
    (∀ {leg : Leg ℝ} (_ : leg.Initialised scenarioKneeBend) (_ : leg.femurLength = 0.2) (_ :
        leg.tibiaLength = 0.15),
      leg.minLegLength ≤ 0.06 ∧ 0.34 ≤ leg.maxLegLength) ∧
    (∀ (m y l k : ℝ),
      ((scenarioOffsets m).init scenarioKneeBend y l k).Initialised scenarioKneeBend) ∧
    (∀ (m y l k : ℝ),
      ((scenarioOffsets m).init scenarioKneeBend y l k).femurLength = 0.2) ∧
    (∀ (m y l k : ℝ),
      ((scenarioOffsets m).init scenarioKneeBend y l k).tibiaLength = 0.15) ∧
    (∀ {leg : Leg ℝ} (_ : leg.Initialised scenarioKneeBend) (_ : leg.femurLength = 0.2) (_ :
        leg.tibiaLength = 0.15),
      leg.minLegLength + 1e-4 ≤ 0.25 ∧ 0.25 ≤ leg.maxLegLength - 1e-4) := by
  have Vector3d_norm_axis_x : ∀ (a : ℝ) (ha : 0 ≤ a),
      (Vector3d.mk a 0 0).norm = a := by
    intro a ha
    dsimp only [Vector3d.norm]
    simp [Vector3d.squaredNorm, Real.sqrt_mul_self ha]
  have scenarioLengths_minLegLength : ∀ {leg : Leg ℝ} (h : leg.Initialised scenarioKneeBend) (hf :
      leg.femurLength = 0.2) (ht : leg.tibiaLength = 0.15),
      leg.minLegLength =
      Real.sqrt (0.2 ^ 2 + 0.15 ^ 2 - 2 * 0.2 * 0.15 * Real.cos (Real.pi - 3.0)) := by
    intro leg h hf ht
    have h3 : max (0.0 : ℝ) (Real.pi - 3.0) = Real.pi - 3.0 := by
      apply max_eq_right
      have := Real.pi_gt_three
      norm_num
      linarith
    rw [h.2.2.2.2.2.1, hf, ht]
    dsimp only [scenarioKneeBend]
    simp only [h3, sqr]
    congr 1
    ring
  have scenarioLengths_maxLegLength : ∀ {leg : Leg ℝ} (h : leg.Initialised scenarioKneeBend) (hf :
      leg.femurLength = 0.2) (ht : leg.tibiaLength = 0.15),
      leg.maxLegLength =
      Real.sqrt (0.2 ^ 2 + 0.15 ^ 2 - 2 * 0.2 * 0.15 * Real.cos (Real.pi - 0.1)) := by
    intro leg h hf ht
    have h3 : max (0.0 : ℝ) 0.1 = 0.1 := by
      apply max_eq_right
      norm_num
    rw [h.2.2.2.2.2.2, hf, ht]
    dsimp only [scenarioKneeBend]
    simp only [h3, sqr]
    congr 1
    ring
  -- The reachable range of such a leg: minLegLength ≤ 0.06 and 0.34 ≤ maxLegLength.
  have scenarioLengths_range : ∀ {leg : Leg ℝ} (h : leg.Initialised scenarioKneeBend) (hf :
      leg.femurLength = 0.2) (ht : leg.tibiaLength = 0.15),
      leg.minLegLength ≤ 0.06 ∧ 0.34 ≤ leg.maxLegLength := by
    intro leg h hf ht
    have hp1 := Real.pi_gt_d2
    have hp2 := Real.pi_lt_d2
    have hc1 := @Real.one_sub_sq_div_two_le_cos (Real.pi - 3.0)
    have hc2 := @Real.one_sub_sq_div_two_le_cos (0.1 : ℝ)
    rw [scenarioLengths_minLegLength h hf ht, scenarioLengths_maxLegLength h hf ht,
      Real.cos_pi_sub]
    constructor
    · apply Real.sqrt_le_iff.mpr
      constructor
      · norm_num
      · norm_num at hc1 hp1 hp2 ⊢
        nlinarith
    · apply Real.le_sqrt_of_sq_le
      norm_num at hc2 ⊢
      nlinarith
  have scenario_initialised : ∀ (m y l k : ℝ),
      ((scenarioOffsets m).init scenarioKneeBend y l k).Initialised scenarioKneeBend := by
    intro m y l k
    exact initialised_lengths.1 _ _ _ _ _
  have scenario_femurLength : ∀ (m y l k : ℝ),
      ((scenarioOffsets m).init scenarioKneeBend y l k).femurLength = 0.2 := by
    intro m y l k
    exact Vector3d_norm_axis_x 0.2 (by norm_num)
  have scenario_tibiaLength : ∀ (m y l k : ℝ),
      ((scenarioOffsets m).init scenarioKneeBend y l k).tibiaLength = 0.15 := by
    intro m y l k
    exact Vector3d_norm_axis_x 0.15 (by norm_num)
  have scenario_clampRange : ∀ {leg : Leg ℝ} (h : leg.Initialised scenarioKneeBend) (hf :
      leg.femurLength = 0.2) (ht : leg.tibiaLength = 0.15),
      leg.minLegLength + 1e-4 ≤ 0.25 ∧ 0.25 ≤ leg.maxLegLength - 1e-4 := by
    intro leg h hf ht
    obtain ⟨h1, h2⟩ := scenarioLengths_range h hf ht
    norm_num at h1 h2 ⊢
    constructor <;> linarith
  exact ⟨Vector3d_norm_axis_x, scenarioLengths_minLegLength, scenarioLengths_maxLegLength,
      scenarioLengths_range, scenario_initialised, scenario_femurLength, scenario_tibiaLength,
      scenario_clampRange⟩

/-! ### Targets on the X axis of a leg rooted at the origin -/

/-- Targets on the X axis of a leg rooted at the origin: the yaw and the sub-problem vector; with
hipOffset = (0.1, 0, 0) a target at distance 0.35 has the sub-problem length 0.25; and with the
link lengths and knee limits of the scenario, hipOffset = (0.1, h, 0) and mirrorDir = 1, the
targets (1, 0, 0) and (0.1 + maxLegLength, 0, 0) have the same yaw and sub-problem direction, the
first has a sub-problem length above maxLegLength and the second has it equal to maxLegLength. -/
theorem axis_target_facts :
    (∀ (leg : Leg ℝ) (a : ℝ) (_ : leg.rootOffset = ⟨0, 0, 0⟩),
      ikYaw leg ⟨a, 0, 0⟩ = atan2 0 (leg.mirrorDir * a)) ∧
    (∀ (leg : Leg ℝ) (a : ℝ) (_ : leg.rootOffset = ⟨0, 0, 0⟩) (_ : leg.hipOffset = ⟨0.1, 0,
        0⟩) (_ : |leg.mirrorDir * a| = 0.35),
      (ikSubVector leg ⟨a, 0, 0⟩).norm = 0.25) ∧
    (∀ (leg : Leg ℝ) (_ : leg.Initialised scenarioKneeBend) (_ : leg.femurLength = 0.2) (_ :
        leg.tibiaLength = 0.15) (_ : leg.rootOffset = ⟨0, 0, 0⟩) (_ : leg.mirrorDir = 1) (_ :
        leg.hipOffset.x = 0.1) (_ : leg.hipOffset.z = 0),
      ikYaw leg ⟨1, 0, 0⟩ = ikYaw leg ⟨0.1 + leg.maxLegLength, 0, 0⟩ ∧
      atan2 (ikSubVector leg ⟨1, 0, 0⟩).z (ikSubVector leg ⟨1, 0, 0⟩).x =
        atan2 (ikSubVector leg ⟨0.1 + leg.maxLegLength, 0, 0⟩).z
          (ikSubVector leg ⟨0.1 + leg.maxLegLength, 0, 0⟩).x ∧
      leg.maxLegLength < (ikSubVector leg ⟨1, 0, 0⟩).norm ∧
      (ikSubVector leg ⟨0.1 + leg.maxLegLength, 0, 0⟩).norm = leg.maxLegLength) := by
  have ikRootTarget_axis : ∀ (leg : Leg ℝ) (a : ℝ) (hroot : leg.rootOffset = ⟨0, 0, 0⟩),
      ikRootTarget leg ⟨a, 0, 0⟩ = ⟨leg.mirrorDir * a, 0, 0⟩ := by
    intro leg a hroot
    ext <;> dsimp only [ikRootTarget] <;> simp [hroot]
  have ikYaw_axis : ∀ (leg : Leg ℝ) (a : ℝ) (hroot : leg.rootOffset = ⟨0, 0, 0⟩),
      ikYaw leg ⟨a, 0, 0⟩ = atan2 0 (leg.mirrorDir * a) := by
    intro leg a hroot
    unfold ikYaw
    rw [ikRootTarget_axis leg a hroot]
  have ikSubVector_axis : ∀ (leg : Leg ℝ) (a : ℝ) (hroot : leg.rootOffset = ⟨0, 0, 0⟩),
      ikSubVector leg ⟨a, 0, 0⟩ = ⟨|leg.mirrorDir * a| - leg.hipOffset.x, 0, -leg.hipOffset.z⟩ := by
    intro leg a hroot
    have h := atan2_polar_form.2.1 (ikRootTarget leg ⟨a, 0, 0⟩)
    unfold ikSubVector ikYaw
    rw [h, ikRootTarget_axis leg a hroot]
    ext <;> simp [← sq, Real.sqrt_sq_eq_abs]
  -- For a leg rooted at the origin with hipOffset = (0.1, 0, 0), a target on the X axis at
  -- distance 0.35 has the sub-problem vector (0.25, 0, 0).
  have scenario_subVector : ∀ (leg : Leg ℝ) (a : ℝ) (hroot : leg.rootOffset = ⟨0, 0, 0⟩) (hhip :
      leg.hipOffset = ⟨0.1, 0, 0⟩) (ha : |leg.mirrorDir * a| = 0.35),
      ikSubVector leg ⟨a, 0, 0⟩ = ⟨0.25, 0, 0⟩ := by
    intro leg a hroot hhip ha
    rw [ikSubVector_axis leg a hroot, ha, hhip]
    ext <;> norm_num
  have scenario_subVector_norm : ∀ (leg : Leg ℝ) (a : ℝ) (hroot : leg.rootOffset = ⟨0, 0, 0⟩)
      (hhip : leg.hipOffset = ⟨0.1, 0, 0⟩) (ha : |leg.mirrorDir * a| = 0.35),
      (ikSubVector leg ⟨a, 0, 0⟩).norm = 0.25 := by
    intro leg a hroot hhip ha
    rw [scenario_subVector leg a hroot hhip ha]
    exact scenario_leg_facts.1 0.25 (by norm_num)
  -- For a leg rooted at the origin with the link lengths and knee limits of the scenario,
  -- hipOffset = (0.1, h, 0) and mirrorDir = 1: the targets (1, 0, 0) and (0.1 + maxLegLength, 0, 0)
  -- have the same yaw and sub-problem direction, the first has a sub-problem length above
  -- maxLegLength and the second has it equal to maxLegLength.
  have overreach_targets : ∀ (leg : Leg ℝ) (hi : leg.Initialised scenarioKneeBend) (hf :
      leg.femurLength = 0.2) (ht : leg.tibiaLength = 0.15) (hroot : leg.rootOffset = ⟨0, 0, 0⟩)
      (hm : leg.mirrorDir = 1) (hhx : leg.hipOffset.x = 0.1) (hhz : leg.hipOffset.z = 0),
      ikYaw leg ⟨1, 0, 0⟩ = ikYaw leg ⟨0.1 + leg.maxLegLength, 0, 0⟩ ∧
      atan2 (ikSubVector leg ⟨1, 0, 0⟩).z (ikSubVector leg ⟨1, 0, 0⟩).x =
        atan2 (ikSubVector leg ⟨0.1 + leg.maxLegLength, 0, 0⟩).z
          (ikSubVector leg ⟨0.1 + leg.maxLegLength, 0, 0⟩).x ∧
      leg.maxLegLength < (ikSubVector leg ⟨1, 0, 0⟩).norm ∧
      (ikSubVector leg ⟨0.1 + leg.maxLegLength, 0, 0⟩).norm = leg.maxLegLength := by
    intro leg hi hf ht hroot hm hhx hhz
    obtain ⟨h3, h4⟩ := scenario_leg_facts.2.2.2.1 hi hf ht
    have hmax := (initialised_lengths.2.2.2.2.2.2 hi)
    rw [hf, ht] at hmax
    have hpos : 0 ≤ 0.1 + leg.maxLegLength := by
      norm_num at h4 ⊢; linarith
    have hv1 : ikSubVector leg ⟨1, 0, 0⟩ = ⟨0.9, 0, 0⟩ := by
      rw [ikSubVector_axis leg 1 hroot, hm, hhx, hhz]
      ext <;> norm_num
    have hv2 : ikSubVector leg ⟨0.1 + leg.maxLegLength, 0, 0⟩ = ⟨leg.maxLegLength, 0, 0⟩ := by
      rw [ikSubVector_axis leg _ hroot, hm, hhx, hhz, one_mul, abs_of_nonneg hpos]
      ext <;> norm_num
    refine ⟨?_, ?_, ?_, ?_⟩
    · rw [ikYaw_axis leg 1 hroot, ikYaw_axis leg _ hroot, hm, one_mul, one_mul,
        atan2_polar_form.2.2.2 1 (by norm_num), atan2_polar_form.2.2.2 _ hpos]
    · rw [hv1, hv2]
      show atan2 0 0.9 = atan2 0 leg.maxLegLength
      rw [atan2_polar_form.2.2.2 0.9 (by norm_num),
        atan2_polar_form.2.2.2 _ (by norm_num at h4 ⊢; linarith)]
    · rw [hv1, scenario_leg_facts.1 0.9 (by norm_num)]
      norm_num at hmax ⊢; linarith
    · rw [hv2, scenario_leg_facts.1 _ (by norm_num at h4 ⊢; linarith)]
  exact ⟨ikYaw_axis, scenario_subVector_norm, overreach_targets⟩
/-! ### getJointPositions -/

theorem finRange_four : List.finRange 4 = [0, 1, 2, 3] := by
  decide

/-- The unrolled loops of `getJointPositions`: the positions of the six legs are appended, side
0 before side 1 and within a side the legs 0, 1, 2, when the tip of every leg has a squared norm
below 1000; otherwise the call fails. The model is handed on as it was. Under the identity pose
the tip of a scenario leg with all joint angles 0 is (0.45·mirrorDir, 0, 0), and the tips of the
six legs of the scenario model have a squared norm below 1000. -/
theorem getJointPositions_unrolled :
    (∀ (m : Model ℝ) (pose : Pose ℝ),
      m.getJointPositions pose =
      if ((m.legs 0 0).jointPosition pose 3).squaredNorm < 1000 ∧
          ((m.legs 1 0).jointPosition pose 3).squaredNorm < 1000 ∧
          ((m.legs 2 0).jointPosition pose 3).squaredNorm < 1000 ∧
          ((m.legs 0 1).jointPosition pose 3).squaredNorm < 1000 ∧
          ((m.legs 1 1).jointPosition pose 3).squaredNorm < 1000 ∧
          ((m.legs 2 1).jointPosition pose 3).squaredNorm < 1000 then
        some ((List.finRange 2).flatMap fun s => (List.finRange 3).flatMap fun l =>
          (List.finRange 4).map fun k => (m.legs l s).jointPosition pose k, m)
      else none) ∧
    (∀ (mirrorDir : ℝ),
      (scenarioOffsets mirrorDir).jointPosition Pose.identity 3 = ⟨0.45 * mirrorDir, 0, 0⟩) ∧
    (((scenarioModel.legs 0 0).jointPosition Pose.identity 3).squaredNorm < 1000 ∧
      ((scenarioModel.legs 1 0).jointPosition Pose.identity 3).squaredNorm < 1000 ∧
      ((scenarioModel.legs 2 0).jointPosition Pose.identity 3).squaredNorm < 1000 ∧
      ((scenarioModel.legs 0 1).jointPosition Pose.identity 3).squaredNorm < 1000 ∧
      ((scenarioModel.legs 1 1).jointPosition Pose.identity 3).squaredNorm < 1000 ∧
      ((scenarioModel.legs 2 1).jointPosition Pose.identity 3).squaredNorm < 1000) := by
  -- Rotating by a product of quaternions is rotating by the right factor, then by the left.
  have Quat_rotateVector_mul : ∀ (p q : Quat ℝ) (v : Vector3d ℝ),
      (p.mul q).rotateVector v = p.rotateVector (q.rotateVector v) := by
    intro p q v
    ext <;> dsimp only [Quat.rotateVector, Quat.mul, Quat.conj] <;> ring
  have Leg_chainPosition_zero : ∀ (leg : Leg ℝ),
      leg.chainPosition 0 = leg.rootOffset := by
    intro leg
    exact rfl
  have Leg_chainPosition_one : ∀ (leg : Leg ℝ),
      leg.chainPosition 1 = leg.rootOffset + Rz leg.yaw leg.hipOffset := by
    intro leg
    ext <;> dsimp only [Leg.chainPosition, Rz] <;> simp <;> ring
  have Leg_chainPosition_two : ∀ (leg : Leg ℝ),
      leg.chainPosition 2 = leg.rootOffset + Rz leg.yaw leg.hipOffset +
      Rz leg.yaw (Ry (-leg.liftAngle) leg.kneeOffset) := by
    intro leg
    ext <;> dsimp only [Leg.chainPosition, Rz] <;> simp <;> ring
  have Leg_chainPosition_three : ∀ (leg : Leg ℝ),
      leg.chainPosition 3 = leg.rootOffset + Rz leg.yaw leg.hipOffset +
      Rz leg.yaw (Ry (-leg.liftAngle) leg.kneeOffset) +
      Rz leg.yaw (Ry (-leg.liftAngle) (Ry leg.kneeAngle leg.tipOffset)) := by
    intro leg
    ext <;> dsimp only [Leg.chainPosition, Rz, Ry] <;> simp <;> ring
  -- What one pass of the loop body of `getJointPositions` does: it appends the four positions of
  -- the leg when the squared norm of the tip position is below 1000 and fails otherwise.
  have Model_getJointPositionsBody_eq : ∀ (pose : Pose ℝ) (s : Fin 2) (l : Fin 3) (st : List
      (Vector3d
      ℝ) × Model ℝ),
      Model.getJointPositionsBody pose s l st =
      if ((st.2.legs l s).jointPosition pose 3).squaredNorm < 1000 then
        some (st.1 ++ [(st.2.legs l s).jointPosition pose 0, (st.2.legs l s).jointPosition pose 1,
          (st.2.legs l s).jointPosition pose 2, (st.2.legs l s).jointPosition pose 3], st.2)
      else none := by
    intro pose s l st
    have h1000 : (1000.0 : ℝ) = 1000 := by norm_num
    dsimp only [Model.getJointPositionsBody, Pose.mul, Leg.jointPosition]
    simp only [Quat_rotateVector_mul, rotation_quaternions.1, rotation_quaternions.2.1,
      List.append_assoc, List.singleton_append, List.cons_append, List.nil_append, h1000,
      Leg_chainPosition_zero, Leg_chainPosition_one, Leg_chainPosition_two, Leg_chainPosition_three]
    simp [List.getLast?_append]
  -- The unrolled loops of `getJointPositions`: the positions of the six legs are appended, side
  -- 0 before side 1 and within a side the legs 0, 1, 2, when the tip of every leg has a squared
  -- norm below 1000; otherwise the call fails. The model is handed on as it was.
  have Model_getJointPositions_eq : ∀ (m : Model ℝ) (pose : Pose ℝ),
      m.getJointPositions pose =
      if ((m.legs 0 0).jointPosition pose 3).squaredNorm < 1000 ∧
          ((m.legs 1 0).jointPosition pose 3).squaredNorm < 1000 ∧
          ((m.legs 2 0).jointPosition pose 3).squaredNorm < 1000 ∧
          ((m.legs 0 1).jointPosition pose 3).squaredNorm < 1000 ∧
          ((m.legs 1 1).jointPosition pose 3).squaredNorm < 1000 ∧
          ((m.legs 2 1).jointPosition pose 3).squaredNorm < 1000 then
        some ((List.finRange 2).flatMap fun s => (List.finRange 3).flatMap fun l =>
          (List.finRange 4).map fun k => (m.legs l s).jointPosition pose k, m)
      else none := by
    intro m pose
    dsimp only [Model.getJointPositions]
    simp only [finRange_two, finRange_three, finRange_four, List.foldlM_cons, List.foldlM_nil,
      Model_getJointPositionsBody_eq, List.flatMap_cons, List.flatMap_nil, List.map_cons,
      List.map_nil, List.append_nil, List.nil_append]
    by_cases h00 : ((m.legs 0 0).jointPosition pose 3).squaredNorm < 1000 <;> simp [h00]
    by_cases h10 : ((m.legs 1 0).jointPosition pose 3).squaredNorm < 1000 <;> simp [h10]
    by_cases h20 : ((m.legs 2 0).jointPosition pose 3).squaredNorm < 1000 <;> simp [h20]
    by_cases h01 : ((m.legs 0 1).jointPosition pose 3).squaredNorm < 1000 <;> simp [h01]
    by_cases h11 : ((m.legs 1 1).jointPosition pose 3).squaredNorm < 1000 <;> simp [h11]
  -- The tip of a scenario leg with all joint angles 0 under the identity pose.
  have scenarioOffsets_tip : ∀ (mirrorDir : ℝ),
      (scenarioOffsets mirrorDir).jointPosition Pose.identity 3 = ⟨0.45 * mirrorDir, 0, 0⟩ := by
    intro mirrorDir
    ext <;>
      dsimp only [Leg.jointPosition, Leg.chainPosition, scenarioOffsets, Leg.ofOffsets, Rz, Ry,
          Pose.identity, Pose.transformVector, Quat.rotateVector, Quat.mul, Quat.conj] <;> simp
    norm_num
  -- Under the identity pose the tips of the six legs of the scenario model have a squared norm
  -- below 1000.
  have scenarioModel_tips : ((scenarioModel.legs 0 0).jointPosition Pose.identity 3).squaredNorm <
      1000 ∧
      ((scenarioModel.legs 1 0).jointPosition Pose.identity 3).squaredNorm < 1000 ∧
      ((scenarioModel.legs 2 0).jointPosition Pose.identity 3).squaredNorm < 1000 ∧
      ((scenarioModel.legs 0 1).jointPosition Pose.identity 3).squaredNorm < 1000 ∧
      ((scenarioModel.legs 1 1).jointPosition Pose.identity 3).squaredNorm < 1000 ∧
      ((scenarioModel.legs 2 1).jointPosition Pose.identity 3).squaredNorm < 1000 := by
    dsimp only [scenarioModel]
    simp only [scenarioOffsets_tip, Vector3d.squaredNorm]
    norm_num
  exact ⟨Model_getJointPositions_eq, scenarioOffsets_tip, scenarioModel_tips⟩

/-! ### The locals of applyLocalIK -/

/-- What the calls leave behind. After a returning `applyLocalIK`, `applyFK` returns `calculateFK`
of the returned angles. `applyLocalIK` written with its locals: the planarity assertion reads
`targetLocal`, the clamp reads `targetLength` and the lift angle adds to `targetAngleOffset`. What
a returning `applyLocalIK` has done: the planarity assertion held, both inverse cosines were
defined, the three angles are the yaw, `targetAngleOffset` plus the lift and `tibiaAngleOffset`
plus the knee bend, and the leg left behind holds them and has had `applyFK` run on it. The leg
`applyFK` leaves: only the two cached tip positions are written. -/
theorem applyLocalIK_returned :
    (∀ (leg : Leg ℝ) (a b c : ℝ) (b1 b2 : Bool),
      ((({ leg with yaw := a, liftAngle := b, kneeAngle := c } : Leg ℝ).applyFK b1).2.applyFK b2).1
      = leg.calculateFK a b c) ∧
    (∀ (leg : Leg ℝ) (p : Vector3d ℝ) (updateStance : Bool),
      leg.applyLocalIK p updateStance =
      if ¬ (|(leg.targetLocal p).y| < 0.01) then none else
      (fdiv (sqr (clamped (leg.targetLength p) (leg.minLegLength + 1e-4)
          (leg.maxLegLength - 1e-4)) + sqr leg.femurLength - sqr leg.tibiaLength)
        (2.0 * clamped (leg.targetLength p) (leg.minLegLength + 1e-4)
          (leg.maxLegLength - 1e-4) * leg.femurLength)).bind fun liftArg =>
      (acos liftArg).bind fun lift =>
      (fdiv (-(sqr leg.femurLength + sqr leg.tibiaLength -
          sqr (clamped (leg.targetLength p) (leg.minLegLength + 1e-4)
            (leg.maxLegLength - 1e-4))))
        (2.0 * leg.femurLength * leg.tibiaLength)).bind fun kneeArg =>
      (acos kneeArg).bind fun kneeBend =>
      if ¬ (|atan2 (ikRootTarget leg p).y (ikRootTarget leg p).x| < 7.0) then none else
      if ¬ (|leg.targetAngleOffset p + lift| < 7.0) then none else
      if ¬ (|leg.tibiaAngleOffset + kneeBend| < 7.0) then none else
      some (⟨ikYaw leg p, leg.targetAngleOffset p + lift, leg.tibiaAngleOffset + kneeBend⟩,
        ({ leg with yaw := ikYaw leg p,
                    liftAngle := leg.targetAngleOffset p + lift,
                    kneeAngle := leg.tibiaAngleOffset + kneeBend }.applyFK updateStance).2)) ∧
    (∀ {leg : Leg ℝ} {p : Vector3d ℝ} {updateStance : Bool} {angles : Vector3d ℝ} {leg' : Leg ℝ}
        (_ : leg.applyLocalIK p updateStance = some (angles, leg')),
      |(leg.targetLocal p).y| < 0.01 ∧
      ∃ liftArg lift kneeArg kneeBend,
        fdiv (sqr (clamped (leg.targetLength p) (leg.minLegLength + 1e-4)
            (leg.maxLegLength - 1e-4)) + sqr leg.femurLength - sqr leg.tibiaLength)
          (2.0 * clamped (leg.targetLength p) (leg.minLegLength + 1e-4)
            (leg.maxLegLength - 1e-4) * leg.femurLength) = some liftArg ∧
        acos liftArg = some lift ∧
        fdiv (-(sqr leg.femurLength + sqr leg.tibiaLength -
            sqr (clamped (leg.targetLength p) (leg.minLegLength + 1e-4)
              (leg.maxLegLength - 1e-4))))
          (2.0 * leg.femurLength * leg.tibiaLength) = some kneeArg ∧
        acos kneeArg = some kneeBend ∧
        angles = ⟨ikYaw leg p, leg.targetAngleOffset p + lift, leg.tibiaAngleOffset + kneeBend⟩ ∧
        leg' = ({ leg with yaw := angles.x, liftAngle := angles.y,
                           kneeAngle := angles.z }.applyFK updateStance).2) ∧
    (∀ (leg : Leg ℝ) (updateStance : Bool),
      (leg.applyFK updateStance).2 =
      { leg with
        localTipPosition := leg.calculateFK leg.yaw leg.liftAngle leg.kneeAngle
        stanceTipPosition :=
          (if updateStance then leg.calculateFK leg.yaw leg.liftAngle leg.kneeAngle
          else leg.stanceTipPosition) }) := by
  -- After a returning `applyLocalIK`, `applyFK` returns `calculateFK` of the returned angles.
  have Leg_applyFK_after_ik : ∀ (leg : Leg ℝ) (a b c : ℝ) (b1 b2 : Bool),
      ((({ leg with yaw := a, liftAngle := b, kneeAngle := c } : Leg ℝ).applyFK b1).2.applyFK b2).1
      = leg.calculateFK a b c := by
    intro leg a b c b1 b2
    cases b1 <;> cases b2 <;> rfl
  -- `applyLocalIK` written with its locals: the planarity assertion reads `targetLocal`, the
  -- clamp reads `targetLength` and the lift angle adds to `targetAngleOffset`.
  have Leg_applyLocalIK_locals : ∀ (leg : Leg ℝ) (p : Vector3d ℝ) (updateStance : Bool),
      leg.applyLocalIK p updateStance =
      if ¬ (|(leg.targetLocal p).y| < 0.01) then none else
      (fdiv (sqr (clamped (leg.targetLength p) (leg.minLegLength + 1e-4)
          (leg.maxLegLength - 1e-4)) + sqr leg.femurLength - sqr leg.tibiaLength)
        (2.0 * clamped (leg.targetLength p) (leg.minLegLength + 1e-4)
          (leg.maxLegLength - 1e-4) * leg.femurLength)).bind fun liftArg =>
      (acos liftArg).bind fun lift =>
      (fdiv (-(sqr leg.femurLength + sqr leg.tibiaLength -
          sqr (clamped (leg.targetLength p) (leg.minLegLength + 1e-4)
            (leg.maxLegLength - 1e-4))))
        (2.0 * leg.femurLength * leg.tibiaLength)).bind fun kneeArg =>
      (acos kneeArg).bind fun kneeBend =>
      if ¬ (|atan2 (ikRootTarget leg p).y (ikRootTarget leg p).x| < 7.0) then none else
      if ¬ (|leg.targetAngleOffset p + lift| < 7.0) then none else
      if ¬ (|leg.tibiaAngleOffset + kneeBend| < 7.0) then none else
      some (⟨ikYaw leg p, leg.targetAngleOffset p + lift, leg.tibiaAngleOffset + kneeBend⟩,
        ({ leg with yaw := ikYaw leg p,
                    liftAngle := leg.targetAngleOffset p + lift,
                    kneeAngle := leg.tibiaAngleOffset + kneeBend }.applyFK updateStance).2) := by
    intro leg p updateStance
    dsimp only [Leg.applyLocalIK, Leg.targetLength, Leg.targetAngleOffset, Leg.targetPlanar,
      Leg.targetLocal, Leg.targetAligned, ikYaw]
    simp only [applyLocalIK_outcome.1]
    cases updateStance <;> rfl
  -- What a returning `applyLocalIK` has done: the planarity assertion held, both inverse cosines
  -- were defined, the three angles are the yaw, `targetAngleOffset` plus the lift and
  -- `tibiaAngleOffset` plus the knee bend, and the leg left behind holds them and has had `applyFK`
  -- run on it.
  have Leg_applyLocalIK_some : ∀ {leg : Leg ℝ} {p : Vector3d ℝ} {updateStance : Bool} {angles :
      Vector3d ℝ} {leg' : Leg ℝ} (h : leg.applyLocalIK p updateStance = some (angles, leg')),
      |(leg.targetLocal p).y| < 0.01 ∧
      ∃ liftArg lift kneeArg kneeBend,
        fdiv (sqr (clamped (leg.targetLength p) (leg.minLegLength + 1e-4)
            (leg.maxLegLength - 1e-4)) + sqr leg.femurLength - sqr leg.tibiaLength)
          (2.0 * clamped (leg.targetLength p) (leg.minLegLength + 1e-4)
            (leg.maxLegLength - 1e-4) * leg.femurLength) = some liftArg ∧
        acos liftArg = some lift ∧
        fdiv (-(sqr leg.femurLength + sqr leg.tibiaLength -
            sqr (clamped (leg.targetLength p) (leg.minLegLength + 1e-4)
              (leg.maxLegLength - 1e-4))))
          (2.0 * leg.femurLength * leg.tibiaLength) = some kneeArg ∧
        acos kneeArg = some kneeBend ∧
        angles = ⟨ikYaw leg p, leg.targetAngleOffset p + lift, leg.tibiaAngleOffset + kneeBend⟩ ∧
        leg' = ({ leg with yaw := angles.x, liftAngle := angles.y,
                           kneeAngle := angles.z }.applyFK updateStance).2 := by
    intro leg p updateStance angles leg' h
    rw [Leg_applyLocalIK_locals] at h
    by_cases hplan : |(leg.targetLocal p).y| < 0.01
    swap
    · rw [if_pos hplan] at h
      cases h
    rw [if_neg (not_not.mpr hplan)] at h
    obtain ⟨liftArg, h1, h⟩ := Option.bind_eq_some.mp h
    obtain ⟨lift, h2, h⟩ := Option.bind_eq_some.mp h
    obtain ⟨kneeArg, h3, h⟩ := Option.bind_eq_some.mp h
    obtain ⟨kneeBend, h4, h⟩ := Option.bind_eq_some.mp h
    split_ifs at h
    simp only [Option.some.injEq, Prod.mk.injEq] at h
    obtain ⟨ha, hl⟩ := h
    subst ha
    exact ⟨hplan, liftArg, lift, kneeArg, kneeBend, h1, h2, h3, h4, rfl, hl.symm⟩
  -- The leg `applyFK` leaves: only the two cached tip positions are written.
  have Leg_applyFK_snd : ∀ (leg : Leg ℝ) (updateStance : Bool),
      (leg.applyFK updateStance).2 =
      { leg with
        localTipPosition := leg.calculateFK leg.yaw leg.liftAngle leg.kneeAngle
        stanceTipPosition :=
          (if updateStance then leg.calculateFK leg.yaw leg.liftAngle leg.kneeAngle
          else leg.stanceTipPosition) } := by
    intro leg updateStance
    cases updateStance <;> rfl
  exact ⟨Leg_applyFK_after_ik, Leg_applyLocalIK_locals, Leg_applyLocalIK_some, Leg_applyFK_snd⟩

/-- The locals of `applyLocalIK` and the vectors of the specification: the yaw-aligned target of
the source is Rz(−yaw)·q and its Y component is exactly zero; the planar target of the source is
the sub-problem vector v; a squared norm is non-negative; and the squared norm of the vector that
keeps the Y of hipOffset exceeds the squared length of the planar target by the square of that Y. -/
theorem planar_target_facts :
    (∀ (leg : Leg ℝ) (p : Vector3d ℝ),
      leg.targetAligned p = ikAligned leg p) ∧
    (∀ (leg : Leg ℝ) (p : Vector3d ℝ),
      (ikAligned leg p).y = 0) ∧
    (∀ (leg : Leg ℝ) (p : Vector3d ℝ),
      leg.targetPlanar p = ikSubVector leg p) ∧
    (∀ (v : Vector3d ℝ),
      0 ≤ v.squaredNorm) ∧
    (∀ (leg : Leg ℝ) (p : Vector3d ℝ),
      (ikZeroedThenShifted leg p).squaredNorm =
      (leg.targetPlanar p).squaredNorm + leg.hipOffset.y ^ 2) := by
  -- The yaw-aligned target of the source is Rz(−yaw)·q.
  have Leg_targetAligned_eq : ∀ (leg : Leg ℝ) (p : Vector3d ℝ),
      leg.targetAligned p = ikAligned leg p := by
    intro leg p
    dsimp only [Leg.targetAligned]
    simp only [rotation_quaternions.2.2.1, applyLocalIK_outcome.1]
    rfl
  -- The Y component of the yaw-aligned target is exactly zero.
  have ikAligned_y_zero : ∀ (leg : Leg ℝ) (p : Vector3d ℝ),
      (ikAligned leg p).y = 0 := by
    intro leg p
    have h := applyLocalIK_outcome.2.1 leg p
    simp only [Vector3d.sub_y] at h
    unfold ikAligned
    linarith
  -- The planar target of the source is the sub-problem vector v.
  have Leg_targetPlanar_eq : ∀ (leg : Leg ℝ) (p : Vector3d ℝ),
      leg.targetPlanar p = ikSubVector leg p := by
    intro leg p
    dsimp only [Leg.targetPlanar, Leg.targetLocal]
    simp only [Leg_targetAligned_eq]
    rfl
  have Vector3d_squaredNorm_nonneg : ∀ (v : Vector3d ℝ),
      0 ≤ v.squaredNorm := by
    intro v
    simp only [Vector3d.squaredNorm]
    nlinarith [mul_self_nonneg v.x, mul_self_nonneg v.y, mul_self_nonneg v.z]
  -- The squared norm of the vector that keeps the Y of hipOffset exceeds the squared length of
  -- the planar target by the square of that Y.
  have ikZeroedThenShifted_squaredNorm : ∀ (leg : Leg ℝ) (p : Vector3d ℝ),
      (ikZeroedThenShifted leg p).squaredNorm =
      (leg.targetPlanar p).squaredNorm + leg.hipOffset.y ^ 2 := by
    intro leg p
    rw [Leg_targetPlanar_eq]
    dsimp only [ikZeroedThenShifted, ikSubVector, ikAligned]
    simp only [Vector3d.squaredNorm, Vector3d.sub_x, Vector3d.sub_y, Vector3d.sub_z]
    ring
  exact ⟨Leg_targetAligned_eq, ikAligned_y_zero, Leg_targetPlanar_eq, Vector3d_squaredNorm_nonneg,
      ikZeroedThenShifted_squaredNorm⟩

/-! ### Construction of the model -/

/-- The model the constructor builds: its limits are the configured ones, its legs are the legs
the specification describes, and they have the derived fields of `init` for the knee-bend limits
of the model. -/
theorem construct_facts :
    (∀ (params : Parameters ℝ) (uninitialised : Fin 3 → Fin 2 → Leg ℝ),
      (Model.construct params uninitialised).stanceLegYaws = params.stanceLegYaws ∧
      (Model.construct params uninitialised).yawLimitAroundStance = params.yawLimits ∧
      (Model.construct params uninitialised).minMaxKneeBend = params.kneeLimits ∧
      (Model.construct params uninitialised).minMaxHipLift = params.hipLimits ∧
      (Model.construct params uninitialised).jointMaxAngularSpeeds =
        params.jointMaxAngularSpeeds) ∧
    (∀ (params : Parameters ℝ) (uninitialised : Fin 3 → Fin 2 → Leg ℝ) (l : Fin 3) (s : Fin 2),
      (Model.construct params uninitialised).legs l s = params.leg (uninitialised l s) l s) ∧
    (∀ (params : Parameters ℝ) (uninitialised : Fin 3 → Fin 2 → Leg ℝ) (l : Fin 3) (s : Fin 2),
      ((Model.construct params uninitialised).legs l s).Initialised
      (Model.construct params uninitialised).minMaxKneeBend) := by
  -- The limits of a constructed model are the configured ones.
  have Model_construct_limits : ∀ (params : Parameters ℝ) (uninitialised : Fin 3 → Fin 2 → Leg ℝ),
      (Model.construct params uninitialised).stanceLegYaws = params.stanceLegYaws ∧
      (Model.construct params uninitialised).yawLimitAroundStance = params.yawLimits ∧
      (Model.construct params uninitialised).minMaxKneeBend = params.kneeLimits ∧
      (Model.construct params uninitialised).minMaxHipLift = params.hipLimits ∧
      (Model.construct params uninitialised).jointMaxAngularSpeeds =
        params.jointMaxAngularSpeeds := by
    intro params uninitialised
    dsimp only [Model.construct]
    simp only [finRange_three, finRange_two, List.foldl]
    exact ⟨rfl, rfl, rfl, rfl, rfl⟩
  -- The legs of a constructed model.
  have Model_construct_legs : ∀ (params : Parameters ℝ) (uninitialised : Fin 3 → Fin 2 → Leg ℝ) (l :
      Fin 3) (s : Fin 2),
      (Model.construct params uninitialised).legs l s = params.leg (uninitialised l s) l s := by
    intro params uninitialised l s
    dsimp only [Model.construct]
    simp only [finRange_three, finRange_two, List.foldl]
    fin_cases l <;> fin_cases s <;>
      dsimp only [Model.constructBody, Parameters.leg] <;> simp [Model.setLeg]
  -- The legs of a constructed model have the derived fields of `init` for the knee-bend limits
  -- of the model.
  have Model_construct_initialised : ∀ (params : Parameters ℝ) (uninitialised : Fin 3 → Fin 2 → Leg
      ℝ) (l : Fin 3) (s : Fin 2),
      ((Model.construct params uninitialised).legs l s).Initialised
      (Model.construct params uninitialised).minMaxKneeBend := by
    intro params uninitialised l s
    rw [Model_construct_legs, (Model_construct_limits params uninitialised).2.2.1]
    exact ⟨rfl, rfl, rfl, rfl, rfl, rfl, rfl⟩
  exact ⟨Model_construct_limits, Model_construct_legs, Model_construct_initialised⟩

/-! ### The diagnostics of clampToLimits -/

section ClampDiagnostics

variable {α : Type} [LinearOrderedAddCommGroup α]

/-- The yaw clamp appends one line exactly when it changes the yaw, and the line holds the new
yaw. -/
theorem Model.clampYaw_snd (m : Model α) (l : Fin 3) (side : Fin 2)
    (st : Leg α × List (ClampDiagnostic α)) :
    (m.clampYaw l side st).2 = st.2 ++
      (if (m.clampYaw l side st).1.yaw ≠ st.1.yaw then
        [⟨l, side, .yaw, (m.clampYaw l side st).1.yaw⟩] else []) := by
  simp only [Model.clampYaw]
  split_ifs with h1 h2 h3 h4 h5 <;> simp_all
  · exact absurd (sub_lt_iff_lt_add.mp h1) (by rw [← h2]; exact lt_irrefl _)
  · exact absurd (lt_sub_iff_add_lt.mp h3) (by rw [← h4]; exact lt_irrefl _)

/-- The hip-lift clamp appends one line exactly when it changes the lift angle. -/
theorem Model.clampHipLift_snd (m : Model α) (l : Fin 3) (side : Fin 2)
    (st : Leg α × List (ClampDiagnostic α)) :
    (m.clampHipLift l side st).2 = st.2 ++
      (if (m.clampHipLift l side st).1.liftAngle ≠ st.1.liftAngle then
        [⟨l, side, .hipLift, (m.clampHipLift l side st).1.liftAngle⟩] else []) := by
  simp only [Model.clampHipLift]
  split_ifs with h1 h2 h3 h4 h5 <;> simp_all

/-- The knee clamp appends one line exactly when it changes the knee angle. -/
theorem Model.clampKnee_snd (m : Model α) (l : Fin 3) (side : Fin 2)
    (st : Leg α × List (ClampDiagnostic α)) :
    (m.clampKnee l side st).2 = st.2 ++
      (if (m.clampKnee l side st).1.kneeAngle ≠ st.1.kneeAngle then
        [⟨l, side, .knee, (m.clampKnee l side st).1.kneeAngle⟩] else []) := by
  simp only [Model.clampKnee]
  split_ifs with h1 h2 h3 h4 h5 <;> simp_all

/-- The lines the three clamps append for one leg are the diagnostics of its changed angles. -/
theorem Model.clampLeg_snd (m : Model α) (l : Fin 3) (side : Fin 2)
    (st : Leg α × List (ClampDiagnostic α)) :
    (m.clampLeg l side st).2 =
      st.2 ++ changeDiagnostics st.1 (m.clampLeg l side st).1 l side := by
  have hk := Model.clampKnee_snd m l side (m.clampHipLift l side (m.clampYaw l side st))
  have hh := Model.clampHipLift_snd m l side (m.clampYaw l side st)
  have hy := Model.clampYaw_snd m l side st
  rw [Model.clampLeg, hk, hh, hy]
  simp only [changeDiagnostics, Leg.jointAngle, List.flatMap_cons, List.flatMap_nil,
    List.append_nil, List.append_assoc, Model.clampKnee_fst, Model.clampHipLift_fst,
    Model.clampYaw_fst]

/-- The leg the three clamps leave does not depend on the lines written so far. -/
theorem Model.clampLeg_fst_log (m : Model α) (l : Fin 3) (side : Fin 2) (leg : Leg α)
    (log : List (ClampDiagnostic α)) :
    (m.clampLeg l side (leg, log)).1 = (m.clampLeg l side (leg, [])).1 := by
  rw [Model.clampLeg_fst, Model.clampLeg_fst]

/-- The lines one pass of the loop body appends. -/
theorem Model.clampToLimitsBody_snd (l : Fin 3) (side : Fin 2)
    (st : Model α × List (ClampDiagnostic α)) :
    (Model.clampToLimitsBody l side st).2 =
      st.2 ++ changeDiagnostics (st.1.legs l side)
        (st.1.clampLeg l side (st.1.legs l side, [])).1 l side := by
  simp only [Model.clampToLimitsBody]
  rw [Model.clampLeg_snd, Model.clampLeg_fst_log]

/-- The lines `clampToLimits` writes: for each leg, in the order of the loops, the diagnostics of
the angles the call changes. -/
theorem Model.clampToLimits_snd (m : Model α) :
    m.clampToLimits.2 =
      (List.finRange 3).flatMap fun l => (List.finRange 2).flatMap fun side =>
        changeDiagnostics (m.legs l side) (m.clampToLimits.1.legs l side) l side := by
  simp only [Model.clampToLimits_legs]
  simp only [Model.clampToLimits, finRange_three, finRange_two, List.foldl, List.flatMap_cons,
    List.flatMap_nil, List.append_nil, List.nil_append, Model.clampToLimitsBody_snd,
    Model.clampToLimitsBody_legs, Model.clampLeg_fst,
    (Model.clampToLimitsBody_limits _ _ _).1, (Model.clampToLimitsBody_limits _ _ _).2.1,
    (Model.clampToLimitsBody_limits _ _ _).2.2.1, (Model.clampToLimitsBody_limits _ _ _).2.2.2.1,
    List.append_assoc]
  simp

/-- Filtering a list that is one line or none. -/
theorem filter_ite_singleton {β : Type} (p : β → Bool) (c : Prop) [Decidable c] (d : β) :
    List.filter p (if c then [d] else []) = if c ∧ p d = true then [d] else [] := by
  by_cases hc : c <;> by_cases hp : p d = true <;> simp [hc, hp]

/-- The lines about one joint of one leg: one line with the new value when the angle changed,
none otherwise. -/
theorem Model.clampToLimits_filter (m : Model α) (l : Fin 3) (side : Fin 2)
    (joint : ClampedJoint) :
    m.clampToLimits.2.filter (fun d => decide (d.leg = l ∧ d.side = side ∧ d.joint = joint)) =
      if (m.clampToLimits.1.legs l side).jointAngle joint ≠ (m.legs l side).jointAngle joint then
        [⟨l, side, joint, (m.clampToLimits.1.legs l side).jointAngle joint⟩]
      else [] := by
  rw [Model.clampToLimits_snd]
  simp only [finRange_three, finRange_two, List.flatMap_cons, List.flatMap_nil, List.append_nil,
    changeDiagnostics, List.filter_append, filter_ite_singleton]
  fin_cases l <;> fin_cases side <;> cases joint <;> simp

end ClampDiagnostics

/-! ### The knee bend solved by applyLocalIK -/

set_option maxHeartbeats 800000 in
/-- The knee angle a returning `applyLocalIK` stores is the tibia angle offset plus a knee bend
between the limits. -/
theorem Leg.Initialised.applyLocalIK_knee {leg : Leg ℝ} {kb : Vector2d ℝ}
    (h : leg.Initialised kb) (h0 : 0 ≤ kb.e0) (h1 : kb.e0 ≤ kb.e1) (h2 : kb.e1 ≤ Real.pi)
    (hf : 0 < leg.femurLength) (ht : 0 < leg.tibiaLength)
    (hr : leg.minLegLength + 1e-4 ≤ leg.maxLegLength - 1e-4)
    {p : Vector3d ℝ} {updateStance : Bool} {angles : Vector3d ℝ} {leg' : Leg ℝ}
    (hret : leg.applyLocalIK p updateStance = some (angles, leg')) :
    kb.e0 ≤ angles.z - leg.tibiaAngleOffset ∧ angles.z - leg.tibiaAngleOffset ≤ kb.e1 ∧
      leg'.kneeAngle = angles.z := by
  -- The inverse cosine is antitone on the whole real line.
  have arccos_antitone : ∀ {x y : ℝ} (h : x ≤ y),
      Real.arccos y ≤ Real.arccos x := by
    intro x y h
    have := Real.monotone_arcsin h
    simp only [Real.arccos]
    linarith
  -- For knee-bend limits 0 ≤ kneeMin ≤ kneeMax ≤ π, a length between minLegLength and
  -- maxLegLength of an initialised leg has its knee bend between the limits.
  have Leg_Initialised_kneeBend_bounds : ∀ {leg : Leg ℝ} {kb : Vector2d ℝ} (h : leg.Initialised kb)
      (h0 : 0 ≤ kb.e0) (h1 : kb.e0 ≤ kb.e1) (h2 : kb.e1 ≤ Real.pi) (hf : 0 < leg.femurLength) (ht :
      0 < leg.tibiaLength) (L : ℝ) (hL1 : leg.minLegLength ≤ L) (hL2 : L ≤ leg.maxLegLength),
      kb.e0 ≤ Real.arccos (-(sqr leg.femurLength + sqr leg.tibiaLength - sqr L) /
        (2.0 * leg.femurLength * leg.tibiaLength)) ∧
      Real.arccos (-(sqr leg.femurLength + sqr leg.tibiaLength - sqr L) /
        (2.0 * leg.femurLength * leg.tibiaLength)) ≤ kb.e1 := by
    intro leg kb h h0 h1 h2 hf ht L hL1 hL2
    have e2 : (2.0 : ℝ) = 2 := by norm_num
    have e0 : (0.0 : ℝ) = 0 := by norm_num
    have hft : 0 < 2 * leg.femurLength * leg.tibiaLength := by positivity
    have hmin := h.2.2.2.2.2.1
    have hmax := h.2.2.2.2.2.2
    rw [e2, e0, max_eq_right (by linarith), Real.cos_pi_sub] at hmin
    rw [e2, e0, max_eq_right h0, Real.cos_pi_sub] at hmax
    simp only [sqr] at hmin hmax ⊢
    have hc1 := Real.neg_one_le_cos kb.e1
    have hc0 := Real.neg_one_le_cos kb.e0
    have hR1 : 0 ≤ leg.tibiaLength * leg.tibiaLength + leg.femurLength * leg.femurLength -
        2 * leg.femurLength * leg.tibiaLength * -Real.cos kb.e1 := by
      nlinarith [mul_self_nonneg (leg.femurLength - leg.tibiaLength), mul_pos hf ht]
    have hR0 : 0 ≤ leg.tibiaLength * leg.tibiaLength + leg.femurLength * leg.femurLength -
        2 * leg.femurLength * leg.tibiaLength * -Real.cos kb.e0 := by
      nlinarith [mul_self_nonneg (leg.femurLength - leg.tibiaLength), mul_pos hf ht]
    have hmin0 : 0 ≤ leg.minLegLength := by rw [hmin]; exact Real.sqrt_nonneg _
    have hL0 : 0 ≤ L := hmin0.trans hL1
    have hsqmin := Real.mul_self_sqrt hR1
    have hsqmax := Real.mul_self_sqrt hR0
    rw [← hmin] at hsqmin
    rw [← hmax] at hsqmax
    have hLmin : leg.minLegLength * leg.minLegLength ≤ L * L :=
      mul_self_le_mul_self hmin0 hL1
    have hLmax : L * L ≤ leg.maxLegLength * leg.maxLegLength :=
      mul_self_le_mul_self hL0 hL2
    rw [e2]
    constructor
    · have hle : -(leg.femurLength * leg.femurLength + leg.tibiaLength * leg.tibiaLength - L * L) /
          (2 * leg.femurLength * leg.tibiaLength) ≤ Real.cos kb.e0 := by
        rw [div_le_iff₀ hft]
        nlinarith
      have := arccos_antitone hle
      rwa [Real.arccos_cos h0 (h1.trans h2)] at this
    · have hle : Real.cos kb.e1 ≤
          -(leg.femurLength * leg.femurLength + leg.tibiaLength * leg.tibiaLength - L * L) /
            (2 * leg.femurLength * leg.tibiaLength) := by
        rw [le_div_iff₀ hft]
        nlinarith
      have := arccos_antitone hle
      rwa [Real.arccos_cos (h0.trans h1) h2] at this
  obtain ⟨_, liftArg, lift, kneeArg, kneeBend, _, _, h3, h4, ha, hl⟩ := applyLocalIK_returned.2.2.1
      hret
  obtain ⟨hc1, hc2⟩ := clamped_mem (leg.targetLength p) _ _ hr
  have hb := (Leg_Initialised_kneeBend_bounds h) h0 h1 h2 hf ht
    (clamped (leg.targetLength p) (leg.minLegLength + 1e-4) (leg.maxLegLength - 1e-4))
    (by norm_num at hc1 ⊢; linarith) (by norm_num at hc2 ⊢; linarith)
  have hk : kneeArg = -(sqr leg.femurLength + sqr leg.tibiaLength -
      sqr (clamped (leg.targetLength p) (leg.minLegLength + 1e-4) (leg.maxLegLength - 1e-4))) /
        (2.0 * leg.femurLength * leg.tibiaLength) := by
    unfold fdiv at h3
    split_ifs at h3
    exact (Option.some.inj h3).symm
  have hkb : kneeBend = Real.arccos kneeArg := by
    unfold acos at h4
    split_ifs at h4
    exact (Option.some.inj h4).symm
  have hz : angles.z = leg.tibiaAngleOffset + kneeBend := by rw [ha]
  rw [hl, applyLocalIK_returned.2.2.2, hz, hkb, hk]
  exact ⟨by linarith [hb.1], by linarith [hb.2], rfl⟩

/-! ### Sequences of operations -/

theorem Leg.SameGeometry.refl {α : Type} (a : Leg α) : a.SameGeometry a :=
  ⟨rfl, rfl, rfl, rfl, rfl, rfl, rfl, rfl, rfl, rfl, rfl, rfl⟩

theorem Leg.SameGeometry.trans {α : Type} {a b c : Leg α} (h1 : a.SameGeometry b)
    (h2 : b.SameGeometry c) : a.SameGeometry c :=
  ⟨h1.1.trans h2.1, h1.2.trans h2.2, h1.3.trans h2.3, h1.4.trans h2.4, h1.5.trans h2.5,
    h1.6.trans h2.6, h1.7.trans h2.7, h1.8.trans h2.8, h1.9.trans h2.9, h1.10.trans h2.10,
    h1.11.trans h2.11, h1.12.trans h2.12⟩

theorem Model.setLeg_legs {α : Type} (m : Model α) (l : Fin 3) (side : Fin 2) (leg : Leg α)
    (l' : Fin 3) (side' : Fin 2) :
    (m.setLeg l side leg).legs l' side' =
      if l' = l ∧ side' = side then leg else m.legs l' side' := rfl
/-! ### Claims -/

/-- C1. `calculateFK` composes the knee rotation innermost and the yaw rotation outermost, and
only the X component of the result is multiplied by `mirrorDir`: it returns (m·c.x, c.y, c.z) for
a = Ry(knee)·tip + kneeOffset, b = Ry(−lift)·a + hipOffset, c = Rz(yaw)·b + rootOffset. -/
theorem calculateFK_knee_innermost_yaw_outermost (leg : Leg ℝ) (yaw liftAngle kneeAngle : ℝ) :
    leg.calculateFK yaw liftAngle kneeAngle =
      (let a := Ry kneeAngle leg.tipOffset + leg.kneeOffset
       let b := Ry (-liftAngle) a + leg.hipOffset
       let c := Rz yaw b + leg.rootOffset
       ⟨leg.mirrorDir * c.x, c.y, c.z⟩) := by
  rw [rotation_quaternions.2.2.2]
  ext
  · simp only [mul_comm]
  · rfl
  · rfl

/-- C2, counterexample. The leg with femur 1, tibia 0.00001 and knee-bend limits [0.1, 3.0] has
hipOffset.y = 0 and positive link lengths, but maxLegLength − 1e-4 < minLegLength + 1e-4: the
clamp range is empty, the clamped length is at least minLegLength + 1e-4 ≥ 1.00009, outside the
triangle range [0.99999, 1.00001], the inverse cosine of the lift angle is taken above 1 and
`applyLocalIK` does not return. -/
theorem empty_clamp_range_applyLocalIK_fails :
    shortTibiaLeg.hipOffset.y = 0 ∧ 0 < shortTibiaLeg.femurLength ∧
      0 < shortTibiaLeg.tibiaLength ∧
      shortTibiaLeg.maxLegLength - 1e-4 < shortTibiaLeg.minLegLength + 1e-4 ∧
      shortTibiaLeg.applyLocalIK ⟨1, 0, 0⟩ true = none := by
  have hi : shortTibiaLeg.Initialised scenarioKneeBend := initialised_lengths.1 _ _ _ _ _
  have hf : shortTibiaLeg.femurLength = 1 := scenario_leg_facts.1 1 (by norm_num)
  have ht : shortTibiaLeg.tibiaLength = 0.00001 := scenario_leg_facts.1 0.00001 (by norm_num)
  have hmin := (initialised_lengths.2.2.2.2.2.1 hi)
  have hmax := (initialised_lengths.2.2.2.2.2.2 hi)
  rw [hf, ht] at hmin hmax
  have hlo : shortTibiaLeg.minLegLength + 1e-4 ≤ ikLength shortTibiaLeg ⟨1, 0, 0⟩ :=
    le_max_left _ _
  have hL : 1.00009 ≤ ikLength shortTibiaLeg ⟨1, 0, 0⟩ := by
    have h := le_abs_self ((1 : ℝ) - 0.00001)
    norm_num at h hmin hlo ⊢
    linarith
  refine ⟨rfl, by rw [hf]; norm_num, by rw [ht]; norm_num, ?_, ?_⟩
  · have h := le_abs_self ((1 : ℝ) - 0.00001)
    norm_num at h hmin hmax ⊢
    linarith
  · apply applyLocalIK_outcome.2.2.2.2.2.2.2.2
    · norm_num at hL
      linarith
    · rw [hf]; norm_num
    · unfold ikLiftArg
      rw [hf, ht]
      rintro ⟨-, h2⟩
      have hpos : 0 < 2 * ikLength shortTibiaLeg ⟨1, 0, 0⟩ * 1 := by
        norm_num at hL ⊢
        linarith
      rw [div_le_iff₀ hpos] at h2
      norm_num at hL h2
      nlinarith

/-- C2, amended. For every leg (its derived fields as `init` sets them) with hipOffset.y = 0,
femurLength f > 0, tibiaLength t > 0 and every target p for which the clamped length L is not 0
and both inverse-cosine arguments lie in [−1, 1], `applyLocalIK` returns (yaw, lift, knee) with
q = (mirrorDir·p.x, p.y, p.z) − rootOffset, yaw = atan2(q.y, q.x), v = Rz(−yaw)·q − hipOffset
with its Y set to 0, L = clamp(‖v‖, minLegLength + 1e-4, maxLegLength − 1e-4),
lift = atan2(v.z, v.x) + acos((L² + f² − t²)/(2·L·f)) and
knee = tibiaAngleOffset + acos(−(f² + t² − L²)/(2·f·t)). -/
theorem applyLocalIK_formula (leg : Leg ℝ) (kb : Vector2d ℝ) (p : Vector3d ℝ)
    (updateStance : Bool) (hinit : leg.Initialised kb) (hhip : leg.hipOffset.y = 0)
    (hf : 0 < leg.femurLength) (ht : 0 < leg.tibiaLength) :
    let f := leg.femurLength
    let t := leg.tibiaLength
    let q := (⟨leg.mirrorDir * p.x, p.y, p.z⟩ : Vector3d ℝ) - leg.rootOffset
    let yaw := atan2 q.y q.x
    let w := Rz (-yaw) q - leg.hipOffset
    let v : Vector3d ℝ := ⟨w.x, 0, w.z⟩
    let L := clamped v.norm (leg.minLegLength + 1e-4) (leg.maxLegLength - 1e-4)
    L ≠ 0 →
    (-1 ≤ (L ^ 2 + f ^ 2 - t ^ 2) / (2 * L * f) ∧ (L ^ 2 + f ^ 2 - t ^ 2) / (2 * L * f) ≤ 1) →
    (-1 ≤ -(f ^ 2 + t ^ 2 - L ^ 2) / (2 * f * t) ∧ -(f ^ 2 + t ^ 2 - L ^ 2) / (2 * f * t) ≤ 1) →
    ∃ leg', leg.applyLocalIK p updateStance =
      some (⟨yaw, atan2 v.z v.x + Real.arccos ((L ^ 2 + f ^ 2 - t ^ 2) / (2 * L * f)),
          leg.tibiaAngleOffset + Real.arccos (-(f ^ 2 + t ^ 2 - L ^ 2) / (2 * f * t))⟩, leg') := by
  intro f t q yaw w v L hL hla hka
  have hplan : |leg.hipOffset.y| < 0.01 := by
    rw [hhip]; norm_num
  exact ⟨_, applyLocalIK_outcome.2.2.2.2.2.2.2.1 leg p updateStance hplan hL hf.ne' ht.ne' hla hka
    ((initialised_applyLocalIK.2.2.1 hinit) p)⟩

/-- C2, witness: the scenario leg and the target (0.35, 0, 0). -/
theorem applyLocalIK_formula_witness :
    ∃ leg', (scenarioLeg 1).applyLocalIK ⟨0.35, 0, 0⟩ true =
      some (⟨ikYaw (scenarioLeg 1) ⟨0.35, 0, 0⟩, ikLiftAngle (scenarioLeg 1) ⟨0.35, 0, 0⟩,
        ikKneeAngle (scenarioLeg 1) ⟨0.35, 0, 0⟩⟩, leg') := by
  have hi := scenario_leg_facts.2.2.2.2.1 1 0 0 0
  have hf := scenario_leg_facts.2.2.2.2.2.1 1 0 0 0
  have ht := scenario_leg_facts.2.2.2.2.2.2.1 1 0 0 0
  have hf0 : 0 < (scenarioLeg 1).femurLength := by
    unfold scenarioLeg
    rw [hf]; norm_num
  have ht0 : 0 < (scenarioLeg 1).tibiaLength := by
    unfold scenarioLeg
    rw [ht]; norm_num
  obtain ⟨h1, h2⟩ := scenario_leg_facts.2.2.2.2.2.2.2 hi hf ht
  obtain ⟨hL0, hL1, hL2⟩ := (initialised_applyLocalIK.1 hi) ⟨0.35, 0, 0⟩ (h1.trans h2)
  obtain ⟨hla, hka⟩ := initialised_applyLocalIK.2.1 (scenarioLeg 1) ⟨0.35, 0, 0⟩ hf0 ht0 hL0 hL1 hL2
  exact applyLocalIK_formula (scenarioLeg 1) scenarioKneeBend ⟨0.35, 0, 0⟩ true hi rfl hf0 ht0
    hL0.ne' hla hka

/-- C3, counterexample. The scenario leg with its tip offset turned out of the sagittal plane,
tipOffset = (0.09, 0.12, 0): the target (0.35, 0, 0) has yaw 0 and a sub-problem length strictly
inside [minLegLength + 1e-4, maxLegLength − 1e-4], `applyLocalIK` returns, and the tip position
`applyFK` then returns has Y coordinate 0.12, not within 1e-3 of the target's 0. -/
theorem roundtrip_fails_for_lateral_tipOffset :
    tiltedLeg.minLegLength + 1e-4 < (ikSubVector tiltedLeg ⟨0.35, 0, 0⟩).norm ∧
    (ikSubVector tiltedLeg ⟨0.35, 0, 0⟩).norm < tiltedLeg.maxLegLength - 1e-4 ∧
    ∃ angles leg', tiltedLeg.applyLocalIK ⟨0.35, 0, 0⟩ true = some (angles, leg') ∧
      angles.x = 0 ∧
      (leg'.applyFK true).1 = tiltedLeg.calculateFK angles.x angles.y angles.z ∧
      ¬ (|(leg'.applyFK true).1.y - 0| < 1e-3) := by
  have tilted_tibiaLength : tiltedLeg.tibiaLength = 0.15 := by
    have h : tiltedLeg.tibiaLength = Real.sqrt (0.15 * 0.15) := by
      show Real.sqrt (Vector3d.squaredNorm (⟨0.09, 0.12, 0⟩ : Vector3d ℝ)) = _
      congr 1
      simp only [Vector3d.squaredNorm]
      norm_num
    rw [h]
    exact Real.sqrt_mul_self (by norm_num)
  -- With yaw 0 the Y coordinate of the tip is the sum of the Y components of the offsets,
  -- whatever the lift and knee angles.
  have Leg_calculateFK_y_of_yaw_zero : ∀ (leg : Leg ℝ) (liftAngle kneeAngle : ℝ),
      (leg.calculateFK 0 liftAngle kneeAngle).y =
      leg.tipOffset.y + leg.kneeOffset.y + leg.hipOffset.y + leg.rootOffset.y := by
    intro leg liftAngle kneeAngle
    rw [rotation_quaternions.2.2.2]
    dsimp only [Rz, Ry]
    simp
  have hi : tiltedLeg.Initialised scenarioKneeBend := initialised_lengths.1 _ _ _ _ _
  have hf : tiltedLeg.femurLength = 0.2 := scenario_leg_facts.1 0.2 (by norm_num)
  have ht := tilted_tibiaLength
  have hf0 : 0 < tiltedLeg.femurLength := by
    rw [hf]; norm_num
  have ht0 : 0 < tiltedLeg.tibiaLength := by
    rw [ht]; norm_num
  have hm : tiltedLeg.mirrorDir = 1 := rfl
  have hn : (ikSubVector tiltedLeg ⟨0.35, 0, 0⟩).norm = 0.25 :=
    axis_target_facts.2.1 tiltedLeg 0.35 rfl rfl (by rw [hm]; norm_num)
  have hyaw : ikYaw tiltedLeg ⟨0.35, 0, 0⟩ = 0 := by
    rw [axis_target_facts.1 tiltedLeg 0.35 rfl, hm]
    exact atan2_polar_form.2.2.2 _ (by norm_num)
  obtain ⟨h1, h2⟩ := scenario_leg_facts.2.2.2.1 hi hf ht
  obtain ⟨h3, h4⟩ := scenario_leg_facts.2.2.2.2.2.2.2 hi hf ht
  have hplan : |tiltedLeg.hipOffset.y| < 0.01 := by
    rw [show tiltedLeg.hipOffset.y = 0 from rfl]; norm_num
  have hret := (initialised_applyLocalIK.2.2.2 hi) ⟨0.35, 0, 0⟩ true hplan hf0 ht0 (h3.trans h4)
  refine ⟨?_, ?_, _, _, hret, hyaw, applyLocalIK_returned.1 _ _ _ _ _ _, ?_⟩
  · rw [hn]; norm_num at h1 ⊢; linarith
  · rw [hn]; norm_num at h2 ⊢; linarith
  · rw [applyLocalIK_returned.1, hyaw, Leg_calculateFK_y_of_yaw_zero]
    rw [show tiltedLeg.tipOffset.y = 0.12 from rfl, show tiltedLeg.kneeOffset.y = 0 from rfl,
      show tiltedLeg.hipOffset.y = 0 from rfl, show tiltedLeg.rootOffset.y = 0 from rfl]
    norm_num [abs_of_pos]

/-- C3, amended. For every leg (its derived fields as `init` sets them) with mirrorDir +1 or −1
whose hip offset has no Y component, whose knee offset is (f, 0, 0) with f > 0 and whose tip
offset has no Y component and is not zero, and every target whose 2-link sub-problem length lies
in [minLegLength + 1e-4, maxLegLength − 1e-4], whatever its yaw: `applyLocalIK` returns, and the
tip position `applyFK` returns after it, which is `calculateFK` of the returned angles, differs
from the target by less than 1e-3 in every coordinate. -/
theorem roundtrip_within_tolerance (leg : Leg ℝ) (kb : Vector2d ℝ) (p : Vector3d ℝ)
    (updateStance updateStance' : Bool) (hinit : leg.Initialised kb)
    (hm : leg.mirrorDir = 1 ∨ leg.mirrorDir = -1) (hhip : leg.hipOffset.y = 0)
    (hkx : 0 < leg.kneeOffset.x) (hky : leg.kneeOffset.y = 0) (hkz : leg.kneeOffset.z = 0)
    (hty : leg.tipOffset.y = 0) (ht : 0 < leg.tibiaLength)
    (hlo : leg.minLegLength + 1e-4 ≤ (ikSubVector leg p).norm)
    (hhi : (ikSubVector leg p).norm ≤ leg.maxLegLength - 1e-4) :
    ∃ angles leg', leg.applyLocalIK p updateStance = some (angles, leg') ∧
      (leg'.applyFK updateStance').1 = leg.calculateFK angles.x angles.y angles.z ∧
      |(leg'.applyFK updateStance').1.x - p.x| < 1e-3 ∧
      |(leg'.applyFK updateStance').1.y - p.y| < 1e-3 ∧
      |(leg'.applyFK updateStance').1.z - p.z| < 1e-3 := by
  have hmm : leg.mirrorDir * leg.mirrorDir = 1 := by
    rcases hm with h | h <;> rw [h] <;> norm_num
  have hfk := hinit.calculateFK_ik p hmm hhip hkx hky hkz hty ht hlo hhi
  have hf : 0 < leg.femurLength := by
    rw [hinit.2.1]
    unfold Vector3d.norm
    rw [Vector3d.squaredNorm, hky, hkz]
    apply Real.sqrt_pos.mpr
    nlinarith
  have hplan : |leg.hipOffset.y| < 0.01 := by
    rw [hhip]; norm_num
  have hret := (initialised_applyLocalIK.2.2.2 hinit) p updateStance hplan hf ht (hlo.trans hhi)
  refine ⟨_, _, hret, applyLocalIK_returned.1 _ _ _ _ _ _, ?_, ?_, ?_⟩ <;>
    · rw [applyLocalIK_returned.1, hfk]
      norm_num

/-- C3, witness: the scenario leg and the target (0.35, 0, 0). -/
theorem roundtrip_within_tolerance_witness :
    ∃ angles leg', (scenarioLeg 1).applyLocalIK ⟨0.35, 0, 0⟩ true = some (angles, leg') ∧
      (leg'.applyFK true).1 = (scenarioLeg 1).calculateFK angles.x angles.y angles.z ∧
      |(leg'.applyFK true).1.x - 0.35| < 1e-3 ∧
      |(leg'.applyFK true).1.y - 0| < 1e-3 ∧
      |(leg'.applyFK true).1.z - 0| < 1e-3 := by
  have hi := scenario_leg_facts.2.2.2.2.1 1 0 0 0
  have hf := scenario_leg_facts.2.2.2.2.2.1 1 0 0 0
  have ht := scenario_leg_facts.2.2.2.2.2.2.1 1 0 0 0
  have hm : (scenarioLeg 1).mirrorDir = 1 := rfl
  have hn : (ikSubVector (scenarioLeg 1) ⟨0.35, 0, 0⟩).norm = 0.25 :=
    axis_target_facts.2.1 (scenarioLeg 1) 0.35 rfl rfl (by rw [hm]; norm_num)
  obtain ⟨h1, h2⟩ := scenario_leg_facts.2.2.2.2.2.2.2 hi hf ht
  exact roundtrip_within_tolerance (scenarioLeg 1) scenarioKneeBend ⟨0.35, 0, 0⟩ true true hi
    (Or.inl rfl) rfl (by rw [show (scenarioLeg 1).kneeOffset.x = 0.2 from rfl]; norm_num) rfl rfl
    rfl (by unfold scenarioLeg; rw [ht]; norm_num) (by rw [hn]; exact h1) (by rw [hn]; exact h2)

/-- C4. The concrete scenario: after `init` (with any start angles) minLegLength and
maxLegLength are the law-of-cosines values for the limits 3.0 and 0.1; `applyLocalIK((0.35,0,0))`
returns, with yaw = 0; and `calculateFK` of the returned angles is within 1e-3 of (0.35, 0, 0) in
every coordinate. -/
theorem scenario_init_ik_fk (y l k : ℝ) (updateStance : Bool) :
    ((scenarioOffsets 1).init scenarioKneeBend y l k).minLegLength =
      Real.sqrt (0.2 ^ 2 + 0.15 ^ 2 - 2 * 0.2 * 0.15 * Real.cos (Real.pi - 3.0)) ∧
    ((scenarioOffsets 1).init scenarioKneeBend y l k).maxLegLength =
      Real.sqrt (0.2 ^ 2 + 0.15 ^ 2 - 2 * 0.2 * 0.15 * Real.cos (Real.pi - 0.1)) ∧
    ∃ angles leg', ((scenarioOffsets 1).init scenarioKneeBend y l k).applyLocalIK ⟨0.35, 0, 0⟩
        updateStance = some (angles, leg') ∧
      angles.x = 0 ∧
      |(((scenarioOffsets 1).init scenarioKneeBend y l k).calculateFK
          angles.x angles.y angles.z).x - 0.35| < 1e-3 ∧
      |(((scenarioOffsets 1).init scenarioKneeBend y l k).calculateFK
          angles.x angles.y angles.z).y - 0| < 1e-3 ∧
      |(((scenarioOffsets 1).init scenarioKneeBend y l k).calculateFK
          angles.x angles.y angles.z).z - 0| < 1e-3 := by
  set leg := (scenarioOffsets 1).init scenarioKneeBend y l k with hleg
  have hi : leg.Initialised scenarioKneeBend := scenario_leg_facts.2.2.2.2.1 1 y l k
  have hf : leg.femurLength = 0.2 := scenario_leg_facts.2.2.2.2.2.1 1 y l k
  have ht : leg.tibiaLength = 0.15 := scenario_leg_facts.2.2.2.2.2.2.1 1 y l k
  have hf0 : 0 < leg.femurLength := by
    rw [hf]; norm_num
  have ht0 : 0 < leg.tibiaLength := by
    rw [ht]; norm_num
  have hm : leg.mirrorDir = 1 := rfl
  have hn : (ikSubVector leg ⟨0.35, 0, 0⟩).norm = 0.25 :=
    axis_target_facts.2.1 leg 0.35 rfl rfl (by rw [hm]; norm_num)
  have hyaw : ikYaw leg ⟨0.35, 0, 0⟩ = 0 := by
    rw [axis_target_facts.1 leg 0.35 rfl, hm]
    exact atan2_polar_form.2.2.2 _ (by norm_num)
  obtain ⟨h1, h2⟩ := scenario_leg_facts.2.2.2.2.2.2.2 hi hf ht
  have hplan : |leg.hipOffset.y| < 0.01 := by
    rw [show leg.hipOffset.y = 0 from rfl]; norm_num
  have hret := (initialised_applyLocalIK.2.2.2 hi) ⟨0.35, 0, 0⟩ updateStance hplan hf0 ht0 (h1.trans
      h2)
  have hfk := hi.calculateFK_ik ⟨0.35, 0, 0⟩ (by rw [hm]; norm_num) rfl
    (by rw [show leg.kneeOffset.x = 0.2 from rfl]; norm_num) rfl rfl rfl ht0
    (by rw [hn]; exact h1) (by rw [hn]; exact h2)
  refine ⟨scenario_leg_facts.2.1 hi hf ht, scenario_leg_facts.2.2.1 hi hf ht,
    _, _, hret, hyaw, ?_, ?_, ?_⟩ <;>
    · rw [hfk]
      norm_num

/-- C5, counterexample. The two scenario legs with mirrorDir +1 and −1 and the targets
(−0.35, 0, 0) and (0.35, 0, 0): both calls return the yaw π, and π is not the negation of π. -/
theorem mirrored_legs_yaw_not_negated :
    ∃ a1 l1 a2 l2, (scenarioLeg 1).applyLocalIK ⟨-0.35, 0, 0⟩ true = some (a1, l1) ∧
      (scenarioLeg (-1)).applyLocalIK ⟨-(-0.35), 0, 0⟩ true = some (a2, l2) ∧
      a1.x = Real.pi ∧ a2.x = Real.pi ∧ a1.x ≠ -a2.x := by
  have key : ∀ m a : ℝ, m * a < 0 → ∃ l1, (scenarioLeg m).applyLocalIK ⟨a, 0, 0⟩ true =
      some (⟨Real.pi, ikLiftAngle (scenarioLeg m) ⟨a, 0, 0⟩,
        ikKneeAngle (scenarioLeg m) ⟨a, 0, 0⟩⟩, l1) := by
    intro m a hma
    have hi : (scenarioLeg m).Initialised scenarioKneeBend := scenario_leg_facts.2.2.2.2.1 m 0 0 0
    have hf : (scenarioLeg m).femurLength = 0.2 := scenario_leg_facts.2.2.2.2.2.1 m 0 0 0
    have ht : (scenarioLeg m).tibiaLength = 0.15 := scenario_leg_facts.2.2.2.2.2.2.1 m 0 0 0
    have hyaw : ikYaw (scenarioLeg m) ⟨a, 0, 0⟩ = Real.pi := by
      rw [axis_target_facts.1 (scenarioLeg m) a rfl]
      exact Complex.arg_ofReal_of_neg hma
    obtain ⟨h1, h2⟩ := scenario_leg_facts.2.2.2.2.2.2.2 hi hf ht
    have hplan : |(scenarioLeg m).hipOffset.y| < 0.01 := by
      rw [show (scenarioLeg m).hipOffset.y = 0 from rfl]; norm_num
    have hret := (initialised_applyLocalIK.2.2.2 hi) ⟨a, 0, 0⟩ true hplan (by rw [hf]; norm_num)
      (by rw [ht]; norm_num) (h1.trans h2)
    rw [hyaw] at hret
    exact ⟨_, hret⟩
  obtain ⟨l1, h1⟩ := key 1 (-0.35) (by norm_num)
  obtain ⟨l2, h2⟩ := key (-1) (-(-0.35)) (by norm_num)
  refine ⟨_, l1, _, l2, h1, h2, rfl, rfl, ?_⟩
  have := Real.pi_pos
  show Real.pi ≠ -Real.pi
  linarith

/-- C5, amended. For every two legs (their derived fields as `init` sets them for the same knee
limits) with identical root/hip/knee/tip offsets but opposite mirrorDir, and every (x, y, z),
`applyLocalIK` on the first leg with target (x, y, z) and on the second with target (−x, y, z)
either fail both or return both, with equal yaw, equal liftAngle and equal kneeAngle; and both
return when |hipOffset.y| < 0.01, femurLength, tibiaLength > 0 and
minLegLength + 1e-4 ≤ maxLegLength − 1e-4. -/
theorem mirrored_legs_equal_angles (leg1 leg2 : Leg ℝ) (kb : Vector2d ℝ) (x y z : ℝ)
    (b1 b2 : Bool) (h1 : leg1.Initialised kb) (h2 : leg2.Initialised kb)
    (hroot : leg1.rootOffset = leg2.rootOffset) (hhip : leg1.hipOffset = leg2.hipOffset)
    (hknee : leg1.kneeOffset = leg2.kneeOffset) (htip : leg1.tipOffset = leg2.tipOffset)
    (hm : leg2.mirrorDir = -leg1.mirrorDir) :
    (leg1.applyLocalIK ⟨x, y, z⟩ b1).map Prod.fst =
        (leg2.applyLocalIK ⟨-x, y, z⟩ b2).map Prod.fst ∧
    (|leg1.hipOffset.y| < 0.01 → 0 < leg1.femurLength → 0 < leg1.tibiaLength →
      leg1.minLegLength + 1e-4 ≤ leg1.maxLegLength - 1e-4 →
      ∃ angles l1 l2, leg1.applyLocalIK ⟨x, y, z⟩ b1 = some (angles, l1) ∧
        leg2.applyLocalIK ⟨-x, y, z⟩ b2 = some (angles, l2)) := by
  -- The joint angles `applyLocalIK` returns depend on the leg and the target only through the
  -- hip offset's Y, the yaw, the direction and clamped length of the sub-problem, the two link
  -- lengths and the tibia angle offset.
  have Leg_applyLocalIK_angles_congr : ∀ (leg1 leg2 : Leg ℝ) (p1 p2 : Vector3d ℝ) (b1 b2 : Bool)
      (hhip : leg1.hipOffset.y = leg2.hipOffset.y) (hyaw : ikYaw leg1 p1 = ikYaw leg2 p2) (hdir :
      atan2 (ikSubVector leg1 p1).z (ikSubVector leg1 p1).x = atan2 (ikSubVector leg2 p2).z
      (ikSubVector leg2 p2).x) (hlen : ikLength leg1 p1 = ikLength leg2 p2) (hf : leg1.femurLength =
      leg2.femurLength) (ht : leg1.tibiaLength = leg2.tibiaLength) (hphi : leg1.tibiaAngleOffset =
      leg2.tibiaAngleOffset),
      (leg1.applyLocalIK p1 b1).map Prod.fst = (leg2.applyLocalIK p2 b2).map Prod.fst := by
    intro leg1 leg2 p1 p2 b1 b2 hhip hyaw hdir hlen hf ht hphi
    rw [applyLocalIK_outcome.2.2.1, applyLocalIK_outcome.2.2.1, hhip, hyaw, hdir, hlen, hf, ht,
        hphi]
    by_cases h0 : |leg2.hipOffset.y| < 0.01
    · rw [if_neg (not_not.mpr h0), if_neg (not_not.mpr h0)]
      cases fdiv (sqr (ikLength leg2 p2) + sqr leg2.femurLength - sqr leg2.tibiaLength)
          (2.0 * ikLength leg2 p2 * leg2.femurLength) with
      | none => rfl
      | some a =>
        simp only [Option.some_bind]
        cases acos a with
        | none => rfl
        | some lift =>
          simp only [Option.some_bind]
          cases fdiv (-(sqr leg2.femurLength + sqr leg2.tibiaLength - sqr (ikLength leg2 p2)))
              (2.0 * leg2.femurLength * leg2.tibiaLength) with
          | none => rfl
          | some c =>
            simp only [Option.some_bind]
            cases acos c with
            | none => rfl
            | some kneeBend =>
              simp only [Option.some_bind]
              split_ifs <;> rfl
    · rw [if_pos h0, if_pos h0]
  have hf : leg1.femurLength = leg2.femurLength := by
    rw [h1.2.1, h2.2.1, hknee]
  have ht : leg1.tibiaLength = leg2.tibiaLength := by
    rw [h1.2.2.2.1, h2.2.2.2.1, htip]
  have hphi : leg1.tibiaAngleOffset = leg2.tibiaAngleOffset := by
    rw [h1.2.2.2.2.1, h2.2.2.2.2.1, htip]
  have hmin : leg1.minLegLength = leg2.minLegLength := by
    rw [h1.2.2.2.2.2.1, h2.2.2.2.2.2.1, hf, ht]
  have hmax : leg1.maxLegLength = leg2.maxLegLength := by
    rw [h1.2.2.2.2.2.2, h2.2.2.2.2.2.2, hf, ht]
  have hq : ikRootTarget leg1 ⟨x, y, z⟩ = ikRootTarget leg2 ⟨-x, y, z⟩ := by
    ext <;> dsimp only [ikRootTarget] <;> simp [hm, hroot]
  have hyaw : ikYaw leg1 ⟨x, y, z⟩ = ikYaw leg2 ⟨-x, y, z⟩ := by
    unfold ikYaw
    rw [hq]
  have hv : ikSubVector leg1 ⟨x, y, z⟩ = ikSubVector leg2 ⟨-x, y, z⟩ := by
    unfold ikSubVector
    rw [hyaw, hq, hhip]
  have hL : ikLength leg1 ⟨x, y, z⟩ = ikLength leg2 ⟨-x, y, z⟩ := by
    unfold ikLength
    rw [hv, hmin, hmax]
  have hcongr := Leg_applyLocalIK_angles_congr leg1 leg2 ⟨x, y, z⟩ ⟨-x, y, z⟩ b1 b2
    (by rw [hhip]) hyaw (by rw [hv]) hL hf ht hphi
  refine ⟨hcongr, ?_⟩
  intro hplan hf0 ht0 hr
  have hret := (initialised_applyLocalIK.2.2.2 h1) ⟨x, y, z⟩ b1 hplan hf0 ht0 hr
  rw [hret] at hcongr
  cases h : leg2.applyLocalIK ⟨-x, y, z⟩ b2 with
  | none =>
    rw [h] at hcongr
    simp at hcongr
  | some r =>
    rw [h] at hcongr
    simp only [Option.map_some', Option.some.injEq] at hcongr
    refine ⟨_, _, r.2, hret, ?_⟩
    rw [hcongr]

/-- C5, witness: the two scenario legs with mirrorDir +1 and −1. -/
theorem mirrored_legs_equal_angles_witness :
    ((scenarioLeg 1).applyLocalIK ⟨-0.35, 0, 0⟩ true).map Prod.fst =
        ((scenarioLeg (-1)).applyLocalIK ⟨-(-0.35), 0, 0⟩ true).map Prod.fst ∧
    ∃ angles l1 l2, (scenarioLeg 1).applyLocalIK ⟨-0.35, 0, 0⟩ true = some (angles, l1) ∧
      (scenarioLeg (-1)).applyLocalIK ⟨-(-0.35), 0, 0⟩ true = some (angles, l2) := by
  have hi : (scenarioLeg 1).Initialised scenarioKneeBend := scenario_leg_facts.2.2.2.2.1 1 0 0 0
  have hf : (scenarioLeg 1).femurLength = 0.2 := scenario_leg_facts.2.2.2.2.2.1 1 0 0 0
  have ht : (scenarioLeg 1).tibiaLength = 0.15 := scenario_leg_facts.2.2.2.2.2.2.1 1 0 0 0
  obtain ⟨h1, h2⟩ := scenario_leg_facts.2.2.2.2.2.2.2 hi hf ht
  have h := mirrored_legs_equal_angles (scenarioLeg 1) (scenarioLeg (-1)) scenarioKneeBend
    (-0.35) 0 0 true true hi (scenario_leg_facts.2.2.2.2.1 (-1) 0 0 0) rfl rfl rfl rfl rfl
  exact ⟨h.1, h.2 (by rw [show (scenarioLeg 1).hipOffset.y = 0 from rfl]; norm_num)
    (by rw [hf]; norm_num) (by rw [ht]; norm_num) (h1.trans h2)⟩

/-- C6, counterexample. The scenario leg with hipOffset = (0.1, 0.5, 0) has positive link
lengths and a non-empty clamp range; the targets (1, 0, 0) and (0.1 + maxLegLength, 0, 0) have
the same yaw and the same sub-problem direction, the first has sub-problem length 0.9 above
maxLegLength and the second has it equal to maxLegLength; but the planarity assertion fails and
`applyLocalIK` returns no angles. -/
theorem lateral_hip_applyLocalIK_fails :
    0 < lateralHipLeg.femurLength ∧ 0 < lateralHipLeg.tibiaLength ∧
    lateralHipLeg.minLegLength + 1e-4 ≤ lateralHipLeg.maxLegLength - 1e-4 ∧
    ikYaw lateralHipLeg ⟨1, 0, 0⟩ = ikYaw lateralHipLeg ⟨0.1 + lateralHipLeg.maxLegLength, 0, 0⟩ ∧
    atan2 (ikSubVector lateralHipLeg ⟨1, 0, 0⟩).z (ikSubVector lateralHipLeg ⟨1, 0, 0⟩).x =
      atan2 (ikSubVector lateralHipLeg ⟨0.1 + lateralHipLeg.maxLegLength, 0, 0⟩).z
        (ikSubVector lateralHipLeg ⟨0.1 + lateralHipLeg.maxLegLength, 0, 0⟩).x ∧
    lateralHipLeg.maxLegLength < (ikSubVector lateralHipLeg ⟨1, 0, 0⟩).norm ∧
    (ikSubVector lateralHipLeg ⟨0.1 + lateralHipLeg.maxLegLength, 0, 0⟩).norm =
      lateralHipLeg.maxLegLength ∧
    lateralHipLeg.applyLocalIK ⟨1, 0, 0⟩ true = none := by
  have hi : lateralHipLeg.Initialised scenarioKneeBend := initialised_lengths.1 _ _ _ _ _
  have hf : lateralHipLeg.femurLength = 0.2 := scenario_leg_facts.1 0.2 (by norm_num)
  have ht : lateralHipLeg.tibiaLength = 0.15 := scenario_leg_facts.1 0.15 (by norm_num)
  obtain ⟨h1, h2⟩ := scenario_leg_facts.2.2.2.2.2.2.2 hi hf ht
  obtain ⟨h5, h6, h7, h8⟩ := axis_target_facts.2.2 lateralHipLeg hi hf ht rfl rfl rfl rfl
  refine ⟨by rw [hf]; norm_num, by rw [ht]; norm_num, h1.trans h2, h5, h6, h7, h8, ?_⟩
  rw [applyLocalIK_outcome.2.2.1, if_pos]
  rw [show lateralHipLeg.hipOffset.y = 0.5 from rfl]
  norm_num [abs_of_pos]

/-- C6, amended. For every leg (its derived fields as `init` sets them) with |hipOffset.y| < 0.01,
femurLength, tibiaLength > 0 and minLegLength + 1e-4 ≤ maxLegLength − 1e-4, and every two targets
whose yaw and sub-problem direction agree, where the first has sub-problem length outside
[minLegLength, maxLegLength] and the second has that length replaced by the nearest of the two
bounds: `applyLocalIK` returns for both, with the same (yaw, liftAngle, kneeAngle), and no
inverse-cosine argument is outside [−1, 1]. -/
theorem clamp_safety (leg : Leg ℝ) (kb : Vector2d ℝ) (p1 p2 : Vector3d ℝ) (b1 b2 : Bool)
    (hinit : leg.Initialised kb) (hplan : |leg.hipOffset.y| < 0.01) (hf : 0 < leg.femurLength)
    (ht : 0 < leg.tibiaLength) (hr : leg.minLegLength + 1e-4 ≤ leg.maxLegLength - 1e-4)
    (hyaw : ikYaw leg p1 = ikYaw leg p2)
    (hdir : atan2 (ikSubVector leg p1).z (ikSubVector leg p1).x =
      atan2 (ikSubVector leg p2).z (ikSubVector leg p2).x)
    (hlen : ((ikSubVector leg p1).norm < leg.minLegLength ∧
        (ikSubVector leg p2).norm = leg.minLegLength) ∨
      (leg.maxLegLength < (ikSubVector leg p1).norm ∧
        (ikSubVector leg p2).norm = leg.maxLegLength)) :
    ∃ angles l1 l2, leg.applyLocalIK p1 b1 = some (angles, l1) ∧
      leg.applyLocalIK p2 b2 = some (angles, l2) ∧
      (-1 ≤ ikLiftArg leg p1 ∧ ikLiftArg leg p1 ≤ 1) ∧
      (-1 ≤ ikKneeArg leg p1 ∧ ikKneeArg leg p1 ≤ 1) ∧
      (-1 ≤ ikLiftArg leg p2 ∧ ikLiftArg leg p2 ≤ 1) ∧
      (-1 ≤ ikKneeArg leg p2 ∧ ikKneeArg leg p2 ≤ 1) := by
  have hL : ikLength leg p1 = ikLength leg p2 := by
    unfold ikLength
    rw [clamped, clamped]
    norm_num at hr
    rcases hlen with ⟨h1, h2⟩ | ⟨h1, h2⟩
    · rw [h2, max_eq_left, max_eq_left]
      · apply le_trans (min_le_left _ _); norm_num
      · apply le_trans (min_le_left _ _); norm_num; linarith
    · rw [h2, min_eq_right, min_eq_right]
      · norm_num
      · norm_num; linarith
  obtain ⟨hL0, hL1, hL2⟩ := (initialised_applyLocalIK.1 hinit) p1 hr
  obtain ⟨hla, hka⟩ := initialised_applyLocalIK.2.1 leg p1 hf ht hL0 hL1 hL2
  obtain ⟨hL0', hL1', hL2'⟩ := (initialised_applyLocalIK.1 hinit) p2 hr
  obtain ⟨hla', hka'⟩ := initialised_applyLocalIK.2.1 leg p2 hf ht hL0' hL1' hL2'
  have hret1 := (initialised_applyLocalIK.2.2.2 hinit) p1 b1 hplan hf ht hr
  have hret2 := (initialised_applyLocalIK.2.2.2 hinit) p2 b2 hplan hf ht hr
  have e1 : ikLiftAngle leg p1 = ikLiftAngle leg p2 := by
    unfold ikLiftAngle ikLiftArg
    rw [hdir, hL]
  have e2 : ikKneeAngle leg p1 = ikKneeAngle leg p2 := by
    unfold ikKneeAngle ikKneeArg
    rw [hL]
  rw [← hyaw, ← e1, ← e2] at hret2
  exact ⟨_, _, _, hret1, hret2, hla, hka, hla', hka'⟩

/-- C6, witness: the scenario leg and the targets (1, 0, 0) and (0.1 + maxLegLength, 0, 0). -/
theorem clamp_safety_witness :
    ∃ angles l1 l2, (scenarioLeg 1).applyLocalIK ⟨1, 0, 0⟩ true = some (angles, l1) ∧
      (scenarioLeg 1).applyLocalIK ⟨0.1 + (scenarioLeg 1).maxLegLength, 0, 0⟩ true =
        some (angles, l2) ∧
      (-1 ≤ ikLiftArg (scenarioLeg 1) ⟨1, 0, 0⟩ ∧ ikLiftArg (scenarioLeg 1) ⟨1, 0, 0⟩ ≤ 1) ∧
      (-1 ≤ ikKneeArg (scenarioLeg 1) ⟨1, 0, 0⟩ ∧ ikKneeArg (scenarioLeg 1) ⟨1, 0, 0⟩ ≤ 1) ∧
      (-1 ≤ ikLiftArg (scenarioLeg 1) ⟨0.1 + (scenarioLeg 1).maxLegLength, 0, 0⟩ ∧
        ikLiftArg (scenarioLeg 1) ⟨0.1 + (scenarioLeg 1).maxLegLength, 0, 0⟩ ≤ 1) ∧
      (-1 ≤ ikKneeArg (scenarioLeg 1) ⟨0.1 + (scenarioLeg 1).maxLegLength, 0, 0⟩ ∧
        ikKneeArg (scenarioLeg 1) ⟨0.1 + (scenarioLeg 1).maxLegLength, 0, 0⟩ ≤ 1) := by
  have hi : (scenarioLeg 1).Initialised scenarioKneeBend := scenario_leg_facts.2.2.2.2.1 1 0 0 0
  have hf : (scenarioLeg 1).femurLength = 0.2 := scenario_leg_facts.2.2.2.2.2.1 1 0 0 0
  have ht : (scenarioLeg 1).tibiaLength = 0.15 := scenario_leg_facts.2.2.2.2.2.2.1 1 0 0 0
  obtain ⟨h1, h2⟩ := scenario_leg_facts.2.2.2.2.2.2.2 hi hf ht
  obtain ⟨h5, h6, h7, h8⟩ := axis_target_facts.2.2 (scenarioLeg 1) hi hf ht rfl rfl rfl rfl
  exact clamp_safety (scenarioLeg 1) scenarioKneeBend ⟨1, 0, 0⟩
    ⟨0.1 + (scenarioLeg 1).maxLegLength, 0, 0⟩ true true hi
    (by rw [show (scenarioLeg 1).hipOffset.y = 0 from rfl]; norm_num) (by rw [hf]; norm_num)
    (by rw [ht]; norm_num) (h1.trans h2) h5 h6 (Or.inr ⟨h7, h8⟩)

/-- C7. For every leg whose derived fields are those `init` produces, with femurLength f > 0,
tibiaLength t > 0 and minLegLength + 1e-4 ≤ maxLegLength − 1e-4, and every target: the clamped
length L used by `applyLocalIK` is positive and both inverse-cosine arguments lie in [−1, 1]; so
neither quotient has a zero divisor, both inverse cosines are defined, and the call can only fail
at the planarity assertion. -/
theorem acos_arguments_in_domain (leg : Leg ℝ) (kb : Vector2d ℝ) (p : Vector3d ℝ)
    (updateStance : Bool) (hinit : leg.Initialised kb) (hf : 0 < leg.femurLength)
    (ht : 0 < leg.tibiaLength) (hr : leg.minLegLength + 1e-4 ≤ leg.maxLegLength - 1e-4) :
    let f := leg.femurLength
    let t := leg.tibiaLength
    let q := (⟨leg.mirrorDir * p.x, p.y, p.z⟩ : Vector3d ℝ) - leg.rootOffset
    let w := Rz (-(atan2 q.y q.x)) q - leg.hipOffset
    let v : Vector3d ℝ := ⟨w.x, 0, w.z⟩
    let L := clamped v.norm (leg.minLegLength + 1e-4) (leg.maxLegLength - 1e-4)
    0 < L ∧
    (-1 ≤ (L ^ 2 + f ^ 2 - t ^ 2) / (2 * L * f) ∧ (L ^ 2 + f ^ 2 - t ^ 2) / (2 * L * f) ≤ 1) ∧
    (-1 ≤ -(f ^ 2 + t ^ 2 - L ^ 2) / (2 * f * t) ∧ -(f ^ 2 + t ^ 2 - L ^ 2) / (2 * f * t) ≤ 1) ∧
    ((fdiv (sqr L + sqr f - sqr t) (2.0 * L * f)).bind acos).isSome ∧
    ((fdiv (-(sqr f + sqr t - sqr L)) (2.0 * f * t)).bind acos).isSome ∧
    ((leg.applyLocalIK p updateStance).isSome = true ↔ |leg.hipOffset.y| < 0.01) := by
  intro f t q w v L
  obtain ⟨hL0, hL1, hL2⟩ := (initialised_applyLocalIK.1 hinit) p hr
  obtain ⟨hla, hka⟩ := initialised_applyLocalIK.2.1 leg p hf ht hL0 hL1 hL2
  refine ⟨hL0, hla, hka, ?_, ?_, ?_⟩
  · have h := applyLocalIK_outcome.2.2.2.1 leg p hL0.ne' hf.ne'
    show ((fdiv (sqr (ikLength leg p) + sqr leg.femurLength - sqr leg.tibiaLength)
      (2.0 * ikLength leg p * leg.femurLength)).bind acos).isSome
    rw [h, Option.some_bind]
    unfold acos
    rw [if_pos hla]
    rfl
  · have h := applyLocalIK_outcome.2.2.2.2.1 leg p hf.ne' ht.ne'
    show ((fdiv (-(sqr leg.femurLength + sqr leg.tibiaLength - sqr (ikLength leg p)))
      (2.0 * leg.femurLength * leg.tibiaLength)).bind acos).isSome
    rw [h, Option.some_bind]
    unfold acos
    rw [if_pos hka]
    rfl
  · by_cases hplan : |leg.hipOffset.y| < 0.01
    · rw [(initialised_applyLocalIK.2.2.2 hinit) p updateStance hplan hf ht hr]
      simp [hplan]
    · rw [applyLocalIK_outcome.2.2.1, if_pos hplan]
      simp [hplan]

/-- C7, witness: the scenario leg and the target (0.35, 0, 0). -/
theorem acos_arguments_in_domain_witness :
    0 < ikLength (scenarioLeg 1) ⟨0.35, 0, 0⟩ ∧
    (-1 ≤ ikLiftArg (scenarioLeg 1) ⟨0.35, 0, 0⟩ ∧ ikLiftArg (scenarioLeg 1) ⟨0.35, 0, 0⟩ ≤ 1) ∧
    (-1 ≤ ikKneeArg (scenarioLeg 1) ⟨0.35, 0, 0⟩ ∧ ikKneeArg (scenarioLeg 1) ⟨0.35, 0, 0⟩ ≤ 1) ∧
    (((scenarioLeg 1).applyLocalIK ⟨0.35, 0, 0⟩ true).isSome = true ↔
      |(scenarioLeg 1).hipOffset.y| < 0.01) := by
  have hi : (scenarioLeg 1).Initialised scenarioKneeBend := scenario_leg_facts.2.2.2.2.1 1 0 0 0
  have hf : (scenarioLeg 1).femurLength = 0.2 := scenario_leg_facts.2.2.2.2.2.1 1 0 0 0
  have ht : (scenarioLeg 1).tibiaLength = 0.15 := scenario_leg_facts.2.2.2.2.2.2.1 1 0 0 0
  obtain ⟨h1, h2⟩ := scenario_leg_facts.2.2.2.2.2.2.2 hi hf ht
  have h := acos_arguments_in_domain (scenarioLeg 1) scenarioKneeBend ⟨0.35, 0, 0⟩ true hi
    (by rw [hf]; norm_num) (by rw [ht]; norm_num) (h1.trans h2)
  exact ⟨h.1, h.2.1, h.2.2.1, h.2.2.2.2.2⟩

/-- C8, counterexample. With the yaw limit −1 (stance yaw 0) a leg at yaw 0 is set to yaw 1 by
the first `clampToLimits` and to yaw −1 by the second. -/
theorem clampToLimits_twice_differs_for_negative_yawLimit :
    (negativeYawLimitModel.clampToLimits.1.legs 0 0).yaw = 1 ∧
    (negativeYawLimitModel.clampToLimits.1.clampToLimits.1.legs 0 0).yaw = -1 ∧
    negativeYawLimitModel.clampToLimits.1.clampToLimits.1 ≠
      negativeYawLimitModel.clampToLimits.1 := by
  have h1 : (negativeYawLimitModel.clampToLimits.1.legs 0 0).yaw = 1 := by
    rw [Model.clampToLimits_legs, Model.clampLeg_fst]
    simp [negativeYawLimitModel, sampleModel, angleLeg, Vector3d.get]
  have h2 : (negativeYawLimitModel.clampToLimits.1.clampToLimits.1.legs 0 0).yaw = -1 := by
    rw [Model.clampToLimits_legs, Model.clampLeg_fst]
    simp only [h1, (Model.clampToLimits_limits negativeYawLimitModel).1,
      (Model.clampToLimits_limits negativeYawLimitModel).2.1]
    simp [negativeYawLimitModel, sampleModel, Vector3d.get]
  refine ⟨h1, h2, ?_⟩
  intro h
  rw [h, h1] at h2
  norm_num at h2

/-- C8, amended. For every Model state (any joint angles of the six legs) whose limits are
ordered, yawLimitAroundStance[l] ≥ 0 for each leg-position l, minMaxHipLift[0] ≤ minMaxHipLift[1]
and minMaxKneeBend[0] ≤ minMaxKneeBend[1], applying `clampToLimits` twice in succession yields
exactly the same model, so the same joint angles, as applying it once. -/
theorem clampToLimits_idempotent {α : Type} [LinearOrderedField α] (m : Model α)
    (hY : ∀ l, 0 ≤ m.yawLimitAroundStance.get l)
    (hH : m.minMaxHipLift.e0 ≤ m.minMaxHipLift.e1)
    (hK : m.minMaxKneeBend.e0 ≤ m.minMaxKneeBend.e1) :
    m.clampToLimits.1.clampToLimits.1 = m.clampToLimits.1 := by
  obtain ⟨e1, e2, e3, e4, e5⟩ := m.clampToLimits_limits
  obtain ⟨f1, f2, f3, f4, f5⟩ := m.clampToLimits.1.clampToLimits_limits
  apply Model.ext
  · funext l side
    rw [Model.clampToLimits_legs, Model.clampLeg_fst_max_min _ _ _ _ (by rw [e2]; exact hY l)
      (by rw [e4]; exact hH) (by rw [e3]; exact hK), e1, e2, e3, e4]
    have hYl : m.stanceLegYaws.get l - m.yawLimitAroundStance.get l ≤
        m.stanceLegYaws.get l + m.yawLimitAroundStance.get l := by
      have := hY l
      linarith
    rw [Model.clampToLimits_legs, Model.clampLeg_fst_max_min _ _ _ _ (hY l) hH hK]
    simp only [max_min_idem _ _ _ hYl, max_min_idem _ _ _ hH, max_min_idem _ _ _ hK]
  · exact f1
  · exact f2
  · exact f3
  · exact f4
  · exact f5

/-- C8, witness: the sample model. -/
theorem clampToLimits_idempotent_witness :
    sampleModel.clampToLimits.1.clampToLimits.1 = sampleModel.clampToLimits.1 :=
  clampToLimits_idempotent sampleModel
    (by intro l; fin_cases l <;> simp [sampleModel, Vector3d.get])
    (by norm_num [sampleModel]) (by norm_num [sampleModel])

/-- C9. For every Model with yawLimitAroundStance[l] ≥ 0 for each leg-position l,
minMaxHipLift[0] ≤ minMaxHipLift[1] and minMaxKneeBend[0] ≤ minMaxKneeBend[1]: after
`clampToLimits` every leg (l, side) has yaw' = max(stanceLegYaws[l] − yawLimit[l],
min(stanceLegYaws[l] + yawLimit[l], yaw)), liftAngle' = max(hipLiftMin, min(hipLiftMax,
liftAngle)), kneeAngle' = max(kneeMin, min(kneeMax, kneeAngle)); each angle ends inside its
range, an angle already inside its range is unchanged, and the limits depend on the leg-position
only, not on the side. -/
theorem clampToLimits_clamps_each_angle {α : Type} [LinearOrderedField α] (m : Model α)
    (hY : ∀ l, 0 ≤ m.yawLimitAroundStance.get l)
    (hH : m.minMaxHipLift.e0 ≤ m.minMaxHipLift.e1)
    (hK : m.minMaxKneeBend.e0 ≤ m.minMaxKneeBend.e1) (l : Fin 3) (side : Fin 2) :
    let leg := m.legs l side
    let leg' := m.clampToLimits.1.legs l side
    let yawMin := m.stanceLegYaws.get l - m.yawLimitAroundStance.get l
    let yawMax := m.stanceLegYaws.get l + m.yawLimitAroundStance.get l
    (leg'.yaw = max yawMin (min yawMax leg.yaw) ∧
      leg'.liftAngle = max m.minMaxHipLift.e0 (min m.minMaxHipLift.e1 leg.liftAngle) ∧
      leg'.kneeAngle = max m.minMaxKneeBend.e0 (min m.minMaxKneeBend.e1 leg.kneeAngle)) ∧
    ((yawMin ≤ leg'.yaw ∧ leg'.yaw ≤ yawMax) ∧
      (m.minMaxHipLift.e0 ≤ leg'.liftAngle ∧ leg'.liftAngle ≤ m.minMaxHipLift.e1) ∧
      (m.minMaxKneeBend.e0 ≤ leg'.kneeAngle ∧ leg'.kneeAngle ≤ m.minMaxKneeBend.e1)) ∧
    ((yawMin ≤ leg.yaw → leg.yaw ≤ yawMax → leg'.yaw = leg.yaw) ∧
      (m.minMaxHipLift.e0 ≤ leg.liftAngle → leg.liftAngle ≤ m.minMaxHipLift.e1 →
        leg'.liftAngle = leg.liftAngle) ∧
      (m.minMaxKneeBend.e0 ≤ leg.kneeAngle → leg.kneeAngle ≤ m.minMaxKneeBend.e1 →
        leg'.kneeAngle = leg.kneeAngle)) := by
  intro leg leg' yawMin yawMax
  have hYl : yawMin ≤ yawMax := by
    have := hY l
    show m.stanceLegYaws.get l - m.yawLimitAroundStance.get l ≤
      m.stanceLegYaws.get l + m.yawLimitAroundStance.get l
    linarith
  have hleg : leg' = { leg with
      yaw := max yawMin (min yawMax leg.yaw)
      liftAngle := max m.minMaxHipLift.e0 (min m.minMaxHipLift.e1 leg.liftAngle)
      kneeAngle := max m.minMaxKneeBend.e0 (min m.minMaxKneeBend.e1 leg.kneeAngle) } := by
    show m.clampToLimits.1.legs l side = _
    rw [Model.clampToLimits_legs, Model.clampLeg_fst_max_min _ _ _ _ (hY l) hH hK]
  have hy : leg'.yaw = max yawMin (min yawMax leg.yaw) := by rw [hleg]
  have hl : leg'.liftAngle = max m.minMaxHipLift.e0 (min m.minMaxHipLift.e1 leg.liftAngle) := by
    rw [hleg]
  have hk : leg'.kneeAngle = max m.minMaxKneeBend.e0 (min m.minMaxKneeBend.e1 leg.kneeAngle) := by
    rw [hleg]
  refine ⟨⟨hy, hl, hk⟩, ⟨⟨?_, ?_⟩, ⟨?_, ?_⟩, ⟨?_, ?_⟩⟩, ⟨?_, ?_, ?_⟩⟩
  · rw [hy]; exact le_max_left _ _
  · rw [hy]; exact max_le hYl (min_le_left _ _)
  · rw [hl]; exact le_max_left _ _
  · rw [hl]; exact max_le hH (min_le_left _ _)
  · rw [hk]; exact le_max_left _ _
  · rw [hk]; exact max_le hK (min_le_left _ _)
  · intro h1 h2
    rw [hy, min_eq_right h2, max_eq_right h1]
  · intro h1 h2
    rw [hl, min_eq_right h2, max_eq_right h1]
  · intro h1 h2
    rw [hk, min_eq_right h2, max_eq_right h1]

/-- C9, witness: the sample model, whose legs at (5, −3, 1) end at (1, −1, 1). -/
theorem clampToLimits_clamps_each_angle_witness :
    (sampleModel.clampToLimits.1.legs 0 1).yaw = 1 ∧
    (sampleModel.clampToLimits.1.legs 0 1).liftAngle = -1 ∧
    (sampleModel.clampToLimits.1.legs 0 1).kneeAngle = 1 := by
  have h := (clampToLimits_clamps_each_angle sampleModel
    (by intro l; fin_cases l <;> simp [sampleModel, Vector3d.get])
    (by norm_num [sampleModel]) (by norm_num [sampleModel]) 0 1).1
  simp only [sampleModel, angleLeg, Vector3d.get] at h
  norm_num at h
  exact h

/-- C10, counterexample. With femur and tibia of length 1 and kneeMax = 2π, `init` sets
minLegLength = sqrt(1 + 1 − 2·cos(max(0, π − 2π))) = 0, while the expression of the
specification, sqrt(1 + 1 − 2·cos(π − max(0, 2π))), is 2. -/
theorem minLegLength_differs_beyond_pi :
    (unitOffsets.init ⟨0, 2 * Real.pi⟩ 0 0 0).minLegLength = 0 ∧
    specMinLegLength (unitOffsets.init ⟨0, 2 * Real.pi⟩ 0 0 0).femurLength
      (unitOffsets.init ⟨0, 2 * Real.pi⟩ 0 0 0).tibiaLength (2 * Real.pi) = 2 ∧
    (unitOffsets.init ⟨0, 2 * Real.pi⟩ 0 0 0).minLegLength ≠
      specMinLegLength (unitOffsets.init ⟨0, 2 * Real.pi⟩ 0 0 0).femurLength
        (unitOffsets.init ⟨0, 2 * Real.pi⟩ 0 0 0).tibiaLength (2 * Real.pi) := by
  have hi : (unitOffsets.init ⟨0, 2 * Real.pi⟩ 0 0 0).Initialised ⟨0, 2 * Real.pi⟩ :=
    initialised_lengths.1 _ _ _ _ _
  have hf : (unitOffsets.init ⟨0, 2 * Real.pi⟩ 0 0 0).femurLength = 1 :=
    scenario_leg_facts.1 1 (by norm_num)
  have ht : (unitOffsets.init ⟨0, 2 * Real.pi⟩ 0 0 0).tibiaLength = 1 :=
    scenario_leg_facts.1 1 (by norm_num)
  have hp := Real.pi_pos
  have h4 : Real.sqrt 4 = 2 := by
    rw [show (4 : ℝ) = 2 * 2 by norm_num]
    exact Real.sqrt_mul_self (by norm_num)
  have hmin : (unitOffsets.init ⟨0, 2 * Real.pi⟩ 0 0 0).minLegLength = 0 := by
    rw [hi.2.2.2.2.2.1, hf, ht]
    have : max (0.0 : ℝ) (Real.pi - 2 * Real.pi) = 0 := by
      rw [show (0.0 : ℝ) = 0 by norm_num]
      exact max_eq_left (by linarith)
    simp only [this, Real.cos_zero, sqr]
    norm_num
  have hspec : specMinLegLength (unitOffsets.init ⟨0, 2 * Real.pi⟩ 0 0 0).femurLength
      (unitOffsets.init ⟨0, 2 * Real.pi⟩ 0 0 0).tibiaLength (2 * Real.pi) = 2 := by
    rw [hf, ht]
    unfold specMinLegLength
    rw [max_eq_right (by linarith : (0 : ℝ) ≤ 2 * Real.pi),
      show Real.pi - 2 * Real.pi = -Real.pi by ring, Real.cos_neg, Real.cos_pi]
    norm_num
    exact h4
  refine ⟨hmin, hspec, ?_⟩
  rw [hmin, hspec]
  norm_num

/-- C10, amended. After `Leg::init`, minLegLength =
sqrt(femurLength² + tibiaLength² − 2·femurLength·tibiaLength·cos(max(0, π − kneeMax))) for every
femur/tibia length and every configured kneeMax (= minMaxKneeBend[1]): the floor at 0 is applied
to the interior knee angle π − kneeMax. This is the expression of the specification,
with cos(π − max(0, kneeMax)), whenever 0 ≤ kneeMax ≤ π. -/
theorem init_minLegLength (leg : Leg ℝ) (kb : Vector2d ℝ) (y l k : ℝ) :
    (leg.init kb y l k).femurLength = leg.kneeOffset.norm ∧
    (leg.init kb y l k).tibiaLength = leg.tipOffset.norm ∧
    (leg.init kb y l k).minLegLength =
      Real.sqrt ((leg.init kb y l k).femurLength ^ 2 + (leg.init kb y l k).tibiaLength ^ 2 -
        2 * (leg.init kb y l k).femurLength * (leg.init kb y l k).tibiaLength *
          Real.cos (max 0 (Real.pi - kb.e1))) ∧
    (0 ≤ kb.e1 → kb.e1 ≤ Real.pi →
      (leg.init kb y l k).minLegLength =
        specMinLegLength (leg.init kb y l k).femurLength (leg.init kb y l k).tibiaLength kb.e1) :=
            by
  have hi := initialised_lengths.1 leg kb y l k
  have hmin : (leg.init kb y l k).minLegLength =
      Real.sqrt ((leg.init kb y l k).femurLength ^ 2 + (leg.init kb y l k).tibiaLength ^ 2 -
        2 * (leg.init kb y l k).femurLength * (leg.init kb y l k).tibiaLength *
          Real.cos (max 0 (Real.pi - kb.e1))) := by
    rw [hi.2.2.2.2.2.1, show (2.0 : ℝ) = 2 by norm_num, show (0.0 : ℝ) = 0 by norm_num]
    simp only [sqr]
    congr 1
    ring
  refine ⟨rfl, rfl, hmin, ?_⟩
  intro h0 h1
  rw [hmin]
  unfold specMinLegLength
  rw [max_eq_right h0, max_eq_right (by linarith)]

/-- C10, witness: the scenario leg, whose kneeMax is 3.0. -/
theorem init_minLegLength_witness :
    (scenarioLeg 1).minLegLength =
      specMinLegLength (scenarioLeg 1).femurLength (scenarioLeg 1).tibiaLength 3.0 :=
  (init_minLegLength (scenarioOffsets 1) scenarioKneeBend 0 0 0).2.2.2
    (by dsimp only [scenarioKneeBend]; norm_num)
    (by have := Real.pi_gt_three; (dsimp only [scenarioKneeBend]; norm_num); linarith)

/-- C11. After `Leg::init`, whatever the offsets, the start angles and the configured kneeMin
(= minMaxKneeBend[0]): femurLength and tibiaLength are the norms of the knee and tip offsets and
maxLegLength = sqrt(femurLength² + tibiaLength² − 2·femurLength·tibiaLength·
cos(π − max(0, kneeMin))). -/
theorem init_maxLegLength (leg : Leg ℝ) (kb : Vector2d ℝ) (y l k : ℝ) :
    (leg.init kb y l k).femurLength = leg.kneeOffset.norm ∧
    (leg.init kb y l k).tibiaLength = leg.tipOffset.norm ∧
    (leg.init kb y l k).maxLegLength =
      Real.sqrt ((leg.init kb y l k).femurLength ^ 2 + (leg.init kb y l k).tibiaLength ^ 2 -
        2 * (leg.init kb y l k).femurLength * (leg.init kb y l k).tibiaLength *
          Real.cos (Real.pi - max 0 kb.e0)) ∧
    (leg.init kb y l k).maxLegLength =
      specMaxLegLength (leg.init kb y l k).femurLength (leg.init kb y l k).tibiaLength kb.e0 := by
  have hi := initialised_lengths.1 leg kb y l k
  have hmax : (leg.init kb y l k).maxLegLength =
      Real.sqrt ((leg.init kb y l k).femurLength ^ 2 + (leg.init kb y l k).tibiaLength ^ 2 -
        2 * (leg.init kb y l k).femurLength * (leg.init kb y l k).tibiaLength *
          Real.cos (Real.pi - max 0 kb.e0)) := by
    rw [hi.2.2.2.2.2.2, show (2.0 : ℝ) = 2 by norm_num, show (0.0 : ℝ) = 0 by norm_num]
    simp only [sqr]
    congr 1
    ring
  exact ⟨rfl, rfl, hmax, hmax⟩

/-- C13. For every three DH records, `createJacobian3DOF` on their maps returns a 3×3 matrix,
and its entry (i, j) is the derivative with respect to the joint angle theta of record j + 1, at
the given thetas, of coordinate i of the end-effector position, the translation part of
T_1·T_2·T_3 with T_k = Rz(theta_k)·Tz(d_k)·Tx(r_k)·Rx(alpha_k). -/
theorem createJacobian3DOF_is_jacobian (p1 p2 p3 : DHRecord ℝ) :
    ∃ J, createJacobian3DOF [p1.toMap, p2.toMap, p3.toMap] = .ok J ∧
      ∀ (i : Fin 3) (j : Fin 3),
        HasDerivAt (fun t => endEffector (withTheta [p1, p2, p3] j t) i) (J i j)
          (![p1.theta, p2.theta, p3.theta] j) := by
  obtain ⟨J, hJ, -, hcol⟩ := createJacobian_columns.2.2.1 p1 p2 p3
  refine ⟨J, hJ, fun i j => ?_⟩
  fin_cases j
  · exact (endEffector_hasDerivAt [] [p2, p3] p1 i).congr_deriv (hcol i).1
  · exact (endEffector_hasDerivAt [p1] [p3] p2 i).congr_deriv (hcol i).2.1
  · exact (endEffector_hasDerivAt [p1, p2] [] p3 i).congr_deriv (hcol i).2.2

/-- C14. For every single DH record, `createJacobian1DOF` on its map returns the 3×1 matrix
(−r1·sin(theta1), r1·cos(theta1), 0); the end-effector position of the one-joint DH chain with
joint angle t is (r1·cos t, r1·sin t, d1), and each entry of the matrix is the derivative of the
same coordinate of that position with respect to t at theta1. -/
theorem createJacobian1DOF_is_derivative (p1 : DHRecord ℝ) :
    createJacobian1DOF [p1.toMap] =
      .ok !![-p1.r * Real.sin p1.theta; p1.r * Real.cos p1.theta; 0] ∧
    (∀ t, endEffectorV (withTheta [p1] 0 t) = ⟨p1.r * Real.cos t, p1.r * Real.sin t, p1.d⟩) ∧
    ∀ i : Fin 3,
      HasDerivAt (fun t => endEffector (withTheta [p1] 0 t) i)
        (!![-p1.r * Real.sin p1.theta; p1.r * Real.cos p1.theta; 0] i 0) p1.theta := by
  refine ⟨rfl, ?_, ?_⟩
  · intro t
    dsimp only [withTheta]
    simp only [endEffectorV_eq_foldr, List.foldr_cons, List.foldr_nil]
    dsimp only [DHRecord.apply, Rx, Rz]
    ext <;> simp
  · intro i
    refine (endEffector_hasDerivAt [] [] p1 i).congr_deriv ?_
    simp only [endEffectorV_eq_foldr, List.foldr_nil]
    dsimp only [dRz, Rx]
    fin_cases i <;> simp [Vector3d.get]

/-- C15. For every two DH records, `createJacobian2DOF` on their maps returns a 3×2 matrix,
and its entry (i, j) is the derivative with respect to the joint angle theta of record j + 1, at
the given thetas, of coordinate i of the end-effector position, the translation part of
T_1·T_2 with T_k = Rz(theta_k)·Tz(d_k)·Tx(r_k)·Rx(alpha_k). -/
theorem createJacobian2DOF_is_jacobian (p1 p2 : DHRecord ℝ) :
    ∃ J, createJacobian2DOF [p1.toMap, p2.toMap] = .ok J ∧
      ∀ (i : Fin 3) (j : Fin 2),
        HasDerivAt (fun t => endEffector (withTheta [p1, p2] j t) i) (J i j)
          (![p1.theta, p2.theta] j) := by
  obtain ⟨J, hJ, -, hcol⟩ := createJacobian_columns.2.1 p1 p2
  refine ⟨J, hJ, fun i j => ?_⟩
  fin_cases j
  · exact (endEffector_hasDerivAt [] [p2] p1 i).congr_deriv (hcol i).1
  · exact (endEffector_hasDerivAt [p1] [] p2 i).congr_deriv (hcol i).2

/-- C16. For every four DH records, `createJacobian4DOF` on their maps returns a 3×4 matrix,
and its entry (i, j) is the derivative with respect to the joint angle theta of record j + 1, at
the given thetas, of coordinate i of the end-effector position, the translation part of
T_1·T_2·T_3·T_4 with T_k = Rz(theta_k)·Tz(d_k)·Tx(r_k)·Rx(alpha_k). -/
theorem createJacobian4DOF_is_jacobian (p1 p2 p3 p4 : DHRecord ℝ) :
    ∃ J, createJacobian4DOF [p1.toMap, p2.toMap, p3.toMap, p4.toMap] = .ok J ∧
      ∀ (i : Fin 3) (j : Fin 4),
        HasDerivAt (fun t => endEffector (withTheta [p1, p2, p3, p4] j t) i) (J i j)
          (![p1.theta, p2.theta, p3.theta, p4.theta] j) := by
  obtain ⟨J, hJ, -, hcol⟩ := createJacobian_columns.2.2.2.1 p1 p2 p3 p4
  refine ⟨J, hJ, fun i j => ?_⟩
  fin_cases j
  · exact (endEffector_hasDerivAt [] [p2, p3, p4] p1 i).congr_deriv (hcol i).1
  · exact (endEffector_hasDerivAt [p1] [p3, p4] p2 i).congr_deriv (hcol i).2.1
  · exact (endEffector_hasDerivAt [p1, p2] [p4] p3 i).congr_deriv (hcol i).2.2.1
  · exact (endEffector_hasDerivAt [p1, p2, p3] [] p4 i).congr_deriv (hcol i).2.2.2

/-- C17. For every five DH records, `createJacobian5DOF` on their maps returns a 3×5 matrix,
and its entry (i, j) is the derivative with respect to the joint angle theta of record j + 1, at
the given thetas, of coordinate i of the end-effector position, the translation part of
T_1·T_2·T_3·T_4·T_5 with T_k = Rz(theta_k)·Tz(d_k)·Tx(r_k)·Rx(alpha_k). -/
theorem createJacobian5DOF_is_jacobian (p1 p2 p3 p4 p5 : DHRecord ℝ) :
    ∃ J, createJacobian5DOF [p1.toMap, p2.toMap, p3.toMap, p4.toMap, p5.toMap] = .ok J ∧
      ∀ (i : Fin 3) (j : Fin 5),
        HasDerivAt (fun t => endEffector (withTheta [p1, p2, p3, p4, p5] j t) i) (J i j)
          (![p1.theta, p2.theta, p3.theta, p4.theta, p5.theta] j) := by
  obtain ⟨J, hJ, -, hcol⟩ := createJacobian_columns.2.2.2.2 p1 p2 p3 p4 p5
  refine ⟨J, hJ, fun i j => ?_⟩
  fin_cases j
  · exact (endEffector_hasDerivAt [] [p2, p3, p4, p5] p1 i).congr_deriv (hcol i).1
  · exact (endEffector_hasDerivAt [p1] [p3, p4, p5] p2 i).congr_deriv (hcol i).2.1
  · exact (endEffector_hasDerivAt [p1, p2] [p4, p5] p3 i).congr_deriv (hcol i).2.2.1
  · exact (endEffector_hasDerivAt [p1, p2, p3] [p5] p4 i).congr_deriv (hcol i).2.2.2.1
  · exact (endEffector_hasDerivAt [p1, p2, p3, p4] [] p5 i).congr_deriv (hcol i).2.2.2.2

/-- C18. For every input sequence, of any length and with maps that hold any keys or none,
`createJacobian6DOF` returns a matrix with 3 rows and 6 columns all of whose 18 entries are 0, the
same for every other input: the input is not read. -/
theorem createJacobian6DOF_zero (dh : List DHMap) :
    ∃ J : Matrix (Fin 3) (Fin 6) ℝ, createJacobian6DOF dh = .ok J ∧ (∀ i j, J i j = 0) ∧
      ∀ dh2 : List DHMap, createJacobian6DOF dh2 = .ok J := by
  have h : ∀ dh : List DHMap, createJacobian6DOF dh = .ok 0 := by
    intro dh
    dsimp only [createJacobian6DOF]
    simp only [pure, Except.pure]
    congr 1
    ext i j
    fin_cases i <;> fin_cases j <;> norm_num
  exact ⟨0, h dh, fun _ _ => rfl, h⟩

/-- C19, counterexample. A single map that holds "r" and "theta" but neither "d" nor "alpha":
`createJacobian1DOF` looks up only "r" and "theta" and returns a matrix. -/
theorem createJacobian1DOF_returns_without_d_alpha :
    rThetaMap "d" = none ∧ rThetaMap "alpha" = none ∧
    createJacobian1DOF [rThetaMap] = .ok (jacobian1DOFEntries 1 (Real.sin 0) (Real.cos 0)) :=
  ⟨rfl, rfl, rfl⟩

/-- C19, amended. For every n in 1..5 and every sequence of n maps, `createJacobian<n>DOF` fails
with a missing-parameter error exactly when one of the keys it looks up is absent ("r" or "theta"
of any record, "d" of any record but the first, "alpha" of any record but the last), and it
returns a matrix exactly when all of them are present. -/
theorem createJacobian_missing_parameter_iff :
    (∀ m1 : DHMap,
      ((∃ i key, createJacobian1DOF [m1] = .error (.missingParameter i key)) ↔
        ¬ dhReadsPresent 1 [m1]) ∧
      ((∃ J, createJacobian1DOF [m1] = .ok J) ↔ dhReadsPresent 1 [m1])) ∧
    (∀ m1 m2 : DHMap,
      ((∃ i key, createJacobian2DOF [m1, m2] = .error (.missingParameter i key)) ↔
        ¬ dhReadsPresent 2 [m1, m2]) ∧
      ((∃ J, createJacobian2DOF [m1, m2] = .ok J) ↔ dhReadsPresent 2 [m1, m2])) ∧
    (∀ m1 m2 m3 : DHMap,
      ((∃ i key, createJacobian3DOF [m1, m2, m3] = .error (.missingParameter i key)) ↔
        ¬ dhReadsPresent 3 [m1, m2, m3]) ∧
      ((∃ J, createJacobian3DOF [m1, m2, m3] = .ok J) ↔ dhReadsPresent 3 [m1, m2, m3])) ∧
    (∀ m1 m2 m3 m4 : DHMap,
      ((∃ i key, createJacobian4DOF [m1, m2, m3, m4] = .error (.missingParameter i key)) ↔
        ¬ dhReadsPresent 4 [m1, m2, m3, m4]) ∧
      ((∃ J, createJacobian4DOF [m1, m2, m3, m4] = .ok J) ↔ dhReadsPresent 4 [m1, m2, m3, m4])) ∧
    (∀ m1 m2 m3 m4 m5 : DHMap,
      ((∃ i key, createJacobian5DOF [m1, m2, m3, m4, m5] = .error (.missingParameter i key)) ↔
        ¬ dhReadsPresent 5 [m1, m2, m3, m4, m5]) ∧
      ((∃ J, createJacobian5DOF [m1, m2, m3, m4, m5] = .ok J) ↔
        dhReadsPresent 5 [m1, m2, m3, m4, m5])) := by
  refine ⟨fun m1 => outcome_iff (createJacobian_cases.1 m1),
    fun m1 m2 => outcome_iff (createJacobian_cases.2.1 m1 m2),
    fun m1 m2 m3 => outcome_iff (createJacobian_cases.2.2.1 m1 m2 m3),
    fun m1 m2 m3 m4 => outcome_iff (createJacobian_cases.2.2.2.1 m1 m2 m3 m4),
    fun m1 m2 m3 m4 m5 => outcome_iff (createJacobian_cases.2.2.2.2 m1 m2 m3 m4 m5)⟩

/-- C19, witness: two maps of the record d = 0, r = 1, theta = 0, alpha = 0, the second without
its key "d", which `createJacobian2DOF` looks up. -/
theorem createJacobian_missing_parameter_iff_witness :
    ∃ i key, createJacobian2DOF [unitRecord.toMap, unitMapWithoutD] =
      .error (.missingParameter i key) :=
  (createJacobian_missing_parameter_iff.2.1 unitRecord.toMap unitMapWithoutD).1.mpr
    (fun h => by
      obtain ⟨m, v, hm, hv⟩ := h 1 "d" (by simp [dhReads])
      cases hm
      cases hv)

/-- C20. For every model and world pose on which `getJointPositions` returns: the result has
exactly 24 positions; the entry at index 4·(3·s + l) + k (side s, leg-position l, and k = 0, 1,
2, 3 for root, hip, knee, tip) is position k of the chain of leg (l, s), its X multiplied by
mirrorDir and the world pose applied, so the order is side-major, leg-position-minor and
root-to-tip within a leg; and the model after the call is the model before it. -/
theorem getJointPositions_order (m : Model ℝ) (pose : Pose ℝ) (r : List (Vector3d ℝ) × Model ℝ)
    (h : m.getJointPositions pose = some r) :
    r.1.length = 24 ∧ r.2 = m ∧
    ∀ (s : Fin 2) (l : Fin 3) (k : Fin 4),
      r.1.get? (4 * (3 * s.val + l.val) + k.val) = some ((m.legs l s).jointPosition pose k) := by
  rw [getJointPositions_unrolled.1] at h
  split_ifs at h
  cases h
  refine ⟨by simp [finRange_two, finRange_three, finRange_four], rfl, ?_⟩
  intro s l k
  fin_cases s <;> fin_cases l <;> fin_cases k <;>
    simp [finRange_two, finRange_three, finRange_four]

/-- C20, witness: the model of six scenario legs with all joint angles 0 and the identity pose,
on which `getJointPositions` returns. -/
theorem getJointPositions_order_witness :
    ∃ r, scenarioModel.getJointPositions Pose.identity = some r ∧ r.1.length = 24 ∧
      r.2 = scenarioModel ∧
      ∀ (s : Fin 2) (l : Fin 3) (k : Fin 4),
        r.1.get? (4 * (3 * s.val + l.val) + k.val) =
          some ((scenarioModel.legs l s).jointPosition Pose.identity k) := by
  have hr := getJointPositions_unrolled.1 scenarioModel Pose.identity
  rw [if_pos getJointPositions_unrolled.2.2] at hr
  exact ⟨_, hr, getJointPositions_order scenarioModel Pose.identity _ hr⟩

/-- C21, counterexample. On the folded model under the identity pose `getJointPositions`
returns, and the position at index 2 of the result, the knee of leg (0, 0), is (−40, 0, 0), of
squared norm 1600: only the tip of each leg is checked. -/
theorem getJointPositions_returns_knee_beyond_bound :
    ∃ r, foldedModel.getJointPositions Pose.identity = some r ∧
      r.1.get? 2 = some ⟨-40, 0, 0⟩ ∧
      (Vector3d.mk (-40 : ℝ) 0 0).squaredNorm = 1600 ∧
      ¬ (Vector3d.mk (-40 : ℝ) 0 0).squaredNorm < 1000 := by
  -- The knee and the tip of a folded leg with all joint angles 0 under the identity pose.
  have foldedOffsets_positions : ∀ (mirrorDir : ℝ),
      (foldedOffsets mirrorDir).jointPosition Pose.identity 2 = ⟨40 * mirrorDir, 0, 0⟩ ∧
      (foldedOffsets mirrorDir).jointPosition Pose.identity 3 = ⟨0, 0, 0⟩ := by
    intro mirrorDir
    constructor <;> ext <;>
      dsimp only [Leg.jointPosition, Leg.chainPosition, foldedOffsets, Leg.ofOffsets, Rz, Ry,
          Pose.identity, Pose.transformVector, Quat.rotateVector, Quat.mul, Quat.conj] <;> simp
  -- Under the identity pose the tips of the six legs of the folded model are at the origin.
  have foldedModel_tips : ((foldedModel.legs 0 0).jointPosition Pose.identity 3).squaredNorm < 1000
      ∧
      ((foldedModel.legs 1 0).jointPosition Pose.identity 3).squaredNorm < 1000 ∧
      ((foldedModel.legs 2 0).jointPosition Pose.identity 3).squaredNorm < 1000 ∧
      ((foldedModel.legs 0 1).jointPosition Pose.identity 3).squaredNorm < 1000 ∧
      ((foldedModel.legs 1 1).jointPosition Pose.identity 3).squaredNorm < 1000 ∧
      ((foldedModel.legs 2 1).jointPosition Pose.identity 3).squaredNorm < 1000 := by
    dsimp only [foldedModel]
    simp only [(foldedOffsets_positions _).2, Vector3d.squaredNorm]
    norm_num
  have hr := getJointPositions_unrolled.1 foldedModel Pose.identity
  rw [if_pos foldedModel_tips] at hr
  refine ⟨_, hr, ?_, ?_, ?_⟩
  · have h := (foldedOffsets_positions (-1)).1
    dsimp only [foldedModel]
    simp [finRange_two, finRange_three, finRange_four, h]
  · simp only [Vector3d.squaredNorm]
    norm_num
  · simp only [Vector3d.squaredNorm]
    norm_num

/-- C21, amended. For every model and world pose on which `getJointPositions` returns, the tip
position of every leg, the entry at index 4·(3·s + l) + 3 of the result, has a squared norm
strictly below 1000. -/
theorem getJointPositions_tips_below_bound (m : Model ℝ) (pose : Pose ℝ)
    (r : List (Vector3d ℝ) × Model ℝ) (h : m.getJointPositions pose = some r)
    (s : Fin 2) (l : Fin 3) :
    ∃ tip, r.1.get? (4 * (3 * s.val + l.val) + 3) = some tip ∧
      tip = (m.legs l s).jointPosition pose 3 ∧ tip.squaredNorm < 1000 := by
  rw [getJointPositions_unrolled.1] at h
  split_ifs at h with hc
  cases h
  obtain ⟨h00, h10, h20, h01, h11, h21⟩ := hc
  fin_cases s <;> fin_cases l <;>
    simp [finRange_two, finRange_three, finRange_four] <;>
    assumption

/-- C21, witness: the scenario model under the identity pose and its leg (2, 1). -/
theorem getJointPositions_tips_below_bound_witness :
    ∃ r tip, scenarioModel.getJointPositions Pose.identity = some r ∧
      r.1.get? 23 = some tip ∧ tip.squaredNorm < 1000 := by
  have hr := getJointPositions_unrolled.1 scenarioModel Pose.identity
  rw [if_pos getJointPositions_unrolled.2.2] at hr
  obtain ⟨tip, h1, _, h3⟩ := getJointPositions_tips_below_bound scenarioModel Pose.identity _ hr
    1 2
  exact ⟨_, tip, hr, h1, h3⟩

/-- C22. For every leg state, `applyFK(updateStance)` returns `calculateFK` of the stored angles
and stores it as localTipPosition; stanceTipPosition becomes that value when updateStance is
true and keeps its previous value when it is false; the stored angles are unchanged. The same
stance rule holds for a returning `applyLocalIK(target, updateStance)`, whose localTipPosition is
`calculateFK` of the angles it returns. -/
theorem applyFK_stance_rule (leg : Leg ℝ) (updateStance : Bool) (target : Vector3d ℝ) :
    (leg.applyFK updateStance).1 = leg.calculateFK leg.yaw leg.liftAngle leg.kneeAngle ∧
    (leg.applyFK updateStance).2.localTipPosition =
      leg.calculateFK leg.yaw leg.liftAngle leg.kneeAngle ∧
    (leg.applyFK updateStance).2.stanceTipPosition =
      (if updateStance then leg.calculateFK leg.yaw leg.liftAngle leg.kneeAngle
      else leg.stanceTipPosition) ∧
    (leg.applyFK updateStance).2.yaw = leg.yaw ∧
    (leg.applyFK updateStance).2.liftAngle = leg.liftAngle ∧
    (leg.applyFK updateStance).2.kneeAngle = leg.kneeAngle ∧
    ∀ angles leg', leg.applyLocalIK target updateStance = some (angles, leg') →
      leg'.localTipPosition = leg.calculateFK angles.x angles.y angles.z ∧
      leg'.stanceTipPosition =
        (if updateStance then leg.calculateFK angles.x angles.y angles.z
        else leg.stanceTipPosition) ∧
      leg'.yaw = angles.x ∧ leg'.liftAngle = angles.y ∧ leg'.kneeAngle = angles.z := by
  have Leg_applyFK_fst : ∀ (leg : Leg ℝ) (b : Bool),
      (leg.applyFK b).1 = leg.calculateFK leg.yaw leg.liftAngle leg.kneeAngle := by
    intro leg b
    cases b <;> rfl
  refine ⟨Leg_applyFK_fst leg updateStance, ?_, ?_, ?_, ?_, ?_, ?_⟩
  · rw [applyLocalIK_returned.2.2.2]
  · rw [applyLocalIK_returned.2.2.2]
  · rw [applyLocalIK_returned.2.2.2]
  · rw [applyLocalIK_returned.2.2.2]
  · rw [applyLocalIK_returned.2.2.2]
  · intro angles leg' h
    obtain ⟨_, _, _, _, _, _, _, _, _, _, hl⟩ := applyLocalIK_returned.2.2.1 h
    rw [hl, applyLocalIK_returned.2.2.2]
    exact ⟨rfl, rfl, rfl, rfl, rfl⟩

/-- C22, witness: the scenario leg and the target (0.35, 0, 0), without stance update. -/
theorem applyFK_stance_rule_witness :
    ∃ angles leg', (scenarioLeg 1).applyLocalIK ⟨0.35, 0, 0⟩ false = some (angles, leg') ∧
      leg'.localTipPosition = (scenarioLeg 1).calculateFK angles.x angles.y angles.z ∧
      leg'.stanceTipPosition = (scenarioLeg 1).stanceTipPosition := by
  have hi := scenario_leg_facts.2.2.2.2.1 1 0 0 0
  have hf := scenario_leg_facts.2.2.2.2.2.1 1 0 0 0
  have ht := scenario_leg_facts.2.2.2.2.2.2.1 1 0 0 0
  obtain ⟨h1, h2⟩ := scenario_leg_facts.2.2.2.2.2.2.2 hi hf ht
  have hr := (initialised_applyLocalIK.2.2.2 hi) ⟨0.35, 0, 0⟩ false
    (by rw [show (scenarioOffsets 1 |>.init scenarioKneeBend 0 0 0).hipOffset.y = 0 from rfl]
        norm_num)
    (by rw [hf]; norm_num) (by rw [ht]; norm_num) (h1.trans h2)
  have h := (applyFK_stance_rule (scenarioLeg 1) false ⟨0.35, 0, 0⟩).2.2.2.2.2.2 _ _ hr
  exact ⟨_, _, hr, h.1, h.2.1⟩

/-- C23, counterexample. The scenario leg with hipOffset = (0.1, 0.005, 0) accepts the target
(0.35, 0, 0), and the `targetLength` that is then clamped is not the norm of the vector obtained
by first zeroing the Y of the yaw-aligned target and then subtracting hipOffset: that vector
keeps the Y component −0.005. -/
theorem targetLength_differs_for_lateral_hipOffset :
    (∃ angles leg', offsetHipLeg.applyLocalIK ⟨0.35, 0, 0⟩ true = some (angles, leg')) ∧
    (ikZeroedThenShifted offsetHipLeg ⟨0.35, 0, 0⟩).y = -0.005 ∧
    offsetHipLeg.targetLength ⟨0.35, 0, 0⟩ ≠
      (ikZeroedThenShifted offsetHipLeg ⟨0.35, 0, 0⟩).norm := by
  have offsetHip_initialised : offsetHipLeg.Initialised scenarioKneeBend :=
    initialised_lengths.1 _ _ _ _ _
  have offsetHip_femurLength : offsetHipLeg.femurLength = 0.2 := by
    show (Vector3d.mk (0.2 : ℝ) 0 0).norm = 0.2
    exact scenario_leg_facts.1 _ (by norm_num)
  have offsetHip_tibiaLength : offsetHipLeg.tibiaLength = 0.15 := by
    show (Vector3d.mk (0.15 : ℝ) 0 0).norm = 0.15
    exact scenario_leg_facts.1 _ (by norm_num)
  have hi := offsetHip_initialised
  have hf := offsetHip_femurLength
  have ht := offsetHip_tibiaLength
  obtain ⟨h1, h2⟩ := scenario_leg_facts.2.2.2.2.2.2.2 hi hf ht
  have hy : offsetHipLeg.hipOffset.y = 0.005 := rfl
  refine ⟨⟨_, _, (initialised_applyLocalIK.2.2.2 hi) ⟨0.35, 0, 0⟩ true
    (by rw [hy, abs_of_pos (by norm_num)]; norm_num)
    (by rw [hf]; norm_num) (by rw [ht]; norm_num) (h1.trans h2)⟩, ?_, ?_⟩
  · dsimp only [ikZeroedThenShifted]
    simp only [Vector3d.sub_y, hy]
    norm_num
  · intro h
    have hsq := planar_target_facts.2.2.2.2 offsetHipLeg ⟨0.35, 0, 0⟩
    have h0 : 0 ≤ (offsetHipLeg.targetPlanar ⟨0.35, 0, 0⟩).squaredNorm :=
      planar_target_facts.2.2.2.1 _
    unfold Leg.targetLength Vector3d.norm at h
    rw [hsq, hy] at h
    have h3 := (Real.sqrt_inj h0 (by positivity)).mp h
    norm_num at h3

/-- C23, amended. For every leg (any hipOffset) and every target, the `targetLength` that is
subsequently clamped is the norm of the vector obtained by subtracting hipOffset from the
yaw-aligned target and then setting its Y component to exactly 0, and `targetAngleOffset` is
atan2 of that vector's z and x, which are also the z and x of the vector obtained by zeroing
first and subtracting afterwards; the squared norm of the latter vector is targetLength² +
hipOffset.y², so the two lengths agree exactly when hipOffset.y = 0. -/
theorem targetLength_is_norm_of_planar_vector (leg : Leg ℝ) (p : Vector3d ℝ) :
    leg.targetPlanar p =
      ⟨(ikAligned leg p - leg.hipOffset).x, 0, (ikAligned leg p - leg.hipOffset).z⟩ ∧
    leg.targetLength p = (ikSubVector leg p).norm ∧
    leg.targetAngleOffset p = atan2 (ikSubVector leg p).z (ikSubVector leg p).x ∧
    leg.targetAngleOffset p =
      atan2 (ikZeroedThenShifted leg p).z (ikZeroedThenShifted leg p).x ∧
    (ikZeroedThenShifted leg p).norm ^ 2 = leg.targetLength p ^ 2 + leg.hipOffset.y ^ 2 ∧
    (leg.targetLength p = (ikZeroedThenShifted leg p).norm ↔ leg.hipOffset.y = 0) := by
  have hsq := planar_target_facts.2.2.2.2 leg p
  have h0 : 0 ≤ (leg.targetPlanar p).squaredNorm := planar_target_facts.2.2.2.1 _
  have hn : (ikZeroedThenShifted leg p).norm ^ 2 =
      leg.targetLength p ^ 2 + leg.hipOffset.y ^ 2 := by
    unfold Leg.targetLength Vector3d.norm
    rw [Real.sq_sqrt h0, hsq, Real.sq_sqrt (by positivity)]
  refine ⟨?_, ?_, ?_, ?_, hn, ?_⟩
  · rw [planar_target_facts.2.2.1]
    rfl
  · unfold Leg.targetLength
    rw [planar_target_facts.2.2.1]
  · unfold Leg.targetAngleOffset
    rw [planar_target_facts.2.2.1]
  · unfold Leg.targetAngleOffset
    rw [planar_target_facts.2.2.1]
    rfl
  · constructor
    · intro h
      rw [← h] at hn
      have : leg.hipOffset.y ^ 2 = 0 := by linarith
      exact pow_eq_zero_iff (two_ne_zero) |>.mp this
    · intro h
      rw [h] at hn
      have h1 : 0 ≤ leg.targetLength p := Real.sqrt_nonneg _
      have h2 : 0 ≤ (ikZeroedThenShifted leg p).norm := Real.sqrt_nonneg _
      nlinarith

/-- C23, witness: the scenario leg, whose hipOffset has Y = 0, and the target (0.35, 0, 0). -/
theorem targetLength_is_norm_of_planar_vector_witness :
    (scenarioLeg 1).targetLength ⟨0.35, 0, 0⟩ =
      (ikZeroedThenShifted (scenarioLeg 1) ⟨0.35, 0, 0⟩).norm :=
  (targetLength_is_norm_of_planar_vector (scenarioLeg 1) ⟨0.35, 0, 0⟩).2.2.2.2.2.mpr rfl

/-- C24. For every configuration, whatever the array of legs held before, after the Model
constructor each of the 6 legs (leg-position l, side s) has the offsets of the configuration,
mirrorDir = −1 when s = 0 and +1 when s = 1, the joint angles (0, 0, 0) and localTipPosition =
stanceTipPosition = (mirrorDir·S.x, S.y, S.z) with S = rootOffset + hipOffset + kneeOffset +
tipOffset of that leg; and the stance yaws and the yaw, knee and hip limits of the model are the
configured values. -/
theorem construct_legs_and_limits (params : Parameters ℝ)
    (uninitialised : Fin 3 → Fin 2 → Leg ℝ) (l : Fin 3) (s : Fin 2) :
    ((Model.construct params uninitialised).legs l s).rootOffset = params.rootOffset l s ∧
    ((Model.construct params uninitialised).legs l s).hipOffset = params.hipOffset l s ∧
    ((Model.construct params uninitialised).legs l s).kneeOffset = params.kneeOffset l s ∧
    ((Model.construct params uninitialised).legs l s).tipOffset = params.tipOffset l s ∧
    ((Model.construct params uninitialised).legs l s).mirrorDir = (if s = 0 then -1 else 1) ∧
    ((Model.construct params uninitialised).legs l s).yaw = 0 ∧
    ((Model.construct params uninitialised).legs l s).liftAngle = 0 ∧
    ((Model.construct params uninitialised).legs l s).kneeAngle = 0 ∧
    ((Model.construct params uninitialised).legs l s).localTipPosition =
      ⟨(if s = 0 then -1 else 1) * (params.rootOffset l s + params.hipOffset l s +
          params.kneeOffset l s + params.tipOffset l s).x,
        (params.rootOffset l s + params.hipOffset l s + params.kneeOffset l s +
          params.tipOffset l s).y,
        (params.rootOffset l s + params.hipOffset l s + params.kneeOffset l s +
          params.tipOffset l s).z⟩ ∧
    ((Model.construct params uninitialised).legs l s).stanceTipPosition =
      ((Model.construct params uninitialised).legs l s).localTipPosition ∧
    (Model.construct params uninitialised).stanceLegYaws = params.stanceLegYaws ∧
    (Model.construct params uninitialised).yawLimitAroundStance = params.yawLimits ∧
    (Model.construct params uninitialised).minMaxKneeBend = params.kneeLimits ∧
    (Model.construct params uninitialised).minMaxHipLift = params.hipLimits := by
  -- With all three angles 0 the tip is the sum of the four offsets, its X multiplied by
  -- mirrorDir.
  have Leg_calculateFK_zero : ∀ (leg : Leg ℝ),
      leg.calculateFK 0 0 0 =
      ⟨leg.mirrorDir * (leg.rootOffset + leg.hipOffset + leg.kneeOffset + leg.tipOffset).x,
        (leg.rootOffset + leg.hipOffset + leg.kneeOffset + leg.tipOffset).y,
        (leg.rootOffset + leg.hipOffset + leg.kneeOffset + leg.tipOffset).z⟩ := by
    intro leg
    rw [rotation_quaternions.2.2.2]
    ext <;> dsimp only [Rz, Ry] <;> simp <;> ring
  obtain ⟨h1, h2, h3, h4, _⟩ := construct_facts.1 params uninitialised
  rw [construct_facts.2.1]
  refine ⟨rfl, rfl, rfl, rfl, rfl, rfl, rfl, rfl, ?_, rfl, h1, h2, h3, h4⟩
  show Leg.calculateFK _ 0 0 0 = _
  rw [Leg_calculateFK_zero]

/-- C25. For every leg, `init(yaw0, lift0, knee0)` sets hipLength, femurLength and tibiaLength
to the norms of the hip, knee and tip offsets (all ≥ 0), femurAngleOffset to
atan2(kneeOffset.z, kneeOffset.x) and tibiaAngleOffset to atan2(tipOffset.z, tipOffset.x), stores
the angles (yaw0, lift0, knee0) and sets localTipPosition and stanceTipPosition to
`calculateFK(yaw0, lift0, knee0)`. -/
theorem init_derived_fields (leg : Leg ℝ) (kb : Vector2d ℝ) (yaw0 lift0 knee0 : ℝ) :
    (leg.init kb yaw0 lift0 knee0).hipLength = leg.hipOffset.norm ∧
    (leg.init kb yaw0 lift0 knee0).femurLength = leg.kneeOffset.norm ∧
    (leg.init kb yaw0 lift0 knee0).tibiaLength = leg.tipOffset.norm ∧
    0 ≤ (leg.init kb yaw0 lift0 knee0).hipLength ∧
    0 ≤ (leg.init kb yaw0 lift0 knee0).femurLength ∧
    0 ≤ (leg.init kb yaw0 lift0 knee0).tibiaLength ∧
    (leg.init kb yaw0 lift0 knee0).femurAngleOffset = atan2 leg.kneeOffset.z leg.kneeOffset.x ∧
    (leg.init kb yaw0 lift0 knee0).tibiaAngleOffset = atan2 leg.tipOffset.z leg.tipOffset.x ∧
    (leg.init kb yaw0 lift0 knee0).yaw = yaw0 ∧
    (leg.init kb yaw0 lift0 knee0).liftAngle = lift0 ∧
    (leg.init kb yaw0 lift0 knee0).kneeAngle = knee0 ∧
    (leg.init kb yaw0 lift0 knee0).localTipPosition = leg.calculateFK yaw0 lift0 knee0 ∧
    (leg.init kb yaw0 lift0 knee0).stanceTipPosition = leg.calculateFK yaw0 lift0 knee0 :=
  ⟨rfl, rfl, rfl, Real.sqrt_nonneg _, Real.sqrt_nonneg _, Real.sqrt_nonneg _, rfl,
    rfl, rfl, rfl, rfl, rfl, rfl⟩

/-- C27. Starting from any constructed model, every sequence of the operations applyLocalIK,
applyFK, clampToLimits, getJointPositions and setLegStartAngles that runs to its end leaves each
leg's hipLength, femurLength, tibiaLength, femurAngleOffset, tibiaAngleOffset, minLegLength,
maxLegLength, mirrorDir and four offset vectors, and the model's stance yaws and yaw, hip and
knee limits, equal to their values right after construction. -/
theorem operations_keep_configuration (params : Parameters ℝ)
    (uninitialised : Fin 3 → Fin 2 → Leg ℝ) (ops : List (ModelOp ℝ)) (m : Model ℝ)
    (h : (Model.construct params uninitialised).run ops = some m) :
    m.SameConfiguration (Model.construct params uninitialised) := by
  -- `applyFK` writes none of the fixed fields.
  have Leg_applyFK_sameGeometry : ∀ (leg : Leg ℝ) (updateStance : Bool),
      (leg.applyFK updateStance).2.SameGeometry leg := by
    intro leg updateStance
    rw [applyLocalIK_returned.2.2.2]
    exact ⟨rfl, rfl, rfl, rfl, rfl, rfl, rfl, rfl, rfl, rfl, rfl, rfl⟩
  -- A returning `applyLocalIK` writes none of the fixed fields.
  have Leg_applyLocalIK_sameGeometry : ∀ {leg : Leg ℝ} {p : Vector3d ℝ} {updateStance : Bool}
      {angles : Vector3d ℝ} {leg' : Leg ℝ} (h : leg.applyLocalIK p updateStance = some (angles,
      leg')),
      leg'.SameGeometry leg := by
    intro leg p updateStance angles leg' h
    obtain ⟨_, _, _, _, _, _, _, _, _, _, hl⟩ := applyLocalIK_returned.2.2.1 h
    rw [hl, applyLocalIK_returned.2.2.2]
    exact ⟨rfl, rfl, rfl, rfl, rfl, rfl, rfl, rfl, rfl, rfl, rfl, rfl⟩
  -- The three clamps write none of the fixed fields.
  have Model_clampLeg_sameGeometry : ∀ (m : Model ℝ) (l : Fin 3) (side : Fin 2) (st : Leg ℝ × List
      (ClampDiagnostic ℝ)),
      (m.clampLeg l side st).1.SameGeometry st.1 := by
    intro m l side st
    rw [Model.clampLeg_fst]
    exact ⟨rfl, rfl, rfl, rfl, rfl, rfl, rfl, rfl, rfl, rfl, rfl, rfl⟩
  -- On a leg whose derived fields are those of `init` for the same knee-bend limits, running
  -- `init` again writes the same values.
  have Leg_init_sameGeometry : ∀ {leg leg0 : Leg ℝ} {kb : Vector2d ℝ} (h0 : leg0.Initialised kb)
      (h : leg.SameGeometry leg0) (y l k : ℝ),
      (leg.init kb y l k).SameGeometry leg0 := by
    intro leg leg0 kb h0 h y l k
    have hi := initialised_lengths.1 leg kb y l k
    obtain ⟨o1, o2, o3, o4, o5⟩ := initialised_lengths.2.1 leg kb y l k
    refine ⟨?_, ?_, ?_, ?_, ?_, ?_, ?_, o5.trans h.mirrorDir_eq, o1.trans h.rootOffset_eq,
      o2.trans h.hipOffset_eq, o3.trans h.kneeOffset_eq, o4.trans h.tipOffset_eq⟩
    · rw [hi.1, h0.1, o2, h.hipOffset_eq]
    · rw [hi.2.1, h0.2.1, o3, h.kneeOffset_eq]
    · rw [hi.2.2.2.1, h0.2.2.2.1, o4, h.tipOffset_eq]
    · rw [hi.2.2.1, h0.2.2.1, o3, h.kneeOffset_eq]
    · rw [hi.2.2.2.2.1, h0.2.2.2.2.1, o4, h.tipOffset_eq]
    · rw [hi.2.2.2.2.2.1, h0.2.2.2.2.2.1, hi.2.1, h0.2.1,
        hi.2.2.2.1, h0.2.2.2.1, o3, o4, h.kneeOffset_eq, h.tipOffset_eq]
    · rw [hi.2.2.2.2.2.2, h0.2.2.2.2.2.2, hi.2.1, h0.2.1,
        hi.2.2.2.1, h0.2.2.2.1, o3, o4, h.kneeOffset_eq, h.tipOffset_eq]
  -- Replacing a leg by one with the same fixed fields keeps the configuration.
  have Model_setLeg_sameConfiguration : ∀ {m m0 : Model ℝ} (h : m.SameConfiguration m0) (l : Fin 3)
      (side : Fin 2) (leg : Leg ℝ) (hleg : leg.SameGeometry (m.legs l side)),
      (m.setLeg l side leg).SameConfiguration m0 := by
    intro m m0 h l side leg hleg
    refine ⟨?_, h.stanceLegYaws_eq, h.yawLimitAroundStance_eq, h.minMaxHipLift_eq,
      h.minMaxKneeBend_eq⟩
    intro l' s'
    rw [Model.setLeg_legs]
    split_ifs with hc
    · obtain ⟨rfl, rfl⟩ := hc
      exact hleg.trans (h.legs_eq _ _)
    · exact h.legs_eq l' s'
  -- One operation keeps the configuration of a model whose legs were initialised for its
  -- knee-bend limits.
  have Model_step_sameConfiguration : ∀ {m0 m m' : Model ℝ} (op : ModelOp ℝ) (h0 : ∀ l s, (m0.legs l
      s).Initialised m0.minMaxKneeBend) (h : m.SameConfiguration m0) (hstep : m.step op = some m'),
      m'.SameConfiguration m0 := by
    intro m0 m m' op h0 h hstep
    cases op with
    | applyLocalIK l side p u =>
      dsimp only [Model.step] at hstep
      simp only [Option.map_eq_some'] at hstep
      obtain ⟨⟨angles, leg'⟩, hr, rfl⟩ := hstep
      exact Model_setLeg_sameConfiguration h l side _ (Leg_applyLocalIK_sameGeometry hr)
    | applyFK l side u =>
      dsimp only [Model.step] at hstep
      simp only [Option.some.injEq] at hstep
      subst hstep
      exact Model_setLeg_sameConfiguration h l side _ (Leg_applyFK_sameGeometry _ u)
    | clampToLimits =>
      dsimp only [Model.step] at hstep
      simp only [Option.some.injEq] at hstep
      subst hstep
      obtain ⟨c1, c2, c3, c4, _⟩ := Model.clampToLimits_limits m
      refine ⟨?_, c1.trans h.stanceLegYaws_eq, c2.trans h.yawLimitAroundStance_eq,
        c4.trans h.minMaxHipLift_eq, c3.trans h.minMaxKneeBend_eq⟩
      intro l s
      rw [Model.clampToLimits_legs]
      exact (Model_clampLeg_sameGeometry m l s _).trans (h.legs_eq l s)
    | getJointPositions pose =>
      dsimp only [Model.step] at hstep
      simp only [Option.map_eq_some'] at hstep
      obtain ⟨r, hr, rfl⟩ := hstep
      rw [getJointPositions_unrolled.1] at hr
      split_ifs at hr
      cases hr
      exact h
    | setLegStartAngles side leg a =>
      dsimp only [Model.step] at hstep
      simp only [Option.some.injEq] at hstep
      subst hstep
      refine ⟨?_, h.stanceLegYaws_eq, h.yawLimitAroundStance_eq, h.minMaxHipLift_eq,
        h.minMaxKneeBend_eq⟩
      intro l' s'
      unfold Model.setLegStartAngles
      rw [Model.setLeg_legs]
      split_ifs with hc
      · obtain ⟨rfl, rfl⟩ := hc
        rw [h.minMaxKneeBend_eq]
        exact Leg_init_sameGeometry (h0 _ _) (h.legs_eq _ _) _ _ _
      · exact h.legs_eq l' s'
  -- A returning sequence of operations keeps the configuration.
  have Model_run_sameConfiguration : ∀ {m0 : Model ℝ} (h0 : ∀ l s, (m0.legs l s).Initialised
      m0.minMaxKneeBend) (ops : List (ModelOp ℝ)),
      ∀ (m m' : Model ℝ), m.SameConfiguration m0 → m.run ops = some m' →
      m'.SameConfiguration m0 := by
    intro m0 h0 ops
    induction ops with
    | nil =>
      intro m m' h hrun
      dsimp only [Model.run] at hrun
      simp only [List.foldlM_nil, pure, Option.some.injEq] at hrun
      subst hrun
      exact h
    | cons op ops ih =>
      intro m m' h hrun
      dsimp only [Model.run] at hrun
      simp only [List.foldlM_cons, bind, Option.bind_eq_some] at hrun
      obtain ⟨m1, h1, h2⟩ := hrun
      exact ih m1 m' (Model_step_sameConfiguration op h0 h h1) h2
  exact Model_run_sameConfiguration (construct_facts.2.2 params uninitialised) ops _ m
    ⟨fun _ _ => Leg.SameGeometry.refl _, rfl, rfl, rfl, rfl⟩ h

/-- C27, witness: the model constructed from the configuration of the scenario and a sequence
with one call of each operation, which runs to its end. -/
theorem operations_keep_configuration_witness :
    ∃ m, scenarioConstructed.run sampleOps = some m ∧
      m.SameConfiguration scenarioConstructed := by
  -- The positions `getJointPositions` emits for a leg depend on the leg only through its
  -- offsets, its mirror direction and its joint angles.
  have Leg_jointPosition_congr : ∀ (a b : Leg ℝ) (pose : Pose ℝ) (k : Fin 4) (h1 : a.rootOffset =
      b.rootOffset) (h2 : a.hipOffset = b.hipOffset) (h3 : a.kneeOffset = b.kneeOffset) (h4 :
      a.tipOffset = b.tipOffset) (h5 : a.mirrorDir = b.mirrorDir) (h6 : a.yaw = b.yaw) (h7 :
      a.liftAngle = b.liftAngle) (h8 : a.kneeAngle = b.kneeAngle),
      a.jointPosition pose k = b.jointPosition pose k := by
    intro a b pose k h1 h2 h3 h4 h5 h6 h7 h8
    fin_cases k <;> dsimp only [Leg.jointPosition, Leg.chainPosition] <;> simp only [h1, h2, h3, h4,
        h5, h6, h7, h8]
  -- Under the identity pose the tips of the six legs of the constructed scenario model have a
  -- squared norm below 1000.
  have scenarioConstructed_tips : ∀ (l : Fin 3) (s : Fin 2),
      ((scenarioConstructed.legs l s).jointPosition Pose.identity 3).squaredNorm < 1000 := by
    intro l s
    unfold scenarioConstructed
    rw [construct_facts.2.1,
      Leg_jointPosition_congr (scenarioParameters.leg unitOffsets l s) (scenarioOffsets (if s = 0
          then -1 else 1)) Pose.identity 3 rfl rfl rfl rfl rfl rfl rfl rfl,
      getJointPositions_unrolled.2.1]
    simp only [Vector3d.squaredNorm]
    split_ifs <;> norm_num
  -- The sample sequence of operations returns on the constructed scenario model.
  have scenarioConstructed_run : ∃ m, scenarioConstructed.run sampleOps = some m := by
    have h1 : scenarioConstructed.getJointPositions Pose.identity =
        some ((List.finRange 2).flatMap fun s => (List.finRange 3).flatMap fun l =>
          (List.finRange 4).map fun k => (scenarioConstructed.legs l s).jointPosition Pose.identity
              k,
          scenarioConstructed) := by
      rw [getJointPositions_unrolled.1, if_pos]
      exact ⟨scenarioConstructed_tips 0 0, scenarioConstructed_tips 1 0,
        scenarioConstructed_tips 2 0, scenarioConstructed_tips 0 1, scenarioConstructed_tips 1 1,
        scenarioConstructed_tips 2 1⟩
    have hi : (scenarioConstructed.legs 0 1).Initialised scenarioKneeBend :=
      construct_facts.2.2 scenarioParameters _ 0 1
    have hf : (scenarioConstructed.legs 0 1).femurLength = 0.2 := by
      unfold scenarioConstructed
      rw [construct_facts.2.1]
      exact scenario_leg_facts.1 0.2 (by norm_num)
    have ht : (scenarioConstructed.legs 0 1).tibiaLength = 0.15 := by
      unfold scenarioConstructed
      rw [construct_facts.2.1]
      exact scenario_leg_facts.1 0.15 (by norm_num)
    have hy : (scenarioConstructed.legs 0 1).hipOffset.y = 0 := by
      unfold scenarioConstructed
      rw [construct_facts.2.1]
      rfl
    obtain ⟨c1, c2⟩ := scenario_leg_facts.2.2.2.2.2.2.2 hi hf ht
    have h2 := (initialised_applyLocalIK.2.2.2 hi) ⟨0.35, 0, 0⟩ true (by rw [hy]; norm_num)
      (by rw [hf]; norm_num) (by rw [ht]; norm_num) (c1.trans c2)
    apply Option.isSome_iff_exists.mp
    unfold Model.run sampleOps
    simp only [List.foldlM_cons, List.foldlM_nil]
    dsimp only [Model.step]
    simp [h1, h2]
  obtain ⟨m, hm⟩ := scenarioConstructed_run
  exact ⟨m, hm, operations_keep_configuration scenarioParameters _ sampleOps m hm⟩

/-- C28. For every leg (its derived fields as `init` sets them) with hipOffset.y = 0, kneeOffset
= (f, 0, 0) with f > 0, tipOffset.y = 0 with tibiaLength > 0, mirrorDir +1 or −1 and
minLegLength + 1e-4 ≤ maxLegLength − 1e-4, and every target whose sub-problem length ‖v‖ lies
in [minLegLength + 1e-4, maxLegLength − 1e-4]: `applyLocalIK` returns, `calculateFK` of the
returned angles is the target exactly, and localTipPosition is the target after the call. -/
theorem ik_then_fk_is_target (leg : Leg ℝ) (kb : Vector2d ℝ) (p : Vector3d ℝ)
    (updateStance : Bool) (f : ℝ) (hinit : leg.Initialised kb)
    (hm : leg.mirrorDir = 1 ∨ leg.mirrorDir = -1) (hhip : leg.hipOffset.y = 0)
    (hf : 0 < f) (hknee : leg.kneeOffset = ⟨f, 0, 0⟩)
    (hty : leg.tipOffset.y = 0) (ht : 0 < leg.tibiaLength)
    (hr : leg.minLegLength + 1e-4 ≤ leg.maxLegLength - 1e-4)
    (hlo : leg.minLegLength + 1e-4 ≤ (ikSubVector leg p).norm)
    (hhi : (ikSubVector leg p).norm ≤ leg.maxLegLength - 1e-4) :
    ∃ angles leg', leg.applyLocalIK p updateStance = some (angles, leg') ∧
      leg.calculateFK angles.x angles.y angles.z = p ∧ leg'.localTipPosition = p := by
  have hmm : leg.mirrorDir * leg.mirrorDir = 1 := by
    rcases hm with h | h <;> rw [h] <;> norm_num
  have hfk := hinit.calculateFK_ik p hmm hhip (by rw [hknee]; exact hf) (by rw [hknee])
    (by rw [hknee]) hty ht hlo hhi
  have hfl : 0 < leg.femurLength := by
    rw [hinit.2.1, hknee, scenario_leg_facts.1 f hf.le]
    exact hf
  have hplan : |leg.hipOffset.y| < 0.01 := by
    rw [hhip]; norm_num
  have hret := (initialised_applyLocalIK.2.2.2 hinit) p updateStance hplan hfl ht hr
  refine ⟨_, _, hret, hfk, ?_⟩
  rw [applyLocalIK_returned.2.2.2]
  exact hfk

/-- C28, witness: the mirrored scenario leg and the target (−0.35, 0, 0). -/
theorem ik_then_fk_is_target_witness :
    ∃ angles leg', (scenarioLeg (-1)).applyLocalIK ⟨-0.35, 0, 0⟩ false = some (angles, leg') ∧
      (scenarioLeg (-1)).calculateFK angles.x angles.y angles.z = ⟨-0.35, 0, 0⟩ ∧
      leg'.localTipPosition = ⟨-0.35, 0, 0⟩ := by
  have hi := scenario_leg_facts.2.2.2.2.1 (-1) 0 0 0
  have hf := scenario_leg_facts.2.2.2.2.2.1 (-1) 0 0 0
  have ht := scenario_leg_facts.2.2.2.2.2.2.1 (-1) 0 0 0
  have hm : (scenarioLeg (-1)).mirrorDir = -1 := rfl
  have hn : (ikSubVector (scenarioLeg (-1)) ⟨-0.35, 0, 0⟩).norm = 0.25 :=
    axis_target_facts.2.1 (scenarioLeg (-1)) (-0.35) rfl rfl (by rw [hm]; norm_num)
  obtain ⟨h1, h2⟩ := scenario_leg_facts.2.2.2.2.2.2.2 hi hf ht
  exact ik_then_fk_is_target (scenarioLeg (-1)) scenarioKneeBend ⟨-0.35, 0, 0⟩ false 0.2 hi
    (Or.inr rfl) rfl (by norm_num) rfl rfl (by unfold scenarioLeg; rw [ht]; norm_num) (h1.trans h2)
    (by rw [hn]; exact h1) (by rw [hn]; exact h2)

/-- C29. For every leg whose derived fields are those `init` produces for knee-bend limits
0 ≤ kneeMin ≤ kneeMax ≤ π, with femurLength, tibiaLength > 0 and minLegLength + 1e-4 ≤
maxLegLength − 1e-4, and every target on which `applyLocalIK` returns: the knee bend it solved
satisfies kneeMin ≤ kneeAngle − tibiaAngleOffset ≤ kneeMax; hence, when tibiaAngleOffset = 0, in
any model with these knee limits that holds the leg after the call, `clampToLimits` leaves the
knee angle produced by IK as it is and writes no knee line about the leg. -/
theorem ik_knee_bend_within_limits (leg : Leg ℝ) (kb : Vector2d ℝ) (p : Vector3d ℝ)
    (updateStance : Bool) (angles : Vector3d ℝ) (leg' : Leg ℝ) (hinit : leg.Initialised kb)
    (h0 : 0 ≤ kb.e0) (h1 : kb.e0 ≤ kb.e1) (h2 : kb.e1 ≤ Real.pi)
    (hf : 0 < leg.femurLength) (ht : 0 < leg.tibiaLength)
    (hr : leg.minLegLength + 1e-4 ≤ leg.maxLegLength - 1e-4)
    (hret : leg.applyLocalIK p updateStance = some (angles, leg')) :
    kb.e0 ≤ angles.z - leg.tibiaAngleOffset ∧ angles.z - leg.tibiaAngleOffset ≤ kb.e1 ∧
    leg'.kneeAngle = angles.z ∧
    (leg.tibiaAngleOffset = 0 →
      ∀ (m : Model ℝ) (l : Fin 3) (side : Fin 2), m.minMaxKneeBend = kb → m.legs l side = leg' →
        (m.clampToLimits.1.legs l side).kneeAngle = angles.z ∧
        m.clampToLimits.2.filter
          (fun d => decide (d.leg = l ∧ d.side = side ∧ d.joint = ClampedJoint.knee)) = []) := by
  obtain ⟨hk1, hk2, hk3⟩ := hinit.applyLocalIK_knee h0 h1 h2 hf ht hr hret
  refine ⟨hk1, hk2, hk3, ?_⟩
  intro hoff m l side hm hleg
  rw [hoff, sub_zero] at hk1 hk2
  have hknee : (m.clampToLimits.1.legs l side).kneeAngle = angles.z := by
    rw [Model.clampToLimits_legs, Model.clampLeg_fst, hm, hleg]
    simp only [hk3, if_neg (not_lt.mpr hk1), gt_iff_lt, if_neg (not_lt.mpr hk2)]
  refine ⟨hknee, ?_⟩
  rw [Model.clampToLimits_filter]
  simp only [Leg.jointAngle, hknee, hleg, hk3, ne_eq, not_true_eq_false, if_false]

/-- C29, witness: the scenario leg, whose tibia angle offset is 0, with the knee-bend limits
[0.1, 3.0], the target (0.35, 0, 0) and the scenario model holding the leg after the call. -/
theorem ik_knee_bend_within_limits_witness :
    ∃ angles leg', (scenarioLeg 1).applyLocalIK ⟨0.35, 0, 0⟩ true = some (angles, leg') ∧
      0.1 ≤ angles.z ∧ angles.z ≤ 3.0 ∧
      (({ scenarioModel with legs := fun _ _ => leg' } : Model ℝ).clampToLimits.1.legs 0
        0).kneeAngle = angles.z := by
  have hi := scenario_leg_facts.2.2.2.2.1 1 0 0 0
  have hf := scenario_leg_facts.2.2.2.2.2.1 1 0 0 0
  have ht := scenario_leg_facts.2.2.2.2.2.2.1 1 0 0 0
  obtain ⟨h1, h2⟩ := scenario_leg_facts.2.2.2.2.2.2.2 hi hf ht
  have hoff : (scenarioLeg 1).tibiaAngleOffset = 0 :=
    atan2_polar_form.2.2.2 0.15 (by norm_num)
  have hr := (initialised_applyLocalIK.2.2.2 hi) ⟨0.35, 0, 0⟩ true
    (by rw [show ((scenarioOffsets 1).init scenarioKneeBend 0 0 0).hipOffset.y = 0 from rfl]
        norm_num)
    (by rw [hf]; norm_num) (by rw [ht]; norm_num) (h1.trans h2)
  have h := ik_knee_bend_within_limits (scenarioLeg 1) scenarioKneeBend ⟨0.35, 0, 0⟩ true _ _ hi
    (by dsimp only [scenarioKneeBend]; norm_num) (by dsimp only [scenarioKneeBend]; norm_num)
    (by have := Real.pi_gt_three; (dsimp only [scenarioKneeBend]; norm_num); linarith)
    (by unfold scenarioLeg; rw [hf]; norm_num) (by unfold scenarioLeg; rw [ht]; norm_num) (h1.trans
        h2) hr
  obtain ⟨k1, k2, _, k4⟩ := h
  rw [hoff, sub_zero] at k1 k2
  exact ⟨_, _, hr, k1, k2, (k4 hoff _ 0 0 rfl rfl).1⟩

/-- C30. For every leg and every target, the Y component of the target after un-mirroring,
subtracting rootOffset and rotating by −yaw (yaw = atan2(y, x)) is exactly 0, so the component
the planarity assertion of `applyLocalIK` reads after hipOffset is subtracted is −hipOffset.y:
the assertion holds if and only if |hipOffset.y| < 0.01, whatever the target, and when it does not
hold `applyLocalIK` returns nothing. -/
theorem planarity_assertion_iff_hipOffset (leg : Leg ℝ) (p : Vector3d ℝ) (updateStance : Bool) :
    leg.targetAligned p = Rz (-(ikYaw leg p)) (ikRootTarget leg p) ∧
    (leg.targetAligned p).y = 0 ∧
    (leg.targetLocal p).y = -leg.hipOffset.y ∧
    (|(leg.targetLocal p).y| < 0.01 ↔ |leg.hipOffset.y| < 0.01) ∧
    (¬ |leg.hipOffset.y| < 0.01 → leg.applyLocalIK p updateStance = none) := by
  have h0 : (leg.targetAligned p).y = 0 := by
    rw [planar_target_facts.1]
    exact planar_target_facts.2.1 leg p
  have h1 : (leg.targetLocal p).y = -leg.hipOffset.y := by
    unfold Leg.targetLocal
    rw [Vector3d.sub_y, h0]
    ring
  refine ⟨planar_target_facts.1 leg p, h0, h1, by rw [h1, abs_neg], ?_⟩
  intro hn
  rw [applyLocalIK_returned.2.1, h1, abs_neg, if_pos hn]

/-- C30, witness: the scenario leg with hipOffset = (0.1, 0.5, 0), on which the planarity
assertion fails for the target (1, 0, 0). -/
theorem planarity_assertion_iff_hipOffset_witness :
    lateralHipLeg.applyLocalIK ⟨1, 0, 0⟩ true = none :=
  (planarity_assertion_iff_hipOffset lateralHipLeg ⟨1, 0, 0⟩ true).2.2.2.2
    (by rw [show lateralHipLeg.hipOffset.y = 0.5 from rfl]; norm_num [abs_of_pos])

/-- C31. For every leg (its derived fields as `init` sets them) and every target for which the
two inverse-cosine terms are defined (no divisor is zero and both arguments lie in [−1, 1]), the
angles `applyLocalIK` computes satisfy −π < yaw ≤ π, −π < liftAngle ≤ 2π and tibiaAngleOffset ≤
kneeAngle ≤ tibiaAngleOffset + π; each of them is below 7 in absolute value, so the three
assertions on the angles hold and `applyLocalIK` returns these angles whenever the planarity
assertion holds. -/
theorem ik_angle_assertions_hold (leg : Leg ℝ) (kb : Vector2d ℝ) (p : Vector3d ℝ)
    (updateStance : Bool) (hinit : leg.Initialised kb) (hL : ikLength leg p ≠ 0)
    (hf : leg.femurLength ≠ 0) (ht : leg.tibiaLength ≠ 0)
    (hlift : -1 ≤ ikLiftArg leg p ∧ ikLiftArg leg p ≤ 1)
    (hknee : -1 ≤ ikKneeArg leg p ∧ ikKneeArg leg p ≤ 1) :
    (-Real.pi < ikYaw leg p ∧ ikYaw leg p ≤ Real.pi) ∧
    (-Real.pi < ikLiftAngle leg p ∧ ikLiftAngle leg p ≤ 2 * Real.pi) ∧
    (leg.tibiaAngleOffset ≤ ikKneeAngle leg p ∧
      ikKneeAngle leg p ≤ leg.tibiaAngleOffset + Real.pi) ∧
    |ikYaw leg p| < 7.0 ∧ |ikLiftAngle leg p| < 7.0 ∧ |ikKneeAngle leg p| < 7.0 ∧
    leg.applyLocalIK p updateStance =
      (if |leg.hipOffset.y| < 0.01 then
        some (⟨ikYaw leg p, ikLiftAngle leg p, ikKneeAngle leg p⟩,
          ({ leg with yaw := ikYaw leg p, liftAngle := ikLiftAngle leg p,
                      kneeAngle := ikKneeAngle leg p }.applyFK updateStance).2)
      else none) := by
  have a1 : -Real.pi < atan2 (ikSubVector leg p).z (ikSubVector leg p).x :=
    Complex.neg_pi_lt_arg _
  have a2 : atan2 (ikSubVector leg p).z (ikSubVector leg p).x ≤ Real.pi :=
    Complex.arg_le_pi _
  have l1 := Real.arccos_nonneg (ikLiftArg leg p)
  have l2 := Real.arccos_le_pi (ikLiftArg leg p)
  have k1 := Real.arccos_nonneg (ikKneeArg leg p)
  have k2 := Real.arccos_le_pi (ikKneeArg leg p)
  have hk7 := (initialised_applyLocalIK.2.2.1 hinit) p
  refine ⟨⟨Complex.neg_pi_lt_arg _, Complex.arg_le_pi _⟩, ⟨?_, ?_⟩, ⟨?_, ?_⟩,
      applyLocalIK_outcome.2.2.2.2.2.1 leg p,
    applyLocalIK_outcome.2.2.2.2.2.2.1 leg p, hk7, ?_⟩
  · unfold ikLiftAngle; linarith
  · unfold ikLiftAngle; linarith
  · unfold ikKneeAngle; linarith
  · unfold ikKneeAngle; linarith
  · by_cases hplan : |leg.hipOffset.y| < 0.01
    · rw [if_pos hplan]
      exact applyLocalIK_outcome.2.2.2.2.2.2.2.1 leg p updateStance hplan hL hf ht hlift hknee hk7
    · rw [if_neg hplan, applyLocalIK_outcome.2.2.1, if_pos hplan]

/-- C31, witness: the scenario leg and the target (0.35, 0, 0), on which `applyLocalIK`
returns. -/
theorem ik_angle_assertions_hold_witness :
    |ikYaw (scenarioLeg 1) ⟨0.35, 0, 0⟩| < 7.0 ∧ |ikLiftAngle (scenarioLeg 1) ⟨0.35, 0, 0⟩| < 7.0 ∧
    |ikKneeAngle (scenarioLeg 1) ⟨0.35, 0, 0⟩| < 7.0 ∧
    ∃ leg', (scenarioLeg 1).applyLocalIK ⟨0.35, 0, 0⟩ true =
      some (⟨ikYaw (scenarioLeg 1) ⟨0.35, 0, 0⟩, ikLiftAngle (scenarioLeg 1) ⟨0.35, 0, 0⟩,
        ikKneeAngle (scenarioLeg 1) ⟨0.35, 0, 0⟩⟩, leg') := by
  have hi := scenario_leg_facts.2.2.2.2.1 1 0 0 0
  have hf := scenario_leg_facts.2.2.2.2.2.1 1 0 0 0
  have ht := scenario_leg_facts.2.2.2.2.2.2.1 1 0 0 0
  have hf0 : 0 < (scenarioLeg 1).femurLength := by
    unfold scenarioLeg
    rw [hf]; norm_num
  have ht0 : 0 < (scenarioLeg 1).tibiaLength := by
    unfold scenarioLeg
    rw [ht]; norm_num
  obtain ⟨h1, h2⟩ := scenario_leg_facts.2.2.2.2.2.2.2 hi hf ht
  obtain ⟨hL0, hL1, hL2⟩ := (initialised_applyLocalIK.1 hi) ⟨0.35, 0, 0⟩ (h1.trans h2)
  obtain ⟨hla, hka⟩ := initialised_applyLocalIK.2.1 (scenarioLeg 1) ⟨0.35, 0, 0⟩ hf0 ht0 hL0 hL1 hL2
  have h := ik_angle_assertions_hold (scenarioLeg 1) scenarioKneeBend ⟨0.35, 0, 0⟩ true hi
    hL0.ne' hf0.ne' ht0.ne' hla hka
  obtain ⟨_, _, _, y7, l7, k7, hret⟩ := h
  rw [if_pos (by rw [show (scenarioLeg 1).hipOffset.y = 0 from rfl]; norm_num)] at hret
  exact ⟨y7, l7, k7, _, hret⟩

/-- C32. For every model state and world pose P on which `getJointPositions` returns, the four
positions emitted for leg (l, s), at the indices 4·(3·s + l) + k, are P.transformVector of the
X-mirrored points root, root + Rz(yaw)·hip, root + Rz(yaw)·(hip + Ry(−lift)·kneeOff) and
root + Rz(yaw)·(hip + Ry(−lift)·(kneeOff + Ry(knee)·tip)); the emitted tip is
P.transformVector(calculateFK(yaw, liftAngle, kneeAngle)) of that leg, and the emitted root is
written without the joint angles. -/
theorem getJointPositions_walks_fk_chain (m : Model ℝ) (pose : Pose ℝ)
    (r : List (Vector3d ℝ) × Model ℝ) (h : m.getJointPositions pose = some r)
    (s : Fin 2) (l : Fin 3) :
    r.1.get? (4 * (3 * s.val + l.val)) =
      some (pose.transformVector ((m.legs l s).mirrorX (m.legs l s).rootOffset)) ∧
    r.1.get? (4 * (3 * s.val + l.val) + 1) =
      some (pose.transformVector ((m.legs l s).mirrorX ((m.legs l s).rootOffset +
        Rz (m.legs l s).yaw (m.legs l s).hipOffset))) ∧
    r.1.get? (4 * (3 * s.val + l.val) + 2) =
      some (pose.transformVector ((m.legs l s).mirrorX ((m.legs l s).rootOffset +
        Rz (m.legs l s).yaw ((m.legs l s).hipOffset +
          Ry (-(m.legs l s).liftAngle) (m.legs l s).kneeOffset)))) ∧
    r.1.get? (4 * (3 * s.val + l.val) + 3) =
      some (pose.transformVector ((m.legs l s).mirrorX ((m.legs l s).rootOffset +
        Rz (m.legs l s).yaw ((m.legs l s).hipOffset +
          Ry (-(m.legs l s).liftAngle) ((m.legs l s).kneeOffset +
            Ry (m.legs l s).kneeAngle (m.legs l s).tipOffset))))) ∧
    r.1.get? (4 * (3 * s.val + l.val) + 3) =
      some (pose.transformVector ((m.legs l s).calculateFK (m.legs l s).yaw
        (m.legs l s).liftAngle (m.legs l s).kneeAngle)) := by
  -- The tip of the chain is the tip position of `calculateFK` at the angles of the leg.
  have Leg_jointPosition_tip : ∀ (leg : Leg ℝ) (pose : Pose ℝ),
      leg.jointPosition pose 3 =
      pose.transformVector (leg.calculateFK leg.yaw leg.liftAngle leg.kneeAngle) := by
    intro leg pose
    rw [rotation_quaternions.2.2.2]
    rfl
  -- The four positions of a leg written from the root outwards.
  have Leg_jointPosition_eq : ∀ (leg : Leg ℝ) (pose : Pose ℝ),
      leg.jointPosition pose 0 = pose.transformVector (leg.mirrorX leg.rootOffset) ∧
      leg.jointPosition pose 1 =
        pose.transformVector (leg.mirrorX (leg.rootOffset + Rz leg.yaw leg.hipOffset)) ∧
      leg.jointPosition pose 2 =
        pose.transformVector (leg.mirrorX (leg.rootOffset +
          Rz leg.yaw (leg.hipOffset + Ry (-leg.liftAngle) leg.kneeOffset))) ∧
      leg.jointPosition pose 3 =
        pose.transformVector (leg.mirrorX (leg.rootOffset +
          Rz leg.yaw (leg.hipOffset + Ry (-leg.liftAngle)
            (leg.kneeOffset + Ry leg.kneeAngle leg.tipOffset)))) := by
    intro leg pose
    have e1 : leg.chainPosition 1 = leg.rootOffset + Rz leg.yaw leg.hipOffset := by
      ext <;> dsimp only [Leg.chainPosition, Rz] <;> simp <;> ring
    have e2 : leg.chainPosition 2 =
        leg.rootOffset + Rz leg.yaw (leg.hipOffset + Ry (-leg.liftAngle) leg.kneeOffset) := by
      ext <;> dsimp only [Leg.chainPosition, Rz] <;> simp <;> ring
    have e3 : leg.chainPosition 3 = leg.rootOffset +
        Rz leg.yaw (leg.hipOffset + Ry (-leg.liftAngle)
          (leg.kneeOffset + Ry leg.kneeAngle leg.tipOffset)) := by
      ext <;> dsimp only [Leg.chainPosition, Rz, Ry] <;> simp <;> ring
    refine ⟨rfl, ?_, ?_, ?_⟩
    · unfold Leg.jointPosition
      rw [e1]; rfl
    · unfold Leg.jointPosition
      rw [e2]; rfl
    · unfold Leg.jointPosition
      rw [e3]; rfl
  obtain ⟨e0, e1, e2, e3⟩ := Leg_jointPosition_eq (m.legs l s) pose
  have e4 := Leg_jointPosition_tip (m.legs l s) pose
  rw [← e0, ← e1, ← e2, ← e3, ← e4]
  rw [getJointPositions_unrolled.1] at h
  split_ifs at h
  cases h
  fin_cases s <;> fin_cases l <;>
    simp [finRange_two, finRange_three, finRange_four]

/-- C32, witness: the scenario model under the identity pose and its leg (1, 1), whose
positions are at the indices 16 to 19. -/
theorem getJointPositions_walks_fk_chain_witness :
    ∃ r, scenarioModel.getJointPositions Pose.identity = some r ∧
      r.1.get? 16 = some (Pose.identity.transformVector
        ((scenarioModel.legs 1 1).mirrorX (scenarioModel.legs 1 1).rootOffset)) ∧
      r.1.get? 19 = some (Pose.identity.transformVector
        ((scenarioModel.legs 1 1).calculateFK (scenarioModel.legs 1 1).yaw
          (scenarioModel.legs 1 1).liftAngle (scenarioModel.legs 1 1).kneeAngle)) := by
  have hr := getJointPositions_unrolled.1 scenarioModel Pose.identity
  rw [if_pos getJointPositions_unrolled.2.2] at hr
  have h := getJointPositions_walks_fk_chain scenarioModel Pose.identity _ hr 1 1
  exact ⟨_, hr, h.1, h.2.2.2.2⟩

/-- C33. After each of `init`, `applyFK`, a returning `applyLocalIK` and `setLegStartAngles`,
the cached localTipPosition of the leg is `calculateFK` of its stored (yaw, liftAngle,
kneeAngle); and the vector `applyLocalIK` returns is the stored (yaw, liftAngle, kneeAngle). -/
theorem localTipPosition_is_fk_of_stored_angles (leg : Leg ℝ) (kb : Vector2d ℝ)
    (yaw0 lift0 knee0 : ℝ) (updateStance : Bool) (target : Vector3d ℝ) (m : Model ℝ)
    (side : Fin 2) (l : Fin 3) (startAngles : Vector3d ℝ) :
    (leg.init kb yaw0 lift0 knee0).localTipPosition =
      (leg.init kb yaw0 lift0 knee0).calculateFK (leg.init kb yaw0 lift0 knee0).yaw
        (leg.init kb yaw0 lift0 knee0).liftAngle (leg.init kb yaw0 lift0 knee0).kneeAngle ∧
    (leg.applyFK updateStance).2.localTipPosition =
      (leg.applyFK updateStance).2.calculateFK (leg.applyFK updateStance).2.yaw
        (leg.applyFK updateStance).2.liftAngle (leg.applyFK updateStance).2.kneeAngle ∧
    (∀ angles leg', leg.applyLocalIK target updateStance = some (angles, leg') →
      leg'.localTipPosition = leg'.calculateFK leg'.yaw leg'.liftAngle leg'.kneeAngle ∧
      angles = ⟨leg'.yaw, leg'.liftAngle, leg'.kneeAngle⟩) ∧
    ((m.setLegStartAngles side l startAngles).legs l side).localTipPosition =
      ((m.setLegStartAngles side l startAngles).legs l side).calculateFK
        ((m.setLegStartAngles side l startAngles).legs l side).yaw
        ((m.setLegStartAngles side l startAngles).legs l side).liftAngle
        ((m.setLegStartAngles side l startAngles).legs l side).kneeAngle := by
  refine ⟨rfl, ?_, ?_, ?_⟩
  · rw [applyLocalIK_returned.2.2.2]
    rfl
  · intro angles leg' h
    obtain ⟨_, _, _, _, _, _, _, _, _, _, hl⟩ := applyLocalIK_returned.2.2.1 h
    rw [hl, applyLocalIK_returned.2.2.2]
    exact ⟨rfl, rfl⟩
  · unfold Model.setLegStartAngles
    rw [Model.setLeg_legs, if_pos ⟨rfl, rfl⟩]
    rfl

/-- C33, witness: the scenario leg and the target (0.35, 0, 0). -/
theorem localTipPosition_is_fk_of_stored_angles_witness :
    ∃ angles leg', (scenarioLeg 1).applyLocalIK ⟨0.35, 0, 0⟩ true = some (angles, leg') ∧
      leg'.localTipPosition = leg'.calculateFK leg'.yaw leg'.liftAngle leg'.kneeAngle ∧
      angles = ⟨leg'.yaw, leg'.liftAngle, leg'.kneeAngle⟩ := by
  have hi := scenario_leg_facts.2.2.2.2.1 1 0 0 0
  have hf := scenario_leg_facts.2.2.2.2.2.1 1 0 0 0
  have ht := scenario_leg_facts.2.2.2.2.2.2.1 1 0 0 0
  obtain ⟨h1, h2⟩ := scenario_leg_facts.2.2.2.2.2.2.2 hi hf ht
  have hr := (initialised_applyLocalIK.2.2.2 hi) ⟨0.35, 0, 0⟩ true
    (by rw [show ((scenarioOffsets 1).init scenarioKneeBend 0 0 0).hipOffset.y = 0 from rfl]
        norm_num)
    (by rw [hf]; norm_num) (by rw [ht]; norm_num) (h1.trans h2)
  have h := (localTipPosition_is_fk_of_stored_angles (scenarioLeg 1) scenarioKneeBend 0 0 0 true
    ⟨0.35, 0, 0⟩ scenarioModel 0 0 ⟨0, 0, 0⟩).2.2.1 _ _ hr
  exact ⟨_, _, hr, h.1, h.2⟩

/-- C34. For every model state, `clampToLimits` writes no field other than the yaw, liftAngle
and kneeAngle of the legs: the limits of the model and every other field of every leg keep their
values, in particular localTipPosition and stanceTipPosition, which are not recomputed; so a
localTipPosition that was `calculateFK` of the angles before the call is still `calculateFK` of
those angles after it, whatever the clamped angles are. -/
theorem clampToLimits_writes_only_angles (m : Model ℝ) (l : Fin 3) (side : Fin 2) :
    m.clampToLimits.1.legs l side =
      { m.legs l side with
        yaw := (m.clampToLimits.1.legs l side).yaw
        liftAngle := (m.clampToLimits.1.legs l side).liftAngle
        kneeAngle := (m.clampToLimits.1.legs l side).kneeAngle } ∧
    (m.clampToLimits.1.legs l side).localTipPosition = (m.legs l side).localTipPosition ∧
    (m.clampToLimits.1.legs l side).stanceTipPosition = (m.legs l side).stanceTipPosition ∧
    m.clampToLimits.1.stanceLegYaws = m.stanceLegYaws ∧
    m.clampToLimits.1.yawLimitAroundStance = m.yawLimitAroundStance ∧
    m.clampToLimits.1.minMaxKneeBend = m.minMaxKneeBend ∧
    m.clampToLimits.1.minMaxHipLift = m.minMaxHipLift ∧
    m.clampToLimits.1.jointMaxAngularSpeeds = m.jointMaxAngularSpeeds ∧
    ((m.legs l side).localTipPosition =
        (m.legs l side).calculateFK (m.legs l side).yaw (m.legs l side).liftAngle
          (m.legs l side).kneeAngle →
      (m.clampToLimits.1.legs l side).localTipPosition =
        (m.clampToLimits.1.legs l side).calculateFK (m.legs l side).yaw
          (m.legs l side).liftAngle (m.legs l side).kneeAngle) := by
  obtain ⟨c1, c2, c3, c4, c5⟩ := Model.clampToLimits_limits m
  have hleg := Model.clampToLimits_legs m l side
  rw [Model.clampLeg_fst] at hleg
  refine ⟨?_, ?_, ?_, c1, c2, c3, c4, c5, ?_⟩
  · rw [hleg]
  · rw [hleg]
  · rw [hleg]
  · intro h
    rw [hleg]
    exact h

/-- C34, witness: in the turned model the yaw π of leg (0, 0) is clamped to 0 while the cached
tip position stays `calculateFK(π, 0, 0)` = (−0.45, 0, 0), which is not `calculateFK` of the
stored angles. -/
theorem clampToLimits_writes_only_angles_witness :
    (turnedModel.clampToLimits.1.legs 0 0).yaw = 0 ∧
    (turnedModel.clampToLimits.1.legs 0 0).localTipPosition =
      (turnedModel.clampToLimits.1.legs 0 0).calculateFK Real.pi 0 0 ∧
    (turnedModel.clampToLimits.1.legs 0 0).localTipPosition ≠
      (turnedModel.clampToLimits.1.legs 0 0).calculateFK (turnedModel.clampToLimits.1.legs 0 0).yaw
        (turnedModel.clampToLimits.1.legs 0 0).liftAngle
        (turnedModel.clampToLimits.1.legs 0 0).kneeAngle := by
  have h := clampToLimits_writes_only_angles turnedModel 0 0
  have hfk := h.2.2.2.2.2.2.2.2 rfl
  have hleg := Model.clampToLimits_legs turnedModel 0 0
  rw [Model.clampLeg_fst] at hleg
  have hy : (turnedModel.clampToLimits.1.legs 0 0).yaw = 0 := by
    rw [hleg]
    dsimp only [turnedModel, scenarioModel, Leg.init, Leg.applyFK]
    simp [Vector3d.get, Real.pi_pos]
  have hl : (turnedModel.clampToLimits.1.legs 0 0).liftAngle = 0 := by
    rw [hleg]
    dsimp only [turnedModel, scenarioModel, Leg.init, Leg.applyFK]
    norm_num
  have hk : (turnedModel.clampToLimits.1.legs 0 0).kneeAngle = 0 := by
    rw [hleg]
    dsimp only [turnedModel, scenarioModel, Leg.init, Leg.applyFK]
    norm_num
  refine ⟨hy, hfk, ?_⟩
  rw [hfk, hy, hl, hk]
  intro hne
  have hx := congrArg Vector3d.x hne
  rw [hleg, rotation_quaternions.2.2.2, rotation_quaternions.2.2.2] at hx
  dsimp only [turnedModel, scenarioModel, Leg.init, Leg.applyFK, scenarioOffsets, Leg.ofOffsets, Rz,
    Ry] at hx
  simp at hx
  norm_num at hx

/-- C35. For every n in 1..4 and every n + 1 DH records whose last record has r = 0 and d = 0
(any theta and alpha): `createJacobian<n>DOF` on the first n records returns a matrix J,
`createJacobian<n+1>DOF` on all of them returns a matrix whose first n columns are the columns of
J and whose last column is zero. -/
theorem createJacobian_zero_length_link :
    (∀ (p1 : DHRecord ℝ) (theta alpha : ℝ),
      ∃ J J', createJacobian1DOF [p1.toMap] = .ok J ∧
        createJacobian2DOF [p1.toMap, (DHRecord.mk 0 0 theta alpha).toMap] = .ok J' ∧
        (∀ (i : Fin 3) (j : Fin 1), J' i j.castSucc = J i j) ∧
        ∀ i : Fin 3, J' i (Fin.last 1) = 0) ∧
    (∀ (p1 p2 : DHRecord ℝ) (theta alpha : ℝ),
      ∃ J J', createJacobian2DOF [p1.toMap, p2.toMap] = .ok J ∧
        createJacobian3DOF [p1.toMap, p2.toMap, (DHRecord.mk 0 0 theta alpha).toMap] = .ok J' ∧
        (∀ (i : Fin 3) (j : Fin 2), J' i j.castSucc = J i j) ∧
        ∀ i : Fin 3, J' i (Fin.last 2) = 0) ∧
    (∀ (p1 p2 p3 : DHRecord ℝ) (theta alpha : ℝ),
      ∃ J J', createJacobian3DOF [p1.toMap, p2.toMap, p3.toMap] = .ok J ∧
        createJacobian4DOF [p1.toMap, p2.toMap, p3.toMap,
          (DHRecord.mk 0 0 theta alpha).toMap] = .ok J' ∧
        (∀ (i : Fin 3) (j : Fin 3), J' i j.castSucc = J i j) ∧
        ∀ i : Fin 3, J' i (Fin.last 3) = 0) ∧
    (∀ (p1 p2 p3 p4 : DHRecord ℝ) (theta alpha : ℝ),
      ∃ J J', createJacobian4DOF [p1.toMap, p2.toMap, p3.toMap, p4.toMap] = .ok J ∧
        createJacobian5DOF [p1.toMap, p2.toMap, p3.toMap, p4.toMap,
          (DHRecord.mk 0 0 theta alpha).toMap] = .ok J' ∧
        (∀ (i : Fin 3) (j : Fin 4), J' i j.castSucc = J i j) ∧
        ∀ i : Fin 3, J' i (Fin.last 4) = 0) := by
  -- a link with r = 0 and d = 0 at the end of a chain does not move the end effector
  have happend : ∀ (ps : List (DHRecord ℝ)) (theta alpha : ℝ),
      endEffectorV (ps ++ [⟨0, 0, theta, alpha⟩]) = endEffectorV ps := by
    intro ps theta alpha
    simp only [endEffectorV_eq_foldr, List.foldr_append, List.foldr_cons, List.foldr_nil]
    congr 1
    dsimp only [DHRecord.apply, Rz, Rx]
    ext <;> simp
  -- the rotations of a chain keep the zero vector
  have hzero : ∀ ps : List (DHRecord ℝ), ps.foldr DHRecord.rotate ⟨0, 0, 0⟩ = ⟨0, 0, 0⟩ := by
    intro ps
    induction ps with
    | nil => rfl
    | cons p ps ih =>
      rw [List.foldr_cons, ih]
      dsimp only [DHRecord.rotate, Rz, Rx]
      ext <;> simp
  have hlast : ∀ theta alpha : ℝ,
      dRz theta ((⟨0, 0, 0⟩ : Vector3d ℝ) + Rx alpha (endEffectorV [])) = ⟨0, 0, 0⟩ := by
    intro theta alpha
    simp only [endEffectorV_eq_foldr, List.foldr_nil]
    dsimp only [dRz, Rx]
    ext <;> simp
  refine ⟨?_, ?_, ?_, ?_⟩
  · intro p1 theta alpha
    obtain ⟨J, hJ, -, hcol⟩ := createJacobian_columns.1 p1
    obtain ⟨J', hJ', -, hcol'⟩ := createJacobian_columns.2.1 p1 ⟨0, 0, theta, alpha⟩
    refine ⟨J, J', hJ, hJ', fun i j => ?_, fun i => ?_⟩
    · fin_cases j
      · refine (hcol' i).1.symm.trans (Eq.trans ?_ (hcol i))
        rw [show endEffectorV [⟨0, 0, theta, alpha⟩] = endEffectorV [] from
          happend [] theta alpha]
    · refine (hcol' i).2.symm.trans ?_
      show (List.foldr DHRecord.rotate
        (dRz theta ((⟨0, 0, 0⟩ : Vector3d ℝ) + Rx alpha (endEffectorV []))) [p1]).get i = 0
      rw [hlast, hzero]
      fin_cases i <;> rfl
  · intro p1 p2 theta alpha
    obtain ⟨J, hJ, -, hcol⟩ := createJacobian_columns.2.1 p1 p2
    obtain ⟨J', hJ', -, hcol'⟩ := createJacobian_columns.2.2.1 p1 p2 ⟨0, 0, theta, alpha⟩
    refine ⟨J, J', hJ, hJ', fun i j => ?_, fun i => ?_⟩
    · fin_cases j
      · refine (hcol' i).1.symm.trans (Eq.trans ?_ (hcol i).1)
        rw [show endEffectorV [p2, ⟨0, 0, theta, alpha⟩] = endEffectorV [p2] from
          happend [p2] theta alpha]
      · refine (hcol' i).2.1.symm.trans (Eq.trans ?_ (hcol i).2)
        rw [show endEffectorV [⟨0, 0, theta, alpha⟩] = endEffectorV [] from
          happend [] theta alpha]
    · refine (hcol' i).2.2.symm.trans ?_
      show (List.foldr DHRecord.rotate
        (dRz theta ((⟨0, 0, 0⟩ : Vector3d ℝ) + Rx alpha (endEffectorV []))) [p1, p2]).get i = 0
      rw [hlast, hzero]
      fin_cases i <;> rfl
  · intro p1 p2 p3 theta alpha
    obtain ⟨J, hJ, -, hcol⟩ := createJacobian_columns.2.2.1 p1 p2 p3
    obtain ⟨J', hJ', -, hcol'⟩ := createJacobian_columns.2.2.2.1 p1 p2 p3 ⟨0, 0, theta, alpha⟩
    refine ⟨J, J', hJ, hJ', fun i j => ?_, fun i => ?_⟩
    · fin_cases j
      · refine (hcol' i).1.symm.trans (Eq.trans ?_ (hcol i).1)
        rw [show endEffectorV [p2, p3, ⟨0, 0, theta, alpha⟩] = endEffectorV [p2, p3] from
          happend [p2, p3] theta alpha]
      · refine (hcol' i).2.1.symm.trans (Eq.trans ?_ (hcol i).2.1)
        rw [show endEffectorV [p3, ⟨0, 0, theta, alpha⟩] = endEffectorV [p3] from
          happend [p3] theta alpha]
      · refine (hcol' i).2.2.1.symm.trans (Eq.trans ?_ (hcol i).2.2)
        rw [show endEffectorV [⟨0, 0, theta, alpha⟩] = endEffectorV [] from
          happend [] theta alpha]
    · refine (hcol' i).2.2.2.symm.trans ?_
      show (List.foldr DHRecord.rotate
        (dRz theta ((⟨0, 0, 0⟩ : Vector3d ℝ) + Rx alpha (endEffectorV []))) [p1, p2, p3]).get i = 0
      rw [hlast, hzero]
      fin_cases i <;> rfl
  · intro p1 p2 p3 p4 theta alpha
    obtain ⟨J, hJ, -, hcol⟩ := createJacobian_columns.2.2.2.1 p1 p2 p3 p4
    obtain ⟨J', hJ', -, hcol'⟩ := createJacobian_columns.2.2.2.2 p1 p2 p3 p4 ⟨0, 0, theta, alpha⟩
    refine ⟨J, J', hJ, hJ', fun i j => ?_, fun i => ?_⟩
    · fin_cases j
      · refine (hcol' i).1.symm.trans (Eq.trans ?_ (hcol i).1)
        rw [show endEffectorV [p2, p3, p4, ⟨0, 0, theta, alpha⟩] = endEffectorV [p2, p3, p4] from
          happend [p2, p3, p4] theta alpha]
      · refine (hcol' i).2.1.symm.trans (Eq.trans ?_ (hcol i).2.1)
        rw [show endEffectorV [p3, p4, ⟨0, 0, theta, alpha⟩] = endEffectorV [p3, p4] from
          happend [p3, p4] theta alpha]
      · refine (hcol' i).2.2.1.symm.trans (Eq.trans ?_ (hcol i).2.2.1)
        rw [show endEffectorV [p4, ⟨0, 0, theta, alpha⟩] = endEffectorV [p4] from
          happend [p4] theta alpha]
      · refine (hcol' i).2.2.2.1.symm.trans (Eq.trans ?_ (hcol i).2.2.2)
        rw [show endEffectorV [⟨0, 0, theta, alpha⟩] = endEffectorV [] from
          happend [] theta alpha]
    · refine (hcol' i).2.2.2.2.symm.trans ?_
      show (List.foldr DHRecord.rotate
        (dRz theta ((⟨0, 0, 0⟩ : Vector3d ℝ) + Rx alpha (endEffectorV []))) [p1, p2, p3, p4]).get i
            = 0
      rw [hlast, hzero]
      fin_cases i <;> rfl

/-- C36. For every n in 1..5 and every n DH records, `createJacobian<n>DOF` returns a matrix
whose first column is (−y, x, 0), where (x, y, z) is the end-effector position of the DH chain,
the translation part of T_1·…·T_n with T_k = Rz(theta_k)·Tz(d_k)·Tx(r_k)·Rx(alpha_k); in
particular entry (2, 0) is 0; and the same matrix is returned whatever d of the first record and
alpha of the last record are. -/
theorem createJacobian_first_column :
    (∀ p1 : DHRecord ℝ,
      ∃ J, createJacobian1DOF [p1.toMap] = .ok J ∧
        J 0 0 = -endEffector [p1] 1 ∧ J 1 0 = endEffector [p1] 0 ∧ J 2 0 = 0 ∧
        ∀ d1 alphaN : ℝ,
          createJacobian1DOF [({ p1 with d := d1, alpha := alphaN } : DHRecord ℝ).toMap] =
            .ok J) ∧
    (∀ p1 p2 : DHRecord ℝ,
      ∃ J, createJacobian2DOF [p1.toMap, p2.toMap] = .ok J ∧
        J 0 0 = -endEffector [p1, p2] 1 ∧ J 1 0 = endEffector [p1, p2] 0 ∧ J 2 0 = 0 ∧
        ∀ d1 alphaN : ℝ,
          createJacobian2DOF [({ p1 with d := d1 } : DHRecord ℝ).toMap,
            ({ p2 with alpha := alphaN } : DHRecord ℝ).toMap] = .ok J) ∧
    (∀ p1 p2 p3 : DHRecord ℝ,
      ∃ J, createJacobian3DOF [p1.toMap, p2.toMap, p3.toMap] = .ok J ∧
        J 0 0 = -endEffector [p1, p2, p3] 1 ∧ J 1 0 = endEffector [p1, p2, p3] 0 ∧ J 2 0 = 0 ∧
        ∀ d1 alphaN : ℝ,
          createJacobian3DOF [({ p1 with d := d1 } : DHRecord ℝ).toMap, p2.toMap,
            ({ p3 with alpha := alphaN } : DHRecord ℝ).toMap] = .ok J) ∧
    (∀ p1 p2 p3 p4 : DHRecord ℝ,
      ∃ J, createJacobian4DOF [p1.toMap, p2.toMap, p3.toMap, p4.toMap] = .ok J ∧
        J 0 0 = -endEffector [p1, p2, p3, p4] 1 ∧ J 1 0 = endEffector [p1, p2, p3, p4] 0 ∧
        J 2 0 = 0 ∧
        ∀ d1 alphaN : ℝ,
          createJacobian4DOF [({ p1 with d := d1 } : DHRecord ℝ).toMap, p2.toMap, p3.toMap,
            ({ p4 with alpha := alphaN } : DHRecord ℝ).toMap] = .ok J) ∧
    (∀ p1 p2 p3 p4 p5 : DHRecord ℝ,
      ∃ J, createJacobian5DOF [p1.toMap, p2.toMap, p3.toMap, p4.toMap, p5.toMap] = .ok J ∧
        J 0 0 = -endEffector [p1, p2, p3, p4, p5] 1 ∧
        J 1 0 = endEffector [p1, p2, p3, p4, p5] 0 ∧ J 2 0 = 0 ∧
        ∀ d1 alphaN : ℝ,
          createJacobian5DOF [({ p1 with d := d1 } : DHRecord ℝ).toMap, p2.toMap, p3.toMap,
            p4.toMap, ({ p5 with alpha := alphaN } : DHRecord ℝ).toMap] = .ok J) := by
  -- the derivative of the rotation of the first record applied to the rest of the chain is the
  -- end effector turned a quarter about the vertical axis
  have hquarter : ∀ (p : DHRecord ℝ) (post : List (DHRecord ℝ)),
      dRz p.theta (⟨p.r, 0, p.d⟩ + Rx p.alpha (endEffectorV post)) =
        ⟨-endEffector (p :: post) 1, endEffector (p :: post) 0, 0⟩ := by
    intro p post
    have h : endEffectorV (p :: post) = p.apply (endEffectorV post) := by
      simp only [endEffectorV_eq_foldr, List.foldr_cons]
    have hx : endEffector (p :: post) 0 = (p.apply (endEffectorV post)).x :=
      congrArg Vector3d.x h
    have hy : endEffector (p :: post) 1 = (p.apply (endEffectorV post)).y :=
      congrArg Vector3d.y h
    rw [hx, hy]
    dsimp only [dRz, DHRecord.apply, Rz]
    ext <;> simp
    all_goals ring
  refine ⟨?_, ?_, ?_, ?_, ?_⟩
  · intro p1
    obtain ⟨J, hJ, hsame, hcol⟩ := createJacobian_columns.1 p1
    have hc := hquarter p1 []
    refine ⟨J, hJ, ?_, ?_, ?_, hsame⟩
    · rw [← (hcol 0)]
      exact congrArg Vector3d.x hc
    · rw [← (hcol 1)]
      exact congrArg Vector3d.y hc
    · rw [← (hcol 2)]
      exact congrArg Vector3d.z hc
  · intro p1 p2
    obtain ⟨J, hJ, hsame, hcol⟩ := createJacobian_columns.2.1 p1 p2
    have hc := hquarter p1 [p2]
    refine ⟨J, hJ, ?_, ?_, ?_, hsame⟩
    · rw [← (hcol 0).1]
      exact congrArg Vector3d.x hc
    · rw [← (hcol 1).1]
      exact congrArg Vector3d.y hc
    · rw [← (hcol 2).1]
      exact congrArg Vector3d.z hc
  · intro p1 p2 p3
    obtain ⟨J, hJ, hsame, hcol⟩ := createJacobian_columns.2.2.1 p1 p2 p3
    have hc := hquarter p1 [p2, p3]
    refine ⟨J, hJ, ?_, ?_, ?_, hsame⟩
    · rw [← (hcol 0).1]
      exact congrArg Vector3d.x hc
    · rw [← (hcol 1).1]
      exact congrArg Vector3d.y hc
    · rw [← (hcol 2).1]
      exact congrArg Vector3d.z hc
  · intro p1 p2 p3 p4
    obtain ⟨J, hJ, hsame, hcol⟩ := createJacobian_columns.2.2.2.1 p1 p2 p3 p4
    have hc := hquarter p1 [p2, p3, p4]
    refine ⟨J, hJ, ?_, ?_, ?_, hsame⟩
    · rw [← (hcol 0).1]
      exact congrArg Vector3d.x hc
    · rw [← (hcol 1).1]
      exact congrArg Vector3d.y hc
    · rw [← (hcol 2).1]
      exact congrArg Vector3d.z hc
  · intro p1 p2 p3 p4 p5
    obtain ⟨J, hJ, hsame, hcol⟩ := createJacobian_columns.2.2.2.2 p1 p2 p3 p4 p5
    have hc := hquarter p1 [p2, p3, p4, p5]
    refine ⟨J, hJ, ?_, ?_, ?_, hsame⟩
    · rw [← (hcol 0).1]
      exact congrArg Vector3d.x hc
    · rw [← (hcol 1).1]
      exact congrArg Vector3d.y hc
    · rw [← (hcol 2).1]
      exact congrArg Vector3d.z hc

/-- C38. For every model, side, leg-position and angle triple a, `setLegStartAngles(side, leg,
a)` sets the angles of the leg at that leg-position and side to (a[0], a[1], a[2]) and its
localTipPosition and stanceTipPosition to `calculateFK(a[0], a[1], a[2])`; that leg becomes what
`init` makes of it, every other leg is the leg it was, and the limits of the model keep their
values. -/
theorem setLegStartAngles_writes_one_leg (m : Model ℝ) (side : Fin 2) (l : Fin 3)
    (a : Vector3d ℝ) :
    ((m.setLegStartAngles side l a).legs l side).yaw = a.x ∧
    ((m.setLegStartAngles side l a).legs l side).liftAngle = a.y ∧
    ((m.setLegStartAngles side l a).legs l side).kneeAngle = a.z ∧
    ((m.setLegStartAngles side l a).legs l side).localTipPosition =
      (m.legs l side).calculateFK a.x a.y a.z ∧
    ((m.setLegStartAngles side l a).legs l side).stanceTipPosition =
      (m.legs l side).calculateFK a.x a.y a.z ∧
    (∀ (l' : Fin 3) (side' : Fin 2), (m.setLegStartAngles side l a).legs l' side' =
      if l' = l ∧ side' = side then (m.legs l side).init m.minMaxKneeBend a.x a.y a.z
      else m.legs l' side') ∧
    (m.setLegStartAngles side l a).stanceLegYaws = m.stanceLegYaws ∧
    (m.setLegStartAngles side l a).yawLimitAroundStance = m.yawLimitAroundStance ∧
    (m.setLegStartAngles side l a).minMaxKneeBend = m.minMaxKneeBend ∧
    (m.setLegStartAngles side l a).minMaxHipLift = m.minMaxHipLift ∧
    (m.setLegStartAngles side l a).jointMaxAngularSpeeds = m.jointMaxAngularSpeeds := by
  have h : ∀ (l' : Fin 3) (side' : Fin 2), (m.setLegStartAngles side l a).legs l' side' =
      if l' = l ∧ side' = side then (m.legs l side).init m.minMaxKneeBend a.x a.y a.z
      else m.legs l' side' := fun l' side' => Model.setLeg_legs _ _ _ _ _ _
  have hs := h l side
  rw [if_pos ⟨rfl, rfl⟩] at hs
  refine ⟨?_, ?_, ?_, ?_, ?_, h, rfl, rfl, rfl, rfl, rfl⟩ <;>
    · rw [hs]
      rfl

end Hexapod
